import Mathlib

/-!
# ControlManager (mrs_uav_managers): a shallow embedding of `src/control_manager.cpp`

Conventions of the embedding.

* `double` values are idealised as elements of a linearly ordered field `K`
  (`K = ℚ` for evaluation on concrete inputs, `K = ℝ` where the code calls
  `sqrt`, `atan2`, `cos`, `sin`).  `std::isfinite` is the predicate
  `Libm.isfinite`; the values on which it is false stand for NaN and the
  infinities (in the examples: the magnitudes above `DBL_MAX`).
* `ros::Time` is a value of `K` (seconds); one reading `now` is used for every
  `ros::Time::now()` inside one top-level call.
* A member function `f` of the class becomes a function
  `f : Env K → args → Manager K → result × Manager K`.
* Plugins, services and sensors are outside the class.  Their answers come from
  an `Env`, indexed by the number of calls made so far, and every call is
  recorded in `Manager.log`.  `none` as an answer of a plugin call means that
  the call threw `std::runtime_error`.
* Mutexes, profiler routines and `ROS_*` logging are dropped.
-/

namespace ControlManager

set_option linter.unusedSectionVars false
set_option linter.unusedVariables false

/-! ## Messages -/

/-- Type `geometry_msgs::Point` / `Vector3`. -/
structure Vec3 (K : Type) where
  x : K
  y : K
  z : K
  deriving DecidableEq

/-- Type `geometry_msgs::Quaternion`. -/
structure Orientation (K : Type) where
  x : K
  y : K
  z : K
  w : K
  deriving DecidableEq

/-- Type `mrs_msgs::Reference`: position and heading. -/
structure Reference (K : Type) where
  position : Vec3 K
  heading : K
  deriving DecidableEq

/-- Type `mrs_msgs::ReferenceStamped`; of the header only `frame_id` is used. -/
structure ReferenceStamped (K : Type) where
  frame_id : String
  reference : Reference K

/-- Type `mrs_msgs::TrajectoryReference`; of the header only `frame_id` is used. -/
structure TrajectoryReference (K : Type) where
  frame_id : String
  fly_now : Bool
  points : List (Reference K)
  deriving DecidableEq

/-- Type `geometry_msgs::TransformStamped`, reduced to the two frames it links. -/
structure TransformStamped where
  frame_id : String
  child_frame_id : String

/-- Type `mrs_msgs::PositionCommand` (the fields read by the manager). -/
structure PositionCommand (K : Type) where
  position : Vec3 K
  velocity : Vec3 K
  acceleration : Vec3 K
  jerk : Vec3 K
  snap : Vec3 K
  attitude_rate : Vec3 K
  heading : K
  heading_rate : K
  thrust : K
  use_position_horizontal : Bool
  use_position_vertical : Bool

/-- Type `mrs_msgs::AttitudeCommand` (the fields read or written by the manager). -/
structure AttitudeCommand (K : Type) where
  attitude : Orientation K
  attitude_rate : Vec3 K
  desired_acceleration : Vec3 K
  mode_mask : Nat
  thrust : K
  total_mass : K
  mass_difference : K
  disturbance_bx_b : K
  disturbance_by_b : K
  disturbance_wx_w : K
  disturbance_wy_w : K
  disturbance_bx_w : K
  disturbance_by_w : K
  controller : String
  ramping_up : Bool
  controller_enforcing_constraints : Bool
  horizontal_speed_constraint : K
  horizontal_acc_constraint : K
  vertical_asc_speed_constraint : K
  vertical_asc_acc_constraint : K
  vertical_desc_speed_constraint : K
  vertical_desc_acc_constraint : K

/-- Type `mrs_msgs::DynamicsConstraints`. -/
structure DynamicsConstraints (K : Type) where
  horizontal_speed : K
  horizontal_acceleration : K
  horizontal_jerk : K
  horizontal_snap : K
  vertical_ascending_speed : K
  vertical_ascending_acceleration : K
  vertical_ascending_jerk : K
  vertical_ascending_snap : K
  vertical_descending_speed : K
  vertical_descending_acceleration : K
  vertical_descending_jerk : K
  vertical_descending_snap : K
  heading_speed : K
  heading_acceleration : K
  heading_jerk : K
  heading_snap : K
  roll_rate : K
  pitch_rate : K
  yaw_rate : K
  tilt : K

/-- Type `mrs_msgs::UavState`: frame of the header, position and orientation of
the pose. -/
structure UavState (K : Type) where
  frame_id : String
  position : Vec3 K
  orientation : Orientation K

/-- Type `mrs_msgs::VelocityReference`. -/
structure VelocityReference (K : Type) where
  velocity : Vec3 K
  altitude : K
  heading : K
  heading_rate : K
  use_altitude : Bool
  use_heading : Bool
  use_heading_rate : Bool

/-- Type `mrs_msgs::VelocityReferenceStamped`; of the header only `frame_id` is used. -/
structure VelocityReferenceStamped (K : Type) where
  frame_id : String
  reference : VelocityReference K

/-- Type `mavros_msgs::AttitudeTarget`, the command for the flight stack. -/
structure AttitudeTarget (K : Type) where
  stamp : K
  frame_id : String
  type_mask : Nat
  orientation : Orientation K
  body_rate : Vec3 K
  thrust : K
  deriving DecidableEq

/-- The constants of the message definitions `mavros_msgs::AttitudeTarget` and
`mrs_msgs::AttitudeCommand` that the class uses; the definitions are outside the
class, so the values are parameters. -/
structure MessageConstants where
  IGNORE_ROLL_RATE : Nat
  IGNORE_PITCH_RATE : Nat
  IGNORE_YAW_RATE : Nat
  IGNORE_ATTITUDE : Nat
  MODE_ATTITUDE : Nat
  MODE_ATTITUDE_RATE : Nat

/-- Type `mrs_msgs::ObstacleSectors`, the bumper message. -/
structure ObstacleSectors (K : Type) where
  n_horizontal_sectors : Nat
  sectors : List K
  OBSTACLE_NO_DATA : K
  OBSTACLE_NOT_DETECTED : K

/-- Type `ControllerParams`: the thresholds stored per controller by `onInit`. -/
structure ControllerParams (K : Type) where
  eland_threshold : K
  failsafe_threshold : K
  odometry_innovation_threshold : K

/-- Type `LandingStates_t`. -/
inductive LandingStates_t
  | IDLE_STATE
  | LANDING_STATE
  deriving DecidableEq, Repr

/-- Type `EscalatingFailsafeStates_t`. -/
inductive EscalatingFailsafeStates_t
  | ESC_NONE_STATE
  | ESC_EHOVER_STATE
  | ESC_ELAND_STATE
  | ESC_FAILSAFE_STATE
  | ESC_FINISHED_STATE
  deriving DecidableEq, Repr

/-- The integer value of an `EscalatingFailsafeStates_t` enumerator. -/
def EscalatingFailsafeStates_t.toNat : EscalatingFailsafeStates_t → Nat
  | .ESC_NONE_STATE => 0
  | .ESC_EHOVER_STATE => 1
  | .ESC_ELAND_STATE => 2
  | .ESC_FAILSAFE_STATE => 3
  | .ESC_FINISHED_STATE => 4

/-- Values of `_state_input_` (`INPUT_UAV_STATE`, `INPUT_ODOMETRY`). -/
inductive StateInput
  | INPUT_UAV_STATE
  | INPUT_ODOMETRY
  deriving DecidableEq, Repr

/-! ## The trace of calls that leave the class -/

/-- The member functions that the control cycle `asyncControl` calls. -/
inductive ControlCall
  | timerSafety
  | updateTrackers
  | updateControllers
  | enforceControllersConstraints
  | setConstraints
  | publish
  deriving DecidableEq, Repr

/-- One call that leaves the class (plugin, service, publisher), or the entry of
one of the two safety routines `failsafe()` and `eland()`. -/
inductive Event (K : Type)
  | tracker_activate (idx : Nat) (result : Option (Bool × String))
  | tracker_update (idx : Nat)
  | controller_update (idx : Nat)
  | tracker_deactivate (idx : Nat) (result : Option Unit)
  | controller_activate (idx : Nat) (result : Option Bool)
  | controller_deactivate (idx : Nat) (result : Option Unit)
  | tracker_setConstraints (idx : Nat)
  | controller_setConstraints (idx : Nat)
  | tracker_setReference (idx : Nat) (reference : Reference K)
  | tracker_setTrajectoryReference (idx : Nat) (trajectory : TrajectoryReference K)
  | srv_ungrip
  | srv_eland (success : Bool)
  | srv_parachute (success : Bool)
  | srv_arming (success : Bool)
  | srv_odometry_callbacks (input : Bool)
  | srv_shutdown
  | publish_bumper_status
  | publish_control_output (attitude_target : AttitudeTarget K)
  | call_failsafe
  | call_eland
  deriving DecidableEq

/-! ## Collaborators outside the class -/

/-- The functions of `<cmath>` used by the class. -/
structure Libm (K : Type) where
  sqrt : K → K
  atan2 : K → K → K
  cos : K → K
  sin : K → K
  fmod : K → K → K
  floor : K → Int
  M_PI : K
  /-- Constant `std::numeric_limits<double>::lowest()`. -/
  lowest : K
  /-- Function `std::isfinite`. -/
  isfinite : K → Bool

/-- The geofence engine `mrs_lib::SafetyZone` behind `safety_zone_`. -/
structure SafetyZone (K : Type) where
  isPointValid3d : K → K → K → Bool
  isPointValid2d : K → K → Bool
  isPathValid3d : K → K → K → K → K → K → Bool
  isPathValid2d : K → K → K → K → Bool

/-- The coordinate transform service `mrs_lib::Transformer` behind `transformer_`;
`none` is the empty `std::optional`. -/
structure Transformer (K : Type) where
  transformSingle : ReferenceStamped K → String → Option (ReferenceStamped K)
  getTransform : String → String → Option TransformStamped
  transform : ReferenceStamped K → TransformStamped → Option (ReferenceStamped K)
  frame_to : TransformStamped → String

/-- Everything one top-level call reads from outside the class.  The answers of
plugins and services are indexed by the number of calls recorded so far (the
length of `Manager.log`), so that successive calls may answer differently.  For a
plugin call `none` means that it threw `std::runtime_error`; for
`tracker_setReference` and `tracker_setTrajectoryReference` `none` is the null
response of a tracker that does not implement the call; for a service `none`
means that `call()` returned false. -/
structure Env (K : Type) where
  now : K
  libm : Libm K
  msg : MessageConstants
  transformer_ : Transformer K
  tracker_activate : Nat → Nat → Option (Bool × String)
  tracker_deactivate : Nat → Nat → Option Unit
  controller_activate : Nat → Nat → Option Bool
  controller_deactivate : Nat → Nat → Option Unit
  tracker_setReference : Nat → Nat → Option (Bool × String)
  tracker_setTrajectoryReference : Nat → Nat → Option (Bool × String × Bool)
  /-- Call `tracker_list_[i]->update(...)`; `some none` is a null command. -/
  tracker_update : Nat → Nat → Option (Option (PositionCommand K))
  /-- Call `controller_list_[i]->update(...)`; `some none` is a null command. -/
  controller_update : Nat → Nat → Option (Option (AttitudeCommand K))
  /-- Value `controller_list_[i]->getStatus().active`. -/
  controller_active : Nat → Nat → Bool
  /-- Function `mrs_lib::quadratic_thrust_model::thrustToForce` with the motor
  parameters of `common_handlers_`. -/
  thrustToForce : K → K
  /-- Value `mrs_lib::AttitudeConverter(orientation).getHeading()`. -/
  getHeading : Orientation K → K
  sch_eland_ : Nat → Option Bool
  sch_parachute_ : Nat → Option Bool
  sch_mavros_command_long_ : Nat → Option Bool
  /-- Angle between the body z axis and the world z axis (`tilt_angle`, tf2). -/
  tilt_angle : K
  /-- Angle between the body z axis and the commanded one (`tilt_error_`, tf2). -/
  tilt_error : K
  /-- Value `fabs(radians::diff(cmd_yaw, uav_yaw))` (`yaw_error_`, mrs_lib). -/
  yaw_error : K
  /-- Value `mrs_lib::geometry::dist` of the innovation position from the origin. -/
  last_innovation : K
  /-- Value `radians::diff(heading, 0)` of the innovation heading. -/
  innovation_heading_diff : K

/-! ## The state of the class -/

/-- The member variables of `ControlManager` that the embedded functions read or
write.  Names are those of the source. -/
structure Manager (K : Type) where
  is_initialized_ : Bool
  _tracker_names_ : List String
  _controller_names_ : List String
  _null_tracker_name_ : String
  _ehover_tracker_name_ : String
  _landoff_tracker_name_ : String
  _eland_controller_name_ : String
  _failsafe_controller_name_ : String
  _null_tracker_idx_ : Nat
  _ehover_tracker_idx_ : Nat
  _landoff_tracker_idx_ : Nat
  _eland_controller_idx_ : Nat
  _failsafe_controller_idx_ : Nat
  controllers_ : String → ControllerParams K
  _state_input_ : StateInput
  _odometry_innovation_check_enabled_ : Bool
  got_uav_state_ : Bool
  uav_state_ : UavState K
  sh_odometry_innovation_hasMsg : Bool
  sh_pixhawk_odometry_hasMsg : Bool
  sh_mavros_state_ : Option (K × String)
  odometry_switch_in_progress_ : Bool
  active_tracker_idx_ : Nat
  active_controller_idx_ : Nat
  controller_tracker_switch_time_ : K
  last_position_cmd_ : Option (PositionCommand K)
  last_attitude_cmd_ : Option (AttitudeCommand K)
  _uav_mass_ : K
  _initial_body_disturbance_x_ : K
  _initial_body_disturbance_y_ : K
  _min_thrust_null_tracker_ : K
  current_constraints_ : DynamicsConstraints K
  sanitized_constraints_ : DynamicsConstraints K
  failsafe_triggered_ : Bool
  eland_triggered_ : Bool
  motors_ : Bool
  offboard_mode_ : Bool
  offboard_mode_was_true_ : Bool
  armed_ : Bool
  callbacks_enabled_ : Bool
  _rc_emergency_handoff_ : Bool
  _parachute_enabled_ : Bool
  _automatic_pc_shutdown_enabled_ : Bool
  _eland_threshold_ : K
  _failsafe_threshold_ : K
  _odometry_innovation_threshold_ : K
  _tilt_limit_eland_enabled_ : Bool
  _tilt_limit_eland_ : K
  _yaw_error_eland_enabled_ : Bool
  _yaw_error_eland_ : K
  _tilt_limit_disarm_enabled_ : Bool
  _tilt_limit_disarm_ : K
  _tilt_error_disarm_enabled_ : Bool
  _tilt_error_disarm_threshold_ : K
  _tilt_error_disarm_timeout_ : K
  tilt_error_disarm_over_thr_ : Bool
  tilt_error_disarm_time_ : K
  tilt_error_ : K
  yaw_error_ : K
  position_error_x_ : K
  position_error_y_ : K
  position_error_z_ : K
  current_state_landing_ : LandingStates_t
  previous_state_landing_ : LandingStates_t
  landing_uav_mass_ : K
  timer_eland_running : Bool
  timer_failsafe_running : Bool
  bumper_enabled_ : Bool
  _bumper_hugging_enabled_ : Bool
  sh_bumper_ : Option (ObstacleSectors K)
  sh_bumper_lastMsgTime : K
  bumper_vertical_distance_ : K
  bumper_horizontal_distance_ : K
  use_safety_area_ : Bool
  safety_zone_ : SafetyZone K
  _safety_area_frame_ : String
  min_height_ : K
  _max_height_ : K
  sh_max_height_ : Option K
  _snap_trajectory_to_safety_area_ : Bool
  _escalating_failsafe_timeout_ : K
  escalating_failsafe_time_ : K
  _escalating_failsafe_ehover_ : Bool
  _escalating_failsafe_eland_ : Bool
  _escalating_failsafe_failsafe_ : Bool
  state_escalating_failsafe_ : EscalatingFailsafeStates_t
  got_constraints_ : Bool
  _tracker_error_action_ : String
  /-- Value `common_handlers_->g`. -/
  g : K
  thrust_mass_estimate_ : K
  thrust_under_threshold_ : Bool
  thrust_mass_estimate_first_time_ : K
  _elanding_cutoff_mass_factor_ : K
  _elanding_cutoff_timeout_ : K
  _eland_disarm_enabled_ : Bool
  /-- The member functions called by the control cycle so far, in order (not a
  member of the class). -/
  control_calls : List ControlCall
  log : List (Event K)

variable {K : Type}

/-- Append one call to the trace. -/
def Manager.record (m : Manager K) (e : Event K) : Manager K :=
  { m with log := m.log ++ [e] }

/-- The name lookup loop of `switchTracker` / `switchController`, from index `i`
on: every match overwrites the index found so far. -/
def findNameIdxFrom (name : String) : List String → Nat → Int → Int
  | [], _, acc => acc
  | n :: rest, i, acc => findNameIdxFrom name rest (i + 1) (if name = n then (i : Int) else acc)

/-- Loop `int idx = -1; for (i...) if (name == names[i]) idx = i;`. -/
def findNameIdx (names : List String) (name : String) : Int :=
  findNameIdxFrom name names 0 (-1)

variable [LinearOrderedField K]

/-- A position command that holds `position` at heading 0: every derivative
zero, horizontal and vertical position in use. -/
def PositionCommand.hold (position : Vec3 K) : PositionCommand K :=
  { position := position, velocity := ⟨0, 0, 0⟩, acceleration := ⟨0, 0, 0⟩, jerk := ⟨0, 0, 0⟩,
    snap := ⟨0, 0, 0⟩, attitude_rate := ⟨0, 0, 0⟩, heading := 0, heading_rate := 0, thrust := 0,
    use_position_horizontal := true, use_position_vertical := true }

/-- The command `cmd` with only the vertical position in use. -/
def PositionCommand.vertical (cmd : PositionCommand K) : PositionCommand K :=
  { cmd with use_position_horizontal := false, use_position_vertical := true }

/-- A value-initialised `mrs_msgs::AttitudeCommand` (what `std::make_unique` builds). -/
def AttitudeCommand.zero : AttitudeCommand K :=
  { attitude := ⟨0, 0, 0, 0⟩, attitude_rate := ⟨0, 0, 0⟩, desired_acceleration := ⟨0, 0, 0⟩,
    mode_mask := 0, thrust := 0,
    total_mass := 0, mass_difference := 0, disturbance_bx_b := 0, disturbance_by_b := 0,
    disturbance_wx_w := 0, disturbance_wy_w := 0, disturbance_bx_w := 0,
    disturbance_by_w := 0, controller := "", ramping_up := false,
    controller_enforcing_constraints := false, horizontal_speed_constraint := 0,
    horizontal_acc_constraint := 0, vertical_asc_speed_constraint := 0,
    vertical_asc_acc_constraint := 0, vertical_desc_speed_constraint := 0,
    vertical_desc_acc_constraint := 0 }

/-- One `if (limit < value) { value = limit; enforcing = true; }` of
`enforceControllersConstraints`: the flag and the field afterwards. -/
def enforceLimit (limit : K) (enforcing : Bool) (value : K) : Bool × K :=
  if limit < value then (true, limit) else (enforcing, value)

/-- Function `ControlManager::enforceControllersConstraints`; the reference
parameter `constraints` is returned next to the result. -/
def enforceControllersConstraints (m : Manager K) (constraints : DynamicsConstraints K) :
    Bool × DynamicsConstraints K :=
  match m.last_attitude_cmd_ with
  | none => (false, constraints)
  | some last_attitude_cmd =>
    if last_attitude_cmd.controller_enforcing_constraints then
      let s1 := enforceLimit last_attitude_cmd.horizontal_speed_constraint false
        constraints.horizontal_speed
      let s2 := enforceLimit last_attitude_cmd.horizontal_acc_constraint s1.1
        constraints.horizontal_acceleration
      let s3 := enforceLimit last_attitude_cmd.vertical_asc_speed_constraint s2.1
        constraints.vertical_ascending_speed
      let s4 := enforceLimit last_attitude_cmd.vertical_asc_acc_constraint s3.1
        constraints.vertical_ascending_acceleration
      let s5 := enforceLimit last_attitude_cmd.vertical_desc_speed_constraint s4.1
        constraints.vertical_descending_speed
      let s6 := enforceLimit last_attitude_cmd.vertical_desc_acc_constraint s5.1
        constraints.vertical_descending_acceleration
      (s6.1, { constraints with
        horizontal_speed := s1.2
        horizontal_acceleration := s2.2
        vertical_ascending_speed := s3.2
        vertical_ascending_acceleration := s4.2
        vertical_descending_speed := s5.2
        vertical_descending_acceleration := s6.2 })
    else (false, constraints)

/-! ## Plugin hand-off -/

/-- Function `ControlManager::setConstraints`: one `setConstraints` call per tracker,
then one per controller (`tracker_list_` and `controller_list_` are as long as
the lists of names). -/
def setConstraints (m : Manager K) : Manager K :=
  let m1 := (List.range m._tracker_names_.length).foldl
    (fun s i => s.record (Event.tracker_setConstraints i)) m
  (List.range m._controller_names_.length).foldl
    (fun s i => s.record (Event.controller_setConstraints i)) m1

/-- The activation block of `switchTracker` (the scope that holds
`mutex_tracker_list_`, with its two nested `try`/`catch`) and the final
`return std::tuple(true, ss.str())`, for the candidate index `new_tracker_idx`. -/
def activateTracker (env : Env K) (tracker_name : String) (new_tracker_idx : Nat)
    (m : Manager K) : (Bool × String) × Manager K :=
  -- try { activate the candidate with the last position command
  let res := env.tracker_activate m.log.length new_tracker_idx
  let m1 := m.record (Event.tracker_activate new_tracker_idx res)
  match res with
  | none => ((true, ""), m1)
  | some (false, message) =>
    ((false, "the tracker '" ++ tracker_name ++ "' could not be activated: '"
        ++ message ++ "'"), m1)
  | some (true, _) =>
    let ss := "the tracker '" ++ tracker_name ++ "' was activated"
    let m2 := { m1 with controller_tracker_switch_time_ := env.now }
    -- try { deactivate the previous tracker
    let dres := env.tracker_deactivate m2.log.length m2.active_tracker_idx_
    let m3 := m2.record (Event.tracker_deactivate m2.active_tracker_idx_ dres)
    match dres with
    | none => ((true, ss), m3)
    | some _ =>
      if m3._tracker_names_.getD m3.active_tracker_idx_ "" = m3._null_tracker_name_ then
        let output_command : AttitudeCommand K :=
          { (AttitudeCommand.zero : AttitudeCommand K) with
            total_mass := m3._uav_mass_
            mass_difference := 0
            disturbance_bx_b := m3._initial_body_disturbance_x_
            disturbance_by_b := m3._initial_body_disturbance_y_
            disturbance_wx_w := 0
            disturbance_wy_w := 0
            disturbance_bx_w := 0
            disturbance_by_w := 0
            thrust := m3._min_thrust_null_tracker_
            controller := "none"
            attitude := ⟨0, 0, 0, 1⟩ }
        let m4 := { m3 with last_attitude_cmd_ := some output_command }
        let cres := env.controller_activate m4.log.length m4.active_controller_idx_
        let m5 := m4.record (Event.controller_activate m4.active_controller_idx_ cres)
        match cres with
        | none => ((true, ss), m5)
        | some _ =>
          ((true, ss), { m5 with controller_tracker_switch_time_ := env.now
                                 active_tracker_idx_ := new_tracker_idx })
      else if m3._tracker_names_.getD new_tracker_idx "" = m3._null_tracker_name_ then
        let cres := env.controller_deactivate m3.log.length m3.active_controller_idx_
        let m4 := m3.record (Event.controller_deactivate m3.active_controller_idx_ cres)
        match cres with
        | none => ((true, ss), m4)
        | some _ => ((true, ss), { m4 with active_tracker_idx_ := new_tracker_idx })
      else
        ((true, ss), { m3 with active_tracker_idx_ := new_tracker_idx })

/-- Function `ControlManager::switchTracker`. -/
def switchTracker (env : Env K) (tracker_name : String) (m : Manager K) :
    (Bool × String) × Manager K :=
  let active_tracker_idx := m.active_tracker_idx_
  if !m.got_uav_state_ then
    ((false, "can not switch tracker, missing odometry!"), m)
  else if m._state_input_ = StateInput.INPUT_UAV_STATE ∧ m._odometry_innovation_check_enabled_
      ∧ !m.sh_odometry_innovation_hasMsg then
    ((false, "can not switch tracker, missing odometry innovation!"), m)
  else if !m.sh_pixhawk_odometry_hasMsg then
    ((false, "can not switch tracker, missing PixHawk odometry!"), m)
  else
    let new_tracker_idx := findNameIdx m._tracker_names_ tracker_name
    if new_tracker_idx < 0 then
      ((false, "the tracker '" ++ tracker_name ++ "' does not exist!"), m)
    else if new_tracker_idx = (active_tracker_idx : Int) then
      ((true, "not switching, the tracker '" ++ tracker_name ++ "' is already active!"), m)
    else activateTracker env tracker_name new_tracker_idx.toNat m

/-- The tail of `switchController` after the activation block: the sanitized
constraints are reset to the requested ones and sent to every plugin. -/
def switchControllerTail (ss : String) (m : Manager K) : (Bool × String) × Manager K :=
  ((true, ss), setConstraints { m with sanitized_constraints_ := m.current_constraints_ })

/-- The activation block of `switchController` (the scope that holds
`mutex_controller_list_`, with its two nested `try`/`catch`) followed by the tail
of the function, for the candidate index `new_controller_idx`. -/
def activateController (env : Env K) (controller_name : String) (new_controller_idx : Nat)
    (m : Manager K) : (Bool × String) × Manager K :=
  -- try { activate the candidate with the last attitude command
  let res := env.controller_activate m.log.length new_controller_idx
  let m1 := m.record (Event.controller_activate new_controller_idx res)
  match res with
  | none => switchControllerTail "" m1
  | some false =>
    ((false, "the controller '" ++ controller_name ++ "' was not activated"), m1)
  | some true =>
    let ss := "the controller '" ++ controller_name ++ "' was activated"
    -- reactivate the current tracker with an empty seed
    let dres := env.tracker_deactivate m1.log.length m1.active_tracker_idx_
    let m2 := m1.record (Event.tracker_deactivate m1.active_tracker_idx_ dres)
    match dres with
    | none => switchControllerTail ss m2
    | some _ =>
      let ares := env.tracker_activate m2.log.length m2.active_tracker_idx_
      let m3 := m2.record (Event.tracker_activate m2.active_tracker_idx_ ares)
      match ares with
      | none => switchControllerTail ss m3
      | some _ =>
        let m4 := { m3 with controller_tracker_switch_time_ := env.now }
        -- try { deactivate the previous controller
        let cres := env.controller_deactivate m4.log.length m4.active_controller_idx_
        let m5 := m4.record (Event.controller_deactivate m4.active_controller_idx_ cres)
        match cres with
        | none => switchControllerTail ss m5
        | some _ =>
          switchControllerTail ss { m5 with active_controller_idx_ := new_controller_idx }

/-- Function `ControlManager::switchController`. -/
def switchController (env : Env K) (controller_name : String) (m : Manager K) :
    (Bool × String) × Manager K :=
  let active_controller_idx := m.active_controller_idx_
  if !m.got_uav_state_ then
    ((false, "can not switch controller, missing odometry!"), m)
  else if m._state_input_ = StateInput.INPUT_UAV_STATE ∧ m._odometry_innovation_check_enabled_
      ∧ !m.sh_odometry_innovation_hasMsg then
    ((false, "can not switch controller, missing odometry innovation!"), m)
  else if !m.sh_pixhawk_odometry_hasMsg then
    ((false, "can not switch controller, missing PixHawk odometry!"), m)
  else
    let new_controller_idx := findNameIdx m._controller_names_ controller_name
    if new_controller_idx < 0 then
      ((false, "the controller '" ++ controller_name ++ "' does not exist!"), m)
    else if new_controller_idx = (active_controller_idx : Int) then
      ((true, "not switching, the controller '" ++ controller_name ++ "' is already active!"), m)
    else activateController env controller_name new_controller_idx.toNat m

/-! ## Service wrappers and routines -/

/-- Function `ControlManager::isOffboard`. -/
def isOffboard (env : Env K) (m : Manager K) : Bool :=
  match m.sh_mavros_state_ with
  | none => false
  | some (lastMsgTime, mode) =>
    if env.now - lastMsgTime < 1 ∧ mode = "OFFBOARD" then true else false

/-- Function `ControlManager::ungripSrv`. -/
def ungripSrv (m : Manager K) : Manager K :=
  m.record Event.srv_ungrip

/-- Function `ControlManager::odometryCallbacksSrv`. -/
def odometryCallbacksSrv (input : Bool) (m : Manager K) : Manager K :=
  m.record (Event.srv_odometry_callbacks input)

/-- Function `ControlManager::elandSrv`. -/
def elandSrv (env : Env K) (m : Manager K) : Bool × Manager K :=
  match env.sch_eland_ m.log.length with
  | some success => (success, m.record (Event.srv_eland success))
  | none => (false, m.record (Event.srv_eland false))

/-- Function `ControlManager::parachuteSrv`. -/
def parachuteSrv (env : Env K) (m : Manager K) : Bool × Manager K :=
  match env.sch_parachute_ m.log.length with
  | some success => (success, m.record (Event.srv_parachute success))
  | none => (false, m.record (Event.srv_parachute false))

/-- Function `ControlManager::shutdown`. -/
def shutdown (m : Manager K) : Manager K :=
  if m._automatic_pc_shutdown_enabled_ then m.record Event.srv_shutdown else m

/-- The loop `for i: try { tracker_list_[i]->deactivate(); } catch ...` of
`switchMotors`, over the indices `idxs`. -/
def deactivateTrackers (env : Env K) : List Nat → Manager K → Manager K
  | [], m => m
  | i :: rest, m =>
    deactivateTrackers env rest
      (m.record (Event.tracker_deactivate i (env.tracker_deactivate m.log.length i)))

/-- The loop `for i: try { controller_list_[i]->deactivate(); } catch ...` of
`switchMotors`, over the indices `idxs`. -/
def deactivateControllers (env : Env K) : List Nat → Manager K → Manager K
  | [], m => m
  | i :: rest, m =>
    deactivateControllers env rest
      (m.record (Event.controller_deactivate i (env.controller_deactivate m.log.length i)))

/-- Function `ControlManager::switchMotors`. -/
def switchMotors (env : Env K) (input : Bool) (m : Manager K) : Manager K :=
  if input = m.motors_ then m
  else
    let m1 := { m with motors_ := input }
    if !m1.motors_ then
      let m2 := (switchTracker env m1._null_tracker_name_ m1).2
      let m3 := (switchController env m2._eland_controller_name_ m2).2
      let m4 := deactivateTrackers env (List.range m3._tracker_names_.length) m3
      let m5 := deactivateControllers env (List.range m4._controller_names_.length) m4
      { m5 with offboard_mode_was_true_ := false }
    else m1

/-- Function `ControlManager::arming`. -/
def arming (env : Env K) (input : Bool) (m : Manager K) : (Bool × String) × Manager K :=
  if input then
    ((false, "not allowed to arm using the ControlManager, maybe later when we don't do bugs"), m)
  else if !input ∧ !isOffboard env m then
    ((false, "can not disarm, not in OFFBOARD mode"), m)
  else
    match env.sch_mavros_command_long_ m.log.length with
    | some true =>
      let m1 := m.record (Event.srv_arming true)
      if !input then
        let m2 := switchMotors env false m1
        let m3 := { m2 with timer_failsafe_running := false, timer_eland_running := false }
        ((true, "service call for disarming was successful"), shutdown m3)
      else ((true, "service call for arming was successful"), m1)
    | some false => ((false, "service call for disarming failed"), m.record (Event.srv_arming false))
    | none =>
      ((false, "calling for disarming resulted in failure"), m.record (Event.srv_arming false))

/-- Function `ControlManager::deployParachute`. -/
def deployParachute (env : Env K) (m : Manager K) : (Bool × String) × Manager K :=
  if !m._parachute_enabled_ then ((false, "can not deploy parachute, it is disabled"), m)
  else if !isOffboard env m then ((false, "can not deploy parachute, not in offboard mode"), m)
  else
    let (succ, m1) := parachuteSrv env m
    if succ then ((true, "parachute deployed"), (arming env false m1).2)
    else ((false, "error during deployment of parachute"), m1)

/-- Function `ControlManager::changeLandingState`. -/
def changeLandingState (new_state : LandingStates_t) (m : Manager K) : Manager K :=
  let last_attitude_cmd := m.last_attitude_cmd_
  let m1 := { m with previous_state_landing_ := m.current_state_landing_
                     current_state_landing_ := new_state }
  match m1.current_state_landing_ with
  | LandingStates_t.IDLE_STATE => m1
  | LandingStates_t.LANDING_STATE =>
    let m2 := { m1 with timer_eland_running := true, eland_triggered_ := true,
                        bumper_enabled_ := false }
    match last_attitude_cmd with
    | none => { m2 with landing_uav_mass_ := m2._uav_mass_ }
    | some cmd => { m2 with landing_uav_mass_ := m2._uav_mass_ + cmd.mass_difference }

/-! ## Emergency landing and failsafe -/

/-- Function `ControlManager::ehover`. -/
def ehover (env : Env K) (m : Manager K) : (Bool × String) × Manager K :=
  if !m.is_initialized_ then ((false, "the ControlManager is not initialized"), m)
  else if m.eland_triggered_ then ((false, "cannot ehover, eland already triggered"), m)
  else if m.failsafe_triggered_ then ((false, "cannot ehover, failsafe already triggered"), m)
  else
    let active_tracker_idx := m.active_tracker_idx_
    if active_tracker_idx = m._null_tracker_idx_ then
      ((false, "can not trigger ehover while not flying"), m)
    else
      let m1 := ungripSrv m
      let ((success, message), m2) := switchTracker env m1._ehover_tracker_name_ m1
      if !success then
        ((success, "error during switching to ehover tracker: '" ++ message ++ "'"), m2)
      else
        let m3 := (switchController env m2._eland_controller_name_ m2).2
        ((true, "ehover activated"), { m3 with callbacks_enabled_ := false })

/-- Function `ControlManager::eland`. -/
def eland (env : Env K) (m0 : Manager K) : (Bool × String) × Manager K :=
  let m := m0.record Event.call_eland
  if !m.is_initialized_ then ((false, "the ControlManager is not initialized"), m)
  else if m.eland_triggered_ then ((false, "cannot eland, eland already triggered"), m)
  else if m.failsafe_triggered_ then ((false, "cannot eland, failsafe already triggered"), m)
  else
    let active_tracker_idx := m.active_tracker_idx_
    if active_tracker_idx = m._null_tracker_idx_ then
      ((false, "can not trigger eland while not flying"), m)
    else if m._rc_emergency_handoff_ then
      ((true, "RC emergency handoff is ON, switching motors OFF"), switchMotors env false m)
    else
      let ((success, message), m1) := switchTracker env m._ehover_tracker_name_ m
      if !success then
        ((success, "error during switching to eland tracker: '" ++ message ++ "'"), m1)
      else
        let m2 := (switchController env m1._eland_controller_name_ m1).2
        let (ok, m3) := elandSrv env m2
        if ok then
          let m4 := changeLandingState LandingStates_t.LANDING_STATE m3
          let m5 := odometryCallbacksSrv false m4
          ((true, "eland activated"), { m5 with callbacks_enabled_ := false })
        else
          ((false, "error during activation of eland"), m3)

/-- Function `ControlManager::eland` from behind its three guards (from the copy
of the member variables on): what a call that has passed the tests of
`is_initialized_`, `eland_triggered_` and `failsafe_triggered_` goes on to do
in the state `m`. -/
def elandBehindGuards (env : Env K) (m : Manager K) : (Bool × String) × Manager K :=
  let active_tracker_idx := m.active_tracker_idx_
  if active_tracker_idx = m._null_tracker_idx_ then
    ((false, "can not trigger eland while not flying"), m)
  else if m._rc_emergency_handoff_ then
    ((true, "RC emergency handoff is ON, switching motors OFF"), switchMotors env false m)
  else
    let ((success, message), m1) := switchTracker env m._ehover_tracker_name_ m
    if !success then
      ((success, "error during switching to eland tracker: '" ++ message ++ "'"), m1)
    else
      let m2 := (switchController env m1._eland_controller_name_ m1).2
      let (ok, m3) := elandSrv env m2
      if ok then
        let m4 := changeLandingState LandingStates_t.LANDING_STATE m3
        let m5 := odometryCallbacksSrv false m4
        ((true, "eland activated"), { m5 with callbacks_enabled_ := false })
      else
        ((false, "error during activation of eland"), m3)

/-- The last block of `failsafe` (`if (_failsafe_controller_idx_ !=
active_controller_idx) { ... }` and the final `return`); `last_attitude_cmd` and
`active_controller_idx` are the copies taken at the head of `failsafe`. -/
def failsafeController (env : Env K) (last_attitude_cmd : Option (AttitudeCommand K))
    (active_controller_idx : Nat) (m1 : Manager K) : (Bool × String) × Manager K :=
  if m1._failsafe_controller_idx_ ≠ active_controller_idx then
    -- try { activate the failsafe controller
    let res := env.controller_activate m1.log.length m1._failsafe_controller_idx_
    let m2 := m1.record (Event.controller_activate m1._failsafe_controller_idx_ res)
    match res with
    | none => ((true, "failsafe activated"), m2)
    | some _ =>
      let m3 := { m2 with controller_tracker_switch_time_ := env.now
                          failsafe_triggered_ := true
                          timer_eland_running := false }
      let m4 := match last_attitude_cmd with
        | none => { m3 with landing_uav_mass_ := m3._uav_mass_ }
        | some cmd => { m3 with landing_uav_mass_ := m3._uav_mass_ + cmd.mass_difference }
      let m5 := { m4 with eland_triggered_ := false, timer_failsafe_running := true,
                          bumper_enabled_ := false }
      let m6 := odometryCallbacksSrv false m5
      let m7 := { m6 with callbacks_enabled_ := false }
      -- try { deactivate the previous controller
      let dres := env.controller_deactivate m7.log.length m7.active_controller_idx_
      let m8 := m7.record (Event.controller_deactivate m7.active_controller_idx_ dres)
      match dres with
      | none => ((true, "failsafe activated"), m8)
      | some _ =>
        ((true, "failsafe activated"),
          { m8 with active_controller_idx_ := m8._failsafe_controller_idx_ })
  else ((true, "failsafe activated"), m1)

/-- Function `ControlManager::failsafe`. -/
def failsafe (env : Env K) (m0 : Manager K) : (Bool × String) × Manager K :=
  let m := m0.record Event.call_failsafe
  let last_attitude_cmd := m.last_attitude_cmd_
  let active_controller_idx := m.active_controller_idx_
  let active_tracker_idx := m.active_tracker_idx_
  if !m.is_initialized_ then ((false, "the ControlManager is not initialized"), m)
  else if m.failsafe_triggered_ then ((false, "cannot, failsafe already triggered"), m)
  else if active_tracker_idx = m._null_tracker_idx_ then
    ((false, "can not trigger failsafe while not flying"), m)
  else if m._rc_emergency_handoff_ then
    ((true, "RC emergency handoff is ON, switching motors OFF"), switchMotors env false m)
  else if m._parachute_enabled_ then
    let ((success, message), m1) := deployParachute env m
    if success then ((true, "failsafe activated (parachute): '" ++ message ++ "'"), m1)
    else failsafeController env last_attitude_cmd active_controller_idx m1
  else failsafeController env last_attitude_cmd active_controller_idx m

/-! ## Escalating failsafe -/

/-- Function `ControlManager::getNextEscFailsafeState`. -/
def getNextEscFailsafeState (m : Manager K) : EscalatingFailsafeStates_t :=
  match m.state_escalating_failsafe_ with
  | .ESC_FINISHED_STATE => .ESC_FINISHED_STATE
  | .ESC_NONE_STATE =>
    if m._escalating_failsafe_ehover_ then .ESC_EHOVER_STATE
    else if m._escalating_failsafe_eland_ then .ESC_ELAND_STATE
    else if m._escalating_failsafe_failsafe_ then .ESC_FAILSAFE_STATE
    else .ESC_FINISHED_STATE
  | .ESC_EHOVER_STATE =>
    if m._escalating_failsafe_eland_ then .ESC_ELAND_STATE
    else if m._escalating_failsafe_failsafe_ then .ESC_FAILSAFE_STATE
    else .ESC_FINISHED_STATE
  | .ESC_ELAND_STATE =>
    if m._escalating_failsafe_failsafe_ then .ESC_FAILSAFE_STATE
    else .ESC_FINISHED_STATE
  | .ESC_FAILSAFE_STATE => .ESC_FINISHED_STATE

/-- The `switch (next_state)` of `escalatingFailsafe`, entered after
`escalating_failsafe_time_` was set. -/
def escalate (env : Env K) (next_state : EscalatingFailsafeStates_t) (m : Manager K) :
    (Bool × String) × Manager K :=
  match next_state with
  | .ESC_NONE_STATE => ((false, "escalating failsafe has run to impossible situation"), m)
  | .ESC_EHOVER_STATE =>
    let ((success, message), m1) := ehover env m
    if success then
      ((success, message), { m1 with state_escalating_failsafe_ := .ESC_EHOVER_STATE })
    else ((success, message), m1)
  | .ESC_ELAND_STATE =>
    let ((success, message), m1) := eland env m
    if success then
      ((success, message), { m1 with state_escalating_failsafe_ := .ESC_ELAND_STATE })
    else ((success, message), m1)
  | .ESC_FAILSAFE_STATE =>
    let m0 := { m with escalating_failsafe_time_ := env.now }
    let ((success, message), m1) := failsafe env m0
    if success then
      ((success, message), { m1 with state_escalating_failsafe_ := .ESC_FINISHED_STATE })
    else ((success, message), m1)
  | .ESC_FINISHED_STATE =>
    ((false, "escalating failsafe has nothing more to do"),
      { m with escalating_failsafe_time_ := env.now })

/-- Function `ControlManager::escalatingFailsafe`. -/
def escalatingFailsafe (env : Env K) (m : Manager K) : (Bool × String) × Manager K :=
  if env.now - m.escalating_failsafe_time_ < m._escalating_failsafe_timeout_ then
    ((false, "too soon for escalating failsafe"), m)
  else if !m.motors_ then ((false, "not escalating failsafe, motors are off"), m)
  else
    let next_state := getNextEscFailsafeState m
    escalate env next_state { m with escalating_failsafe_time_ := env.now }

/-! ## The safety timer -/

/-- The control error of `timerSafety` (lines 2525-2536). -/
def controlError (env : Env K) (cmd : PositionCommand K) (ex ey ez : K) : K :=
  if cmd.use_position_horizontal ∧ cmd.use_position_vertical then
    env.libm.sqrt (ex ^ 2 + ey ^ 2 + ez ^ 2)
  else if cmd.use_position_horizontal then env.libm.sqrt (ex ^ 2 + ey ^ 2)
  else if cmd.use_position_vertical then |ez|
  else 0

/-- Block "activate the failsafe controller in case of large error" of `timerSafety`. -/
def safetyFailsafeStage (env : Env K) (control_error : K) (m : Manager K) : Manager K :=
  if control_error > m._failsafe_threshold_ ∧ !m.failsafe_triggered_ then
    if env.now - m.controller_tracker_switch_time_ > 1 then
      if !m.failsafe_triggered_ then (failsafe env m).2 else m
    else m
  else m

/-- The guard shared by the emergency-landing blocks of `timerSafety`: one second
since the last switch, and neither latch set; then `eland()`. -/
def safetyEland (env : Env K) (m : Manager K) : Manager K :=
  if env.now - m.controller_tracker_switch_time_ > 1 then
    if !m.failsafe_triggered_ ∧ !m.eland_triggered_ then (eland env m).2 else m
  else m

/-- The guard shared by the payload-release blocks of `timerSafety`; then `ungripSrv()`. -/
def safetyUngrip (env : Env K) (m : Manager K) : Manager K :=
  if env.now - m.controller_tracker_switch_time_ > 1 then
    if !m.failsafe_triggered_ ∧ !m.eland_triggered_ then ungripSrv m else m
  else m

/-- Block "activate emergency land in case of large innovation" of `timerSafety`;
`M_PI_2` is `M_PI / 2`. -/
def safetyInnovationStage (env : Env K) (m : Manager K) : Manager K :=
  if m._odometry_innovation_check_enabled_ then
    if env.last_innovation > m._odometry_innovation_threshold_
        ∨ env.innovation_heading_diff > env.libm.M_PI / 2 then
      safetyEland env m
    else m
  else m

/-- Block "tilt control error" of `timerSafety`. -/
def safetyTiltStage (env : Env K) (tilt_angle : K) (m : Manager K) : Manager K :=
  if m._tilt_limit_eland_enabled_ ∧ tilt_angle > m._tilt_limit_eland_ then safetyEland env m
  else m

/-- Block "position control error" of `timerSafety`. -/
def safetyPositionStage (env : Env K) (control_error : K) (m : Manager K) : Manager K :=
  let m1 := if control_error > m._eland_threshold_ / 2 then safetyUngrip env m else m
  if control_error > m1._eland_threshold_ then safetyEland env m1 else m1

/-- Block "yaw control error" of `timerSafety`. -/
def safetyYawStage (env : Env K) (m : Manager K) : Manager K :=
  if m._yaw_error_eland_enabled_ then
    let m1 := if m.yaw_error_ > m._yaw_error_eland_ / 2 then safetyUngrip env m else m
    if m1.yaw_error_ > m1._yaw_error_eland_ then safetyEland env m1 else m1
  else m

/-- Block "disarm the drone when the tilt exceeds the limit" of `timerSafety`. -/
def safetyTiltDisarmStage (env : Env K) (tilt_angle : K) (m : Manager K) : Manager K :=
  if m._tilt_limit_disarm_enabled_ ∧ tilt_angle > m._tilt_limit_disarm_ then
    (arming env false m).2
  else m

/-- Block "disarm the drone when tilt error exceeds the limit" of `timerSafety`;
`ramping_up` is the flag of the attitude command copied at the start of the timer
and `active_tracker_idx` the index copied there. -/
def safetyTiltErrorDisarmStage (env : Env K) (ramping_up : Bool) (active_tracker_idx : Nat)
    (m : Manager K) : Manager K :=
  if m._tilt_error_disarm_enabled_ then
    let time_from_ctrl_tracker_switch := env.now - m.controller_tracker_switch_time_
    let m1 :=
      if |m.tilt_error_| > m._tilt_error_disarm_threshold_ ∧ !ramping_up then
        if time_from_ctrl_tracker_switch > 1 then
          if !m.tilt_error_disarm_over_thr_ then
            { m with tilt_error_disarm_over_thr_ := true, tilt_error_disarm_time_ := env.now }
          else m
        else { m with tilt_error_disarm_over_thr_ := false, tilt_error_disarm_time_ := env.now }
      else { m with tilt_error_disarm_over_thr_ := false, tilt_error_disarm_time_ := env.now }
    let tot := env.now - m1.tilt_error_disarm_time_
    if m1.tilt_error_disarm_over_thr_ ∧ tot > m1._tilt_error_disarm_timeout_ then
      let is_flying : Bool := m1.offboard_mode_ && decide (active_tracker_idx ≠ m1._null_tracker_idx_)
      if is_flying then (arming env false (switchMotors env false m1)).2 else m1
    else m1
  else m

/-- Block "dropping out of OFFBOARD in mid flight" of `timerSafety`. -/
def safetyOffboardStage (env : Env K) (active_tracker_idx : Nat) (m : Manager K) : Manager K :=
  if m.offboard_mode_was_true_ ∧ !m.offboard_mode_ ∧ active_tracker_idx ≠ m._null_tracker_idx_ then
    switchMotors env false m
  else m

/-- The blocks of `timerSafety` that follow the failsafe block, in order. -/
def safetyTail (env : Env K) (control_error tilt_angle : K) (ramping_up : Bool)
    (active_tracker_idx : Nat) (m5 : Manager K) : Manager K :=
  let m6 := safetyInnovationStage env m5
  let m7 := safetyTiltStage env tilt_angle m6
  let m8 := safetyPositionStage env control_error m7
  let m9 := safetyYawStage env m8
  let m10 := safetyTiltDisarmStage env tilt_angle m9
  let m11 := safetyTiltErrorDisarmStage env ramping_up active_tracker_idx m10
  safetyOffboardStage env active_tracker_idx m11

/-- Block "eland and failsafe thresholds" of `timerSafety`: the thresholds of the
controller whose index was copied at the start of the timer. -/
def safetyThresholds (active_controller_idx : Nat) (m : Manager K) : Manager K :=
  let params := m.controllers_ (m._controller_names_.getD active_controller_idx "")
  { m with _eland_threshold_ := params.eland_threshold
           _failsafe_threshold_ := params.failsafe_threshold
           _odometry_innovation_threshold_ := params.odometry_innovation_threshold }

/-- Block "calculate control errors and tilt angle" of `timerSafety`, up to the
tilt and yaw errors; `uav_state` is the copy taken at the start of the timer. -/
def safetyErrors (env : Env K) (position_cmd : PositionCommand K) (uav_state : UavState K)
    (m1 : Manager K) : Manager K :=
  let m2 := { m1 with tilt_error_ := 0, yaw_error_ := 0 }
  let m3 := { m2 with position_error_x_ := position_cmd.position.x - uav_state.position.x
                      position_error_y_ := position_cmd.position.y - uav_state.position.y
                      position_error_z_ := position_cmd.position.z - uav_state.position.z }
  { m3 with tilt_error_ := env.tilt_error, yaw_error_ := env.yaw_error }

/-- Function `ControlManager::timerSafety`, one safety check. -/
def timerSafety (env : Env K) (m : Manager K) : Manager K :=
  if !m.is_initialized_ then m
  else
    let last_attitude_cmd := m.last_attitude_cmd_
    let last_position_cmd := m.last_position_cmd_
    let uav_state := m.uav_state_
    let active_controller_idx := m.active_controller_idx_
    let active_tracker_idx := m.active_tracker_idx_
    if !m.got_uav_state_
        ∨ (m._state_input_ = StateInput.INPUT_UAV_STATE ∧ m._odometry_innovation_check_enabled_
            ∧ !m.sh_odometry_innovation_hasMsg)
        ∨ !m.sh_pixhawk_odometry_hasMsg ∨ active_tracker_idx = m._null_tracker_idx_ then m
    else if m.odometry_switch_in_progress_ then m
    else
      let m1 := safetyThresholds active_controller_idx m
      match last_position_cmd, last_attitude_cmd with
      | some position_cmd, some attitude_cmd =>
        let m4 := safetyErrors env position_cmd uav_state m1
        let tilt_angle := env.tilt_angle
        let control_error := controlError env position_cmd m4.position_error_x_
          m4.position_error_y_ m4.position_error_z_
        let m5 := safetyFailsafeStage env control_error m4
        safetyTail env control_error tilt_angle attitude_cmd.ramping_up active_tracker_idx m5
      | _, _ => m1

/-- A sequence of safety checks, one `Env` per firing of the timer. -/
def timerSafetyRun : List (Env K) → Manager K → Manager K
  | [], m => m
  | env :: rest, m => timerSafetyRun rest (timerSafety env m)

/-- The number of calls of `failsafe()` recorded in a trace. -/
def countFailsafeCalls (log : List (Event K)) : Nat :=
  log.countP (fun e => match e with | Event.call_failsafe => true | _ => false)

/-- The number of calls of `eland()` recorded in a trace. -/
def countElandCalls (log : List (Event K)) : Nat :=
  log.countP (fun e => match e with | Event.call_eland => true | _ => false)

/-! ## Obstacle bumper -/

/-- Read `bumper_data->sectors[idx]`; an index outside the vector (undefined in
the source) reads 0. -/
def sectorAt (bumper_data : ObstacleSectors K) (idx : Int) : K :=
  if idx < 0 then 0 else bumper_data.sectors.getD idx.toNat 0

/-- Function `ControlManager::bumperGetSectorId`; `TAU` is the macro `2 * M_PI`. -/
def bumperGetSectorId (env : Env K) (bumper_data : ObstacleSectors K) (x y _z : K) : Int :=
  let TAU := 2 * env.libm.M_PI
  let point_heading_horizontal := env.libm.atan2 y x + TAU
  let point_heading_horizontal :=
    if |point_heading_horizontal| ≥ TAU then env.libm.fmod point_heading_horizontal TAU
    else point_heading_horizontal
  let sector_size := TAU / (bumper_data.n_horizontal_sectors : K)
  let idx := env.libm.floor ((point_heading_horizontal + sector_size / 2) / sector_size)
  if idx > (bumper_data.n_horizontal_sectors : Int) - 1 then
    idx - (bumper_data.n_horizontal_sectors : Int)
  else idx

/-- The two coordinate fixes of the hugging branch of `bumperValidatePoint`,
applied to the point in the `fcu_untilted` frame: the horizontal one moves the
point to distance `sector_h - bumper_horizontal_distance` along
`atan2(fcu_y, fcu_x)`, the vertical one to height
`±(sector_v - bumper_vertical_distance)`. -/
def hugPoint (env : Env K) (point_fcu : ReferenceStamped K)
    (sector_h sector_v bumper_horizontal_distance bumper_vertical_distance : K) :
    ReferenceStamped K :=
  let fcu_x := point_fcu.reference.position.x
  let fcu_y := point_fcu.reference.position.y
  let fcu_z := point_fcu.reference.position.z
  let horizontal_point_distance := env.libm.sqrt (fcu_x ^ 2 + fcu_y ^ 2)
  let vertical_point_distance := |fcu_z|
  let point_heading_horizontal := env.libm.atan2 fcu_y fcu_x
  let point_heading_vertical : K := if fcu_z > 0 then 1 else -1
  let new_x :=
    if sector_h > 0 ∧ horizontal_point_distance ≥ sector_h - bumper_horizontal_distance then
      env.libm.cos point_heading_horizontal * (sector_h - bumper_horizontal_distance)
    else fcu_x
  let new_y :=
    if sector_h > 0 ∧ horizontal_point_distance ≥ sector_h - bumper_horizontal_distance then
      env.libm.sin point_heading_horizontal * (sector_h - bumper_horizontal_distance)
    else fcu_y
  let new_z :=
    if sector_v > 0 ∧ vertical_point_distance ≥ sector_v - bumper_vertical_distance then
      point_heading_vertical * (sector_v - bumper_vertical_distance)
    else fcu_z
  { point_fcu with reference := { point_fcu.reference with position := ⟨new_x, new_y, new_z⟩ } }

/-- The bumper status messages published by the hugging branch of
`bumperValidatePoint`: one per coordinate fix. -/
def hugPublish (horizontal_point_distance vertical_point_distance
    sector_h sector_v bumper_horizontal_distance bumper_vertical_distance : K)
    (m : Manager K) : Manager K :=
  let m1 :=
    if sector_h > 0 ∧ horizontal_point_distance ≥ sector_h - bumper_horizontal_distance then
      m.record Event.publish_bumper_status
    else m
  if sector_v > 0 ∧ vertical_point_distance ≥ sector_v - bumper_vertical_distance then
    m1.record Event.publish_bumper_status
  else m1

/-- Function `ControlManager::bumperValidatePoint`.  The reference parameter
`point` is returned next to the verdict. -/
def bumperValidatePoint (env : Env K) (point : ReferenceStamped K) (m : Manager K) :
    (Bool × ReferenceStamped K) × Manager K :=
  if !m.bumper_enabled_ then ((true, point), m)
  else
    match m.sh_bumper_ with
    | none => ((true, point), m)
    | some bumper_data =>
      let bumper_vertical_distance := m.bumper_vertical_distance_
      let bumper_horizontal_distance := m.bumper_horizontal_distance_
      if env.now - m.sh_bumper_lastMsgTime > 1 then ((true, point), m)
      else
        match env.transformer_.transformSingle point "fcu_untilted" with
        | none => ((false, point), m)
        | some point_fcu =>
          let fcu_x := point_fcu.reference.position.x
          let fcu_y := point_fcu.reference.position.y
          let fcu_z := point_fcu.reference.position.z
          let horizontal_vector_idx := bumperGetSectorId env bumper_data fcu_x fcu_y fcu_z
          let vertical_vector_idx : Int :=
            if fcu_z < 0 then (bumper_data.n_horizontal_sectors : Int)
            else (bumper_data.n_horizontal_sectors : Int) + 1
          let horizontal_point_distance := env.libm.sqrt (fcu_x ^ 2 + fcu_y ^ 2)
          let vertical_point_distance := |fcu_z|
          let sector_h := sectorAt bumper_data horizontal_vector_idx
          let sector_v := sectorAt bumper_data vertical_vector_idx
          if sector_h = bumper_data.OBSTACLE_NO_DATA then ((false, point), m)
          else if sector_h = bumper_data.OBSTACLE_NOT_DETECTED
              ∧ sector_v = bumper_data.OBSTACLE_NOT_DETECTED then ((true, point), m)
          else if horizontal_point_distance ≤ sector_h - bumper_horizontal_distance
              ∧ (|fcu_z| ≤ 1 / 10 ∨ vertical_point_distance ≤ sector_v - bumper_vertical_distance) then
            ((true, point), m)
          else if horizontal_point_distance > 1 / 10
              ∧ (sector_h > 0 ∧ sector_h ≤ bumper_horizontal_distance) then
            ((false, point), m.record Event.publish_bumper_status)
          else if vertical_point_distance > 1 / 10
              ∧ (sector_v > 0 ∧ sector_v ≤ bumper_vertical_distance) then
            ((false, point), m.record Event.publish_bumper_status)
          else if m._bumper_hugging_enabled_ then
            let m2 := hugPublish horizontal_point_distance vertical_point_distance sector_h sector_v
              bumper_horizontal_distance bumper_vertical_distance m
            match env.transformer_.transformSingle
                (hugPoint env point_fcu sector_h sector_v bumper_horizontal_distance
                  bumper_vertical_distance) point.frame_id with
            | none => ((false, point), m2)
            | some back => ((true, back), m2)
          else ((false, point), m)

/-! ## Safety area -/

/-- Function `ControlManager::getMaxHeight`. -/
def getMaxHeight (m : Manager K) : K :=
  match m.sh_max_height_ with
  | some max_height_external =>
    if m._max_height_ > max_height_external then max_height_external else m._max_height_
  | none => m._max_height_

/-- Function `ControlManager::getMinHeight`. -/
def getMinHeight (env : Env K) (m : Manager K) : K :=
  if m.use_safety_area_ then m.min_height_ else env.libm.lowest

/-- Function `ControlManager::isPointInSafetyArea3d`. -/
def isPointInSafetyArea3d (env : Env K) (point : ReferenceStamped K) (m : Manager K) : Bool :=
  if !m.use_safety_area_ then true
  else
    let min_height := m.min_height_
    match env.transformer_.transformSingle point m._safety_area_frame_ with
    | none => false
    | some point_transformed =>
      if m.safety_zone_.isPointValid3d point_transformed.reference.position.x
            point_transformed.reference.position.y point_transformed.reference.position.z
          ∧ point_transformed.reference.position.z ≥ min_height
          ∧ point_transformed.reference.position.z ≤ getMaxHeight m then true
      else false

/-- Function `ControlManager::isPointInSafetyArea2d`. -/
def isPointInSafetyArea2d (env : Env K) (point : ReferenceStamped K) (m : Manager K) : Bool :=
  if !m.use_safety_area_ then true
  else
    match env.transformer_.transformSingle point m._safety_area_frame_ with
    | none => false
    | some point_transformed =>
      m.safety_zone_.isPointValid2d point_transformed.reference.position.x
        point_transformed.reference.position.y

/-- Function `ControlManager::isPathToPointInSafetyArea3d`. -/
def isPathToPointInSafetyArea3d (env : Env K) (start stop : ReferenceStamped K)
    (m : Manager K) : Bool :=
  if !m.use_safety_area_ then true
  else
    match env.transformer_.transformSingle start m._safety_area_frame_ with
    | none => false
    | some start_transformed =>
      match env.transformer_.transformSingle stop m._safety_area_frame_ with
      | none => false
      | some end_transformed =>
        m.safety_zone_.isPathValid3d start_transformed.reference.position.x
          start_transformed.reference.position.y start_transformed.reference.position.z
          end_transformed.reference.position.x end_transformed.reference.position.y
          end_transformed.reference.position.z

/-- Function `ControlManager::isPathToPointInSafetyArea2d`. -/
def isPathToPointInSafetyArea2d (env : Env K) (start stop : ReferenceStamped K)
    (m : Manager K) : Bool :=
  if !m.use_safety_area_ then true
  else
    match env.transformer_.transformSingle start m._safety_area_frame_ with
    | none => false
    | some start_transformed =>
      match env.transformer_.transformSingle stop m._safety_area_frame_ with
      | none => false
      | some end_transformed =>
        m.safety_zone_.isPathValid2d start_transformed.reference.position.x
          start_transformed.reference.position.y end_transformed.reference.position.x
          end_transformed.reference.position.y

/-! ## Reference gate

The arguments of the functions below are taken to be finite: the NaN/inf
rejections at the head of each of them are left out. -/

/-- The `from_point` built from the last position command (position only, the
heading stays value-initialised). -/
def fromPoint (frame_id : String) (cmd : PositionCommand K) : ReferenceStamped K :=
  { frame_id := frame_id
    reference := { position := ⟨cmd.position.x, cmd.position.y, cmd.position.z⟩, heading := 0 } }

/-- Function `ControlManager::setReference`. -/
def setReference (env : Env K) (reference_in : ReferenceStamped K) (m : Manager K) :
    (Bool × String) × Manager K :=
  if !m.callbacks_enabled_ then
    ((false, "can not set the reference, the callbacks are disabled"), m)
  else
    let uav_state := m.uav_state_
    let last_position_cmd := m.last_position_cmd_
    match env.transformer_.transformSingle reference_in uav_state.frame_id with
    | none => ((false, "the reference could not be transformed"), m)
    | some ret =>
      let ((valid, transformed_reference), m1) := bumperValidatePoint env ret m
      if !valid then
        ((false, "failed to set the reference, potential collision with an obstacle!"), m1)
      else if !isPointInSafetyArea3d env transformed_reference m1 then
        ((false, "failed to set the reference, the point is outside of the safety area!"), m1)
      else if (match last_position_cmd with
          | some cmd =>
            !isPathToPointInSafetyArea3d env (fromPoint uav_state.frame_id cmd)
              transformed_reference m1
          | none => false) then
        ((false, "failed to set the reference, the path is going outside the safety area!"), m1)
      else
        let tracker_response := env.tracker_setReference m1.log.length m1.active_tracker_idx_
        let m2 := m1.record
          (Event.tracker_setReference m1.active_tracker_idx_ transformed_reference.reference)
        match tracker_response with
        | some (success, message) => ((success, message), m2)
        | none =>
          ((false, "the tracker '" ++ m2._tracker_names_.getD m2.active_tracker_idx_ ""
              ++ "' does not implement the 'setReference()' function!"), m2)

/-- Function `ControlManager::callbackValidateReference`; the result is
`(res.success, res.message)`. -/
def callbackValidateReference (env : Env K) (req : ReferenceStamped K) (m : Manager K) :
    (Bool × String) × Manager K :=
  if !m.is_initialized_ then ((false, "not initialized"), m)
  else
    let uav_state := m.uav_state_
    let last_position_cmd := m.last_position_cmd_
    match env.transformer_.transformSingle req uav_state.frame_id with
    | none => ((false, "the reference could not be transformed"), m)
    | some ret =>
      let ((valid, transformed_reference), m1) := bumperValidatePoint env ret m
      if !valid then ((false, "potential collision with an obstacle"), m1)
      else if !isPointInSafetyArea3d env transformed_reference m1 then
        ((false, "the point is outside of the safety area"), m1)
      else if (match last_position_cmd with
          | some cmd =>
            !isPathToPointInSafetyArea3d env (fromPoint uav_state.frame_id cmd)
              transformed_reference m1
          | none => false) then
        ((false, "the path is going outside the safety area"), m1)
      else ((true, "the reference is ok"), m1)

/-- Function `ControlManager::callbackValidateReference2d`; the result is
`(res.success, res.message)`. -/
def callbackValidateReference2d (env : Env K) (req : ReferenceStamped K) (m : Manager K) :
    (Bool × String) × Manager K :=
  if !m.is_initialized_ then ((false, "not initialized"), m)
  else
    let uav_state := m.uav_state_
    let last_position_cmd := m.last_position_cmd_
    match env.transformer_.transformSingle req uav_state.frame_id with
    | none => ((false, "the reference could not be transformed"), m)
    | some ret =>
      let ((valid, transformed_reference), m1) := bumperValidatePoint env ret m
      if !valid then ((false, "potential collision with an obstacle"), m1)
      else if !isPointInSafetyArea2d env transformed_reference m1 then
        ((false, "the point is outside of the safety area"), m1)
      else if (match last_position_cmd with
          | some cmd =>
            !isPathToPointInSafetyArea2d env (fromPoint uav_state.frame_id cmd)
              transformed_reference m1
          | none => false) then
        ((false, "the path is going outside the safety area"), m1)
      else ((true, "the reference is ok"), m1)

/-! ## Trajectory gate -/

/-- The six values returned by `setTrajectoryReference`. -/
structure TrajectoryResult where
  success : Bool
  message : String
  modified : Bool
  tracker_names : List String
  tracker_successes : List Bool
  tracker_messages : List String

/-- Every early `return std::tuple(false, ss.str(), false, {}, {}, {})`. -/
def TrajectoryResult.failure (message : String) : TrajectoryResult :=
  { success := false, message := message, modified := false, tracker_names := [],
    tracker_successes := [], tracker_messages := [] }

/-- Read `points[j]`; an index outside the vector (undefined in the source) reads
the value-initialised point. -/
def pointAt (points : List (Reference K)) (j : Nat) : Reference K :=
  points.getD j { position := ⟨0, 0, 0⟩, heading := 0 }

/-- The bumper loop of `setTrajectoryReference`: the points kept (possibly
hugged), and whether the loop stopped at a point the bumper rejects. -/
def bumperTrajectory (env : Env K) (frame_id : String) :
    List (Reference K) → Manager K → (List (Reference K) × Bool) × Manager K
  | [], m => (([], false), m)
  | p :: rest, m =>
    let ((valid, des_reference), m1) := bumperValidatePoint env ⟨frame_id, p⟩ m
    if !valid then (([], true), m1)
    else
      let ((kept, shortened), m2) := bumperTrajectory env frame_id rest m1
      ((des_reference.reference :: kept, shortened), m2)

/-- Block "bumper check" of `setTrajectoryReference`: the points kept,
`trajectory_modified`, and the state with the bumper status messages recorded. -/
def trajectoryBumperCheck (env : Env K) (trajectory_in : TrajectoryReference K)
    (m : Manager K) : (List (Reference K) × Bool) × Manager K :=
  if m.bumper_enabled_ then
    bumperTrajectory env trajectory_in.frame_id trajectory_in.points m
  else ((trajectory_in.points, false), m)

/-- The loop `for i: transformer_->transform(points[i], tf)`; `none` when one
point can not be transformed. -/
def transformPoints (env : Env K) (frame_id : String) (tf : TransformStamped) :
    List (Reference K) → Option (List (Reference K))
  | [] => some []
  | p :: rest =>
    match env.transformer_.transform ⟨frame_id, p⟩ tf with
    | none => none
    | some q =>
      match transformPoints env frame_id tf rest with
      | none => none
      | some qs => some (q.reference :: qs)

/-- The local variables of the safety-area loop of `setTrajectoryReference`. -/
structure SafetyLoopState (K : Type) where
  points : List (Reference K)
  last_valid_idx : Int
  first_invalid_idx : Int
  trajectory_modified : Bool

/-- How one iteration of a loop ends: fall through to the next index, `break`,
or `return` of the failure tuple. -/
inductive LoopStep (α : Type)
  | next (s : α)
  | stop (s : α)
  | reject

/-- The `temp_point` of the interpolation loop at index `j`: on the ray from
`points[last_valid_idx]` (here `origin`) at `(j - last_valid_idx) * step`; height
and heading stay value-initialised. -/
def interpolationPoint (env : Env K) (frame_id : String) (origin : Reference K)
    (last_valid_idx j : Nat) (angle step : K) : ReferenceStamped K :=
  { frame_id := frame_id
    reference :=
      { position :=
          ⟨origin.position.x + ((j : K) - (last_valid_idx : K)) * env.libm.cos angle * step,
            origin.position.y + ((j : K) - (last_valid_idx : K)) * env.libm.sin angle * step, 0⟩
        heading := 0 } }

/-- The two assignments `points[j].position.x = temp_point.reference.position.x`
and `points[j].position.y = temp_point.reference.position.y`: the point `p` with
the horizontal coordinates of `temp_point`. -/
def snapTo (p : Reference K) (temp_point : ReferenceStamped K) : Reference K :=
  { p with position := { p.position with
      x := temp_point.reference.position.x, y := temp_point.reference.position.y } }

/-- The interpolation loop `for (j = last_valid_idx; j < i; j++)` over the indices
`js`: `interpolation_success`, and the points after the loop. -/
def interpolate (env : Env K) (m : Manager K) (frame_id : String) (last_valid_idx : Nat)
    (angle step : K) : List Nat → List (Reference K) → Bool × List (Reference K)
  | [], points => (true, points)
  | j :: rest, points =>
    let temp_point := interpolationPoint env frame_id (pointAt points last_valid_idx)
      last_valid_idx j angle step
    if !isPointInSafetyArea2d env temp_point m then (false, points)
    else
      interpolate env m frame_id last_valid_idx angle step rest
        (points.set j (snapTo (pointAt points j) temp_point))

/-- The height saturation at the head of the safety-area loop body. -/
def saturateHeight (m : Manager K) (min_height max_height : K) (i : Nat)
    (st : SafetyLoopState K) : SafetyLoopState K :=
  if m._snap_trajectory_to_safety_area_ then
    let p := pointAt st.points i
    let st1 :=
      if p.position.z < min_height then
        { st with points := st.points.set i { p with position := { p.position with z := min_height } }
                  trajectory_modified := true }
      else st
    let q := pointAt st1.points i
    if q.position.z > max_height then
      { st1 with points := st1.points.set i { q with position := { q.position with z := max_height } }
                 trajectory_modified := true }
    else st1
  else st

/-- The body of the safety-area loop of `setTrajectoryReference` at index `i`. -/
def safetyAreaStep (env : Env K) (m : Manager K) (frame_id : String) (min_height max_height : K)
    (i : Nat) (st0 : SafetyLoopState K) : LoopStep (SafetyLoopState K) :=
  let st := saturateHeight m min_height max_height i st0
  let des_reference : ReferenceStamped K := ⟨frame_id, pointAt st.points i⟩
  if !isPointInSafetyArea3d env des_reference m then
    let st1 := { st with trajectory_modified := true }
    if st1.first_invalid_idx = -1 then
      LoopStep.next { st1 with first_invalid_idx := (i : Int), last_valid_idx := (i : Int) - 1 }
    else LoopStep.next st1
  else if st.first_invalid_idx ≠ -1 then
    if st.last_valid_idx = -1 then LoopStep.reject
    else if !m._snap_trajectory_to_safety_area_ then LoopStep.stop st
    else
      let lv := st.last_valid_idx.toNat
      let pi := pointAt st.points i
      let pl := pointAt st.points lv
      let angle := env.libm.atan2 (pi.position.y - pl.position.y) (pi.position.x - pl.position.x)
      let dist_two_points := env.libm.sqrt
        ((pi.position.x - pl.position.x) ^ 2 + (pi.position.y - pl.position.y) ^ 2)
      let step := dist_two_points / (((i : Int) - st.last_valid_idx : Int) : K)
      let (interpolation_success, points) :=
        interpolate env m frame_id lv angle step (List.range' lv (i - lv)) st.points
      if !interpolation_success then LoopStep.stop { st with points := points }
      else LoopStep.next { st with points := points, first_invalid_idx := -1 }
  else LoopStep.next st

/-- The safety-area loop `for (i = ...; i < trajectory_size; i++)` with `n`
iterations left from index `i`; `none` is the `return` of the failure tuple
("the trajectory starts outside of the safety area!"). -/
def safetyAreaLoop (env : Env K) (m : Manager K) (frame_id : String) (min_height max_height : K) :
    Nat → Nat → SafetyLoopState K → Option (SafetyLoopState K)
  | 0, _, st => some st
  | n + 1, i, st =>
    match safetyAreaStep env m frame_id min_height max_height i st with
    | LoopStep.next st1 => safetyAreaLoop env m frame_id min_height max_height n (i + 1) st1
    | LoopStep.stop st1 => some st1
    | LoopStep.reject => none

/-- The loop that hands the trajectory to the trackers other than the active one. -/
def fanOutTrajectory (env : Env K) (request : TrajectoryReference K) :
    List Nat → Manager K → (List String × List Bool × List String) × Manager K
  | [], m => (([], [], []), m)
  | i :: rest, m =>
    if i ≠ m.active_tracker_idx_ then
      let response := env.tracker_setTrajectoryReference m.log.length i
      let m1 := m.record (Event.tracker_setTrajectoryReference i request)
      let ((names, successes, messages), m2) := fanOutTrajectory env request rest m1
      match response with
      | some (success, message, _) =>
        ((m._tracker_names_.getD i "" :: names, success :: successes, message :: messages), m2)
      | none =>
        ((m._tracker_names_.getD i "" :: names, false :: successes,
          ("the tracker \"" ++ m._tracker_names_.getD i ""
            ++ "\" does not implement setTrajectoryReference()") :: messages), m2)
    else fanOutTrajectory env request rest m

/-- Block "transform the trajectory to the safety area frame" of
`setTrajectoryReference`: the points and the frame of the header afterwards, or
the message of the failure tuple. -/
def trajectoryToSafetyAreaFrame (env : Env K) (m : Manager K) (frame_id : String)
    (points : List (Reference K)) : Except String (List (Reference K) × String) :=
  if m.use_safety_area_ then
    match env.transformer_.getTransform frame_id m._safety_area_frame_ with
    | none =>
      Except.error
        "could not create TF transformer from the trajectory frame to the safety area frame"
    | some tf =>
      match transformPoints env frame_id tf points with
      | none => Except.error "the trajectory can not be transformed to the safety area frame"
      | some transformed => Except.ok (transformed, env.transformer_.frame_to tf)
  else Except.ok (points, frame_id)

/-- Block "safety area check" of `setTrajectoryReference`: the points and
`trajectory_modified` afterwards, or the message of the failure tuple. -/
def trajectorySafetyAreaCheck (env : Env K) (m : Manager K) (frame_id : String)
    (points : List (Reference K)) (trajectory_modified : Bool) :
    Except String (List (Reference K) × Bool) :=
  if m.use_safety_area_ then
    let uav_state := m.uav_state_
    let x_current_frame : Option (ReferenceStamped K) :=
      match m.last_position_cmd_ with
      | some cmd => some (fromPoint uav_state.frame_id cmd)
      | none =>
        if m.got_uav_state_ then
          some { frame_id := uav_state.frame_id
                 reference := { position := uav_state.position, heading := 0 } }
        else none
    match x_current_frame with
    | none => Except.error "cannot check agains safety area, missing odometry"
    | some x =>
      match env.transformer_.transformSingle x m._safety_area_frame_ with
      | none => Except.error "could not transform current state to safety area frame!"
      | some _ =>
        let min_height := getMinHeight env m
        let max_height := getMaxHeight m
        match safetyAreaLoop env m frame_id min_height max_height points.length 0
            { points := points, last_valid_idx := 0, first_invalid_idx := -1,
              trajectory_modified := trajectory_modified } with
        | none => Except.error "the trajectory starts outside of the safety area!"
        | some st =>
          if st.first_invalid_idx ≠ -1 then
            if st.first_invalid_idx = 0 then
              Except.error "the whole trajectory is outside of the safety area!"
            else Except.ok (st.points.take (st.last_valid_idx + 1).toNat, true)
          else Except.ok (st.points, st.trajectory_modified)
  else Except.ok (points, trajectory_modified)

/-- Block "transform the trajectory to the current control frame" of
`setTrajectoryReference`. -/
def trajectoryToControlFrame (env : Env K) (frame_id : String) (points : List (Reference K)) :
    Except String (List (Reference K) × String) :=
  match env.transformer_.getTransform frame_id "" with
  | none => Except.error "could not create TF transformer for the trajectory"
  | some tf =>
    let frame := env.transformer_.frame_to tf
    match transformPoints env frame tf points with
    | none => Except.error "trajectory cannnot be transformed"
    | some transformed => Except.ok (transformed, frame)

/-- The tail of `setTrajectoryReference`: the processed trajectory goes to the
active tracker, then to every other tracker. -/
def sendTrajectory (env : Env K) (request : TrajectoryReference K) (trajectory_modified : Bool)
    (m : Manager K) : TrajectoryResult × Manager K :=
  let response := env.tracker_setTrajectoryReference m.log.length m.active_tracker_idx_
  let m1 := m.record (Event.tracker_setTrajectoryReference m.active_tracker_idx_ request)
  let active_name := m1._tracker_names_.getD m1.active_tracker_idx_ ""
  let (success, message, modified) : Bool × String × Bool :=
    match response with
    | some (success, message, modified) => (success, message, modified || trajectory_modified)
    | none =>
      (false, "the active tracker '" ++ active_name
        ++ "' does not implement the 'setTrajectoryReference()' function!", false)
  let ((names, successes, messages), m2) :=
    fanOutTrajectory env request (List.range m1._tracker_names_.length) m1
  ({ success := success, message := message, modified := modified,
     tracker_names := active_name :: names, tracker_successes := success :: successes,
     tracker_messages := message :: messages }, m2)

/-- The NaN/inf check of one point at the head of `setTrajectoryReference`:
`no_nans` after the four tests. -/
def pointFinite (env : Env K) (p : Reference K) : Bool :=
  env.libm.isfinite p.position.x && env.libm.isfinite p.position.y
    && env.libm.isfinite p.position.z && env.libm.isfinite p.heading

/-- Function `ControlManager::setTrajectoryReference` (the debugging topics of
the original trajectory, which feed nothing back, are left out). -/
def setTrajectoryReference (env : Env K) (trajectory_in : TrajectoryReference K)
    (m : Manager K) : TrajectoryResult × Manager K :=
  if !m.callbacks_enabled_ then
    (TrajectoryResult.failure "can not set the reference, the callbacks are disabled", m)
  else if trajectory_in.points.length = 0 then
    (TrajectoryResult.failure "can not load trajectory with size 0", m)
  else if !trajectory_in.points.all (pointFinite env) then
    (TrajectoryResult.failure "trajectory contains NaNs/infs.", m)
  else
    let ((points1, shortened), m1) := trajectoryBumperCheck env trajectory_in m
    if points1.length = 0 then
      (TrajectoryResult.failure "the whole trajectory violates bumper, can not execute it!", m1)
    else
      match trajectoryToSafetyAreaFrame env m1 trajectory_in.frame_id points1 with
      | Except.error message => (TrajectoryResult.failure message, m1)
      | Except.ok (points2, frame2) =>
        match trajectorySafetyAreaCheck env m1 frame2 points2 shortened with
        | Except.error message => (TrajectoryResult.failure message, m1)
        | Except.ok (points3, trajectory_modified) =>
          if points3.length = 0 then
            (TrajectoryResult.failure
              "the trajectory somehow happened to be empty after all the checks! This message should not appear!",
              m1)
          else
            match trajectoryToControlFrame env frame2 points3 with
            | Except.error message => (TrajectoryResult.failure message, m1)
            | Except.ok (points4, frame4) =>
              if points4.length = 0 then
                (TrajectoryResult.failure
                  "reference trajectory was processing and it is now empty, this should not happen!",
                  m1)
              else
                sendTrajectory env { trajectory_in with frame_id := frame4, points := points4 }
                  trajectory_modified m1

/-! ## Control output

Of `publish` the part under "Publish the control command" is embedded; the
debugging topics (command odometry, twist, attitude command, thrust force) feed
nothing back and are left out. -/

/-- Function `ControlManager::validateMavrosAttitudeTarget`. -/
def validateMavrosAttitudeTarget (env : Env K) (attitude_target : AttitudeTarget K) : Bool :=
  if !env.libm.isfinite attitude_target.orientation.x then false
  else if !env.libm.isfinite attitude_target.orientation.y then false
  else if !env.libm.isfinite attitude_target.orientation.z then false
  else if !env.libm.isfinite attitude_target.orientation.w then false
  else if !env.libm.isfinite attitude_target.body_rate.x then false
  else if !env.libm.isfinite attitude_target.body_rate.y then false
  else if !env.libm.isfinite attitude_target.body_rate.z then false
  else if !env.libm.isfinite attitude_target.thrust then false
  else true

/-- The `if (!motors_) ... else if ...` chain of `publish`: `should_publish` and
the `attitude_target` built. -/
def controlCommand (env : Env K) (m : Manager K) : Bool × AttitudeTarget K :=
  let last_attitude_cmd := m.last_attitude_cmd_
  let active_tracker_idx := m.active_tracker_idx_
  let uav_state := m.uav_state_
  let attitude_target : AttitudeTarget K :=
    { stamp := env.now, frame_id := "base_link", type_mask := 0, orientation := ⟨0, 0, 0, 0⟩,
      body_rate := ⟨0, 0, 0⟩, thrust := 0 }
  if !m.motors_ then (false, attitude_target)
  else if active_tracker_idx = m._null_tracker_idx_ then
    (true, { attitude_target with
      orientation := uav_state.orientation
      body_rate := ⟨0, 0, 0⟩
      type_mask := env.msg.IGNORE_ATTITUDE
      thrust := m._min_thrust_null_tracker_ })
  else
    match last_attitude_cmd with
    | none =>
      (true, { attitude_target with
        orientation := uav_state.orientation
        body_rate := ⟨0, 0, 0⟩
        type_mask := env.msg.IGNORE_ATTITUDE
        thrust := m._min_thrust_null_tracker_ })
    | some cmd =>
      let attitude_target := { attitude_target with thrust := cmd.thrust }
      if cmd.mode_mask = env.msg.MODE_ATTITUDE then
        (true, { attitude_target with
          orientation := cmd.attitude
          body_rate := ⟨0, 0, 0⟩
          type_mask := env.msg.IGNORE_YAW_RATE ||| env.msg.IGNORE_ROLL_RATE
            ||| env.msg.IGNORE_PITCH_RATE })
      else if cmd.mode_mask = env.msg.MODE_ATTITUDE_RATE then
        (true, { attitude_target with
          body_rate := ⟨cmd.attitude_rate.x, cmd.attitude_rate.y, cmd.attitude_rate.z⟩
          orientation := cmd.attitude
          type_mask := env.msg.IGNORE_ATTITUDE })
      else (true, attitude_target)

/-- Function `ControlManager::publish`. -/
def publish (env : Env K) (m : Manager K) : Manager K :=
  let (should_publish, attitude_target) := controlCommand env m
  if should_publish then
    if !validateMavrosAttitudeTarget env attitude_target then m
    else m.record (Event.publish_control_output attitude_target)
  else m

/-! ## The control cycle -/

/-- Function `ControlManager::validatePositionCommand`. -/
def validatePositionCommand (env : Env K) (position_command : PositionCommand K) : Bool :=
  if !env.libm.isfinite position_command.position.x then false
  else if !env.libm.isfinite position_command.position.y then false
  else if !env.libm.isfinite position_command.position.z then false
  else if !env.libm.isfinite position_command.velocity.x then false
  else if !env.libm.isfinite position_command.velocity.y then false
  else if !env.libm.isfinite position_command.velocity.z then false
  else if !env.libm.isfinite position_command.acceleration.x then false
  else if !env.libm.isfinite position_command.acceleration.y then false
  else if !env.libm.isfinite position_command.acceleration.z then false
  else if !env.libm.isfinite position_command.jerk.x then false
  else if !env.libm.isfinite position_command.jerk.y then false
  else if !env.libm.isfinite position_command.jerk.z then false
  else if !env.libm.isfinite position_command.snap.x then false
  else if !env.libm.isfinite position_command.snap.y then false
  else if !env.libm.isfinite position_command.snap.z then false
  else if !env.libm.isfinite position_command.attitude_rate.x then false
  else if !env.libm.isfinite position_command.attitude_rate.y then false
  else if !env.libm.isfinite position_command.attitude_rate.z then false
  else if !env.libm.isfinite position_command.heading then false
  else if !env.libm.isfinite position_command.heading_rate then false
  else if !env.libm.isfinite position_command.thrust then false
  else true

/-- Function `ControlManager::validateAttitudeCommand`. -/
def validateAttitudeCommand (env : Env K) (attitude_command : AttitudeCommand K) : Bool :=
  if !env.libm.isfinite attitude_command.attitude.x then false
  else if !env.libm.isfinite attitude_command.attitude.y then false
  else if !env.libm.isfinite attitude_command.attitude.z then false
  else if !env.libm.isfinite attitude_command.attitude_rate.x then false
  else if !env.libm.isfinite attitude_command.attitude_rate.y then false
  else if !env.libm.isfinite attitude_command.attitude_rate.z then false
  else if !env.libm.isfinite attitude_command.desired_acceleration.x then false
  else if !env.libm.isfinite attitude_command.desired_acceleration.y then false
  else if !env.libm.isfinite attitude_command.desired_acceleration.z then false
  else if !env.libm.isfinite attitude_command.horizontal_speed_constraint then false
  else if !env.libm.isfinite attitude_command.horizontal_acc_constraint then false
  else if !env.libm.isfinite attitude_command.vertical_asc_speed_constraint then false
  else if !env.libm.isfinite attitude_command.vertical_asc_acc_constraint then false
  else if !env.libm.isfinite attitude_command.vertical_desc_speed_constraint then false
  else if !env.libm.isfinite attitude_command.vertical_desc_acc_constraint then false
  else true

/-- The loop `for i: tracker_list_[i]->update(...)` of `updateTrackers` over the
indices `idxs`: `tracker_output_cmd` and the state afterwards.  An exception in
any tracker calls `eland()`; `active_tracker_idx` is the copy taken at the head
of the function. -/
def updateTrackersLoop (env : Env K) (active_tracker_idx : Nat) :
    List Nat → Option (PositionCommand K) → Manager K → Option (PositionCommand K) × Manager K
  | [], tracker_output_cmd, m => (tracker_output_cmd, m)
  | i :: rest, tracker_output_cmd, m =>
    let res := env.tracker_update m.log.length i
    let m1 := m.record (Event.tracker_update i)
    match res with
    | none => updateTrackersLoop env active_tracker_idx rest tracker_output_cmd (eland env m1).2
    | some cmd =>
      if i = active_tracker_idx then updateTrackersLoop env active_tracker_idx rest cmd m1
      else updateTrackersLoop env active_tracker_idx rest tracker_output_cmd m1

/-- Function `ControlManager::updateTrackers`; `ELAND_STR` is `"eland"`,
`EHOVER_STR` is `"ehover"`. -/
def updateTrackers (env : Env K) (m : Manager K) : Manager K :=
  let active_tracker_idx := m.active_tracker_idx_
  let (tracker_output_cmd, m1) := updateTrackersLoop env active_tracker_idx
    (List.range m._tracker_names_.length) none m
  if (match tracker_output_cmd with
      | some cmd => validatePositionCommand env cmd
      | none => false) then
    { m1 with last_position_cmd_ := tracker_output_cmd }
  else if active_tracker_idx ≠ m1._null_tracker_idx_ then
    if active_tracker_idx = m1._ehover_tracker_idx_ then (failsafe env m1).2
    else if m1._tracker_error_action_ = "eland" then (eland env m1).2
    else if m1._tracker_error_action_ = "ehover" then (ehover env m1).2
    else (failsafe env m1).2
  else { m1 with last_position_cmd_ := tracker_output_cmd }

/-- The loop `for i: controller_list_[i]->update(...)` of `updateControllers`
(the branch with a position command) over the indices `idxs`:
`controller_output_cmd` and the state afterwards; `active_controller_idx` is the
copy taken at the head of the function. -/
def updateControllersLoop (env : Env K) (active_controller_idx : Nat) :
    List Nat → Option (AttitudeCommand K) → Manager K → Option (AttitudeCommand K) × Manager K
  | [], controller_output_cmd, m => (controller_output_cmd, m)
  | i :: rest, controller_output_cmd, m =>
    let res := env.controller_update m.log.length i
    let m1 := m.record (Event.controller_update i)
    if i = active_controller_idx then
      match res with
      | some cmd => updateControllersLoop env active_controller_idx rest cmd m1
      | none =>
        if m1.eland_triggered_ then
          updateControllersLoop env active_controller_idx rest controller_output_cmd
            (failsafe env m1).2
        else
          updateControllersLoop env active_controller_idx rest controller_output_cmd
            (eland env m1).2
    else
      match res with
      | some _ => updateControllersLoop env active_controller_idx rest controller_output_cmd m1
      | none =>
        updateControllersLoop env active_controller_idx rest controller_output_cmd
          (eland env m1).2

/-- Function `ControlManager::updateControllers`.  Without a position command
the controllers are updated outside any `try` and their answers are dropped. -/
def updateControllers (env : Env K) (uav_state_for_control : UavState K) (m : Manager K) :
    Manager K :=
  let last_position_cmd := m.last_position_cmd_
  let active_controller_idx := m.active_controller_idx_
  match last_position_cmd with
  | none =>
    let output_command : AttitudeCommand K :=
      { (AttitudeCommand.zero : AttitudeCommand K) with
        total_mass := m._uav_mass_
        mass_difference := 0
        disturbance_bx_b := m._initial_body_disturbance_x_
        disturbance_by_b := m._initial_body_disturbance_y_
        disturbance_wx_w := 0
        disturbance_wy_w := 0
        disturbance_bx_w := 0
        disturbance_by_w := 0
        thrust := m._min_thrust_null_tracker_
        controller := "none" }
    let m1 := { m with last_attitude_cmd_ := some output_command }
    (List.range m1._controller_names_.length).foldl
      (fun s i => s.record (Event.controller_update i)) m1
  | some _ =>
    let (controller_output_cmd, m1) := updateControllersLoop env active_controller_idx
      (List.range m._controller_names_.length) none m
    if (match controller_output_cmd with
        | some cmd => validateAttitudeCommand env cmd
        | none => false) then
      { m1 with last_attitude_cmd_ := controller_output_cmd }
    else
      let controller_status := env.controller_active m1.log.length active_controller_idx
      if controller_status then
        if m1.active_controller_idx_ = m1._eland_controller_idx_ then (failsafe env m1).2
        else (eland env m1).2
      else m1

/-- The state with `call` appended to the calls made by the control cycle. -/
def Manager.calling (m : Manager K) (call : ControlCall) : Manager K :=
  { m with control_calls := m.control_calls ++ [call] }

/-- Block `if (got_constraints_) { ... }` of `asyncControl`;
`sanitized_constraints` is the copy taken at the head of the function. -/
def reconcileConstraints (sanitized_constraints : DynamicsConstraints K) (m : Manager K) :
    Manager K :=
  if m.got_constraints_ then
    let m1 := m.calling ControlCall.enforceControllersConstraints
    let (enforce, constraints) := enforceControllersConstraints m1 sanitized_constraints
    if enforce then
      let m2 := setConstraints (m1.calling ControlCall.setConstraints)
      { m2 with sanitized_constraints_ := constraints }
    else m1
  else m

/-- The three calls `timerSafety(...)`, `updateTrackers()` and
`updateControllers(uav_state)` of `asyncControl`: the state in which the cycle
reaches its `if (got_constraints_)`. -/
def controlUpdates (env : Env K) (uav_state : UavState K) (m : Manager K) : Manager K :=
  let m1 := timerSafety env (m.calling ControlCall.timerSafety)
  let m2 := updateTrackers env (m1.calling ControlCall.updateTrackers)
  updateControllers env uav_state (m2.calling ControlCall.updateControllers)

/-- Function `ControlManager::asyncControl`, one control cycle.  Each call of a
member function is noted in `control_calls` right before it is made; the wait
for a running safety timer and the restart of the safety timer are left out. -/
def asyncControl (env : Env K) (m : Manager K) : Manager K :=
  if !m.is_initialized_ then m
  else
    let uav_state := m.uav_state_
    let sanitized_constraints := m.sanitized_constraints_
    let m5 :=
      if !m.failsafe_triggered_ then
        let m3 := controlUpdates env uav_state m
        let m4 := reconcileConstraints sanitized_constraints m3
        publish env (m4.calling ControlCall.publish)
      else m
    if m5.odometry_switch_in_progress_ then { m5 with odometry_switch_in_progress_ := false }
    else m5

/-! ## The landing timers -/

/-- The block "condition for automatic motor turn off" shared by `timerEland` and
`timerFailsafe`: `under` is the value of the condition of the `if`. -/
def thrustUnderThreshold (env : Env K) (under : Bool) (m : Manager K) : Manager K :=
  if under then
    if !m.thrust_under_threshold_ then
      { m with thrust_mass_estimate_first_time_ := env.now, thrust_under_threshold_ := true }
    else m
  else { m with thrust_mass_estimate_first_time_ := env.now, thrust_under_threshold_ := false }

/-- The body of the last `if` of `timerEland`: motors off, optional disarm,
shutdown, back to the idle state, the eland timer stopped. -/
def elandCutoff (env : Env K) (m : Manager K) : Manager K :=
  let m1 := switchMotors env false m
  let m2 := if m1._eland_disarm_enabled_ then (arming env false m1).2 else m1
  let m3 := shutdown m2
  let m4 := changeLandingState LandingStates_t.IDLE_STATE m3
  { m4 with timer_eland_running := false }

/-- The `LANDING_STATE` branch of `timerEland` up to the cutoff test: the mass
estimate from the thrust of the attitude command `cmd`, then the block
"condition for automatic motor turn off". -/
def landingEstimate (env : Env K) (cmd : AttitudeCommand K) (m : Manager K) : Manager K :=
  let m1 := { m with thrust_mass_estimate_ := env.thrustToForce cmd.thrust / m.g }
  thrustUnderThreshold env
    (decide (m1.thrust_mass_estimate_ < m1._elanding_cutoff_mass_factor_ * m1.landing_uav_mass_
      ∨ cmd.thrust < 1 / 100)) m1

/-- Function `ControlManager::timerEland`, one evaluation. -/
def timerEland (env : Env K) (m : Manager K) : Manager K :=
  if !m.is_initialized_ then m
  else
    let last_attitude_cmd := m.last_attitude_cmd_
    match m.current_state_landing_ with
    | LandingStates_t.IDLE_STATE => m
    | LandingStates_t.LANDING_STATE =>
      match last_attitude_cmd with
      | none => m
      | some cmd =>
        let m2 := landingEstimate env cmd m
        if m2.thrust_under_threshold_
            ∧ env.now - m2.thrust_mass_estimate_first_time_ > m2._elanding_cutoff_timeout_ then
          elandCutoff env m2
        else m2

/-- Function `ControlManager::timerFailsafe`, one evaluation.  The null test is
made on the copy of the attitude command taken at the head, the thrust is read
from the member; the thrust mass estimate is a local variable here. -/
def timerFailsafe (env : Env K) (m : Manager K) : Manager K :=
  if !m.is_initialized_ then m
  else
    let last_attitude_cmd := m.last_attitude_cmd_
    let uav_state := m.uav_state_
    let m1 := updateControllers env uav_state m
    let m2 := publish env m1
    match last_attitude_cmd, m2.last_attitude_cmd_ with
    | some _, some cmd =>
      let thrust_mass_estimate := env.thrustToForce cmd.thrust / m2.g
      let m3 := thrustUnderThreshold env
        (decide (thrust_mass_estimate < m2._elanding_cutoff_mass_factor_ * m2.landing_uav_mass_)) m2
      if m3.thrust_under_threshold_
          ∧ env.now - m3.thrust_mass_estimate_first_time_ > m3._elanding_cutoff_timeout_ then
        (arming env false m3).2
      else m3
    | _, _ => m2

/-! ## Velocity references -/

/-- The quotient of two doubles as far as it is followed here: `none` when the
divisor is 0, where the double is inf or NaN. -/
def divide (x y : K) : Option K :=
  if y = 0 then none else some (x / y)

/-- A reference whose position was computed with divisions: a coordinate is
`none` when the double is inf or NaN. -/
structure ReferenceEstimate (K : Type) where
  frame_id : String
  x : Option K
  y : Option K
  z : Option K
  heading : K

/-- Function `ControlManager::velocityReferenceToReference`; the outer `none`
when there is no last position command (the source dereferences it unchecked).
The constant `1.5` is `3 / 2`; adding the flag `use_heading_rate` adds 1 when it
is set.  A quotient by an acceleration limit of 0 is inf or NaN, and so is every
double computed from it (stopping time, displacement, coordinate): that
coordinate of the result is `none`. -/
def velocityReferenceToReference (env : Env K) (vel_reference : VelocityReferenceStamped K)
    (m : Manager K) : Option (ReferenceEstimate K) :=
  let uav_state := m.uav_state_
  let current_constraints := m.current_constraints_
  match m.last_position_cmd_ with
  | none => none
  | some last_position_cmd =>
    let heading :=
      if vel_reference.reference.use_heading then vel_reference.reference.heading
      else if vel_reference.reference.use_heading_rate then
        env.getHeading uav_state.orientation
          + (if vel_reference.reference.use_heading_rate then 1 else 0)
      else env.getHeading uav_state.orientation
    let z : Option K :=
      if vel_reference.reference.use_altitude then some vel_reference.reference.altitude
      else
        let stopping_time_z : Option K :=
          if vel_reference.reference.velocity.x ≥ 0 then
            (divide |vel_reference.reference.velocity.z|
              current_constraints.vertical_ascending_acceleration).map
              (fun q => 3 / 2 * q + 1)
          else
            (divide |vel_reference.reference.velocity.z|
              current_constraints.vertical_descending_acceleration).map
              (fun q => 3 / 2 * q + 1)
        stopping_time_z.map
          (fun t => last_position_cmd.position.z + vel_reference.reference.velocity.z * t)
    let stopping_time_x : Option K :=
      (divide |vel_reference.reference.velocity.x|
        current_constraints.horizontal_acceleration).map (fun q => 3 / 2 * q + 1)
    let stopping_time_y : Option K :=
      (divide |vel_reference.reference.velocity.y|
        current_constraints.horizontal_acceleration).map (fun q => 3 / 2 * q + 1)
    some
      { frame_id := vel_reference.frame_id
        x := stopping_time_x.map
          (fun t => last_position_cmd.position.x + vel_reference.reference.velocity.x * t)
        y := stopping_time_y.map
          (fun t => last_position_cmd.position.y + vel_reference.reference.velocity.y * t)
        z := z
        heading := heading }

/-! ## Concrete states and environments used in the examples -/

/-- All constraints zero. -/
def DynamicsConstraints.zero : DynamicsConstraints K :=
  { horizontal_speed := 0, horizontal_acceleration := 0, horizontal_jerk := 0,
    horizontal_snap := 0, vertical_ascending_speed := 0, vertical_ascending_acceleration := 0,
    vertical_ascending_jerk := 0, vertical_ascending_snap := 0, vertical_descending_speed := 0,
    vertical_descending_acceleration := 0, vertical_descending_jerk := 0,
    vertical_descending_snap := 0, heading_speed := 0, heading_acceleration := 0,
    heading_jerk := 0, heading_snap := 0, roll_rate := 0, pitch_rate := 0, yaw_rate := 0,
    tilt := 0 }

/-- A safety zone that admits every point and every path. -/
def SafetyZone.everywhere : SafetyZone K :=
  { isPointValid3d := fun _ _ _ => true, isPointValid2d := fun _ _ => true,
    isPathValid3d := fun _ _ _ _ _ _ => true, isPathValid2d := fun _ _ _ _ => true }

/-- A freshly constructed manager with three trackers and three controllers: the
member initialisers of the class, the null tracker and the eland controller
active, every threshold at 1. -/
def Manager.initial : Manager K :=
  { is_initialized_ := true
    _tracker_names_ := ["NullTracker", "MpcTracker", "LandoffTracker"]
    _controller_names_ := ["EmergencyController", "FailsafeController", "Se3Controller"]
    _null_tracker_name_ := "NullTracker"
    _ehover_tracker_name_ := "LandoffTracker"
    _landoff_tracker_name_ := "LandoffTracker"
    _eland_controller_name_ := "EmergencyController"
    _failsafe_controller_name_ := "FailsafeController"
    _null_tracker_idx_ := 0
    _ehover_tracker_idx_ := 2
    _landoff_tracker_idx_ := 2
    _eland_controller_idx_ := 0
    _failsafe_controller_idx_ := 1
    controllers_ := fun _ => ⟨1, 1, 1⟩
    _state_input_ := StateInput.INPUT_UAV_STATE
    _odometry_innovation_check_enabled_ := false
    got_uav_state_ := false
    uav_state_ := ⟨"", ⟨0, 0, 0⟩, ⟨0, 0, 0, 1⟩⟩
    sh_odometry_innovation_hasMsg := false
    sh_pixhawk_odometry_hasMsg := false
    sh_mavros_state_ := none
    odometry_switch_in_progress_ := false
    active_tracker_idx_ := 0
    active_controller_idx_ := 0
    controller_tracker_switch_time_ := 0
    last_position_cmd_ := none
    last_attitude_cmd_ := none
    _uav_mass_ := 1
    _initial_body_disturbance_x_ := 0
    _initial_body_disturbance_y_ := 0
    _min_thrust_null_tracker_ := 0
    current_constraints_ := DynamicsConstraints.zero
    sanitized_constraints_ := DynamicsConstraints.zero
    failsafe_triggered_ := false
    eland_triggered_ := false
    motors_ := false
    offboard_mode_ := false
    offboard_mode_was_true_ := false
    armed_ := false
    callbacks_enabled_ := true
    _rc_emergency_handoff_ := false
    _parachute_enabled_ := false
    _automatic_pc_shutdown_enabled_ := false
    _eland_threshold_ := 0
    _failsafe_threshold_ := 0
    _odometry_innovation_threshold_ := 0
    _tilt_limit_eland_enabled_ := false
    _tilt_limit_eland_ := 0
    _yaw_error_eland_enabled_ := false
    _yaw_error_eland_ := 0
    _tilt_limit_disarm_enabled_ := false
    _tilt_limit_disarm_ := 0
    _tilt_error_disarm_enabled_ := false
    _tilt_error_disarm_threshold_ := 0
    _tilt_error_disarm_timeout_ := 0
    tilt_error_disarm_over_thr_ := false
    tilt_error_disarm_time_ := 0
    tilt_error_ := 0
    yaw_error_ := 0
    position_error_x_ := 0
    position_error_y_ := 0
    position_error_z_ := 0
    current_state_landing_ := LandingStates_t.IDLE_STATE
    previous_state_landing_ := LandingStates_t.IDLE_STATE
    landing_uav_mass_ := 0
    timer_eland_running := false
    timer_failsafe_running := false
    bumper_enabled_ := false
    _bumper_hugging_enabled_ := false
    sh_bumper_ := none
    sh_bumper_lastMsgTime := 0
    bumper_vertical_distance_ := 0
    bumper_horizontal_distance_ := 0
    use_safety_area_ := false
    safety_zone_ := SafetyZone.everywhere
    _safety_area_frame_ := ""
    min_height_ := 0
    _max_height_ := 0
    sh_max_height_ := none
    _snap_trajectory_to_safety_area_ := false
    _escalating_failsafe_timeout_ := 0
    escalating_failsafe_time_ := 0
    _escalating_failsafe_ehover_ := false
    _escalating_failsafe_eland_ := false
    _escalating_failsafe_failsafe_ := false
    state_escalating_failsafe_ := EscalatingFailsafeStates_t.ESC_NONE_STATE
    got_constraints_ := false
    _tracker_error_action_ := "eland"
    g := 10
    thrust_mass_estimate_ := 0
    thrust_under_threshold_ := false
    thrust_mass_estimate_first_time_ := 0
    _elanding_cutoff_mass_factor_ := 1 / 2
    _elanding_cutoff_timeout_ := 5
    _eland_disarm_enabled_ := false
    control_calls := []
    log := [] }

/-- The manager of `Manager.initial` once vehicle state and PixHawk odometry have
arrived. -/
def Manager.live : Manager K :=
  { (Manager.initial : Manager K) with got_uav_state_ := true, sh_pixhawk_odometry_hasMsg := true }

/-- A transformer in which every frame is the same frame. -/
def Transformer.identity : Transformer K :=
  { transformSingle := fun point _ => some point
    getTransform := fun from_frame to_frame => some ⟨to_frame, from_frame⟩
    transform := fun point _ => some point
    frame_to := fun tf => tf.frame_id }

/-- A `<cmath>` stand-in for the examples that reach none of its numeric
functions; `isfinite` is the range check of a double, `|x| ≤ DBL_MAX`. -/
def Libm.unused : Libm K :=
  { sqrt := fun x => x, atan2 := fun _ _ => 0, cos := fun _ => 1, sin := fun _ => 0,
    fmod := fun x _ => x, floor := fun _ => 0, M_PI := 3, lowest := 0,
    isfinite := fun x => decide (|x| ≤ 2 ^ 1024 - 2 ^ 971) }

/-- Example values of the message constants. -/
def MessageConstants.sample : MessageConstants :=
  { IGNORE_ROLL_RATE := 1, IGNORE_PITCH_RATE := 2, IGNORE_YAW_RATE := 4, IGNORE_ATTITUDE := 128,
    MODE_ATTITUDE := 1, MODE_ATTITUDE_RATE := 2 }

/-- An environment at time `now` in which every plugin and service call succeeds
and all measured errors are zero. -/
def Env.calm (now : K) : Env K :=
  { now := now
    libm := Libm.unused
    msg := MessageConstants.sample
    transformer_ := Transformer.identity
    tracker_activate := fun _ _ => some (true, "")
    tracker_deactivate := fun _ _ => some ()
    controller_activate := fun _ _ => some true
    controller_deactivate := fun _ _ => some ()
    tracker_setReference := fun _ _ => some (true, "")
    tracker_setTrajectoryReference := fun _ _ => some (true, "", false)
    tracker_update := fun _ _ => some none
    controller_update := fun _ _ => some none
    controller_active := fun _ _ => false
    thrustToForce := fun thrust => 40 * thrust + 4
    getHeading := fun _ => 0
    sch_eland_ := fun _ => some true
    sch_parachute_ := fun _ => some true
    sch_mavros_command_long_ := fun _ => some true
    tilt_angle := 0
    tilt_error := 0
    yaw_error := 0
    last_innovation := 0
    innovation_heading_diff := 0 }


/-- An environment like `Env.calm` in which every `activate` reports failure. -/
def Env.refusing (now : K) : Env K :=
  { Env.calm now with
    tracker_activate := fun _ _ => some (false, "refused")
    controller_activate := fun _ _ => some false }


/-- The two safety latches of a state together with the numbers of `failsafe()`
and `eland()` calls recorded so far. -/
def latches (m : Manager K) : Bool × Bool × Nat × Nat :=
  (m.failsafe_triggered_, m.eland_triggered_, countFailsafeCalls m.log, countElandCalls m.log)


/-- One of the two safety latches is set. -/
def Latched (m : Manager K) : Prop :=
  m.failsafe_triggered_ = true ∨ m.eland_triggered_ = true



/-- The failsafe latch of a state together with the number of `failsafe()` calls
recorded so far. -/
def failsafeLatch (m : Manager K) : Bool × Nat :=
  (m.failsafe_triggered_, countFailsafeCalls m.log)

/-- A manager in flight: `MpcTracker` and `Se3Controller` active, motors on, the
last position command 5 m above the vehicle on the vertical axis only, failsafe
threshold 1 m, eland threshold 100 m. -/
def Manager.flying : Manager K :=
  { (Manager.live : Manager K) with
    active_tracker_idx_ := 1
    active_controller_idx_ := 2
    motors_ := true
    controllers_ := fun _ => ⟨100, 1, 100⟩
    last_position_cmd_ := some (PositionCommand.hold ⟨0, 0, 5⟩).vertical
    last_attitude_cmd_ := some AttitudeCommand.zero }

/-- The manager of `Manager.flying` with the failsafe controller as the active
controller (reached by `switchController "FailsafeController"`). -/
def Manager.flyingOnFailsafeController : Manager K :=
  { (Manager.flying : Manager K) with active_controller_idx_ := 1 }


/-- The manager of `Manager.flying` after an emergency landing was triggered. -/
def Manager.landing : Manager K :=
  { (Manager.flying : Manager K) with
    eland_triggered_ := true
    current_state_landing_ := LandingStates_t.LANDING_STATE }


/-- The `<cmath>` functions over the real numbers: `atan2 y x` is the argument of
`x + i y` (in `(-π, π]`, and 0 at the origin), `fmod x y` is `x` minus `y` times
the quotient truncated towards zero, `lowest` is `-DBL_MAX`, `isfinite` is the
range check `|x| ≤ DBL_MAX`. -/
noncomputable def Libm.real : Libm ℝ :=
  { sqrt := Real.sqrt
    atan2 := fun y x => Complex.arg ⟨x, y⟩
    cos := Real.cos
    sin := Real.sin
    fmod := fun x y => x - y * (if 0 ≤ x / y then (⌊x / y⌋ : ℝ) else (⌈x / y⌉ : ℝ))
    floor := fun x => ⌊x⌋
    M_PI := Real.pi
    lowest := -((2 : ℝ) ^ 1024 - (2 : ℝ) ^ 971)
    isfinite := fun x => decide (|x| ≤ (2 : ℝ) ^ 1024 - (2 : ℝ) ^ 971) }

/-- The environment of `Env.calm` over the reals with the real `<cmath>`. -/
noncomputable def Env.real (now : ℝ) : Env ℝ :=
  { Env.calm now with libm := Libm.real }

/-- A bumper message with eight horizontal sectors: an obstacle at distance `d`
in sector 0 (around the +x axis), 10 m of free space in every other sector. -/
def ObstacleSectors.ahead (d : K) : ObstacleSectors K :=
  { n_horizontal_sectors := 8
    sectors := [d, 10, 10, 10, 10, 10, 10, 10, 10, 10]
    OBSTACLE_NO_DATA := -1
    OBSTACLE_NOT_DETECTED := 0 }

/-- The manager of `Manager.flying` with the bumper enabled, a bumper message
`data` received at time 0 and both margins `margin`. -/
def Manager.bumping (data : ObstacleSectors K) (margin : K) (hugging : Bool) : Manager K :=
  { (Manager.flying : Manager K) with
    bumper_enabled_ := true
    _bumper_hugging_enabled_ := hugging
    sh_bumper_ := some data
    sh_bumper_lastMsgTime := 0
    bumper_vertical_distance_ := margin
    bumper_horizontal_distance_ := margin }


/-- A geofence made of the two half-spaces `x ≤ 2` and `6 ≤ x`: a point is valid
in either, a straight path is valid when both ends lie in the same one. -/
def SafetyZone.gap : SafetyZone K :=
  { isPointValid3d := fun x _ _ => decide (x ≤ 2 ∨ 6 ≤ x)
    isPointValid2d := fun x _ => decide (x ≤ 2 ∨ 6 ≤ x)
    isPathValid3d := fun x1 _ _ x2 _ _ => decide ((x1 ≤ 2 ∧ x2 ≤ 2) ∨ (6 ≤ x1 ∧ 6 ≤ x2))
    isPathValid2d := fun x1 _ x2 _ => decide ((x1 ≤ 2 ∧ x2 ≤ 2) ∨ (6 ≤ x1 ∧ 6 ≤ x2)) }

/-- The manager of `Manager.flying` with the safety area enabled: geofence `zone`,
heights between 0 and 10, the last commanded position at the origin at height 5,
snapping of trajectories as given. -/
def Manager.fenced (zone : SafetyZone K) (snap : Bool) : Manager K :=
  { (Manager.flying : Manager K) with
    use_safety_area_ := true
    safety_zone_ := zone
    min_height_ := 0
    _max_height_ := 10
    _snap_trajectory_to_safety_area_ := snap }

/-- The point `(x, 0, z)` with heading 0. -/
def Reference.onAxis (x z : K) : Reference K :=
  { position := ⟨x, 0, z⟩, heading := 0 }

/-- The state `m` with the events `evs` appended to its trace. -/
def Manager.logged (m : Manager K) (evs : List (Event K)) : Manager K :=
  { m with log := m.log ++ evs }

/-- The escalating-failsafe part of a state: the escalation state, the time of the
last invocation, the timeout and the three stage flags. -/
def escalation (m : Manager K) :
    EscalatingFailsafeStates_t × K × K × Bool × Bool × Bool :=
  (m.state_escalating_failsafe_, m.escalating_failsafe_time_, m._escalating_failsafe_timeout_,
    m._escalating_failsafe_ehover_, m._escalating_failsafe_eland_,
    m._escalating_failsafe_failsafe_)

/-- C14's wording: the first enabled stage strictly after `current` in the order
EHover, ELand, Failsafe, and Finished when no later stage is enabled. -/
def firstEnabledStageAfter (current : EscalatingFailsafeStates_t)
    (ehover_enabled eland_enabled failsafe_enabled : Bool) : EscalatingFailsafeStates_t :=
  (([(EscalatingFailsafeStates_t.ESC_EHOVER_STATE, ehover_enabled),
      (EscalatingFailsafeStates_t.ESC_ELAND_STATE, eland_enabled),
      (EscalatingFailsafeStates_t.ESC_FAILSAFE_STATE, failsafe_enabled)].filter
    (fun s => s.2 && decide (current.toNat < s.1.toNat))).head?.map Prod.fst).getD
    EscalatingFailsafeStates_t.ESC_FINISHED_STATE

/-- The manager of `Manager.flying` with the three stages of the escalating
failsafe enabled and a timeout of 1 s. -/
def Manager.escalating : Manager K :=
  { (Manager.flying : Manager K) with
    _escalating_failsafe_timeout_ := 1
    _escalating_failsafe_ehover_ := true
    _escalating_failsafe_eland_ := true
    _escalating_failsafe_failsafe_ := true }

/-- The neutral hold command as the specification describes it: the current
orientation of the vehicle, zero body rates, the attitude ignored in the type
mask, and the minimum thrust of the null tracker. -/
def neutralHoldCommand (env : Env K) (m : Manager K) : AttitudeTarget K :=
  { stamp := env.now
    frame_id := "base_link"
    type_mask := env.msg.IGNORE_ATTITUDE
    orientation := m.uav_state_.orientation
    body_rate := ⟨0, 0, 0⟩
    thrust := m._min_thrust_null_tracker_ }

/-- The manager of `Manager.flying` with `cmd` as the last attitude command. -/
def Manager.commanded (cmd : Option (AttitudeCommand K)) : Manager K :=
  { (Manager.flying : Manager K) with last_attitude_cmd_ := cmd }

/-- The manager of `Manager.live` with the motors on; the null tracker is active. -/
def Manager.idling : Manager K :=
  { (Manager.live : Manager K) with motors_ := true }

/-- An attitude command in attitude mode with thrust `thrust` whose controller
enforces a horizontal speed of 1 and 5 for every other limit. -/
def AttitudeCommand.limiting (thrust : K) : AttitudeCommand K :=
  { (AttitudeCommand.zero : AttitudeCommand K) with
    attitude := ⟨0, 0, 0, 1⟩
    mode_mask := 1
    thrust := thrust
    controller_enforcing_constraints := true
    horizontal_speed_constraint := 1
    horizontal_acc_constraint := 5
    vertical_asc_speed_constraint := 5
    vertical_asc_acc_constraint := 5
    vertical_desc_speed_constraint := 5
    vertical_desc_acc_constraint := 5 }

/-- Constraints with the value `v` in every field. -/
def DynamicsConstraints.uniform (v : K) : DynamicsConstraints K :=
  { horizontal_speed := v, horizontal_acceleration := v, horizontal_jerk := v,
    horizontal_snap := v, vertical_ascending_speed := v, vertical_ascending_acceleration := v,
    vertical_ascending_jerk := v, vertical_ascending_snap := v, vertical_descending_speed := v,
    vertical_descending_acceleration := v, vertical_descending_jerk := v,
    vertical_descending_snap := v, heading_speed := v, heading_acceleration := v,
    heading_jerk := v, heading_snap := v, roll_rate := v, pitch_rate := v, yaw_rate := v,
    tilt := v }


/-- C25's wording: the Euclidean norm of the position error (position command
minus vehicle position) taken over the axes the command declares meaningful: x
and y when the horizontal position is used, z when the vertical position is
used. -/
def positionErrorNorm (env : Env K) (cmd : PositionCommand K) (uav_state : UavState K) : K :=
  env.libm.sqrt
    ((if cmd.use_position_horizontal then
        (cmd.position.x - uav_state.position.x) ^ 2 + (cmd.position.y - uav_state.position.y) ^ 2
      else 0)
      + (if cmd.use_position_vertical then (cmd.position.z - uav_state.position.z) ^ 2 else 0))


/-- The indices of the registered trackers in the order in which
`setTrajectoryReference` hands the trajectory over: the active tracker first,
then the others by increasing index. -/
def Manager.activeFirst (m : Manager K) : List Nat :=
  m.active_tracker_idx_
    :: (List.range m._tracker_names_.length).filter (fun i => decide (i ≠ m.active_tracker_idx_))


/-- An environment like `Env.calm` in which every `activate` throws. -/
def Env.throwing (now : K) : Env K :=
  { Env.calm now with
    tracker_activate := fun _ _ => none
    controller_activate := fun _ _ => none }

/-- An environment like `Env.calm` in which every `deactivate` throws. -/
def Env.clinging (now : K) : Env K :=
  { Env.calm now with
    tracker_deactivate := fun _ _ => none
    controller_deactivate := fun _ _ => none }


/-- The part of a state that the bookkeeping of the control cycle and of the
landing timer reads and that no plugin hand-off or safety routine writes: the
calls noted by the control cycle, whether constraints were received, whether
disarming after landing is enabled, and the last flight-mode message. -/
def cycleFrame (m : Manager K) : List ControlCall × Bool × Bool × Option (K × String) :=
  (m.control_calls, m.got_constraints_, m._eland_disarm_enabled_, m.sh_mavros_state_)


/-- How one operation may change the two safety latches: it leaves both as they
are, or it sets `failsafe_triggered_` and clears `eland_triggered_`, or, with
`failsafe_triggered_` clear before and after, it sets `eland_triggered_`. -/
def LatchStep (m m1 : Manager K) : Prop :=
  (m1.failsafe_triggered_ = m.failsafe_triggered_ ∧ m1.eland_triggered_ = m.eland_triggered_)
    ∨ (m1.failsafe_triggered_ = true ∧ m1.eland_triggered_ = false)
    ∨ (m.failsafe_triggered_ = false ∧ m1.failsafe_triggered_ = false
        ∧ m1.eland_triggered_ = true)

/-- The operations of the manager that reach the two safety latches, each with
the environment of the call: the safety routines, the timers, the control
cycle, the motor switch, the plugin switches, and `changeLandingState` (which
also runs inside `eland`, to the landing state, and inside `timerEland`, back to
idle).  `other m1` stands for every other callback: it replaces the state by
`m1`, the two latches excepted. -/
inductive Operation (K : Type)
  | eland (env : Env K)
  | ehover (env : Env K)
  | failsafe (env : Env K)
  | escalatingFailsafe (env : Env K)
  | timerSafety (env : Env K)
  | timerEland (env : Env K)
  | timerFailsafe (env : Env K)
  | asyncControl (env : Env K)
  | switchMotors (env : Env K) (input : Bool)
  | arming (env : Env K) (input : Bool)
  | switchTracker (env : Env K) (tracker_name : String)
  | switchController (env : Env K) (controller_name : String)
  | changeLandingState (new_state : LandingStates_t)
  | other (m1 : Manager K)

/-- The state after one operation. -/
def Operation.apply : Operation K → Manager K → Manager K
  | Operation.eland env, m => (ControlManager.eland env m).2
  | Operation.ehover env, m => (ControlManager.ehover env m).2
  | Operation.failsafe env, m => (ControlManager.failsafe env m).2
  | Operation.escalatingFailsafe env, m => (ControlManager.escalatingFailsafe env m).2
  | Operation.timerSafety env, m => ControlManager.timerSafety env m
  | Operation.timerEland env, m => ControlManager.timerEland env m
  | Operation.timerFailsafe env, m => ControlManager.timerFailsafe env m
  | Operation.asyncControl env, m => ControlManager.asyncControl env m
  | Operation.switchMotors env input, m => ControlManager.switchMotors env input m
  | Operation.arming env input, m => (ControlManager.arming env input m).2
  | Operation.switchTracker env tracker_name, m =>
    (ControlManager.switchTracker env tracker_name m).2
  | Operation.switchController env controller_name, m =>
    (ControlManager.switchController env controller_name m).2
  | Operation.changeLandingState new_state, m => ControlManager.changeLandingState new_state m
  | Operation.other m1, m =>
    { m1 with failsafe_triggered_ := m.failsafe_triggered_
              eland_triggered_ := m.eland_triggered_ }

/-- The state after a sequence of operations. -/
def Operation.run : List (Operation K) → Manager K → Manager K
  | [], m => m
  | op :: rest, m => Operation.run rest (op.apply m)

/-- A sequence of operations in which `changeLandingState(LANDING_STATE)` is
entered only in states with `failsafe_triggered_` clear, as `eland`, its one
caller with that argument, does behind its guards. -/
def Operation.guarded : List (Operation K) → Manager K → Prop
  | [], _ => True
  | op :: rest, m =>
    (op = Operation.changeLandingState LandingStates_t.LANDING_STATE →
        m.failsafe_triggered_ = false)
      ∧ Operation.guarded rest (op.apply m)


/-- The number of arming service requests (`srv_arming`) recorded in a trace. -/
def countArmingCalls (log : List (Event K)) : Nat :=
  log.countP (fun e => match e with | Event.srv_arming _ => true | _ => false)

/-- The motors flag of a state together with the number of arming service
requests recorded so far. -/
def motorView (m : Manager K) : Bool × Nat :=
  (m.motors_, countArmingCalls m.log)

/-- The parameters that the evaluations of `timerEland` read and do not write. -/
def landingParams (m : Manager K) : Bool × K × K × K × K × Bool × Option (K × String) :=
  (m.is_initialized_, m.g, m._elanding_cutoff_mass_factor_, m.landing_uav_mass_,
    m._elanding_cutoff_timeout_, m._eland_disarm_enabled_, m.sh_mavros_state_)

/-- A sequence of evaluations of `timerEland`; before each of them the control
loop has stored the attitude command of that moment. -/
def timerElandRun : List (Env K × AttitudeCommand K) → Manager K → Manager K
  | [], m => m
  | (env, cmd) :: rest, m =>
    timerElandRun rest (timerEland env { m with last_attitude_cmd_ := some cmd })

/-- C24's wording, first half: at an evaluation with attitude command `cmd` the
thrust-derived mass estimate is below cutoff factor × pre-land mass. -/
def estimateBelowCutoff (env : Env K) (m : Manager K) (cmd : AttitudeCommand K) : Bool :=
  decide (env.thrustToForce cmd.thrust / m.g < m._elanding_cutoff_mass_factor_ * m.landing_uav_mass_)

/-- The condition of `timerEland` as the code has it: the estimate is below the
cutoff, or the commanded thrust is below 0.01. -/
def underThreshold (env : Env K) (m : Manager K) (cmd : AttitudeCommand K) : Bool :=
  estimateBelowCutoff env m cmd || decide (cmd.thrust < 1 / 100)

/-- C24's wording: of the evaluations `obs` (time, under the threshold or not;
oldest first) the uninterrupted run of evaluations under the threshold that
ends with the latest one, latest first. -/
def lowRun (obs : List (K × Bool)) : List (K × Bool) :=
  obs.reverse.takeWhile (fun o => o.2)

/-- C24's wording: the latest evaluation belongs to an uninterrupted run of
evaluations under the threshold that started more than `timeout` earlier. -/
def cutoffDue (timeout : K) (obs : List (K × Bool)) : Prop :=
  match (lowRun obs).head?, (lowRun obs).getLast? with
  | some latest, some first => latest.1 - first.1 > timeout
  | _, _ => False

/-- The evaluations of a run as C24 sees them: the time of each and whether the
thrust was under the threshold, judged by `under` with the parameters of `m`. -/
def evaluations (under : Env K → Manager K → AttitudeCommand K → Bool) (m : Manager K)
    (hist : List (Env K × AttitudeCommand K)) : List (K × Bool) :=
  hist.map (fun ec => (ec.1.now, under ec.1 m ec.2))

/-- The manager of `Manager.landing` with a pre-land mass of 1 kg and a cutoff
factor of 1/4; the cutoff timeout is 5 s and `g` is 10. -/
def Manager.touchingDown : Manager K :=
  { (Manager.landing : Manager K) with
    landing_uav_mass_ := 1
    _elanding_cutoff_mass_factor_ := 1 / 4 }


/-- The clock of the landing timer: the time since which the thrust has been
under the threshold, if it is. -/
def landingClock (m : Manager K) : Option K :=
  if m.thrust_under_threshold_ then some m.thrust_mass_estimate_first_time_ else none

/-- The clock after an evaluation at time `t`: it keeps running (or starts at
`t`) when the thrust is under the threshold, and is cleared otherwise. -/
def clockStep (s : Option K) (t : K) (low : Bool) : Option K :=
  if low then some (s.getD t) else none

theorem findNameIdxFrom_not_mem (name : String) (names : List String) (i : Nat) (acc : Int)
    (h : name ∉ names) : findNameIdxFrom name names i acc = acc := by
  induction names generalizing i acc with
  | nil => rfl
  | cons n rest ih =>
    have hn : ¬ name = n := fun e => h (e ▸ List.mem_cons_self _ _)
    have hr : name ∉ rest := fun e => h (List.mem_cons_of_mem _ e)
    simp [findNameIdxFrom, hn, ih _ _ hr]

theorem findNameIdx_not_mem (name : String) (names : List String) (h : name ∉ names) :
    findNameIdx names name = -1 :=
  findNameIdxFrom_not_mem name names 0 (-1) h

theorem findNameIdxFrom_nodup (name : String) (names : List String) (hnd : names.Nodup)
    (k : Nat) (hk : names[k]? = some name) (i : Nat) (acc : Int) :
    findNameIdxFrom name names i acc = ((i + k : Nat) : Int) := by
  induction names generalizing i acc k with
  | nil => simp at hk
  | cons n rest ih =>
    rw [List.nodup_cons] at hnd
    cases k with
    | zero =>
      simp at hk
      subst hk
      simp [findNameIdxFrom, findNameIdxFrom_not_mem _ _ _ _ hnd.1]
    | succ k =>
      simp at hk
      have := ih hnd.2 k hk (i + 1) (if name = n then (i : Int) else acc)
      simp only [findNameIdxFrom, this]
      congr 1
      omega

theorem findNameIdx_nodup (name : String) (names : List String) (hnd : names.Nodup)
    (k : Nat) (hk : names[k]? = some name) : findNameIdx names name = (k : Int) := by
  simpa [findNameIdx] using findNameIdxFrom_nodup name names hnd k hk 0 (-1)

/-! ### Plugin hand-off -/

/-- C1 (as stated, refuted): before any vehicle state has arrived, switching to
the tracker that is already active returns failure. -/
theorem switchTracker_active_without_odometry_fails :
    (Manager.initial : Manager ℚ)._tracker_names_[(Manager.initial : Manager ℚ).active_tracker_idx_]?
        = some "NullTracker"
      ∧ (switchTracker (Env.calm (0 : ℚ)) "NullTracker" Manager.initial).1.1 = false := by
  decide

/-- C1 (amended): when the tracker names are distinct and `X` names the active
tracker, `switchTracker X` changes nothing at all (indices, switch time, last
commands, trace of plugin calls), and it returns success exactly when the vehicle
state, the odometry innovation (where it is checked) and the PixHawk odometry
have been received. -/
theorem switchTracker_active_noop (env : Env K) (X : String) (m : Manager K)
    (hnd : m._tracker_names_.Nodup)
    (hX : m._tracker_names_[m.active_tracker_idx_]? = some X) :
    (switchTracker env X m).2 = m
      ∧ ((switchTracker env X m).1.1 = true ↔
          (m.got_uav_state_ = true
            ∧ ¬ (m._state_input_ = StateInput.INPUT_UAV_STATE
                  ∧ m._odometry_innovation_check_enabled_ = true
                  ∧ m.sh_odometry_innovation_hasMsg = false)
            ∧ m.sh_pixhawk_odometry_hasMsg = true)) := by
  have hidx := findNameIdx_nodup X m._tracker_names_ hnd _ hX
  have hneg : ¬ ((m.active_tracker_idx_ : Int) < 0) := by omega
  unfold switchTracker
  simp only [hidx, hneg, if_false, if_true]
  split_ifs with h1 h2 h3
  · simp at h1; simp [h1]
  · simp at h1 h2; simp [h1, h2]
  · simp at h1 h2 h3; simp [h1, h3]
  · simp at h1 h2 h3; simp [h1, h3]; exact h2

theorem switchTracker_active_noop_witness :
    (switchTracker (Env.calm (0 : ℚ)) "NullTracker" Manager.live).2 = Manager.live
      ∧ ((switchTracker (Env.calm (0 : ℚ)) "NullTracker" Manager.live).1.1 = true ↔
          ((Manager.live : Manager ℚ).got_uav_state_ = true
            ∧ ¬ ((Manager.live : Manager ℚ)._state_input_ = StateInput.INPUT_UAV_STATE
                  ∧ (Manager.live : Manager ℚ)._odometry_innovation_check_enabled_ = true
                  ∧ (Manager.live : Manager ℚ).sh_odometry_innovation_hasMsg = false)
            ∧ (Manager.live : Manager ℚ).sh_pixhawk_odometry_hasMsg = true)) :=
  switchTracker_active_noop (Env.calm 0) "NullTracker" Manager.live (by decide) (by decide)

/-- C2: for a name that is not in the tracker list, `switchTracker` returns
failure and leaves the whole state as it was: the active tracker index and the
switch time are unchanged and no plugin call is recorded. -/
theorem switchTracker_unknown_name (env : Env K) (name : String) (m : Manager K)
    (h : name ∉ m._tracker_names_) :
    (switchTracker env name m).1.1 = false ∧ (switchTracker env name m).2 = m := by
  have hidx := findNameIdx_not_mem name m._tracker_names_ h
  unfold switchTracker
  simp only [hidx]
  split_ifs with h1 h2 h3 h4 <;> first | exact ⟨rfl, rfl⟩ | exact absurd (by decide) h4

theorem switchTracker_unknown_name_witness :
    "unknown" ∉ (Manager.live : Manager ℚ)._tracker_names_
      ∧ (switchTracker (Env.calm (0 : ℚ)) "unknown" Manager.live).1.1 = false
      ∧ (switchTracker (Env.calm (0 : ℚ)) "unknown" Manager.live).2 = Manager.live :=
  ⟨by decide, switchTracker_unknown_name (Env.calm 0) "unknown" Manager.live (by decide)⟩


theorem Manager.record_log (m : Manager K) (e : Event K) : (m.record e).log = m.log ++ [e] := rfl

theorem activateTracker_failure (env : Env K) (name : String) (new_idx : Nat) (m : Manager K)
    (idx : Nat) (msg : String)
    (h : Event.tracker_activate idx (some (false, msg))
      ∈ (activateTracker env name new_idx m).2.log.drop m.log.length) :
    (activateTracker env name new_idx m).1.1 = false
      ∧ (activateTracker env name new_idx m).2
          = m.record (Event.tracker_activate idx (some (false, msg))) := by
  unfold activateTracker at h ⊢
  rcases hres : env.tracker_activate m.log.length new_idx with _ | ⟨_ | _, message⟩
  · simp [hres, Manager.record_log] at h
  · simp only [hres, Manager.record_log, List.drop_left, List.mem_singleton, Event.tracker_activate.injEq,
      Option.some.injEq, Prod.mk.injEq, true_and] at h
    obtain ⟨rfl, rfl⟩ := h
    simp [hres]
  · exfalso
    simp only [hres] at h
    split at h
    · simp [Manager.record_log] at h
    · split_ifs at h
      · split at h <;> simp [Manager.record_log] at h
      · split at h <;> simp [Manager.record_log] at h
      · simp [Manager.record_log] at h


theorem setConstraints_log_tracker (n : List Nat) (m : Manager K) :
    (n.foldl (fun s i => s.record (Event.tracker_setConstraints i)) m).log
      = m.log ++ n.map (fun i => Event.tracker_setConstraints i) := by
  induction n generalizing m with
  | nil => simp
  | cons a rest ih => simp [ih, Manager.record_log]

theorem setConstraints_log_controller (n : List Nat) (m : Manager K) :
    (n.foldl (fun s i => s.record (Event.controller_setConstraints i)) m).log
      = m.log ++ n.map (fun i => Event.controller_setConstraints i) := by
  induction n generalizing m with
  | nil => simp
  | cons a rest ih => simp [ih, Manager.record_log]

theorem setConstraints_log (m : Manager K) :
    (setConstraints m).log
      = m.log ++ ((List.range m._tracker_names_.length).map (fun i => Event.tracker_setConstraints i)
          ++ (List.range m._controller_names_.length).map
              (fun i => Event.controller_setConstraints i)) := by
  unfold setConstraints
  simp only [setConstraints_log_controller, setConstraints_log_tracker, List.append_assoc]

theorem switchControllerTail_log (ss : String) (m : Manager K) :
    (switchControllerTail ss m).2.log
      = m.log ++ ((List.range m._tracker_names_.length).map (fun i => Event.tracker_setConstraints i)
          ++ (List.range m._controller_names_.length).map
              (fun i => Event.controller_setConstraints i)) := by
  unfold switchControllerTail
  rw [setConstraints_log]

theorem activateController_failure (env : Env K) (name : String) (new_idx : Nat) (m : Manager K)
    (idx : Nat)
    (h : Event.controller_activate idx (some false)
      ∈ (activateController env name new_idx m).2.log.drop m.log.length) :
    (activateController env name new_idx m).1.1 = false
      ∧ (activateController env name new_idx m).2
          = m.record (Event.controller_activate idx (some false)) := by
  unfold activateController at h ⊢
  rcases hres : env.controller_activate m.log.length new_idx with _ | _ | _
  · simp [hres, Manager.record_log, switchControllerTail_log] at h
  · simp only [hres, Manager.record_log, List.drop_left, List.mem_singleton,
      Event.controller_activate.injEq, and_true] at h
    subst h
    simp [hres]
  · exfalso
    simp only [hres] at h
    split at h
    · simp [Manager.record_log, switchControllerTail_log] at h
    · split at h
      · simp [Manager.record_log, switchControllerTail_log] at h
      · split at h <;> simp [Manager.record_log, switchControllerTail_log] at h

/-- C3: for `switchTracker` and `switchController` alike, if an `activate` call of
the switch reports failure, the switch returns failure and the only change of the
state is that call in the trace: the previously active plugin is still active,
no `deactivate` was called, and the switch time is unchanged. -/
theorem activate_failure_aborts_switch (env : Env K) (name : String) (m : Manager K) :
    (∀ idx msg, Event.tracker_activate idx (some (false, msg))
          ∈ (switchTracker env name m).2.log.drop m.log.length →
        (switchTracker env name m).1.1 = false
          ∧ (switchTracker env name m).2
              = m.record (Event.tracker_activate idx (some (false, msg))))
      ∧ (∀ idx, Event.controller_activate idx (some false)
          ∈ (switchController env name m).2.log.drop m.log.length →
        (switchController env name m).1.1 = false
          ∧ (switchController env name m).2
              = m.record (Event.controller_activate idx (some false))) := by
  constructor
  · intro idx msg h
    unfold switchTracker at h ⊢
    simp only at h ⊢
    split_ifs at h ⊢ <;> first
      | exact activateTracker_failure env name _ m idx msg h
      | simp at h
  · intro idx h
    unfold switchController at h ⊢
    simp only at h ⊢
    split_ifs at h ⊢ <;> first
      | exact activateController_failure env name _ m idx h
      | simp at h

theorem activate_failure_aborts_switch_witness :
    (Event.tracker_activate 1 (some (false, "refused"))
        ∈ (switchTracker (Env.refusing (0 : ℚ)) "MpcTracker" Manager.live).2.log.drop
            (Manager.live : Manager ℚ).log.length
      ∧ (switchTracker (Env.refusing (0 : ℚ)) "MpcTracker" Manager.live).1.1 = false
      ∧ (switchTracker (Env.refusing (0 : ℚ)) "MpcTracker" Manager.live).2
          = Manager.live.record (Event.tracker_activate 1 (some (false, "refused"))))
    ∧ (Event.controller_activate 2 (some false)
        ∈ (switchController (Env.refusing (0 : ℚ)) "Se3Controller" Manager.live).2.log.drop
            (Manager.live : Manager ℚ).log.length
      ∧ (switchController (Env.refusing (0 : ℚ)) "Se3Controller" Manager.live).1.1 = false
      ∧ (switchController (Env.refusing (0 : ℚ)) "Se3Controller" Manager.live).2
          = Manager.live.record (Event.controller_activate 2 (some false))) :=
  ⟨⟨by decide,
      (activate_failure_aborts_switch (Env.refusing (0 : ℚ)) "MpcTracker" Manager.live).1 1
        "refused" (by decide)⟩,
    ⟨by decide,
      (activate_failure_aborts_switch (Env.refusing (0 : ℚ)) "Se3Controller" Manager.live).2 2
        (by decide)⟩⟩


/-! ### The latches are untouched by hand-off, motors and arming -/

theorem latches_record (m : Manager K) (e : Event K) (h1 : e ≠ Event.call_failsafe)
    (h2 : e ≠ Event.call_eland) : latches (m.record e) = latches m := by
  cases e <;> simp_all [latches, Manager.record, countFailsafeCalls, countElandCalls,
    List.countP_append]

theorem latches_setConstraints (m : Manager K) : latches (setConstraints m) = latches m := by
  have h1 : ∀ (n : List Nat) (s : Manager K),
      latches (n.foldl (fun s i => s.record (Event.tracker_setConstraints i)) s) = latches s := by
    intro n
    induction n with
    | nil => intro s; rfl
    | cons a rest ih => intro s; simp only [List.foldl_cons, ih]; exact latches_record _ _ (by simp) (by simp)
  have h2 : ∀ (n : List Nat) (s : Manager K),
      latches (n.foldl (fun s i => s.record (Event.controller_setConstraints i)) s) = latches s := by
    intro n
    induction n with
    | nil => intro s; rfl
    | cons a rest ih => intro s; simp only [List.foldl_cons, ih]; exact latches_record _ _ (by simp) (by simp)
  unfold setConstraints
  simp only [h1, h2]

theorem latches_switchControllerTail (ss : String) (m : Manager K) :
    latches (switchControllerTail ss m).2 = latches m := by
  unfold switchControllerTail
  simp only [latches_setConstraints]
  rfl

theorem latches_activateTracker (env : Env K) (name : String) (idx : Nat) (m : Manager K) :
    latches (activateTracker env name idx m).2 = latches m := by
  unfold activateTracker
  simp only
  split
  · exact latches_record _ _ (by simp) (by simp)
  · exact latches_record _ _ (by simp) (by simp)
  · split
    · simp [latches, Manager.record, countFailsafeCalls, countElandCalls, List.countP_append]
    · split_ifs
      · split <;>
          simp [latches, Manager.record, countFailsafeCalls, countElandCalls, List.countP_append]
      · split <;>
          simp [latches, Manager.record, countFailsafeCalls, countElandCalls, List.countP_append]
      · simp [latches, Manager.record, countFailsafeCalls, countElandCalls, List.countP_append]

theorem latches_switchTracker (env : Env K) (name : String) (m : Manager K) :
    latches (switchTracker env name m).2 = latches m := by
  unfold switchTracker
  simp only
  split_ifs <;> first | rfl | exact latches_activateTracker env name _ m


theorem latches_activateController (env : Env K) (name : String) (idx : Nat) (m : Manager K) :
    latches (activateController env name idx m).2 = latches m := by
  unfold activateController
  simp only
  split
  · rw [latches_switchControllerTail]; exact latches_record _ _ (by simp) (by simp)
  · exact latches_record _ _ (by simp) (by simp)
  · split
    · rw [latches_switchControllerTail]
      simp [latches, Manager.record, countFailsafeCalls, countElandCalls, List.countP_append]
    · split
      · rw [latches_switchControllerTail]
        simp [latches, Manager.record, countFailsafeCalls, countElandCalls, List.countP_append]
      · split <;> rw [latches_switchControllerTail] <;>
          simp [latches, Manager.record, countFailsafeCalls, countElandCalls, List.countP_append]

theorem latches_switchController (env : Env K) (name : String) (m : Manager K) :
    latches (switchController env name m).2 = latches m := by
  unfold switchController
  simp only
  split_ifs <;> first | rfl | exact latches_activateController env name _ m

theorem latches_deactivateTrackers (env : Env K) (idxs : List Nat) (m : Manager K) :
    latches (deactivateTrackers env idxs m) = latches m := by
  induction idxs generalizing m with
  | nil => rfl
  | cons i rest ih =>
    simp only [deactivateTrackers, ih]
    exact latches_record _ _ (by simp) (by simp)

theorem latches_deactivateControllers (env : Env K) (idxs : List Nat) (m : Manager K) :
    latches (deactivateControllers env idxs m) = latches m := by
  induction idxs generalizing m with
  | nil => rfl
  | cons i rest ih =>
    simp only [deactivateControllers, ih]
    exact latches_record _ _ (by simp) (by simp)

theorem latches_switchMotors (env : Env K) (input : Bool) (m : Manager K) :
    latches (switchMotors env input m) = latches m := by
  unfold switchMotors
  simp only
  split_ifs
  · rfl
  · show latches (deactivateControllers env _ _) = _
    rw [latches_deactivateControllers, latches_deactivateTrackers, latches_switchController,
      latches_switchTracker]
    rfl
  · rfl

theorem latches_shutdown (m : Manager K) : latches (shutdown m) = latches m := by
  unfold shutdown
  split_ifs
  · exact latches_record _ _ (by simp) (by simp)
  · rfl

theorem latches_arming (env : Env K) (input : Bool) (m : Manager K) :
    latches (arming env input m).2 = latches m := by
  unfold arming
  split_ifs <;> (try split) <;> first
    | rfl
    | exact latches_record _ _ (by simp) (by simp)
    | (rw [latches_shutdown]
       show latches (switchMotors env false _) = _
       rw [latches_switchMotors]
       exact latches_record _ _ (by simp) (by simp))

theorem latches_parachuteSrv (env : Env K) (m : Manager K) :
    latches (parachuteSrv env m).2 = latches m := by
  unfold parachuteSrv
  split <;> exact latches_record _ _ (by simp) (by simp)

theorem latches_elandSrv (env : Env K) (m : Manager K) :
    latches (elandSrv env m).2 = latches m := by
  unfold elandSrv
  split <;> exact latches_record _ _ (by simp) (by simp)

theorem latches_deployParachute (env : Env K) (m : Manager K) :
    latches (deployParachute env m).2 = latches m := by
  unfold deployParachute
  have hp := latches_parachuteSrv env m
  rcases hsrv : parachuteSrv env m with ⟨succ, m1⟩
  rw [hsrv] at hp
  simp only at hp ⊢
  split_ifs
  · rfl
  · rfl
  · rw [latches_arming]; exact hp
  · exact hp

theorem latches_ungripSrv (m : Manager K) : latches (ungripSrv m) = latches m :=
  latches_record _ _ (by simp) (by simp)


/-! ### What `failsafe()` and `eland()` do to the latches -/

theorem latches_failsafeController (env : Env K) (cmd : Option (AttitudeCommand K)) (idx : Nat)
    (m : Manager K) :
    latches (failsafeController env cmd idx m).2
        = (true, false, countFailsafeCalls m.log, countElandCalls m.log)
      ∨ latches (failsafeController env cmd idx m).2 = latches m := by
  unfold failsafeController
  split_ifs
  · simp only
    split
    · right; exact latches_record _ _ (by simp) (by simp)
    · left
      split <;> cases cmd <;>
        simp [latches, Manager.record, odometryCallbacksSrv, countFailsafeCalls, countElandCalls,
          List.countP_append]
  · right; rfl

theorem latches_failsafeController_latched (env : Env K) (cmd : Option (AttitudeCommand K))
    (idx : Nat) (m : Manager K) (hidx : m._failsafe_controller_idx_ ≠ idx)
    (hact : env.controller_activate m.log.length m._failsafe_controller_idx_ ≠ none) :
    (failsafeController env cmd idx m).2.failsafe_triggered_ = true := by
  unfold failsafeController
  rw [if_pos hidx]
  simp only
  split
  · next h => exact absurd h hact
  · split <;> cases cmd <;> simp [Manager.record, odometryCallbacksSrv]

theorem latches_record_call_failsafe (m : Manager K) :
    latches (m.record Event.call_failsafe)
      = (m.failsafe_triggered_, m.eland_triggered_, countFailsafeCalls m.log + 1,
          countElandCalls m.log) := by
  simp [latches, Manager.record, countFailsafeCalls, countElandCalls, List.countP_append]

theorem latches_failsafeController_after (env : Env K) (cmd : Option (AttitudeCommand K))
    (idx : Nat) (m m1 : Manager K) (hp : latches m1 = latches (m.record Event.call_failsafe)) :
    latches (failsafeController env cmd idx m1).2
        = (true, false, countFailsafeCalls m.log + 1, countElandCalls m.log)
      ∨ latches (failsafeController env cmd idx m1).2
        = (m.failsafe_triggered_, m.eland_triggered_, countFailsafeCalls m.log + 1,
            countElandCalls m.log) := by
  have h0 := hp.trans (latches_record_call_failsafe m)
  have h1 : countFailsafeCalls m1.log = countFailsafeCalls m.log + 1 := by
    have := congrArg (fun t => t.2.2.1) h0; simpa [latches] using this
  have h2 : countElandCalls m1.log = countElandCalls m.log := by
    have := congrArg (fun t => t.2.2.2) h0; simpa [latches] using this
  rcases latches_failsafeController env cmd idx m1 with h | h
  · left; rw [h, h1, h2]
  · right; rw [h]; exact h0

theorem latches_failsafe (env : Env K) (m : Manager K) :
    latches (failsafe env m).2
        = (true, false, countFailsafeCalls m.log + 1, countElandCalls m.log)
      ∨ latches (failsafe env m).2
        = (m.failsafe_triggered_, m.eland_triggered_, countFailsafeCalls m.log + 1,
            countElandCalls m.log) := by
  have h0 := latches_record_call_failsafe m
  unfold failsafe
  simp only
  split_ifs
  · right; exact h0
  · right; exact h0
  · right; exact h0
  · right; rw [latches_switchMotors]; exact h0
  · right; rw [latches_deployParachute]; exact h0
  · exact latches_failsafeController_after env _ _ m _ (latches_deployParachute env _)
  · exact latches_failsafeController_after env _ _ m _ rfl


/-! ### The safety timer and the latches -/

theorem Latched.of_latches_eq {m m1 : Manager K} (h : latches m1 = latches m) (hl : Latched m) :
    Latched m1 := by
  have h1 : m1.failsafe_triggered_ = m.failsafe_triggered_ := congrArg (fun t => t.1) h
  have h2 : m1.eland_triggered_ = m.eland_triggered_ := congrArg (fun t => t.2.1) h
  unfold Latched at hl ⊢
  rw [h1, h2]; exact hl

theorem safetyEland_latched (env : Env K) (m : Manager K) (hl : Latched m) :
    safetyEland env m = m := by
  unfold safetyEland
  rcases hl with h | h <;> simp [h]

theorem safetyUngrip_latched (env : Env K) (m : Manager K) (hl : Latched m) :
    safetyUngrip env m = m := by
  unfold safetyUngrip
  rcases hl with h | h <;> simp [h]

theorem safetyInnovationStage_latched (env : Env K) (m : Manager K) (hl : Latched m) :
    safetyInnovationStage env m = m := by
  unfold safetyInnovationStage
  simp [safetyEland_latched env m hl]

theorem safetyTiltStage_latched (env : Env K) (t : K) (m : Manager K) (hl : Latched m) :
    safetyTiltStage env t m = m := by
  unfold safetyTiltStage
  simp [safetyEland_latched env m hl]

theorem safetyPositionStage_latched (env : Env K) (c : K) (m : Manager K) (hl : Latched m) :
    safetyPositionStage env c m = m := by
  unfold safetyPositionStage
  simp [safetyEland_latched env m hl, safetyUngrip_latched env m hl]

theorem safetyYawStage_latched (env : Env K) (m : Manager K) (hl : Latched m) :
    safetyYawStage env m = m := by
  unfold safetyYawStage
  simp [safetyEland_latched env m hl, safetyUngrip_latched env m hl]

theorem latches_safetyTiltDisarmStage (env : Env K) (t : K) (m : Manager K) :
    latches (safetyTiltDisarmStage env t m) = latches m := by
  unfold safetyTiltDisarmStage
  split_ifs
  · exact latches_arming env false m
  · rfl

theorem latches_safetyTiltErrorDisarmStage (env : Env K) (r : Bool) (i : Nat) (m : Manager K) :
    latches (safetyTiltErrorDisarmStage env r i m) = latches m := by
  unfold safetyTiltErrorDisarmStage
  simp only
  split_ifs <;> first
    | rfl
    | (rw [latches_arming, latches_switchMotors]; done)
    | (rw [latches_arming, latches_switchMotors]; rfl)

theorem latches_safetyOffboardStage (env : Env K) (i : Nat) (m : Manager K) :
    latches (safetyOffboardStage env i m) = latches m := by
  unfold safetyOffboardStage
  split_ifs
  · exact latches_switchMotors env false m
  · rfl

theorem latches_safetyTail (env : Env K) (c t : K) (r : Bool) (i : Nat) (m : Manager K)
    (hl : Latched m) : latches (safetyTail env c t r i m) = latches m := by
  unfold safetyTail
  simp only [safetyInnovationStage_latched env m hl, safetyTiltStage_latched env t m hl,
    safetyPositionStage_latched env c m hl, safetyYawStage_latched env m hl,
    latches_safetyOffboardStage, latches_safetyTiltErrorDisarmStage,
    latches_safetyTiltDisarmStage]


theorem safetyFailsafeStage_latched (env : Env K) (c : K) (m : Manager K)
    (h : m.failsafe_triggered_ = true) : safetyFailsafeStage env c m = m := by
  unfold safetyFailsafeStage
  simp [h]

theorem safetyFailsafeStage_eland (env : Env K) (c : K) (m : Manager K) (hl : Latched m) :
    Latched (safetyFailsafeStage env c m)
      ∧ countElandCalls (safetyFailsafeStage env c m).log = countElandCalls m.log := by
  unfold safetyFailsafeStage
  split_ifs
  · rcases latches_failsafe env m with h | h
    · constructor
      · left; exact congrArg (fun t => t.1) h
      · exact congrArg (fun t => t.2.2.2) h
    · constructor
      · have h1 : (failsafe env m).2.failsafe_triggered_ = m.failsafe_triggered_ :=
          congrArg (fun t => t.1) h
        have h2 : (failsafe env m).2.eland_triggered_ = m.eland_triggered_ :=
          congrArg (fun t => t.2.1) h
        unfold Latched at hl ⊢
        rw [h1, h2]; exact hl
      · exact congrArg (fun t => t.2.2.2) h
  all_goals exact ⟨hl, rfl⟩

theorem safetyChecks_failsafe_latched (env : Env K) (c c1 t : K) (r : Bool) (i : Nat)
    (m : Manager K) (h : m.failsafe_triggered_ = true) :
    latches (safetyTail env c t r i (safetyFailsafeStage env c1 m)) = latches m := by
  rw [safetyFailsafeStage_latched _ _ _ h, latches_safetyTail _ _ _ _ _ _ (Or.inl h)]

theorem safetyChecks_eland_latched (env : Env K) (c c1 t : K) (r : Bool) (i : Nat)
    (m : Manager K) (hl : Latched m) :
    Latched (safetyTail env c t r i (safetyFailsafeStage env c1 m))
      ∧ countElandCalls (safetyTail env c t r i (safetyFailsafeStage env c1 m)).log
          = countElandCalls m.log := by
  have h5 := safetyFailsafeStage_eland env c1 m hl
  have ht := latches_safetyTail env c t r i _ h5.1
  exact ⟨Latched.of_latches_eq ht h5.1, (congrArg (fun t => t.2.2.2) ht).trans h5.2⟩

theorem timerSafety_failsafe_latched (env : Env K) (m : Manager K)
    (h : m.failsafe_triggered_ = true) : latches (timerSafety env m) = latches m := by
  unfold timerSafety
  simp only
  split_ifs
  · rfl
  · rfl
  · rfl
  · split
    · exact safetyChecks_failsafe_latched env _ _ _ _ _ _ h
    · rfl

theorem timerSafety_eland_latched (env : Env K) (m : Manager K) (hl : Latched m) :
    Latched (timerSafety env m)
      ∧ countElandCalls (timerSafety env m).log = countElandCalls m.log := by
  unfold timerSafety
  simp only
  split_ifs
  · exact ⟨hl, rfl⟩
  · exact ⟨hl, rfl⟩
  · exact ⟨hl, rfl⟩
  · split
    · exact safetyChecks_eland_latched env _ _ _ _ _ _ hl
    · exact ⟨hl, rfl⟩

theorem timerSafetyRun_failsafe_latched (envs : List (Env K)) (m : Manager K)
    (h : m.failsafe_triggered_ = true) : latches (timerSafetyRun envs m) = latches m := by
  induction envs generalizing m with
  | nil => rfl
  | cons env rest ih =>
    have h1 := timerSafety_failsafe_latched env m h
    have h2 : (timerSafety env m).failsafe_triggered_ = true :=
      (congrArg (fun t => t.1) h1).trans h
    simp only [timerSafetyRun]
    rw [ih _ h2, h1]

theorem timerSafetyRun_eland_latched (envs : List (Env K)) (m : Manager K) (hl : Latched m) :
    Latched (timerSafetyRun envs m)
      ∧ countElandCalls (timerSafetyRun envs m).log = countElandCalls m.log := by
  induction envs generalizing m with
  | nil => exact ⟨hl, rfl⟩
  | cons env rest ih =>
    have h1 := timerSafety_eland_latched env m hl
    have h2 := ih _ h1.1
    simp only [timerSafetyRun]
    exact ⟨h2.1, h2.2.trans h1.2⟩


/-! ### The failsafe latch is touched by `failsafe()` only -/

theorem failsafeLatch_of_latches {m m1 : Manager K} (h : latches m1 = latches m) :
    failsafeLatch m1 = failsafeLatch m := by
  have h1 : m1.failsafe_triggered_ = m.failsafe_triggered_ := congrArg (fun t => t.1) h
  have h2 : countFailsafeCalls m1.log = countFailsafeCalls m.log := congrArg (fun t => t.2.2.1) h
  unfold failsafeLatch
  rw [h1, h2]

theorem failsafeLatch_record (m : Manager K) (e : Event K) (h1 : e ≠ Event.call_failsafe) :
    failsafeLatch (m.record e) = failsafeLatch m := by
  cases e <;> simp_all [failsafeLatch, Manager.record, countFailsafeCalls, List.countP_append]

theorem failsafeLatch_changeLandingState (s : LandingStates_t) (m : Manager K) :
    failsafeLatch (changeLandingState s m) = failsafeLatch m := by
  unfold changeLandingState
  cases s <;> simp only <;> (try split) <;> rfl

theorem failsafeLatch_eland (env : Env K) (m : Manager K) :
    failsafeLatch (eland env m).2 = failsafeLatch m := by
  have h0 : failsafeLatch (m.record Event.call_eland) = failsafeLatch m :=
    failsafeLatch_record _ _ (by simp)
  unfold eland
  simp only
  split_ifs
  · exact h0
  · exact h0
  · exact h0
  · exact h0
  · rw [failsafeLatch_of_latches (latches_switchMotors env false _)]; exact h0
  · rw [failsafeLatch_of_latches (latches_switchTracker env _ _)]; exact h0
  · show failsafeLatch (odometryCallbacksSrv false (changeLandingState _ _)) = _
    unfold odometryCallbacksSrv
    rw [failsafeLatch_record _ _ (by simp), failsafeLatch_changeLandingState,
      failsafeLatch_of_latches (latches_elandSrv env _),
      failsafeLatch_of_latches (latches_switchController env _ _),
      failsafeLatch_of_latches (latches_switchTracker env _ _)]
    exact h0
  · rw [failsafeLatch_of_latches (latches_elandSrv env _),
      failsafeLatch_of_latches (latches_switchController env _ _),
      failsafeLatch_of_latches (latches_switchTracker env _ _)]
    exact h0

theorem failsafeLatch_safetyEland (env : Env K) (m : Manager K) :
    failsafeLatch (safetyEland env m) = failsafeLatch m := by
  unfold safetyEland
  split_ifs <;> first | rfl | exact failsafeLatch_eland env m

theorem failsafeLatch_safetyUngrip (env : Env K) (m : Manager K) :
    failsafeLatch (safetyUngrip env m) = failsafeLatch m := by
  unfold safetyUngrip
  split_ifs <;> first | rfl | exact failsafeLatch_record _ _ (by simp)

theorem failsafeLatch_safetyTail (env : Env K) (c t : K) (r : Bool) (i : Nat) (m : Manager K) :
    failsafeLatch (safetyTail env c t r i m) = failsafeLatch m := by
  have hI : ∀ s, failsafeLatch (safetyInnovationStage env s) = failsafeLatch s := by
    intro s; unfold safetyInnovationStage
    split_ifs <;> first | rfl | exact failsafeLatch_safetyEland env s
  have hT : ∀ s, failsafeLatch (safetyTiltStage env t s) = failsafeLatch s := by
    intro s; unfold safetyTiltStage
    split_ifs <;> first | rfl | exact failsafeLatch_safetyEland env s
  have hP : ∀ s, failsafeLatch (safetyPositionStage env c s) = failsafeLatch s := by
    intro s; unfold safetyPositionStage
    simp only
    split_ifs <;>
      simp only [failsafeLatch_safetyEland, failsafeLatch_safetyUngrip]
  have hY : ∀ s, failsafeLatch (safetyYawStage env s) = failsafeLatch s := by
    intro s; unfold safetyYawStage
    simp only
    split_ifs <;>
      simp only [failsafeLatch_safetyEland, failsafeLatch_safetyUngrip]
  unfold safetyTail
  simp only
  rw [failsafeLatch_of_latches (latches_safetyOffboardStage env _ _),
    failsafeLatch_of_latches (latches_safetyTiltErrorDisarmStage env _ _ _),
    failsafeLatch_of_latches (latches_safetyTiltDisarmStage env _ _), hY, hP, hT, hI]


theorem safetyFailsafeStage_early (env : Env K) (c : K) (m : Manager K)
    (h : env.now - m.controller_tracker_switch_time_ ≤ 1) : safetyFailsafeStage env c m = m := by
  unfold safetyFailsafeStage
  simp [not_lt.mpr h]

theorem failsafe_latched (env : Env K) (m : Manager K) (hinit : m.is_initialized_ = true)
    (hft : m.failsafe_triggered_ = false) (hflying : m.active_tracker_idx_ ≠ m._null_tracker_idx_)
    (hrc : m._rc_emergency_handoff_ = false) (hpar : m._parachute_enabled_ = false)
    (hidx : m._failsafe_controller_idx_ ≠ m.active_controller_idx_)
    (hact : env.controller_activate (m.log.length + 1) m._failsafe_controller_idx_ ≠ none) :
    (failsafe env m).2.failsafe_triggered_ = true := by
  unfold failsafe
  have h1 : (m.record Event.call_failsafe).is_initialized_ = true := hinit
  have h2 : (m.record Event.call_failsafe).failsafe_triggered_ = false := hft
  have h3 : ¬ (m.record Event.call_failsafe).active_tracker_idx_
      = (m.record Event.call_failsafe)._null_tracker_idx_ := hflying
  have h4 : (m.record Event.call_failsafe)._rc_emergency_handoff_ = false := hrc
  have h5 : (m.record Event.call_failsafe)._parachute_enabled_ = false := hpar
  simp only [h1, h2, h3, h4, h5, Bool.not_true, Bool.false_eq_true, if_false]
  apply latches_failsafeController_latched
  · exact hidx
  · simpa [Manager.record_log] using hact

theorem safetyChecks_fire (env : Env K) (c c1 t : K) (r : Bool) (i : Nat) (m : Manager K)
    (hft : m.failsafe_triggered_ = false) (herr : c1 > m._failsafe_threshold_)
    (htime : env.now - m.controller_tracker_switch_time_ > 1) :
    countFailsafeCalls (safetyTail env c t r i (safetyFailsafeStage env c1 m)).log
        = countFailsafeCalls m.log + 1
      ∧ ((failsafe env m).2.failsafe_triggered_ = true →
          (safetyTail env c t r i (safetyFailsafeStage env c1 m)).failsafe_triggered_ = true) := by
  have hs : safetyFailsafeStage env c1 m = (failsafe env m).2 := by
    unfold safetyFailsafeStage
    simp [hft, herr, htime]
  have ht := failsafeLatch_safetyTail env c t r i (failsafe env m).2
  rw [hs]
  constructor
  · have h1 : countFailsafeCalls (safetyTail env c t r i (failsafe env m).2).log
        = countFailsafeCalls (failsafe env m).2.log := congrArg (fun p => p.2) ht
    rw [h1]
    rcases latches_failsafe env m with h | h <;> exact congrArg (fun p => p.2.2.1) h
  · intro hl
    have h1 : (safetyTail env c t r i (failsafe env m).2).failsafe_triggered_
        = (failsafe env m).2.failsafe_triggered_ := congrArg (fun p => p.1) ht
    rw [h1]; exact hl

/-- C4 (as stated, refuted): with the failsafe controller already the active
controller, a control error of 5 m against a threshold of 1 m, 1.01 s after the
last switch, makes two successive safety checks call `failsafe()` twice. -/
theorem failsafe_invoked_in_every_check :
    (Manager.flyingOnFailsafeController : Manager ℚ).active_tracker_idx_
        ≠ (Manager.flyingOnFailsafeController : Manager ℚ)._null_tracker_idx_
      ∧ (Manager.flyingOnFailsafeController : Manager ℚ).failsafe_triggered_ = false
      ∧ countFailsafeCalls (timerSafetyRun [Env.calm (101 / 100 : ℚ), Env.calm (111 / 100)]
          Manager.flyingOnFailsafeController).log = 2 := by
  decide!

/-- C4 (amended): in a safety check that passes the liveness guards, with a
non-null tracker active, both last commands present, failsafe not yet triggered
and the control error above the active controller's failsafe threshold:
`failsafe()` is not called when at most 1 s has elapsed since the last switch; it
is called (once) when more than 1 s has elapsed; and when RC hand-off and the
parachute are off, the failsafe controller is not already active and its
activation does not throw, the call sets the latch and no later safety check
calls `failsafe()` again, so that it is called exactly once in total. -/
theorem failsafe_hysteresis (env : Env K) (envs : List (Env K)) (m : Manager K)
    (position_cmd : PositionCommand K) (attitude_cmd : AttitudeCommand K)
    (hinit : m.is_initialized_ = true) (hstate : m.got_uav_state_ = true)
    (hinnov : ¬ (m._state_input_ = StateInput.INPUT_UAV_STATE
      ∧ m._odometry_innovation_check_enabled_ = true ∧ m.sh_odometry_innovation_hasMsg = false))
    (hpix : m.sh_pixhawk_odometry_hasMsg = true)
    (hflying : m.active_tracker_idx_ ≠ m._null_tracker_idx_)
    (hsw : m.odometry_switch_in_progress_ = false)
    (hpos : m.last_position_cmd_ = some position_cmd)
    (hatt : m.last_attitude_cmd_ = some attitude_cmd)
    (hft : m.failsafe_triggered_ = false)
    (herr : controlError env position_cmd (position_cmd.position.x - m.uav_state_.position.x)
        (position_cmd.position.y - m.uav_state_.position.y)
        (position_cmd.position.z - m.uav_state_.position.z)
      > (m.controllers_ (m._controller_names_.getD m.active_controller_idx_ "")).failsafe_threshold) :
    (env.now - m.controller_tracker_switch_time_ ≤ 1 →
        countFailsafeCalls (timerSafety env m).log = countFailsafeCalls m.log)
      ∧ (env.now - m.controller_tracker_switch_time_ > 1 →
        countFailsafeCalls (timerSafety env m).log = countFailsafeCalls m.log + 1
          ∧ (m._rc_emergency_handoff_ = false → m._parachute_enabled_ = false →
              m._failsafe_controller_idx_ ≠ m.active_controller_idx_ →
              env.controller_activate (m.log.length + 1) m._failsafe_controller_idx_ ≠ none →
              countFailsafeCalls (timerSafetyRun envs (timerSafety env m)).log
                = countFailsafeCalls m.log + 1)) := by
  have hguard : ¬ ((!m.got_uav_state_) = true
      ∨ (m._state_input_ = StateInput.INPUT_UAV_STATE ∧ m._odometry_innovation_check_enabled_ = true
          ∧ (!m.sh_odometry_innovation_hasMsg) = true)
      ∨ (!m.sh_pixhawk_odometry_hasMsg) = true ∨ m.active_tracker_idx_ = m._null_tracker_idx_) := by
    simp only [hstate, hpix, Bool.not_true, Bool.false_eq_true, false_or, Bool.not_eq_true',
      not_or]
    exact ⟨hinnov, hflying⟩
  have hrun : timerSafety env m = safetyTail env
      (controlError env position_cmd (position_cmd.position.x - m.uav_state_.position.x)
        (position_cmd.position.y - m.uav_state_.position.y)
        (position_cmd.position.z - m.uav_state_.position.z))
      env.tilt_angle attitude_cmd.ramping_up m.active_tracker_idx_
      (safetyFailsafeStage env
        (controlError env position_cmd (position_cmd.position.x - m.uav_state_.position.x)
          (position_cmd.position.y - m.uav_state_.position.y)
          (position_cmd.position.z - m.uav_state_.position.z))
        (safetyErrors env position_cmd m.uav_state_
          (safetyThresholds m.active_controller_idx_ m))) := by
    unfold timerSafety
    simp only [hinit, Bool.not_true, Bool.false_eq_true, if_false, hguard, hsw, hpos, hatt]
    rfl
  generalize hm4 : safetyErrors env position_cmd m.uav_state_
    (safetyThresholds m.active_controller_idx_ m) = m4 at hrun
  have e1 : m4.failsafe_triggered_ = m.failsafe_triggered_ := by subst hm4; rfl
  have e2 : m4.log = m.log := by subst hm4; rfl
  have e3 : m4.controller_tracker_switch_time_ = m.controller_tracker_switch_time_ := by
    subst hm4; rfl
  have e4 : m4._failsafe_threshold_
      = (m.controllers_ (m._controller_names_.getD m.active_controller_idx_ "")).failsafe_threshold := by
    subst hm4; rfl
  have e5 : m4.is_initialized_ = m.is_initialized_ := by subst hm4; rfl
  have e6 : m4.active_tracker_idx_ = m.active_tracker_idx_ := by subst hm4; rfl
  have e7 : m4._null_tracker_idx_ = m._null_tracker_idx_ := by subst hm4; rfl
  have e8 : m4._rc_emergency_handoff_ = m._rc_emergency_handoff_ := by subst hm4; rfl
  have e9 : m4._parachute_enabled_ = m._parachute_enabled_ := by subst hm4; rfl
  have e10 : m4._failsafe_controller_idx_ = m._failsafe_controller_idx_ := by subst hm4; rfl
  have e11 : m4.active_controller_idx_ = m.active_controller_idx_ := by subst hm4; rfl
  constructor
  · intro hearly
    rw [hrun, safetyFailsafeStage_early env _ m4 (e3 ▸ hearly)]
    have := congrArg (fun p => p.2) (failsafeLatch_safetyTail env
      (controlError env position_cmd (position_cmd.position.x - m.uav_state_.position.x)
        (position_cmd.position.y - m.uav_state_.position.y)
        (position_cmd.position.z - m.uav_state_.position.z))
      env.tilt_angle attitude_cmd.ramping_up m.active_tracker_idx_ m4)
    simpa [failsafeLatch, e2] using this
  · intro hlate
    have hfire := safetyChecks_fire env
      (controlError env position_cmd (position_cmd.position.x - m.uav_state_.position.x)
        (position_cmd.position.y - m.uav_state_.position.y)
        (position_cmd.position.z - m.uav_state_.position.z))
      (controlError env position_cmd (position_cmd.position.x - m.uav_state_.position.x)
        (position_cmd.position.y - m.uav_state_.position.y)
        (position_cmd.position.z - m.uav_state_.position.z))
      env.tilt_angle attitude_cmd.ramping_up m.active_tracker_idx_ m4 (e1.trans hft)
      (e4 ▸ herr) (e3 ▸ hlate)
    rw [← hrun, e2] at hfire
    refine ⟨hfire.1, ?_⟩
    intro hrc hpar hidx hact
    have hl := hfire.2 (failsafe_latched env m4 (e5.trans hinit) (e1.trans hft)
      (by rw [e6, e7]; exact hflying) (e8.trans hrc) (e9.trans hpar) (by rw [e10, e11]; exact hidx)
      (by rw [e2, e10]; exact hact))
    have := congrArg (fun p => p.2.2.1) (timerSafetyRun_failsafe_latched envs _ hl)
    exact this.trans hfire.1

theorem failsafe_hysteresis_witness :
    countFailsafeCalls (timerSafety (Env.calm (1 : ℚ)) Manager.flying).log = 0
      ∧ countFailsafeCalls (timerSafety (Env.calm (101 / 100 : ℚ)) Manager.flying).log = 1
      ∧ countFailsafeCalls (timerSafetyRun [Env.calm (111 / 100 : ℚ), Env.calm (121 / 100)]
          (timerSafety (Env.calm (101 / 100 : ℚ)) Manager.flying)).log = 1 :=
  ⟨(failsafe_hysteresis (Env.calm (1 : ℚ)) [] Manager.flying
      (PositionCommand.hold ⟨0, 0, 5⟩).vertical AttitudeCommand.zero
      (by decide) (by decide) (by decide) (by decide) (by decide) (by decide) rfl rfl
      (by decide) (by decide!)).1 (by decide!),
    ((failsafe_hysteresis (Env.calm (101 / 100 : ℚ)) [] Manager.flying
      (PositionCommand.hold ⟨0, 0, 5⟩).vertical AttitudeCommand.zero
      (by decide) (by decide) (by decide) (by decide) (by decide) (by decide) rfl rfl
      (by decide) (by decide!)).2 (by decide!)).1,
    ((failsafe_hysteresis (Env.calm (101 / 100 : ℚ)) [Env.calm (111 / 100 : ℚ), Env.calm (121 / 100)]
      Manager.flying
      (PositionCommand.hold ⟨0, 0, 5⟩).vertical AttitudeCommand.zero
      (by decide) (by decide) (by decide) (by decide) (by decide) (by decide) rfl rfl
      (by decide) (by decide!)).2 (by decide!)).2 (by decide) (by decide) (by decide) (by decide)⟩

/-- C5: from a state in which `eland_triggered_` is set, no sequence of safety
checks, whatever the measured errors, calls `eland()`; and a call of `eland()` in
such a state returns failure and changes nothing but the trace (landing state,
active tracker and active controller are as before). -/
theorem eland_latch_one_shot (env : Env K) (envs : List (Env K)) (m : Manager K)
    (h : m.eland_triggered_ = true) :
    countElandCalls (timerSafetyRun envs m).log = countElandCalls m.log
      ∧ (eland env m).1.1 = false ∧ (eland env m).2 = m.record Event.call_eland := by
  refine ⟨(timerSafetyRun_eland_latched envs m (Or.inr h)).2, ?_⟩
  unfold eland
  have h1 : (m.record Event.call_eland).eland_triggered_ = true := h
  simp only [h1, if_true]
  split_ifs <;> exact ⟨rfl, rfl⟩


theorem eland_latch_one_shot_witness :
    countElandCalls (timerSafetyRun [Env.calm (101 / 100 : ℚ), Env.calm (111 / 100)]
        Manager.landing).log = countElandCalls (Manager.landing : Manager ℚ).log
      ∧ (eland (Env.calm (101 / 100 : ℚ)) Manager.landing).1.1 = false
      ∧ (eland (Env.calm (101 / 100 : ℚ)) Manager.landing).2
          = Manager.landing.record Event.call_eland :=
  eland_latch_one_shot (Env.calm (101 / 100 : ℚ)) [Env.calm (101 / 100 : ℚ), Env.calm (111 / 100)]
    Manager.landing (by decide)


/-! ### The real `<cmath>` -/

theorem real_sin_atan2 (x y : ℝ) :
    Libm.real.sin (Libm.real.atan2 y x) = y / Real.sqrt (x ^ 2 + y ^ 2) := by
  show Real.sin (Complex.arg ⟨x, y⟩) = _
  rw [Complex.sin_arg, Complex.abs_eq_sqrt_sq_add_sq]

theorem real_cos_atan2 (x y : ℝ) (h : Real.sqrt (x ^ 2 + y ^ 2) ≠ 0) :
    Libm.real.cos (Libm.real.atan2 y x) = x / Real.sqrt (x ^ 2 + y ^ 2) := by
  show Real.cos (Complex.arg ⟨x, y⟩) = _
  have hz : (⟨x, y⟩ : ℂ) ≠ 0 := by
    intro hz
    have hx : x = 0 := congrArg Complex.re hz
    have hy : y = 0 := congrArg Complex.im hz
    apply h
    rw [hx, hy]; simp
  rw [Complex.cos_arg hz, Complex.abs_eq_sqrt_sq_add_sq]

theorem real_atan2_pos_x_axis (x : ℝ) (hx : 0 ≤ x) : Libm.real.atan2 0 x = 0 := by
  show Complex.arg ⟨x, 0⟩ = 0
  exact Complex.arg_ofReal_of_nonneg hx

theorem real_fmod_self (a : ℝ) (ha : a ≠ 0) : Libm.real.fmod a a = 0 := by
  show a - a * (if 0 ≤ a / a then (⌊a / a⌋ : ℝ) else (⌈a / a⌉ : ℝ)) = 0
  rw [div_self ha]
  simp

theorem bumperGetSectorId_pos_x_axis (now : ℝ) (data : ObstacleSectors ℝ) (x z : ℝ)
    (hx : 0 ≤ x) (hn : 1 ≤ data.n_horizontal_sectors) :
    bumperGetSectorId (Env.real now) data x 0 z = 0 := by
  have hpi : (0 : ℝ) < 2 * Real.pi := by positivity
  have hn' : (0 : ℝ) < (data.n_horizontal_sectors : ℝ) := by exact_mod_cast hn
  unfold bumperGetSectorId
  show (let TAU := 2 * Real.pi
    let point_heading_horizontal := Libm.real.atan2 0 x + TAU
    let point_heading_horizontal :=
      if |point_heading_horizontal| ≥ TAU then Libm.real.fmod point_heading_horizontal TAU
      else point_heading_horizontal
    let sector_size := TAU / (data.n_horizontal_sectors : ℝ)
    let idx := ⌊(point_heading_horizontal + sector_size / 2) / sector_size⌋
    if idx > (data.n_horizontal_sectors : Int) - 1 then
      idx - (data.n_horizontal_sectors : Int)
    else idx) = 0
  simp only [real_atan2_pos_x_axis x hx, zero_add, abs_of_pos hpi, ge_iff_le, le_refl, if_true,
    real_fmod_self _ (ne_of_gt hpi)]
  have h2 : (2 * Real.pi / (data.n_horizontal_sectors : ℝ) / 2)
      / (2 * Real.pi / (data.n_horizontal_sectors : ℝ)) = 1 / 2 := by
    field_simp
    ring
  have h3 : ⌊(1 / 2 : ℝ)⌋ = 0 := by
    rw [Int.floor_eq_iff]; norm_num
  rw [h2, h3]
  have : ¬ (0 : Int) > (data.n_horizontal_sectors : Int) - 1 := by omega
  rw [if_neg this]


/-! ### The obstacle bumper -/

theorem bumper_unmodified_without_hugging (env : Env K) (point : ReferenceStamped K)
    (m : Manager K) (hhug : m._bumper_hugging_enabled_ = false) :
    (bumperValidatePoint env point m).1.2 = point := by
  unfold bumperValidatePoint
  by_cases h1 : m.bumper_enabled_ = true
  · simp only [h1, Bool.not_true, Bool.false_eq_true, if_false]
    cases m.sh_bumper_ with
    | none => rfl
    | some data =>
      simp only
      by_cases h3 : env.now - m.sh_bumper_lastMsgTime > 1
      · simp only [h3, if_true]
      · simp only [h3, if_false]
        cases env.transformer_.transformSingle point "fcu_untilted" with
        | none => rfl
        | some p =>
          simp only [hhug, Bool.false_eq_true, if_false]
          split_ifs <;> rfl
  · simp [h1]

theorem bumperValidatePoint_same_frame (env : Env K) (point : ReferenceStamped K)
    (m : Manager K) (data : ObstacleSectors K)
    (htf : ∀ p f, env.transformer_.transformSingle p f = some p)
    (hen : m.bumper_enabled_ = true) (hdata : m.sh_bumper_ = some data)
    (hfresh : ¬ env.now - m.sh_bumper_lastMsgTime > 1)
    (sh sv r : K)
    (hsh : sectorAt data (bumperGetSectorId env data point.reference.position.x
      point.reference.position.y point.reference.position.z) = sh)
    (hsv : sectorAt data (if point.reference.position.z < 0 then (data.n_horizontal_sectors : Int)
      else (data.n_horizontal_sectors : Int) + 1) = sv)
    (hr : env.libm.sqrt (point.reference.position.x ^ 2 + point.reference.position.y ^ 2) = r) :
    (bumperValidatePoint env point m).1 =
      if sh = data.OBSTACLE_NO_DATA then (false, point)
      else if sh = data.OBSTACLE_NOT_DETECTED ∧ sv = data.OBSTACLE_NOT_DETECTED then (true, point)
      else if r ≤ sh - m.bumper_horizontal_distance_
          ∧ (|point.reference.position.z| ≤ 1 / 10
            ∨ |point.reference.position.z| ≤ sv - m.bumper_vertical_distance_) then (true, point)
      else if r > 1 / 10 ∧ (sh > 0 ∧ sh ≤ m.bumper_horizontal_distance_) then (false, point)
      else if |point.reference.position.z| > 1 / 10
          ∧ (sv > 0 ∧ sv ≤ m.bumper_vertical_distance_) then (false, point)
      else if m._bumper_hugging_enabled_ = true then
        (true, hugPoint env point sh sv m.bumper_horizontal_distance_ m.bumper_vertical_distance_)
      else (false, point) := by
  unfold bumperValidatePoint
  simp only [hen, hdata, htf, hfresh, Bool.not_true, Bool.false_eq_true, if_false, hsh, hsv, hr]
  split_ifs <;> rfl


theorem bumperValidatePoint_stale (env : Env K) (point : ReferenceStamped K) (m : Manager K)
    (h : env.now - m.sh_bumper_lastMsgTime > 1) :
    (bumperValidatePoint env point m).1 = (true, point) := by
  unfold bumperValidatePoint
  split_ifs
  · rfl
  · split
    · rfl
    · simp only [h, if_true]

theorem hugPoint_horizontal (env : Env ℝ) (point : ReferenceStamped ℝ) (sh sv bhd bvd : ℝ)
    (hlib : env.libm = Libm.real)
    (hfar : Real.sqrt (point.reference.position.x ^ 2 + point.reference.position.y ^ 2) > 0)
    (hpos : sh > 0)
    (hge : Real.sqrt (point.reference.position.x ^ 2 + point.reference.position.y ^ 2) ≥ sh - bhd) :
    (hugPoint env point sh sv bhd bvd).reference.position.x
        = (sh - bhd) / Real.sqrt (point.reference.position.x ^ 2 + point.reference.position.y ^ 2)
          * point.reference.position.x
      ∧ (hugPoint env point sh sv bhd bvd).reference.position.y
        = (sh - bhd) / Real.sqrt (point.reference.position.x ^ 2 + point.reference.position.y ^ 2)
          * point.reference.position.y := by
  have hcond : sh > 0
      ∧ Libm.real.sqrt (point.reference.position.x ^ 2 + point.reference.position.y ^ 2)
        ≥ sh - bhd := ⟨hpos, hge⟩
  unfold hugPoint
  simp only [hlib, if_pos hcond, real_cos_atan2 _ _ (ne_of_gt hfar), real_sin_atan2]
  constructor <;> ring

theorem hugPoint_unchanged (env : Env K) (point : ReferenceStamped K) (sh sv bhd bvd : K)
    (h : ¬ (sh > 0
      ∧ env.libm.sqrt (point.reference.position.x ^ 2 + point.reference.position.y ^ 2)
          ≥ sh - bhd)) :
    (hugPoint env point sh sv bhd bvd).reference.position.x = point.reference.position.x
      ∧ (hugPoint env point sh sv bhd bvd).reference.position.y = point.reference.position.y := by
  unfold hugPoint
  simp only [if_neg h, and_self]

theorem scaled_distance (x y d : ℝ) (hr : Real.sqrt (x ^ 2 + y ^ 2) > 0) (hd : 0 ≤ d) :
    Real.sqrt ((d / Real.sqrt (x ^ 2 + y ^ 2) * x) ^ 2 + (d / Real.sqrt (x ^ 2 + y ^ 2) * y) ^ 2)
      = d := by
  have hnn : 0 ≤ x ^ 2 + y ^ 2 := by positivity
  have hsq : Real.sqrt (x ^ 2 + y ^ 2) ^ 2 = x ^ 2 + y ^ 2 := Real.sq_sqrt hnn
  have hne : Real.sqrt (x ^ 2 + y ^ 2) ≠ 0 := ne_of_gt hr
  have : (d / Real.sqrt (x ^ 2 + y ^ 2) * x) ^ 2 + (d / Real.sqrt (x ^ 2 + y ^ 2) * y) ^ 2
      = d ^ 2 := by
    have h1 : (d / Real.sqrt (x ^ 2 + y ^ 2) * x) ^ 2 + (d / Real.sqrt (x ^ 2 + y ^ 2) * y) ^ 2
        = d ^ 2 * (x ^ 2 + y ^ 2) / Real.sqrt (x ^ 2 + y ^ 2) ^ 2 := by
      field_simp
      ring
    rw [h1, hsq]
    have hxy : x ^ 2 + y ^ 2 ≠ 0 := by
      intro h0
      apply hne
      rw [h0]
      exact Real.sqrt_zero
    field_simp
  rw [this, Real.sqrt_sq hd]

/-- C7 (as stated, refuted): with hugging enabled, an obstacle at 0.5 m, a margin
of 1 m and a candidate point 0.05 m ahead of the vehicle, the point is accepted
after being moved to 0.5 m behind the vehicle: the opposite bearing, farther than
the original point, and not at distance `0.5 - 1`. -/
theorem bumper_hugging_pushes_back :
    (bumperValidatePoint (Env.real 0) ⟨"", ⟨⟨1 / 20, 0, 0⟩, 0⟩⟩
        (Manager.bumping (ObstacleSectors.ahead (1 / 2)) 1 true)).1
      = (true, ⟨"", ⟨⟨-(1 / 2), 0, 0⟩, 0⟩⟩) := by
  have hr : (Env.real 0).libm.sqrt ((1 / 20 : ℝ) ^ 2 + (0 : ℝ) ^ 2) = 1 / 20 := by
    show Real.sqrt ((1 / 20 : ℝ) ^ 2 + (0 : ℝ) ^ 2) = 1 / 20
    rw [show ((1 / 20 : ℝ) ^ 2 + (0 : ℝ) ^ 2) = (1 / 20) ^ 2 by norm_num,
      Real.sqrt_sq (by norm_num)]
  have hid : bumperGetSectorId (Env.real 0) (ObstacleSectors.ahead (1 / 2 : ℝ)) (1 / 20) 0 0 = 0 :=
    bumperGetSectorId_pos_x_axis 0 _ _ _ (by norm_num) (by decide)
  have hfresh : ¬ (Env.real 0).now
      - (Manager.bumping (ObstacleSectors.ahead (1 / 2 : ℝ)) 1 true).sh_bumper_lastMsgTime > 1 := by
    show ¬ ((0 : ℝ) - 0 > 1)
    norm_num
  have hsh : sectorAt (ObstacleSectors.ahead (1 / 2 : ℝ))
      (bumperGetSectorId (Env.real 0) (ObstacleSectors.ahead (1 / 2 : ℝ)) (1 / 20) 0 0) = 1 / 2 := by
    rw [hid]; simp [sectorAt, ObstacleSectors.ahead]
  have hsv : sectorAt (ObstacleSectors.ahead (1 / 2 : ℝ))
      (if (0 : ℝ) < 0 then ((ObstacleSectors.ahead (1 / 2 : ℝ)).n_horizontal_sectors : Int)
        else ((ObstacleSectors.ahead (1 / 2 : ℝ)).n_horizontal_sectors : Int) + 1) = 10 := by
    simp [sectorAt, ObstacleSectors.ahead]
  have hnf := bumperValidatePoint_same_frame (Env.real 0) ⟨"", ⟨⟨1 / 20, 0, 0⟩, 0⟩⟩
    (Manager.bumping (ObstacleSectors.ahead (1 / 2 : ℝ)) 1 true) (ObstacleSectors.ahead (1 / 2))
    (fun _ _ => rfl) rfl rfl hfresh (1 / 2) 10 (1 / 20) hsh hsv hr
  have hx := hugPoint_horizontal (Env.real 0) ⟨"", ⟨⟨1 / 20, 0, 0⟩, 0⟩⟩ (1 / 2) 10 1 1 rfl
    (by show Real.sqrt ((1 / 20 : ℝ) ^ 2 + (0 : ℝ) ^ 2) > 0
        rw [show Real.sqrt ((1 / 20 : ℝ) ^ 2 + (0 : ℝ) ^ 2) = 1 / 20 from hr]; norm_num)
    (by norm_num)
    (by show Real.sqrt ((1 / 20 : ℝ) ^ 2 + (0 : ℝ) ^ 2) ≥ 1 / 2 - 1
        rw [show Real.sqrt ((1 / 20 : ℝ) ^ 2 + (0 : ℝ) ^ 2) = 1 / 20 from hr]; norm_num)
  have hz : (hugPoint (Env.real 0) ⟨"", ⟨⟨1 / 20, 0, 0⟩, 0⟩⟩ (1 / 2) 10 1 1).reference.position.z
      = 0 := by
    unfold hugPoint
    norm_num
  have hr' : Real.sqrt ((1 / 20 : ℝ) ^ 2 + (0 : ℝ) ^ 2) = 1 / 20 := hr
  simp only [hr'] at hx
  have hp : hugPoint (Env.real 0) ⟨"", ⟨⟨1 / 20, 0, 0⟩, 0⟩⟩ (1 / 2) 10 1 1
      = ⟨"", ⟨⟨(hugPoint (Env.real 0) ⟨"", ⟨⟨1 / 20, 0, 0⟩, 0⟩⟩ (1 / 2) 10 1 1).reference.position.x,
          (hugPoint (Env.real 0) ⟨"", ⟨⟨1 / 20, 0, 0⟩, 0⟩⟩ (1 / 2) 10 1 1).reference.position.y,
          (hugPoint (Env.real 0) ⟨"", ⟨⟨1 / 20, 0, 0⟩, 0⟩⟩ (1 / 2) 10 1 1).reference.position.z⟩,
          0⟩⟩ := rfl
  rw [hnf]
  have hb : (Manager.bumping (ObstacleSectors.ahead (1 / 2 : ℝ)) 1 true).bumper_horizontal_distance_
      = 1 := rfl
  have hv : (Manager.bumping (ObstacleSectors.ahead (1 / 2 : ℝ)) 1 true).bumper_vertical_distance_
      = 1 := rfl
  have hh : (Manager.bumping (ObstacleSectors.ahead (1 / 2 : ℝ)) 1 true)._bumper_hugging_enabled_
      = true := rfl
  have hnd : (ObstacleSectors.ahead (1 / 2 : ℝ)).OBSTACLE_NO_DATA = -1 := rfl
  have hnt : (ObstacleSectors.ahead (1 / 2 : ℝ)).OBSTACLE_NOT_DETECTED = 0 := rfl
  simp only [hb, hv, hh, hnd, hnt]
  norm_num
  rw [hp, hx.1, hx.2, hz]
  norm_num


/-- C7 (amended): with hugging enabled and identical frames, whenever
`bumperValidatePoint` accepts a point after changing its horizontal coordinates,
and the original point is more than 0.1 m away horizontally, the new point is the
original one scaled by the positive factor `D / r` (same bearing), where
`D = sector distance - horizontal margin` is positive and `r` is the original
horizontal distance; its horizontal distance is exactly `D`, and `D ≤ r`.  The
same input with hugging disabled is rejected, and with hugging disabled the
point is never modified. -/
theorem bumper_hugging_clamps (env : Env ℝ) (point : ReferenceStamped ℝ) (m : Manager ℝ)
    (data : ObstacleSectors ℝ) (hlib : env.libm = Libm.real)
    (htf : ∀ p f, env.transformer_.transformSingle p f = some p)
    (hen : m.bumper_enabled_ = true) (hdata : m.sh_bumper_ = some data)
    (hhug : m._bumper_hugging_enabled_ = true)
    (hacc : (bumperValidatePoint env point m).1.1 = true)
    (hchg : (bumperValidatePoint env point m).1.2.reference.position.x
          ≠ point.reference.position.x
        ∨ (bumperValidatePoint env point m).1.2.reference.position.y
          ≠ point.reference.position.y)
    (hfar : Real.sqrt (point.reference.position.x ^ 2 + point.reference.position.y ^ 2) > 1 / 10) :
    0 < sectorAt data (bumperGetSectorId env data point.reference.position.x
          point.reference.position.y point.reference.position.z) - m.bumper_horizontal_distance_
      ∧ sectorAt data (bumperGetSectorId env data point.reference.position.x
          point.reference.position.y point.reference.position.z) - m.bumper_horizontal_distance_
        ≤ Real.sqrt (point.reference.position.x ^ 2 + point.reference.position.y ^ 2)
      ∧ (bumperValidatePoint env point m).1.2.reference.position.x
        = (sectorAt data (bumperGetSectorId env data point.reference.position.x
            point.reference.position.y point.reference.position.z) - m.bumper_horizontal_distance_)
          / Real.sqrt (point.reference.position.x ^ 2 + point.reference.position.y ^ 2)
          * point.reference.position.x
      ∧ (bumperValidatePoint env point m).1.2.reference.position.y
        = (sectorAt data (bumperGetSectorId env data point.reference.position.x
            point.reference.position.y point.reference.position.z) - m.bumper_horizontal_distance_)
          / Real.sqrt (point.reference.position.x ^ 2 + point.reference.position.y ^ 2)
          * point.reference.position.y
      ∧ Real.sqrt ((bumperValidatePoint env point m).1.2.reference.position.x ^ 2
          + (bumperValidatePoint env point m).1.2.reference.position.y ^ 2)
        = sectorAt data (bumperGetSectorId env data point.reference.position.x
            point.reference.position.y point.reference.position.z) - m.bumper_horizontal_distance_
      ∧ (bumperValidatePoint env point { m with _bumper_hugging_enabled_ := false }).1
        = (false, point)
      ∧ (∀ (m2 : Manager ℝ) (p : ReferenceStamped ℝ), m2._bumper_hugging_enabled_ = false →
          (bumperValidatePoint env p m2).1.2 = p) := by
  have hsqrt : env.libm.sqrt (point.reference.position.x ^ 2 + point.reference.position.y ^ 2)
      = Real.sqrt (point.reference.position.x ^ 2 + point.reference.position.y ^ 2) := by
    rw [hlib]; rfl
  by_cases hfresh : env.now - m.sh_bumper_lastMsgTime > 1
  · rw [bumperValidatePoint_stale env point m hfresh] at hchg
    simp at hchg
  have hnf := bumperValidatePoint_same_frame env point m data htf hen hdata hfresh _ _ _ rfl rfl hsqrt
  have hnf2 := bumperValidatePoint_same_frame env point { m with _bumper_hugging_enabled_ := false }
    data htf hen hdata hfresh _ _ _ rfl rfl hsqrt
  generalize sectorAt data (bumperGetSectorId env data point.reference.position.x
    point.reference.position.y point.reference.position.z) = sh at hnf hnf2 ⊢
  generalize sectorAt data (if point.reference.position.z < 0 then (data.n_horizontal_sectors : Int)
    else (data.n_horizontal_sectors : Int) + 1) = sv at hnf hnf2
  have h1 : ¬ sh = data.OBSTACLE_NO_DATA := by
    intro h
    rw [hnf, if_pos h] at hacc
    exact Bool.noConfusion hacc
  rw [if_neg h1] at hnf hnf2
  have h2 : ¬ (sh = data.OBSTACLE_NOT_DETECTED ∧ sv = data.OBSTACLE_NOT_DETECTED) := by
    intro h
    rw [hnf, if_pos h] at hchg
    exact hchg.elim (fun hc => hc rfl) (fun hc => hc rfl)
  rw [if_neg h2] at hnf hnf2
  have h3 : ¬ (Real.sqrt (point.reference.position.x ^ 2 + point.reference.position.y ^ 2)
        ≤ sh - m.bumper_horizontal_distance_
      ∧ (|point.reference.position.z| ≤ 1 / 10
        ∨ |point.reference.position.z| ≤ sv - m.bumper_vertical_distance_)) := by
    intro h
    rw [hnf, if_pos h] at hchg
    exact hchg.elim (fun hc => hc rfl) (fun hc => hc rfl)
  rw [if_neg h3] at hnf
  rw [if_neg (by exact h3)] at hnf2
  have h4 : ¬ (Real.sqrt (point.reference.position.x ^ 2 + point.reference.position.y ^ 2) > 1 / 10
      ∧ (sh > 0 ∧ sh ≤ m.bumper_horizontal_distance_)) := by
    intro h
    rw [hnf, if_pos h] at hacc
    exact Bool.noConfusion hacc
  rw [if_neg h4] at hnf
  rw [if_neg (by exact h4)] at hnf2
  have h5 : ¬ (|point.reference.position.z| > 1 / 10
      ∧ (sv > 0 ∧ sv ≤ m.bumper_vertical_distance_)) := by
    intro h
    rw [hnf, if_pos h] at hacc
    exact Bool.noConfusion hacc
  rw [if_neg h5, if_pos hhug] at hnf
  rw [if_neg (by exact h5), if_neg (fun h => Bool.noConfusion h)] at hnf2
  rw [hnf] at hchg
  have hcond : sh > 0 ∧ env.libm.sqrt
      (point.reference.position.x ^ 2 + point.reference.position.y ^ 2)
        ≥ sh - m.bumper_horizontal_distance_ := by
    by_contra hc
    have := hugPoint_unchanged env point sh sv m.bumper_horizontal_distance_
      m.bumper_vertical_distance_ hc
    exact hchg.elim (fun h => h this.1) (fun h => h this.2)
  rw [hsqrt] at hcond
  have hD : 0 < sh - m.bumper_horizontal_distance_ := by
    by_contra hle
    exact h4 ⟨hfar, hcond.1, by linarith⟩
  have hrpos : Real.sqrt (point.reference.position.x ^ 2 + point.reference.position.y ^ 2) > 0 := by
    linarith
  have hxy := hugPoint_horizontal env point sh sv m.bumper_horizontal_distance_
    m.bumper_vertical_distance_ hlib hrpos hcond.1 hcond.2
  rw [hnf]
  refine ⟨hD, hcond.2, ?_, ?_, ?_, hnf2, fun m2 p h2 => bumper_unmodified_without_hugging env p m2 h2⟩
  · rw [hxy.1]
  · rw [hxy.2]
  · rw [hxy.1, hxy.2]
    exact scaled_distance _ _ _ hrpos (le_of_lt hD)


theorem real_sqrt_x_axis (x : ℝ) (hx : 0 ≤ x) : Real.sqrt (x ^ 2 + (0 : ℝ) ^ 2) = x := by
  rw [show x ^ 2 + (0 : ℝ) ^ 2 = x ^ 2 by ring, Real.sqrt_sq hx]

theorem bumper_x_axis (d margin x : ℝ) (hug : Bool) (hx : 0 < x) :
    (bumperValidatePoint (Env.real 0) ⟨"", ⟨⟨x, 0, 0⟩, 0⟩⟩
        (Manager.bumping (ObstacleSectors.ahead d) margin hug)).1 =
      if d = -1 then (false, ⟨"", ⟨⟨x, 0, 0⟩, 0⟩⟩)
      else if d = 0 ∧ (10 : ℝ) = 0 then (true, ⟨"", ⟨⟨x, 0, 0⟩, 0⟩⟩)
      else if x ≤ d - margin ∧ (|(0 : ℝ)| ≤ 1 / 10 ∨ |(0 : ℝ)| ≤ 10 - margin) then
        (true, ⟨"", ⟨⟨x, 0, 0⟩, 0⟩⟩)
      else if x > 1 / 10 ∧ (d > 0 ∧ d ≤ margin) then (false, ⟨"", ⟨⟨x, 0, 0⟩, 0⟩⟩)
      else if |(0 : ℝ)| > 1 / 10 ∧ ((10 : ℝ) > 0 ∧ 10 ≤ margin) then (false, ⟨"", ⟨⟨x, 0, 0⟩, 0⟩⟩)
      else if hug = true then (true, hugPoint (Env.real 0) ⟨"", ⟨⟨x, 0, 0⟩, 0⟩⟩ d 10 margin margin)
      else (false, ⟨"", ⟨⟨x, 0, 0⟩, 0⟩⟩) := by
  have hid : bumperGetSectorId (Env.real 0) (ObstacleSectors.ahead d) x 0 0 = 0 :=
    bumperGetSectorId_pos_x_axis 0 _ _ _ (le_of_lt hx) (by show 1 ≤ 8; norm_num)
  have hfresh : ¬ (Env.real 0).now
      - (Manager.bumping (ObstacleSectors.ahead d) margin hug).sh_bumper_lastMsgTime > 1 := by
    show ¬ ((0 : ℝ) - 0 > 1)
    norm_num
  have hsh : sectorAt (ObstacleSectors.ahead d)
      (bumperGetSectorId (Env.real 0) (ObstacleSectors.ahead d) x 0 0) = d := by
    rw [hid]; simp [sectorAt, ObstacleSectors.ahead]
  have hsv : sectorAt (ObstacleSectors.ahead d)
      (if (0 : ℝ) < 0 then ((ObstacleSectors.ahead d).n_horizontal_sectors : Int)
        else ((ObstacleSectors.ahead d).n_horizontal_sectors : Int) + 1) = 10 := by
    simp [sectorAt, ObstacleSectors.ahead]
  exact bumperValidatePoint_same_frame (Env.real 0) ⟨"", ⟨⟨x, 0, 0⟩, 0⟩⟩
    (Manager.bumping (ObstacleSectors.ahead d) margin hug) (ObstacleSectors.ahead d)
    (fun _ _ => rfl) rfl rfl hfresh d 10 x hsh hsv (real_sqrt_x_axis x (le_of_lt hx))

theorem hugPoint_x_axis (d margin x : ℝ) (hx : 0 < x) (hd : 0 < d) (hge : x ≥ d - margin)
    (hm : margin < 10) :
    hugPoint (Env.real 0) ⟨"", ⟨⟨x, 0, 0⟩, 0⟩⟩ d 10 margin margin
      = ⟨"", ⟨⟨d - margin, 0, 0⟩, 0⟩⟩ := by
  have hr := real_sqrt_x_axis x (le_of_lt hx)
  have hxy := hugPoint_horizontal (Env.real 0) ⟨"", ⟨⟨x, 0, 0⟩, 0⟩⟩ d 10 margin margin rfl
    (by show Real.sqrt (x ^ 2 + (0 : ℝ) ^ 2) > 0
        rw [hr]; exact hx)
    hd
    (by show Real.sqrt (x ^ 2 + (0 : ℝ) ^ 2) ≥ d - margin
        rw [hr]; exact hge)
  have hr2 : Real.sqrt (x ^ 2 + (0 : ℝ) ^ 2) = x := hr
  simp only [hr2] at hxy
  have hz : (hugPoint (Env.real 0) ⟨"", ⟨⟨x, 0, 0⟩, 0⟩⟩ d 10 margin margin).reference.position.z
      = 0 := by
    unfold hugPoint
    have : ¬ ((10 : ℝ) > 0 ∧ |(0 : ℝ)| ≥ 10 - margin) := by
      rw [abs_zero]; intro h; linarith [h.2]
    simp only [if_neg this]
  have hp : hugPoint (Env.real 0) ⟨"", ⟨⟨x, 0, 0⟩, 0⟩⟩ d 10 margin margin
      = ⟨"", ⟨⟨(hugPoint (Env.real 0) ⟨"", ⟨⟨x, 0, 0⟩, 0⟩⟩ d 10 margin margin).reference.position.x,
          (hugPoint (Env.real 0) ⟨"", ⟨⟨x, 0, 0⟩, 0⟩⟩ d 10 margin margin).reference.position.y,
          (hugPoint (Env.real 0) ⟨"", ⟨⟨x, 0, 0⟩, 0⟩⟩ d 10 margin margin).reference.position.z⟩,
          0⟩⟩ := rfl
  rw [hp, hxy.1, hxy.2, hz]
  have hx0 : x ≠ 0 := ne_of_gt hx
  congr 3
  · field_simp
  · simp

/-- C6 (as stated, refuted): with an obstacle at 2.0 m in the point's sector and
a margin of 1.0 m, a candidate point at horizontal distance 0.5 m is accepted,
unchanged, although hugging is disabled. -/
theorem bumper_accepts_near_point :
    (bumperValidatePoint (Env.real 0) ⟨"", ⟨⟨1 / 2, 0, 0⟩, 0⟩⟩
        (Manager.bumping (ObstacleSectors.ahead 2) 1 false)).1
      = (true, ⟨"", ⟨⟨1 / 2, 0, 0⟩, 0⟩⟩) := by
  rw [bumper_x_axis 2 1 (1 / 2) false (by norm_num)]
  norm_num

/-- C6 (amended): with the bumper enabled, fresh sensor data, identical frames, an
obstacle distance of 2.0 m in the point's horizontal sector (2.0 not being one of
the two marker values), a horizontal margin of 1.0 m and a candidate point at
most 0.1 m above or below the vehicle: a point at horizontal distance 0.5 m is
accepted unchanged, whether hugging is enabled or not; a point at horizontal
distance 1.5 m (0.5 m short of the obstacle) is rejected when hugging is
disabled, and when hugging is enabled it is accepted after being moved to
distance 1.0 m on the same bearing (scaled by 2/3). -/
theorem bumper_gate (env : Env ℝ) (point : ReferenceStamped ℝ) (m : Manager ℝ)
    (data : ObstacleSectors ℝ) (hlib : env.libm = Libm.real)
    (htf : ∀ p f, env.transformer_.transformSingle p f = some p)
    (hen : m.bumper_enabled_ = true) (hdata : m.sh_bumper_ = some data)
    (hfresh : ¬ env.now - m.sh_bumper_lastMsgTime > 1)
    (hsec : sectorAt data (bumperGetSectorId env data point.reference.position.x
      point.reference.position.y point.reference.position.z) = 2)
    (hmargin : m.bumper_horizontal_distance_ = 1)
    (hnodata : data.OBSTACLE_NO_DATA ≠ 2) (hnd : data.OBSTACLE_NOT_DETECTED ≠ 2)
    (hz : |point.reference.position.z| ≤ 1 / 10) :
    (Real.sqrt (point.reference.position.x ^ 2 + point.reference.position.y ^ 2) = 1 / 2 →
        (bumperValidatePoint env point m).1 = (true, point))
      ∧ (Real.sqrt (point.reference.position.x ^ 2 + point.reference.position.y ^ 2) = 3 / 2 →
        (m._bumper_hugging_enabled_ = false →
          (bumperValidatePoint env point m).1 = (false, point))
        ∧ (m._bumper_hugging_enabled_ = true →
          (bumperValidatePoint env point m).1.1 = true
          ∧ (bumperValidatePoint env point m).1.2.reference.position.x
            = 2 / 3 * point.reference.position.x
          ∧ (bumperValidatePoint env point m).1.2.reference.position.y
            = 2 / 3 * point.reference.position.y
          ∧ Real.sqrt ((bumperValidatePoint env point m).1.2.reference.position.x ^ 2
              + (bumperValidatePoint env point m).1.2.reference.position.y ^ 2) = 1)) := by
  have hsqrt : env.libm.sqrt (point.reference.position.x ^ 2 + point.reference.position.y ^ 2)
      = Real.sqrt (point.reference.position.x ^ 2 + point.reference.position.y ^ 2) := by
    rw [hlib]; rfl
  have hnf := bumperValidatePoint_same_frame env point m data htf hen hdata hfresh 2 _ _ hsec rfl
    hsqrt
  generalize sectorAt data (if point.reference.position.z < 0 then (data.n_horizontal_sectors : Int)
    else (data.n_horizontal_sectors : Int) + 1) = sv at hnf
  rw [hmargin, if_neg (fun h => hnodata h.symm), if_neg (fun h => hnd h.1.symm)] at hnf
  constructor
  · intro hr
    rw [hnf, hr, if_pos ⟨by norm_num, Or.inl hz⟩]
  · intro hr
    have hrpos : Real.sqrt (point.reference.position.x ^ 2 + point.reference.position.y ^ 2) > 0 := by
      rw [hr]; norm_num
    rw [hr, if_neg (fun h => by linarith [h.1]), if_neg (fun h => by linarith [h.2.2]),
      if_neg (fun h => absurd hz (not_le.mpr h.1))] at hnf
    constructor
    · intro hh
      rw [hnf, if_neg (by rw [hh]; exact fun h => Bool.noConfusion h)]
    · intro hh
      rw [if_pos hh] at hnf
      have hxy := hugPoint_horizontal env point 2 sv 1 m.bumper_vertical_distance_ hlib hrpos
        (by norm_num) (by rw [hr]; norm_num)
      rw [hnf]
      refine ⟨rfl, ?_, ?_, ?_⟩
      · rw [hxy.1, hr]; norm_num
      · rw [hxy.2, hr]; norm_num
      · rw [hxy.1, hxy.2]
        have := scaled_distance point.reference.position.x point.reference.position.y (2 - 1) hrpos
          (by norm_num)
        rw [this]; norm_num

theorem bumper_gate_witness :
    (bumperValidatePoint (Env.real 0) ⟨"", ⟨⟨3 / 2, 0, 0⟩, 0⟩⟩
        (Manager.bumping (ObstacleSectors.ahead 2) 1 true)).1.1 = true
      ∧ (bumperValidatePoint (Env.real 0) ⟨"", ⟨⟨3 / 2, 0, 0⟩, 0⟩⟩
          (Manager.bumping (ObstacleSectors.ahead 2) 1 true)).1.2.reference.position.x
        = 2 / 3 * (3 / 2)
      ∧ (bumperValidatePoint (Env.real 0) ⟨"", ⟨⟨3 / 2, 0, 0⟩, 0⟩⟩
          (Manager.bumping (ObstacleSectors.ahead 2) 1 false)).1
        = (false, ⟨"", ⟨⟨3 / 2, 0, 0⟩, 0⟩⟩) :=
  have hid (hug : Bool) : sectorAt (ObstacleSectors.ahead (2 : ℝ))
      (bumperGetSectorId (Env.real 0) (ObstacleSectors.ahead (2 : ℝ)) (3 / 2) 0 0) = 2 := by
    rw [bumperGetSectorId_pos_x_axis 0 _ _ _ (by norm_num) (by show 1 ≤ 8; norm_num)]
    simp [sectorAt, ObstacleSectors.ahead]
  have hfresh (hug : Bool) : ¬ (Env.real 0).now
      - (Manager.bumping (ObstacleSectors.ahead (2 : ℝ)) 1 hug).sh_bumper_lastMsgTime > 1 := by
    show ¬ ((0 : ℝ) - 0 > 1)
    norm_num
  have hr : Real.sqrt ((3 / 2 : ℝ) ^ 2 + (0 : ℝ) ^ 2) = 3 / 2 := real_sqrt_x_axis _ (by norm_num)
  have ht := ((bumper_gate (Env.real 0) ⟨"", ⟨⟨3 / 2, 0, 0⟩, 0⟩⟩
    (Manager.bumping (ObstacleSectors.ahead 2) 1 true) (ObstacleSectors.ahead 2) rfl
    (fun _ _ => rfl) rfl rfl (hfresh true) (hid true) rfl
    (by show (-1 : ℝ) ≠ 2; norm_num) (by show (0 : ℝ) ≠ 2; norm_num)
    (by show |(0 : ℝ)| ≤ 1 / 10; norm_num)).2 hr).2 rfl
  have hf := ((bumper_gate (Env.real 0) ⟨"", ⟨⟨3 / 2, 0, 0⟩, 0⟩⟩
    (Manager.bumping (ObstacleSectors.ahead 2) 1 false) (ObstacleSectors.ahead 2) rfl
    (fun _ _ => rfl) rfl rfl (hfresh false) (hid false) rfl
    (by show (-1 : ℝ) ≠ 2; norm_num) (by show (0 : ℝ) ≠ 2; norm_num)
    (by show |(0 : ℝ)| ≤ 1 / 10; norm_num)).2 hr).1 rfl
  ⟨ht.1, ht.2.1, hf⟩

theorem bumper_hugging_clamps_witness :
    0 < sectorAt (ObstacleSectors.ahead (2 : ℝ))
          (bumperGetSectorId (Env.real 0) (ObstacleSectors.ahead (2 : ℝ)) (3 / 2) 0 0)
        - (Manager.bumping (ObstacleSectors.ahead (2 : ℝ)) 1 true).bumper_horizontal_distance_
      ∧ sectorAt (ObstacleSectors.ahead (2 : ℝ))
          (bumperGetSectorId (Env.real 0) (ObstacleSectors.ahead (2 : ℝ)) (3 / 2) 0 0)
        - (Manager.bumping (ObstacleSectors.ahead (2 : ℝ)) 1 true).bumper_horizontal_distance_
        ≤ Real.sqrt ((3 / 2 : ℝ) ^ 2 + (0 : ℝ) ^ 2) :=
  have hev : (bumperValidatePoint (Env.real 0) ⟨"", ⟨⟨3 / 2, 0, 0⟩, 0⟩⟩
      (Manager.bumping (ObstacleSectors.ahead 2) 1 true)).1
      = (true, ⟨"", ⟨⟨1, 0, 0⟩, 0⟩⟩) := by
    rw [bumper_x_axis 2 1 (3 / 2) true (by norm_num),
      hugPoint_x_axis 2 1 (3 / 2) (by norm_num) (by norm_num) (by norm_num) (by norm_num)]
    norm_num
  have ht := bumper_hugging_clamps (Env.real 0) ⟨"", ⟨⟨3 / 2, 0, 0⟩, 0⟩⟩
    (Manager.bumping (ObstacleSectors.ahead 2) 1 true) (ObstacleSectors.ahead 2) rfl
    (fun _ _ => rfl) rfl rfl rfl (by rw [hev])
    (Or.inl (by rw [hev]; show (1 : ℝ) ≠ 3 / 2; norm_num))
    (by show Real.sqrt ((3 / 2 : ℝ) ^ 2 + (0 : ℝ) ^ 2) > 1 / 10
        rw [real_sqrt_x_axis _ (by norm_num)]; norm_num)
  ⟨ht.1, ht.2.1⟩


/-! ### The reference gate -/

theorem hugPublish_log (a b c d e f : K) (m : Manager K) :
    ∃ evs : List (Event K), (hugPublish a b c d e f m).log = m.log ++ evs
      ∧ ∀ ev ∈ evs, ev = Event.publish_bumper_status := by
  unfold hugPublish
  simp only
  split_ifs
  · exact ⟨[Event.publish_bumper_status, Event.publish_bumper_status],
      by simp [Manager.record_log], by simp⟩
  · exact ⟨[Event.publish_bumper_status], by simp [Manager.record_log], by simp⟩
  · exact ⟨[Event.publish_bumper_status], by simp [Manager.record_log], by simp⟩
  · exact ⟨[], by simp, by simp⟩

theorem bumperValidatePoint_log (env : Env K) (point : ReferenceStamped K) (m : Manager K) :
    ∃ evs : List (Event K), (bumperValidatePoint env point m).2.log = m.log ++ evs
      ∧ ∀ ev ∈ evs, ev = Event.publish_bumper_status := by
  have hnil : ∃ evs : List (Event K), m.log = m.log ++ evs
      ∧ ∀ ev ∈ evs, ev = Event.publish_bumper_status := ⟨[], by simp, by simp⟩
  have hone : ∃ evs : List (Event K), (m.record Event.publish_bumper_status).log = m.log ++ evs
      ∧ ∀ ev ∈ evs, ev = Event.publish_bumper_status :=
    ⟨[Event.publish_bumper_status], by simp [Manager.record_log], by simp⟩
  unfold bumperValidatePoint
  by_cases h1 : m.bumper_enabled_ = true
  · simp only [h1, Bool.not_true, Bool.false_eq_true, if_false]
    cases m.sh_bumper_ with
    | none => exact hnil
    | some data =>
      simp only
      by_cases h3 : env.now - m.sh_bumper_lastMsgTime > 1
      · simp only [h3, if_true]; exact hnil
      · simp only [h3, if_false]
        cases env.transformer_.transformSingle point "fcu_untilted" with
        | none => exact hnil
        | some p =>
          simp only
          split_ifs <;> first
            | exact hnil
            | exact hone
            | (split <;> exact hugPublish_log _ _ _ _ _ _ m)
  · simp only [h1, Bool.not_false, if_true]
    exact hnil

/-- C8: when the straight path from the last commanded position to the
(transformed, bumper-validated) endpoint fails the geofence path check,
`setReference` returns failure and records no call of the tracker's
`setReference`, and the validate-reference services report failure as well (the
2-D service for the 2-D path check). -/
theorem path_check_gates_reference (env : Env K) (reference_in ret : ReferenceStamped K)
    (m : Manager K) (cmd : PositionCommand K)
    (hcmd : m.last_position_cmd_ = some cmd)
    (htr : env.transformer_.transformSingle reference_in m.uav_state_.frame_id = some ret) :
    (isPathToPointInSafetyArea3d env (fromPoint m.uav_state_.frame_id cmd)
          (bumperValidatePoint env ret m).1.2 (bumperValidatePoint env ret m).2 = false →
        (setReference env reference_in m).1.1 = false
          ∧ (∀ idx r, Event.tracker_setReference idx r
              ∉ (setReference env reference_in m).2.log.drop m.log.length)
          ∧ (callbackValidateReference env reference_in m).1.1 = false)
      ∧ (isPathToPointInSafetyArea2d env (fromPoint m.uav_state_.frame_id cmd)
          (bumperValidatePoint env ret m).1.2 (bumperValidatePoint env ret m).2 = false →
        (callbackValidateReference2d env reference_in m).1.1 = false) := by
  constructor
  · intro hpath
    have hset : (setReference env reference_in m).1.1 = false
        ∧ ((setReference env reference_in m).2 = m
          ∨ (setReference env reference_in m).2 = (bumperValidatePoint env ret m).2) := by
      unfold setReference
      simp only [htr, hcmd, hpath, Bool.not_false, if_true]
      split_ifs <;> first | exact ⟨rfl, Or.inl rfl⟩ | exact ⟨rfl, Or.inr rfl⟩
    refine ⟨hset.1, ?_, ?_⟩
    · intro idx r hmem
      rcases hset.2 with h | h
      · rw [h] at hmem; simp at hmem
      · rw [h] at hmem
        obtain ⟨evs, hlog, hevs⟩ := bumperValidatePoint_log env ret m
        rw [hlog, List.drop_left] at hmem
        exact Event.noConfusion (hevs _ hmem)
    · unfold callbackValidateReference
      simp only [htr, hcmd, hpath, Bool.not_false, if_true]
      split_ifs <;> rfl
  · intro hpath
    unfold callbackValidateReference2d
    simp only [htr, hcmd, hpath, Bool.not_false, if_true]
    split_ifs <;> rfl

theorem path_check_gates_reference_witness :
    isPointInSafetyArea3d (Env.calm (0 : ℚ)) ⟨"", Reference.onAxis 8 5⟩
        (Manager.fenced SafetyZone.gap false) = true
      ∧ (setReference (Env.calm (0 : ℚ)) ⟨"", Reference.onAxis 8 5⟩
        (Manager.fenced SafetyZone.gap false)).1.1 = false
      ∧ (callbackValidateReference (Env.calm (0 : ℚ)) ⟨"", Reference.onAxis 8 5⟩
        (Manager.fenced SafetyZone.gap false)).1.1 = false
      ∧ (callbackValidateReference2d (Env.calm (0 : ℚ)) ⟨"", Reference.onAxis 8 5⟩
        (Manager.fenced SafetyZone.gap false)).1.1 = false :=
  have h := path_check_gates_reference (Env.calm (0 : ℚ)) ⟨"", Reference.onAxis 8 5⟩
    ⟨"", Reference.onAxis 8 5⟩ (Manager.fenced SafetyZone.gap false)
    (PositionCommand.hold ⟨0, 0, 5⟩).vertical rfl rfl
  ⟨by decide!, (h.1 (by decide!)).1, (h.1 (by decide!)).2.2, h.2 (by decide!)⟩

/-! ### The trajectory gate -/

theorem Manager.logged_nil (m : Manager K) : m.logged [] = m := by
  cases m; simp [Manager.logged]

theorem Manager.logged_logged (m : Manager K) (a b : List (Event K)) :
    (m.logged a).logged b = m.logged (a ++ b) := by
  simp [Manager.logged, List.append_assoc]

theorem hugPublish_state (a b c d e f : K) (m : Manager K) :
    ∃ evs : List (Event K), hugPublish a b c d e f m = m.logged evs
      ∧ ∀ ev ∈ evs, ev = Event.publish_bumper_status := by
  unfold hugPublish
  simp only
  split_ifs
  · exact ⟨[Event.publish_bumper_status, Event.publish_bumper_status],
      by simp [Manager.record, Manager.logged], by simp⟩
  · exact ⟨[Event.publish_bumper_status], rfl, by simp⟩
  · exact ⟨[Event.publish_bumper_status], rfl, by simp⟩
  · exact ⟨[], (Manager.logged_nil m).symm, by simp⟩

theorem bumperValidatePoint_state (env : Env K) (point : ReferenceStamped K) (m : Manager K) :
    ∃ evs : List (Event K), (bumperValidatePoint env point m).2 = m.logged evs
      ∧ ∀ ev ∈ evs, ev = Event.publish_bumper_status := by
  have hnil : ∃ evs : List (Event K), m = m.logged evs
      ∧ ∀ ev ∈ evs, ev = Event.publish_bumper_status :=
    ⟨[], (Manager.logged_nil m).symm, by simp⟩
  have hone : ∃ evs : List (Event K), m.record Event.publish_bumper_status = m.logged evs
      ∧ ∀ ev ∈ evs, ev = Event.publish_bumper_status :=
    ⟨[Event.publish_bumper_status], rfl, by simp⟩
  unfold bumperValidatePoint
  by_cases h1 : m.bumper_enabled_ = true
  · simp only [h1, Bool.not_true, Bool.false_eq_true, if_false]
    cases m.sh_bumper_ with
    | none => exact hnil
    | some data =>
      simp only
      by_cases h3 : env.now - m.sh_bumper_lastMsgTime > 1
      · simp only [h3, if_true]; exact hnil
      · simp only [h3, if_false]
        cases env.transformer_.transformSingle point "fcu_untilted" with
        | none => exact hnil
        | some p =>
          simp only
          split_ifs <;> first
            | exact hnil
            | exact hone
            | (split <;> exact hugPublish_state _ _ _ _ _ _ m)
  · simp only [h1, Bool.not_false, if_true]
    exact hnil

theorem bumperTrajectory_state (env : Env K) (frame_id : String) (points : List (Reference K))
    (m : Manager K) :
    ∃ evs : List (Event K), (bumperTrajectory env frame_id points m).2 = m.logged evs
      ∧ ∀ ev ∈ evs, ev = Event.publish_bumper_status := by
  induction points generalizing m with
  | nil => exact ⟨[], (Manager.logged_nil m).symm, by simp⟩
  | cons p rest ih =>
    obtain ⟨evs1, h1, hp1⟩ := bumperValidatePoint_state env ⟨frame_id, p⟩ m
    unfold bumperTrajectory
    rcases hb : bumperValidatePoint env ⟨frame_id, p⟩ m with ⟨⟨valid, des⟩, m1⟩
    rw [hb] at h1
    simp only at h1 ⊢
    by_cases hv : valid = true
    · simp only [hv, Bool.not_true, Bool.false_eq_true, if_false]
      obtain ⟨evs2, h2, hp2⟩ := ih m1
      refine ⟨evs1 ++ evs2, ?_, ?_⟩
      · show (bumperTrajectory env frame_id rest m1).2 = _
        rw [h2, h1, Manager.logged_logged]
      · intro ev hev
        rcases List.mem_append.mp hev with h | h
        · exact hp1 ev h
        · exact hp2 ev h
    · simp only [hv, Bool.not_false, if_true]
      exact ⟨evs1, h1, hp1⟩

theorem trajectoryBumperCheck_state (env : Env K) (trajectory_in : TrajectoryReference K)
    (m : Manager K) :
    ∃ evs : List (Event K), (trajectoryBumperCheck env trajectory_in m).2 = m.logged evs
      ∧ ∀ ev ∈ evs, ev = Event.publish_bumper_status := by
  unfold trajectoryBumperCheck
  split_ifs
  · exact bumperTrajectory_state env _ _ m
  · exact ⟨[], (Manager.logged_nil m).symm, by simp⟩

theorem saturateHeight_first_invalid_idx (m : Manager K) (a b : K) (i : Nat)
    (st : SafetyLoopState K) :
    (saturateHeight m a b i st).first_invalid_idx = st.first_invalid_idx := by
  unfold saturateHeight
  simp only
  split_ifs <;> rfl

theorem saturateHeight_last_valid_idx (m : Manager K) (a b : K) (i : Nat)
    (st : SafetyLoopState K) :
    (saturateHeight m a b i st).last_valid_idx = st.last_valid_idx := by
  unfold saturateHeight
  simp only
  split_ifs <;> rfl

/-- Once the first point is invalid (`first_invalid_idx = 0`, `last_valid_idx =
-1`), the loop either returns the failure tuple or ends in the same situation. -/
theorem safetyAreaLoop_no_valid_point (env : Env K) (m : Manager K) (frame_id : String)
    (a b : K) (n i : Nat) (st : SafetyLoopState K)
    (h1 : st.first_invalid_idx = 0) (h2 : st.last_valid_idx = -1) :
    ∀ st1, safetyAreaLoop env m frame_id a b n i st = some st1 → st1.first_invalid_idx = 0 := by
  induction n generalizing i st with
  | zero =>
    intro st1 h
    simp only [safetyAreaLoop, Option.some.injEq] at h
    rw [← h]; exact h1
  | succ n ih =>
    intro st1 h
    have hf := saturateHeight_first_invalid_idx m a b i st
    have hl := saturateHeight_last_valid_idx m a b i st
    rw [h1] at hf
    rw [h2] at hl
    unfold safetyAreaLoop safetyAreaStep at h
    simp only [hf, hl] at h
    by_cases hv : isPointInSafetyArea3d env
        ⟨frame_id, pointAt (saturateHeight m a b i st).points i⟩ m = true
    · simp [hv] at h
    · simp only [Bool.not_eq_true] at hv
      simp only [hv, Bool.not_false, if_true] at h
      norm_num at h
      exact ih _ _ rfl rfl st1 h

theorem trajectorySafetyAreaCheck_first_invalid (env : Env K) (m : Manager K)
    (frame_id : String) (points : List (Reference K)) (modified : Bool)
    (huse : m.use_safety_area_ = true) (hne : points.length ≠ 0)
    (hfirst : isPointInSafetyArea3d env
        ⟨frame_id, pointAt (saturateHeight m (getMinHeight env m) (getMaxHeight m) 0
          ⟨points, 0, -1, modified⟩).points 0⟩ m = false) :
    ∃ message, trajectorySafetyAreaCheck env m frame_id points modified = Except.error message := by
  unfold trajectorySafetyAreaCheck
  simp only [huse, if_true]
  split
  · exact ⟨_, rfl⟩
  · split
    · exact ⟨_, rfl⟩
    · obtain ⟨n, hn⟩ := Nat.exists_eq_succ_of_ne_zero hne
      rw [hn]
      have hf := saturateHeight_first_invalid_idx m (getMinHeight env m) (getMaxHeight m) 0
        ⟨points, 0, -1, modified⟩
      have hl := saturateHeight_last_valid_idx m (getMinHeight env m) (getMaxHeight m) 0
        ⟨points, 0, -1, modified⟩
      simp only at hf hl
      have hstep : safetyAreaLoop env m frame_id (getMinHeight env m) (getMaxHeight m) (n + 1) 0
            ⟨points, 0, -1, modified⟩
          = safetyAreaLoop env m frame_id (getMinHeight env m) (getMaxHeight m) n 1
            { saturateHeight m (getMinHeight env m) (getMaxHeight m) 0 ⟨points, 0, -1, modified⟩
              with trajectory_modified := true, first_invalid_idx := 0, last_valid_idx := -1 } := by
        rw [safetyAreaLoop]
        unfold safetyAreaStep
        simp only [hfirst, Bool.not_false, if_true, hf]
        norm_num
      rw [hstep]
      cases hloop : safetyAreaLoop env m frame_id (getMinHeight env m) (getMaxHeight m) n 1
            { saturateHeight m (getMinHeight env m) (getMaxHeight m) 0 ⟨points, 0, -1, modified⟩
              with trajectory_modified := true, first_invalid_idx := 0, last_valid_idx := -1 } with
      | none => exact ⟨_, rfl⟩
      | some st1 =>
        have h0 := safetyAreaLoop_no_valid_point env m frame_id _ _ n 1 _ rfl rfl st1 hloop
        simp only [h0]
        norm_num
theorem transformPoints_length (env : Env K) (frame_id : String) (tf : TransformStamped)
    (points qs : List (Reference K)) (h : transformPoints env frame_id tf points = some qs) :
    qs.length = points.length := by
  induction points generalizing qs with
  | nil =>
    simp only [transformPoints, Option.some.injEq] at h
    rw [← h]
  | cons p rest ih =>
    unfold transformPoints at h
    cases hq : env.transformer_.transform ⟨frame_id, p⟩ tf with
    | none => rw [hq] at h; exact Option.noConfusion h
    | some q =>
      rw [hq] at h
      cases hr : transformPoints env frame_id tf rest with
      | none => rw [hr] at h; exact Option.noConfusion h
      | some rs =>
        rw [hr] at h
        simp only [Option.some.injEq] at h
        rw [← h, List.length_cons, List.length_cons, ih rs hr]

theorem trajectoryToSafetyAreaFrame_length (env : Env K) (m : Manager K) (frame_id frame2 : String)
    (points points2 : List (Reference K))
    (h : trajectoryToSafetyAreaFrame env m frame_id points = Except.ok (points2, frame2)) :
    points2.length = points.length := by
  unfold trajectoryToSafetyAreaFrame at h
  split_ifs at h
  · cases htf : env.transformer_.getTransform frame_id m._safety_area_frame_ with
    | none => rw [htf] at h; exact Except.noConfusion h
    | some tf =>
      rw [htf] at h
      simp only at h
      cases hr : transformPoints env frame_id tf points with
      | none => rw [hr] at h; exact Except.noConfusion h
      | some rs =>
        rw [hr] at h
        simp only [Except.ok.injEq, Prod.mk.injEq] at h
        rw [← h.1]
        exact transformPoints_length env frame_id tf points rs hr
  · simp only [Except.ok.injEq, Prod.mk.injEq] at h
    rw [← h.1]

/-- C10 (as stated, refuted): a trajectory whose first point fails the geofence
point check only through its height is, with snapping enabled, not rejected: the height is
saturated first, the saturated point passes, and the trajectory reaches the
trackers. -/
theorem trajectory_first_point_saturated :
    isPointInSafetyArea3d (Env.calm (0 : ℚ)) ⟨"", Reference.onAxis 0 (-1)⟩
        (Manager.fenced SafetyZone.everywhere true) = false
      ∧ (setTrajectoryReference (Env.calm (0 : ℚ))
          ⟨"", true, [Reference.onAxis 0 (-1), Reference.onAxis 1 5]⟩
          (Manager.fenced SafetyZone.everywhere true)).1.success = true
      ∧ (setTrajectoryReference (Env.calm (0 : ℚ))
          ⟨"", true, [Reference.onAxis 0 (-1), Reference.onAxis 1 5]⟩
          (Manager.fenced SafetyZone.everywhere true)).1.modified = true
      ∧ Event.tracker_setTrajectoryReference 1
          ⟨"", true, [Reference.onAxis 0 0, Reference.onAxis 1 5]⟩
        ∈ (setTrajectoryReference (Env.calm (0 : ℚ))
          ⟨"", true, [Reference.onAxis 0 (-1), Reference.onAxis 1 5]⟩
          (Manager.fenced SafetyZone.everywhere true)).2.log := by
  decide!

/-- C10 (amended): with the safety area enabled, when the first point as the
safety-area loop checks it (after the bumper pass, the transformation into the
safety-area frame and, with snapping enabled, the saturation of its height) fails
the geofence point check, `setTrajectoryReference` returns the failure tuple
(not successful, not modified, empty per-tracker lists) whatever the later points
are, and no tracker receives a trajectory. -/
theorem trajectory_first_point_outside (env : Env K) (trajectory_in : TrajectoryReference K)
    (m : Manager K)
    (huse : m.use_safety_area_ = true)
    (hfirst : ∀ points2 frame2,
      trajectoryToSafetyAreaFrame env (trajectoryBumperCheck env trajectory_in m).2
          trajectory_in.frame_id (trajectoryBumperCheck env trajectory_in m).1.1
        = Except.ok (points2, frame2) →
      isPointInSafetyArea3d env
        ⟨frame2, pointAt (saturateHeight (trajectoryBumperCheck env trajectory_in m).2
            (getMinHeight env (trajectoryBumperCheck env trajectory_in m).2)
            (getMaxHeight (trajectoryBumperCheck env trajectory_in m).2) 0
            ⟨points2, 0, -1, (trajectoryBumperCheck env trajectory_in m).1.2⟩).points 0⟩
        (trajectoryBumperCheck env trajectory_in m).2 = false) :
    (∃ message, (setTrajectoryReference env trajectory_in m).1 = TrajectoryResult.failure message)
      ∧ ∀ idx t, Event.tracker_setTrajectoryReference idx t
          ∉ (setTrajectoryReference env trajectory_in m).2.log.drop m.log.length := by
  obtain ⟨evs, hst, hevs⟩ := trajectoryBumperCheck_state env trajectory_in m
  have hmain : ∃ message,
      setTrajectoryReference env trajectory_in m = (TrajectoryResult.failure message, m)
      ∨ setTrajectoryReference env trajectory_in m
        = (TrajectoryResult.failure message, (trajectoryBumperCheck env trajectory_in m).2) := by
    unfold setTrajectoryReference
    by_cases hc : m.callbacks_enabled_ = true
    · simp only [hc, Bool.not_true, Bool.false_eq_true, if_false]
      by_cases hl : trajectory_in.points.length = 0
      · simp only [hl, if_true]; exact ⟨_, Or.inl rfl⟩
      · simp only [hl, if_false]
        by_cases hfin : trajectory_in.points.all (pointFinite env) = true
        · simp only [hfin, Bool.not_true, Bool.false_eq_true, if_false]
          rcases hb : trajectoryBumperCheck env trajectory_in m with ⟨⟨points1, shortened⟩, m1⟩
          rw [hb] at hfirst hst
          simp only at hfirst hst ⊢
          by_cases hl1 : points1.length = 0
          · simp only [hl1, if_true]; exact ⟨_, Or.inr rfl⟩
          · simp only [hl1, if_false]
            cases htf : trajectoryToSafetyAreaFrame env m1 trajectory_in.frame_id points1 with
            | error msg => exact ⟨_, Or.inr rfl⟩
            | ok r =>
              rcases r with ⟨points2, frame2⟩
              simp only
              have huse1 : m1.use_safety_area_ = true := by rw [hst]; exact huse
              have hl2 : points2.length ≠ 0 := by
                rw [trajectoryToSafetyAreaFrame_length env m1 _ _ _ _ htf]; exact hl1
              obtain ⟨msg, hmsg⟩ := trajectorySafetyAreaCheck_first_invalid env m1 frame2 points2
                shortened huse1 hl2 (hfirst points2 frame2 htf)
              rw [hmsg]
              exact ⟨_, Or.inr rfl⟩
        · simp only [hfin, Bool.not_false, if_true]; exact ⟨_, Or.inl rfl⟩
    · simp only [hc, Bool.not_false, if_true]; exact ⟨_, Or.inl rfl⟩
  obtain ⟨message, h | h⟩ := hmain
  · rw [h]
    refine ⟨⟨message, rfl⟩, ?_⟩
    intro idx t hmem
    simp at hmem
  · rw [h]
    refine ⟨⟨message, rfl⟩, ?_⟩
    intro idx t hmem
    rw [hst] at hmem
    simp only [Manager.logged, List.drop_left] at hmem
    exact Event.noConfusion (hevs _ hmem)

theorem trajectory_first_point_outside_witness :
    (∃ message, (setTrajectoryReference (Env.calm (0 : ℚ))
        ⟨"", true, [Reference.onAxis 4 5, Reference.onAxis 1 5]⟩
        (Manager.fenced SafetyZone.gap true)).1 = TrajectoryResult.failure message)
      ∧ ∀ idx t, Event.tracker_setTrajectoryReference idx t
          ∉ (setTrajectoryReference (Env.calm (0 : ℚ))
              ⟨"", true, [Reference.onAxis 4 5, Reference.onAxis 1 5]⟩
              (Manager.fenced SafetyZone.gap true)).2.log.drop
            (Manager.fenced SafetyZone.gap true : Manager ℚ).log.length :=
  trajectory_first_point_outside (Env.calm (0 : ℚ))
    ⟨"", true, [Reference.onAxis 4 5, Reference.onAxis 1 5]⟩
    (Manager.fenced SafetyZone.gap true) rfl
    (fun points2 frame2 h => by
      have h2 : (Except.ok ([Reference.onAxis 4 5, Reference.onAxis 1 5], "")
          : Except String (List (Reference ℚ) × String)) = Except.ok (points2, frame2) := h
      cases h2
      decide!)

theorem transformPoints_identity (env : Env K) (htf : env.transformer_ = Transformer.identity)
    (frame_id : String) (tf : TransformStamped) (points : List (Reference K)) :
    transformPoints env frame_id tf points = some points := by
  induction points with
  | nil => rfl
  | cons p rest ih =>
    rw [transformPoints, ih, htf]
    rfl

/-- With one frame only, no bumper and the safety area in use, what
`setTrajectoryReference` sends is what the safety-area check leaves. -/
theorem setTrajectoryReference_same_frame (env : Env K) (trajectory_in : TrajectoryReference K)
    (m : Manager K) (htf : env.transformer_ = Transformer.identity)
    (hcb : m.callbacks_enabled_ = true) (hbump : m.bumper_enabled_ = false)
    (huse : m.use_safety_area_ = true) (hne : trajectory_in.points.length ≠ 0)
    (hfin : trajectory_in.points.all (pointFinite env) = true)
    (points3 : List (Reference K)) (modified : Bool)
    (hcheck : trajectorySafetyAreaCheck env m m._safety_area_frame_ trajectory_in.points false
      = Except.ok (points3, modified))
    (hne3 : points3.length ≠ 0) :
    setTrajectoryReference env trajectory_in m
      = sendTrajectory env { trajectory_in with frame_id := "", points := points3 } modified m := by
  have hsa : trajectoryToSafetyAreaFrame env m trajectory_in.frame_id trajectory_in.points
      = Except.ok (trajectory_in.points, m._safety_area_frame_) := by
    unfold trajectoryToSafetyAreaFrame
    rw [if_pos huse, htf]
    simp only [Transformer.identity, transformPoints_identity env htf]
  have hcf : trajectoryToControlFrame env m._safety_area_frame_ points3
      = Except.ok (points3, "") := by
    unfold trajectoryToControlFrame
    rw [htf]
    simp only [Transformer.identity, transformPoints_identity env htf]
  unfold setTrajectoryReference trajectoryBumperCheck
  simp only [hcb, hbump, Bool.not_true, Bool.false_eq_true, if_false, hne, hfin, hsa, hcheck,
    hne3, hcf]

theorem trajectorySafetyAreaCheck_loop (env : Env K) (m : Manager K) (frame_id : String)
    (points : List (Reference K)) (modified : Bool)
    (htf : env.transformer_ = Transformer.identity) (huse : m.use_safety_area_ = true)
    (hgot : m.got_uav_state_ = true) (st : SafetyLoopState K)
    (hloop : safetyAreaLoop env m frame_id (getMinHeight env m) (getMaxHeight m) points.length 0
      ⟨points, 0, -1, modified⟩ = some st) :
    trajectorySafetyAreaCheck env m frame_id points modified
      = if st.first_invalid_idx ≠ -1 then
          if st.first_invalid_idx = 0 then
            Except.error "the whole trajectory is outside of the safety area!"
          else Except.ok (st.points.take (st.last_valid_idx + 1).toNat, true)
        else Except.ok (st.points, st.trajectory_modified) := by
  unfold trajectorySafetyAreaCheck
  simp only [huse, if_true, hgot, hloop, htf, Transformer.identity]
  cases m.last_position_cmd_ <;> rfl

theorem saturateHeight_in_range (m : Manager K) (a b : K) (i : Nat) (st : SafetyLoopState K)
    (h : m._snap_trajectory_to_safety_area_ = true →
      a ≤ (pointAt st.points i).position.z ∧ (pointAt st.points i).position.z ≤ b) :
    saturateHeight m a b i st = st := by
  unfold saturateHeight
  by_cases hs : m._snap_trajectory_to_safety_area_ = true
  · obtain ⟨h1, h2⟩ := h hs
    simp only [hs, if_true, if_neg (not_lt.mpr h1)]
    rw [if_neg (not_lt.mpr h2)]
  · simp only [hs, Bool.false_eq_true, if_false]

theorem safetyAreaStep_valid (env : Env K) (m : Manager K) (frame_id : String) (a b : K)
    (i : Nat) (st : SafetyLoopState K) (hsat : saturateHeight m a b i st = st)
    (hv : isPointInSafetyArea3d env ⟨frame_id, pointAt st.points i⟩ m = true)
    (hfi : st.first_invalid_idx = -1) :
    safetyAreaStep env m frame_id a b i st = LoopStep.next st := by
  unfold safetyAreaStep
  simp only [hsat, hv, hfi]
  simp

theorem safetyAreaStep_first_invalid (env : Env K) (m : Manager K) (frame_id : String) (a b : K)
    (i : Nat) (st : SafetyLoopState K) (hsat : saturateHeight m a b i st = st)
    (hv : isPointInSafetyArea3d env ⟨frame_id, pointAt st.points i⟩ m = false)
    (hfi : st.first_invalid_idx = -1) :
    safetyAreaStep env m frame_id a b i st
      = LoopStep.next ⟨st.points, (i : Int) - 1, (i : Int), true⟩ := by
  unfold safetyAreaStep
  simp only [hsat, hv, hfi]
  simp

theorem safetyAreaStep_next_invalid (env : Env K) (m : Manager K) (frame_id : String) (a b : K)
    (i : Nat) (st : SafetyLoopState K) (hsat : saturateHeight m a b i st = st)
    (hv : isPointInSafetyArea3d env ⟨frame_id, pointAt st.points i⟩ m = false)
    (hfi : st.first_invalid_idx ≠ -1) :
    safetyAreaStep env m frame_id a b i st
      = LoopStep.next ⟨st.points, st.last_valid_idx, st.first_invalid_idx, true⟩ := by
  unfold safetyAreaStep
  simp only [hsat, hv]
  simp [hfi]

theorem fanOutTrajectory_state (env : Env K) (request : TrajectoryReference K) (idxs : List Nat)
    (m : Manager K) :
    ∃ evs : List (Event K), (fanOutTrajectory env request idxs m).2 = m.logged evs
      ∧ ∀ ev ∈ evs, ∃ i, ev = Event.tracker_setTrajectoryReference i request := by
  induction idxs generalizing m with
  | nil => exact ⟨[], (Manager.logged_nil m).symm, by simp⟩
  | cons i rest ih =>
    unfold fanOutTrajectory
    split_ifs with h
    · obtain ⟨evs, h1, h2⟩ := ih (m.record (Event.tracker_setTrajectoryReference i request))
      have hsnd : ∀ r : Option (Bool × String × Bool),
          (match fanOutTrajectory env request rest
              (m.record (Event.tracker_setTrajectoryReference i request)) with
            | ((names, successes, messages), m2) =>
              match r with
              | some (success, message, _) =>
                ((m._tracker_names_.getD i "" :: names, success :: successes,
                  message :: messages), m2)
              | none =>
                ((m._tracker_names_.getD i "" :: names, false :: successes,
                  ("the tracker \"" ++ m._tracker_names_.getD i ""
                    ++ "\" does not implement setTrajectoryReference()") :: messages), m2)).2
          = (fanOutTrajectory env request rest
              (m.record (Event.tracker_setTrajectoryReference i request))).2 := by
        intro r
        rcases r with _ | ⟨a, b, c⟩ <;> rfl
      refine ⟨Event.tracker_setTrajectoryReference i request :: evs, ?_, ?_⟩
      · exact (hsnd _).trans (h1.trans (Manager.logged_logged m [_] evs))
      · intro ev hev
        rcases List.mem_cons.mp hev with h | h
        · exact ⟨i, h⟩
        · exact h2 ev h
    · exact ih m

/-- What `sendTrajectory` hands over: the active tracker receives `request`,
every trajectory handed to a tracker is `request`, and when the active tracker
answers, a modified trajectory is reported as modified. -/
theorem sendTrajectory_delivers (env : Env K) (request : TrajectoryReference K) (m : Manager K)
    (hresp : env.tracker_setTrajectoryReference m.log.length m.active_tracker_idx_ ≠ none) :
    (sendTrajectory env request true m).1.modified = true
      ∧ Event.tracker_setTrajectoryReference m.active_tracker_idx_ request
          ∈ (sendTrajectory env request true m).2.log.drop m.log.length
      ∧ ∀ idx t, Event.tracker_setTrajectoryReference idx t
            ∈ (sendTrajectory env request true m).2.log.drop m.log.length → t = request := by
  obtain ⟨evs, h1, h2⟩ := fanOutTrajectory_state env request
    (List.range m._tracker_names_.length)
    (m.record (Event.tracker_setTrajectoryReference m.active_tracker_idx_ request))
  have hst : (sendTrajectory env request true m).2
      = m.logged (Event.tracker_setTrajectoryReference m.active_tracker_idx_ request :: evs) :=
    h1.trans (Manager.logged_logged m [_] evs)
  refine ⟨?_, ?_, ?_⟩
  · unfold sendTrajectory
    rcases hr : env.tracker_setTrajectoryReference m.log.length m.active_tracker_idx_
      with _ | ⟨a, b, c⟩
    · exact absurd hr hresp
    · simp
  · rw [hst]
    simp [Manager.logged]
  · intro idx t hmem
    rw [hst] at hmem
    simp only [Manager.logged, List.drop_left, List.mem_cons] at hmem
    rcases hmem with h | h
    · exact (Event.tracker_setTrajectoryReference.inj h).2
    · obtain ⟨i, hi⟩ := h2 _ h
      exact (Event.tracker_setTrajectoryReference.inj hi).2

theorem height_of_valid (env : Env K) (m : Manager K) (frame_id : String) (p : Reference K)
    (htf : env.transformer_ = Transformer.identity) (huse : m.use_safety_area_ = true)
    (hv : isPointInSafetyArea3d env ⟨frame_id, p⟩ m = true) :
    getMinHeight env m ≤ p.position.z ∧ p.position.z ≤ getMaxHeight m := by
  unfold isPointInSafetyArea3d at hv
  simp only [huse, htf, Transformer.identity, Bool.not_true, Bool.false_eq_true, if_false] at hv
  unfold getMinHeight
  rw [if_pos huse]
  split_ifs at hv with h
  exact ⟨h.2.1, h.2.2⟩

/-- The point interpolated one step from `(2, 0)` towards `(6, 0)` is `(3, 0)`,
inside the forbidden strip of `SafetyZone.gap`. -/
theorem real_onAxis_finite (x z : ℝ) (hx : |x| ≤ 10) (hz : |z| ≤ 10) :
    pointFinite (Env.real 0) (Reference.onAxis x z) = true := by
  have hbig : (10 : ℝ) ≤ 2 ^ 1024 - 2 ^ 971 := by norm_num
  have h0 : |(0 : ℝ)| ≤ 2 ^ 1024 - 2 ^ 971 := by rw [abs_zero]; linarith
  have h1 : |x| ≤ 2 ^ 1024 - 2 ^ 971 := le_trans hx hbig
  have h2 : |z| ≤ 2 ^ 1024 - 2 ^ 971 := le_trans hz hbig
  show (decide (|x| ≤ (2 : ℝ) ^ 1024 - 2 ^ 971) && decide (|(0 : ℝ)| ≤ (2 : ℝ) ^ 1024 - 2 ^ 971)
    && decide (|z| ≤ (2 : ℝ) ^ 1024 - 2 ^ 971)
    && decide (|(0 : ℝ)| ≤ (2 : ℝ) ^ 1024 - 2 ^ 971)) = true
  simp only [h0, h1, h2, decide_True, Bool.and_self]

theorem pointAt_append_left (good bad : List (Reference K)) (j : Nat) (h : j < good.length) :
    pointAt (good ++ bad) j ∈ good := by
  unfold pointAt
  rw [List.getD_eq_getElem _ _ (by rw [List.length_append]; omega),
    List.getElem_append_left h]
  exact List.getElem_mem h

theorem pointAt_append_right (good bad : List (Reference K)) (j : Nat) (h1 : good.length ≤ j)
    (h2 : j < (good ++ bad).length) : pointAt (good ++ bad) j ∈ bad := by
  unfold pointAt
  rw [List.getD_eq_getElem _ _ h2, List.getElem_append_right h1]
  exact List.getElem_mem _

/-- A run of `n` valid points with no invalid point seen so far is passed over. -/
theorem safetyAreaLoop_valid_run (env : Env K) (m : Manager K) (frame_id : String) (a b : K)
    (points : List (Reference K)) (lv : Int) (modified : Bool) (n r i0 : Nat)
    (hv : ∀ j, j < n → isPointInSafetyArea3d env ⟨frame_id, pointAt points (i0 + j)⟩ m = true
      ∧ a ≤ (pointAt points (i0 + j)).position.z ∧ (pointAt points (i0 + j)).position.z ≤ b) :
    safetyAreaLoop env m frame_id a b (n + r) i0 ⟨points, lv, -1, modified⟩
      = safetyAreaLoop env m frame_id a b r (i0 + n) ⟨points, lv, -1, modified⟩ := by
  induction n generalizing i0 with
  | zero => simp
  | succ n ih =>
    have h0 := hv 0 (Nat.succ_pos n)
    rw [Nat.add_zero] at h0
    have s := safetyAreaStep_valid env m frame_id a b i0 ⟨points, lv, -1, modified⟩
      (saturateHeight_in_range _ _ _ _ _ (fun _ => h0.2)) h0.1 rfl
    rw [show n + 1 + r = (n + r) + 1 by omega, safetyAreaLoop, s]
    simp only
    rw [ih (i0 + 1) (fun j hj => by
      have := hv (j + 1) (by omega)
      rw [show i0 + (j + 1) = i0 + 1 + j by omega] at this
      exact this)]
    rw [show i0 + 1 + n = i0 + (n + 1) by omega]

/-- Once an invalid point was seen, a run of invalid points up to the end of the
trajectory changes nothing but `trajectory_modified`. -/
theorem safetyAreaLoop_invalid_tail (env : Env K) (m : Manager K) (frame_id : String) (a b : K)
    (points : List (Reference K)) (lv fi : Int) (hfi : fi ≠ -1) (n i0 : Nat)
    (hbad : ∀ j, j < n → isPointInSafetyArea3d env ⟨frame_id, pointAt points (i0 + j)⟩ m = false
      ∧ a ≤ (pointAt points (i0 + j)).position.z ∧ (pointAt points (i0 + j)).position.z ≤ b) :
    safetyAreaLoop env m frame_id a b n i0 ⟨points, lv, fi, true⟩
      = some ⟨points, lv, fi, true⟩ := by
  induction n generalizing i0 with
  | zero => rfl
  | succ n ih =>
    have h0 := hbad 0 (Nat.succ_pos n)
    rw [Nat.add_zero] at h0
    have s := safetyAreaStep_next_invalid env m frame_id a b i0 ⟨points, lv, fi, true⟩
      (saturateHeight_in_range _ _ _ _ _ (fun _ => h0.2)) h0.1 hfi
    rw [safetyAreaLoop, s]
    simp only
    exact ih (i0 + 1) (fun j hj => by
      have := hbad (j + 1) (by omega)
      rw [show i0 + (j + 1) = i0 + 1 + j by omega] at this
      exact this)

/-- The safety-area check cuts a trajectory made of a non-empty valid run followed
by a non-empty invalid run down to the valid run. -/
theorem trajectoryCheck_valid_prefix (env : Env K) (m : Manager K) (good bad : List (Reference K))
    (htf : env.transformer_ = Transformer.identity) (huse : m.use_safety_area_ = true)
    (hgot : m.got_uav_state_ = true) (hg : good ≠ []) (hb : bad ≠ [])
    (hgood : ∀ p ∈ good, isPointInSafetyArea3d env ⟨m._safety_area_frame_, p⟩ m = true)
    (hbad : ∀ p ∈ bad, isPointInSafetyArea3d env ⟨m._safety_area_frame_, p⟩ m = false
      ∧ getMinHeight env m ≤ p.position.z ∧ p.position.z ≤ getMaxHeight m) :
    trajectorySafetyAreaCheck env m m._safety_area_frame_ (good ++ bad) false
      = Except.ok (good, true) := by
  obtain ⟨r, hr⟩ : ∃ r, bad.length = r + 1 :=
    Nat.exists_eq_succ_of_ne_zero (fun h => hb (List.length_eq_zero.mp h))
  have hk : 0 < good.length := List.length_pos.mpr hg
  have hlen : (good ++ bad).length = good.length + (r + 1) := by
    rw [List.length_append, hr]
  have h1 := safetyAreaLoop_valid_run env m m._safety_area_frame_ (getMinHeight env m)
    (getMaxHeight m) (good ++ bad) 0 false good.length (r + 1) 0
    (fun j hj => by
      rw [Nat.zero_add]
      have hmem := pointAt_append_left good bad j hj
      exact ⟨hgood _ hmem, height_of_valid env m _ _ htf huse (hgood _ hmem)⟩)
  have hkth := hbad _ (pointAt_append_right good bad good.length (le_refl _)
    (by rw [hlen]; omega))
  have s := safetyAreaStep_first_invalid env m m._safety_area_frame_ (getMinHeight env m)
    (getMaxHeight m) good.length ⟨good ++ bad, 0, -1, false⟩
    (saturateHeight_in_range _ _ _ _ _ (fun _ => hkth.2)) hkth.1 rfl
  have h2 := safetyAreaLoop_invalid_tail env m m._safety_area_frame_ (getMinHeight env m)
    (getMaxHeight m) (good ++ bad) ((good.length : Int) - 1) (good.length : Int)
    (by omega) r (good.length + 1)
    (fun j hj => hbad _ (pointAt_append_right good bad _ (by omega) (by rw [hlen]; omega)))
  have hloop : safetyAreaLoop env m m._safety_area_frame_ (getMinHeight env m)
      (getMaxHeight m) (good ++ bad).length 0 ⟨good ++ bad, 0, -1, false⟩
      = some ⟨good ++ bad, (good.length : Int) - 1, (good.length : Int), true⟩ := by
    rw [hlen, h1, Nat.zero_add, safetyAreaLoop, s]
    exact h2
  rw [trajectorySafetyAreaCheck_loop env m _ _ false htf huse hgot _ hloop]
  have hne1 : ((good.length : Int) ≠ -1) := by omega
  have hne0 : ((good.length : Int) ≠ 0) := by omega
  simp only [ne_eq, hne1, not_false_eq_true, if_true, hne0, if_false]
  rw [show ((good.length : Int) - 1 + 1).toNat = good.length by omega, List.take_left]

theorem setTrajectoryReference_same_frame_error (env : Env K)
    (trajectory_in : TrajectoryReference K) (m : Manager K)
    (htf : env.transformer_ = Transformer.identity)
    (hcb : m.callbacks_enabled_ = true) (hbump : m.bumper_enabled_ = false)
    (huse : m.use_safety_area_ = true) (hne : trajectory_in.points.length ≠ 0)
    (hfin : trajectory_in.points.all (pointFinite env) = true)
    (message : String)
    (hcheck : trajectorySafetyAreaCheck env m m._safety_area_frame_ trajectory_in.points false
      = Except.error message) :
    setTrajectoryReference env trajectory_in m = (TrajectoryResult.failure message, m) := by
  have hsa : trajectoryToSafetyAreaFrame env m trajectory_in.frame_id trajectory_in.points
      = Except.ok (trajectory_in.points, m._safety_area_frame_) := by
    unfold trajectoryToSafetyAreaFrame
    rw [if_pos huse, htf]
    simp only [Transformer.identity, transformPoints_identity env htf]
  unfold setTrajectoryReference trajectoryBumperCheck
  simp only [hcb, hbump, Bool.not_true, Bool.false_eq_true, if_false, hne, hfin, hsa, hcheck]

/-- C11 (as stated, refuted): two points inside the geofence followed by one
point in its forbidden strip.  The trajectory never regains validity, yet the
call succeeds and the active tracker receives the two-point prefix. -/
theorem trajectory_invalid_tail_is_shortened :
    isPointInSafetyArea3d (Env.calm (0 : ℚ)) ⟨"", Reference.onAxis 3 5⟩
        (Manager.fenced SafetyZone.gap false) = false
      ∧ (setTrajectoryReference (Env.calm (0 : ℚ))
          ⟨"", true, [Reference.onAxis 0 5, Reference.onAxis 1 5, Reference.onAxis 3 5]⟩
          (Manager.fenced SafetyZone.gap false)).1.success = true
      ∧ Event.tracker_setTrajectoryReference 1
          ⟨"", true, [Reference.onAxis 0 5, Reference.onAxis 1 5]⟩
        ∈ (setTrajectoryReference (Env.calm (0 : ℚ))
            ⟨"", true, [Reference.onAxis 0 5, Reference.onAxis 1 5, Reference.onAxis 3 5]⟩
            (Manager.fenced SafetyZone.gap false)).2.log := by
  decide!

/-- C11 (amended): with the safety area enabled (one frame only, callbacks
enabled, bumper disabled, vehicle state received, the active tracker answering),
for a trajectory of finite points made of a run `good` of points passing the geofence point check
followed by a non-empty run `bad` of points failing it with heights inside the
height limits: when `good` is empty the call returns the failure tuple and no
tracker receives a trajectory; when `good` is not empty the call reports modified
and every tracker receives exactly the points of `good`. -/
theorem trajectory_invalid_tail (env : Env K) (m : Manager K) (header_frame : String)
    (fly_now : Bool) (good bad : List (Reference K))
    (htf : env.transformer_ = Transformer.identity)
    (hcb : m.callbacks_enabled_ = true) (hbump : m.bumper_enabled_ = false)
    (huse : m.use_safety_area_ = true) (hgot : m.got_uav_state_ = true)
    (hresp : env.tracker_setTrajectoryReference m.log.length m.active_tracker_idx_ ≠ none)
    (hfin : ∀ p ∈ good ++ bad, pointFinite env p = true)
    (hgood : ∀ p ∈ good, isPointInSafetyArea3d env ⟨m._safety_area_frame_, p⟩ m = true)
    (hbad : ∀ p ∈ bad, isPointInSafetyArea3d env ⟨m._safety_area_frame_, p⟩ m = false
      ∧ m.min_height_ ≤ p.position.z ∧ p.position.z ≤ getMaxHeight m)
    (hb : bad ≠ []) :
    (good = [] →
        (∃ message, (setTrajectoryReference env ⟨header_frame, fly_now, good ++ bad⟩ m).1
          = TrajectoryResult.failure message)
        ∧ ∀ idx t, Event.tracker_setTrajectoryReference idx t
            ∉ (setTrajectoryReference env ⟨header_frame, fly_now, good ++ bad⟩ m).2.log.drop
              m.log.length)
      ∧ (good ≠ [] →
        (setTrajectoryReference env ⟨header_frame, fly_now, good ++ bad⟩ m).1.modified = true
        ∧ Event.tracker_setTrajectoryReference m.active_tracker_idx_ ⟨"", fly_now, good⟩
          ∈ (setTrajectoryReference env ⟨header_frame, fly_now, good ++ bad⟩ m).2.log.drop
            m.log.length
        ∧ ∀ idx t, Event.tracker_setTrajectoryReference idx t
            ∈ (setTrajectoryReference env ⟨header_frame, fly_now, good ++ bad⟩ m).2.log.drop
              m.log.length →
          t = ⟨"", fly_now, good⟩) := by
  have hmin : getMinHeight env m = m.min_height_ := by
    unfold getMinHeight; rw [if_pos huse]
  have hbad2 : ∀ p ∈ bad, isPointInSafetyArea3d env ⟨m._safety_area_frame_, p⟩ m = false
      ∧ getMinHeight env m ≤ p.position.z ∧ p.position.z ≤ getMaxHeight m := by
    rw [hmin]; exact hbad
  have hlen : (good ++ bad).length ≠ 0 := by
    rw [List.length_append]
    have := List.length_pos.mpr hb
    omega
  constructor
  · intro hg
    subst hg
    obtain ⟨p, rest, hp⟩ := List.exists_cons_of_ne_nil hb
    subst hp
    have hp := hbad2 p (by simp)
    have hfirst : isPointInSafetyArea3d env
        ⟨m._safety_area_frame_, pointAt (saturateHeight m (getMinHeight env m) (getMaxHeight m) 0
          ⟨[] ++ p :: rest, 0, -1, false⟩).points 0⟩ m = false := by
      rw [saturateHeight_in_range _ _ _ _ _ (fun _ => hp.2)]
      exact hp.1
    obtain ⟨message, hmsg⟩ := trajectorySafetyAreaCheck_first_invalid env m m._safety_area_frame_
      ([] ++ p :: rest) false huse (by simp) hfirst
    rw [setTrajectoryReference_same_frame_error env ⟨header_frame, fly_now, [] ++ p :: rest⟩ m
      htf hcb hbump huse (by simp) (List.all_eq_true.mpr hfin) message hmsg]
    exact ⟨⟨message, rfl⟩, fun idx t hmem => by simp at hmem⟩
  · intro hg
    have hcheck := trajectoryCheck_valid_prefix env m good bad htf huse hgot hg hb hgood hbad2
    rw [setTrajectoryReference_same_frame env ⟨header_frame, fly_now, good ++ bad⟩ m htf hcb
      hbump huse hlen (List.all_eq_true.mpr hfin) _ _ hcheck
      (fun h => hg (List.length_eq_zero.mp h))]
    exact sendTrajectory_delivers env ⟨"", fly_now, good⟩ m hresp

theorem trajectory_invalid_tail_witness :
    (setTrajectoryReference (Env.calm (0 : ℚ))
        ⟨"", true, [Reference.onAxis 0 5, Reference.onAxis 1 5] ++ [Reference.onAxis 3 5]⟩
        (Manager.fenced SafetyZone.gap true)).1.modified = true
      ∧ Event.tracker_setTrajectoryReference 1
          ⟨"", true, [Reference.onAxis 0 5, Reference.onAxis 1 5]⟩
        ∈ (setTrajectoryReference (Env.calm (0 : ℚ))
            ⟨"", true, [Reference.onAxis 0 5, Reference.onAxis 1 5] ++ [Reference.onAxis 3 5]⟩
            (Manager.fenced SafetyZone.gap true)).2.log :=
  have h := (trajectory_invalid_tail (Env.calm (0 : ℚ)) (Manager.fenced SafetyZone.gap true) ""
    true [Reference.onAxis 0 5, Reference.onAxis 1 5] [Reference.onAxis 3 5] rfl rfl rfl rfl rfl
    (fun h => Option.noConfusion h) (by decide!) (by decide!) (by decide!) (by decide)).2
    (by decide)
  ⟨h.1, h.2.1⟩

/-! ### The escalating failsafe -/

theorem escalation_record (m : Manager K) (e : Event K) :
    escalation (m.record e) = escalation m := rfl

theorem escalation_logged (m : Manager K) (evs : List (Event K)) :
    escalation (m.logged evs) = escalation m := rfl

theorem escalation_setConstraints (m : Manager K) :
    escalation (setConstraints m) = escalation m := by
  have h1 : ∀ (n : List Nat) (s : Manager K),
      escalation (n.foldl (fun s i => s.record (Event.tracker_setConstraints i)) s)
        = escalation s := by
    intro n
    induction n with
    | nil => intro s; rfl
    | cons a rest ih => intro s; simp only [List.foldl_cons, ih]; rfl
  have h2 : ∀ (n : List Nat) (s : Manager K),
      escalation (n.foldl (fun s i => s.record (Event.controller_setConstraints i)) s)
        = escalation s := by
    intro n
    induction n with
    | nil => intro s; rfl
    | cons a rest ih => intro s; simp only [List.foldl_cons, ih]; rfl
  unfold setConstraints
  simp only [h1, h2]

theorem escalation_switchControllerTail (ss : String) (m : Manager K) :
    escalation (switchControllerTail ss m).2 = escalation m := by
  unfold switchControllerTail
  simp only [escalation_setConstraints]
  rfl

theorem escalation_activateTracker (env : Env K) (name : String) (idx : Nat) (m : Manager K) :
    escalation (activateTracker env name idx m).2 = escalation m := by
  unfold activateTracker
  simp only
  split
  · rfl
  · rfl
  · split
    · rfl
    · split_ifs
      · split <;> simp [escalation, Manager.record]
      · split <;> simp [escalation, Manager.record]
      · simp [escalation, Manager.record]

theorem escalation_switchTracker (env : Env K) (name : String) (m : Manager K) :
    escalation (switchTracker env name m).2 = escalation m := by
  unfold switchTracker
  simp only
  split_ifs <;> first | rfl | exact escalation_activateTracker env name _ m

theorem escalation_activateController (env : Env K) (name : String) (idx : Nat) (m : Manager K) :
    escalation (activateController env name idx m).2 = escalation m := by
  unfold activateController
  simp only
  split
  · rw [escalation_switchControllerTail]; rfl
  · rfl
  · split
    · rw [escalation_switchControllerTail]; simp [escalation, Manager.record]
    · split
      · rw [escalation_switchControllerTail]; simp [escalation, Manager.record]
      · split <;> rw [escalation_switchControllerTail] <;> simp [escalation, Manager.record]

theorem escalation_switchController (env : Env K) (name : String) (m : Manager K) :
    escalation (switchController env name m).2 = escalation m := by
  unfold switchController
  simp only
  split_ifs <;> first | rfl | exact escalation_activateController env name _ m

theorem escalation_deactivateTrackers (env : Env K) (idxs : List Nat) (m : Manager K) :
    escalation (deactivateTrackers env idxs m) = escalation m := by
  induction idxs generalizing m with
  | nil => rfl
  | cons i rest ih =>
    simp only [deactivateTrackers, ih]
    rfl

theorem escalation_deactivateControllers (env : Env K) (idxs : List Nat) (m : Manager K) :
    escalation (deactivateControllers env idxs m) = escalation m := by
  induction idxs generalizing m with
  | nil => rfl
  | cons i rest ih =>
    simp only [deactivateControllers, ih]
    rfl

theorem escalation_switchMotors (env : Env K) (input : Bool) (m : Manager K) :
    escalation (switchMotors env input m) = escalation m := by
  unfold switchMotors
  simp only
  split_ifs
  · rfl
  · show escalation (deactivateControllers env _ _) = _
    rw [escalation_deactivateControllers, escalation_deactivateTrackers,
      escalation_switchController, escalation_switchTracker]
    rfl
  · rfl

theorem escalation_shutdown (m : Manager K) : escalation (shutdown m) = escalation m := by
  unfold shutdown
  split_ifs <;> rfl

theorem escalation_arming (env : Env K) (input : Bool) (m : Manager K) :
    escalation (arming env input m).2 = escalation m := by
  unfold arming
  split_ifs <;> (try split) <;> first
    | rfl
    | (rw [escalation_shutdown]
       show escalation (switchMotors env false _) = _
       rw [escalation_switchMotors]
       rfl)

theorem escalation_parachuteSrv (env : Env K) (m : Manager K) :
    escalation (parachuteSrv env m).2 = escalation m := by
  unfold parachuteSrv
  split <;> rfl

theorem escalation_elandSrv (env : Env K) (m : Manager K) :
    escalation (elandSrv env m).2 = escalation m := by
  unfold elandSrv
  split <;> rfl

theorem escalation_deployParachute (env : Env K) (m : Manager K) :
    escalation (deployParachute env m).2 = escalation m := by
  unfold deployParachute
  have hp := escalation_parachuteSrv env m
  rcases hsrv : parachuteSrv env m with ⟨succ, m1⟩
  rw [hsrv] at hp
  simp only at hp ⊢
  split_ifs
  · rfl
  · rfl
  · rw [escalation_arming]; exact hp
  · exact hp

theorem escalation_changeLandingState (s : LandingStates_t) (m : Manager K) :
    escalation (changeLandingState s m) = escalation m := by
  unfold changeLandingState
  cases s
  · rfl
  · simp only
    cases m.last_attitude_cmd_ <;> rfl

theorem escalation_failsafeController (env : Env K) (cmd : Option (AttitudeCommand K))
    (idx : Nat) (m : Manager K) :
    escalation (failsafeController env cmd idx m).2 = escalation m := by
  unfold failsafeController
  split_ifs
  · simp only
    split
    · rfl
    · split <;> cases cmd <;> simp [escalation, Manager.record, odometryCallbacksSrv]
  · rfl

theorem escalation_failsafe (env : Env K) (m : Manager K) :
    escalation (failsafe env m).2 = escalation m := by
  unfold failsafe
  simp only
  split_ifs
  · rfl
  · rfl
  · rfl
  · rw [escalation_switchMotors]; rfl
  · rw [escalation_deployParachute]; rfl
  · rw [escalation_failsafeController, escalation_deployParachute]; rfl
  · rw [escalation_failsafeController]; rfl

theorem escalation_eland (env : Env K) (m : Manager K) :
    escalation (eland env m).2 = escalation m := by
  unfold eland
  simp only
  split_ifs
  · rfl
  · rfl
  · rfl
  · rfl
  · rw [escalation_switchMotors]; rfl
  · rw [escalation_switchTracker]; rfl
  · show escalation (odometryCallbacksSrv false (changeLandingState _ _)) = _
    rw [show ∀ b (s : Manager K), escalation (odometryCallbacksSrv b s) = escalation s from
      fun _ _ => rfl, escalation_changeLandingState, escalation_elandSrv,
      escalation_switchController, escalation_switchTracker]
    rfl
  · rw [escalation_elandSrv, escalation_switchController, escalation_switchTracker]
    rfl

theorem escalation_ehover (env : Env K) (m : Manager K) :
    escalation (ehover env m).2 = escalation m := by
  unfold ehover
  simp only
  split_ifs
  · rfl
  · rfl
  · rfl
  · rfl
  · rw [escalation_switchTracker]; rfl
  · show escalation (switchController env _ _).2 = _
    rw [escalation_switchController, escalation_switchTracker]
    rfl

theorem escalation_components {m m1 : Manager K} (h : escalation m1 = escalation m) :
    m1.state_escalating_failsafe_ = m.state_escalating_failsafe_
      ∧ m1._escalating_failsafe_timeout_ = m._escalating_failsafe_timeout_
      ∧ m1._escalating_failsafe_ehover_ = m._escalating_failsafe_ehover_
      ∧ m1._escalating_failsafe_eland_ = m._escalating_failsafe_eland_
      ∧ m1._escalating_failsafe_failsafe_ = m._escalating_failsafe_failsafe_ := by
  simp only [escalation, Prod.mk.injEq] at h
  exact ⟨h.1, h.2.2.1, h.2.2.2.1, h.2.2.2.2.1, h.2.2.2.2.2⟩

/-- The pattern `auto [success, message] = action(); if (success) { state = s; }
return {success, message};` of `escalatingFailsafe`, for an action that leaves the
escalating-failsafe part of the state alone. -/
theorem storeState_result (r : (Bool × String) × Manager K) (s : EscalatingFailsafeStates_t)
    (m : Manager K)
    (h : r.2.state_escalating_failsafe_ = m.state_escalating_failsafe_
      ∧ r.2._escalating_failsafe_timeout_ = m._escalating_failsafe_timeout_
      ∧ r.2._escalating_failsafe_ehover_ = m._escalating_failsafe_ehover_
      ∧ r.2._escalating_failsafe_eland_ = m._escalating_failsafe_eland_
      ∧ r.2._escalating_failsafe_failsafe_ = m._escalating_failsafe_failsafe_) :
    ((match r with
        | ((success, message), m1) =>
          if success = true then
            ((success, message), { m1 with state_escalating_failsafe_ := s })
          else ((success, message), m1)).2._escalating_failsafe_timeout_
        = m._escalating_failsafe_timeout_
      ∧ (match r with
        | ((success, message), m1) =>
          if success = true then
            ((success, message), { m1 with state_escalating_failsafe_ := s })
          else ((success, message), m1)).2._escalating_failsafe_ehover_
        = m._escalating_failsafe_ehover_
      ∧ (match r with
        | ((success, message), m1) =>
          if success = true then
            ((success, message), { m1 with state_escalating_failsafe_ := s })
          else ((success, message), m1)).2._escalating_failsafe_eland_
        = m._escalating_failsafe_eland_
      ∧ (match r with
        | ((success, message), m1) =>
          if success = true then
            ((success, message), { m1 with state_escalating_failsafe_ := s })
          else ((success, message), m1)).2._escalating_failsafe_failsafe_
        = m._escalating_failsafe_failsafe_)
      ∧ (((match r with
          | ((success, message), m1) =>
            if success = true then
              ((success, message), { m1 with state_escalating_failsafe_ := s })
            else ((success, message), m1)).1.1 = false
          ∧ (match r with
          | ((success, message), m1) =>
            if success = true then
              ((success, message), { m1 with state_escalating_failsafe_ := s })
            else ((success, message), m1)).2.state_escalating_failsafe_
            = m.state_escalating_failsafe_)
        ∨ ((match r with
          | ((success, message), m1) =>
            if success = true then
              ((success, message), { m1 with state_escalating_failsafe_ := s })
            else ((success, message), m1)).1.1 = true
          ∧ (match r with
          | ((success, message), m1) =>
            if success = true then
              ((success, message), { m1 with state_escalating_failsafe_ := s })
            else ((success, message), m1)).2.state_escalating_failsafe_ = s)) := by
  rcases r with ⟨⟨success, message⟩, m1⟩
  cases success
  · exact ⟨⟨h.2.1, h.2.2.1, h.2.2.2.1, h.2.2.2.2⟩, Or.inl ⟨rfl, h.1⟩⟩
  · exact ⟨⟨h.2.1, h.2.2.1, h.2.2.2.1, h.2.2.2.2⟩, Or.inr ⟨rfl, rfl⟩⟩

/-- What the `switch` of `escalatingFailsafe` does to the escalation state: on
failure nothing, on success it stores EHover, ELand, or (after the failsafe stage)
Finished.  The timeout and the stage flags are never written. -/
theorem escalate_result (env : Env K) (next_state : EscalatingFailsafeStates_t) (m : Manager K) :
    ((escalate env next_state m).2._escalating_failsafe_timeout_
        = m._escalating_failsafe_timeout_
      ∧ (escalate env next_state m).2._escalating_failsafe_ehover_
        = m._escalating_failsafe_ehover_
      ∧ (escalate env next_state m).2._escalating_failsafe_eland_
        = m._escalating_failsafe_eland_
      ∧ (escalate env next_state m).2._escalating_failsafe_failsafe_
        = m._escalating_failsafe_failsafe_)
      ∧ (((escalate env next_state m).1.1 = false
          ∧ (escalate env next_state m).2.state_escalating_failsafe_
            = m.state_escalating_failsafe_)
        ∨ ((escalate env next_state m).1.1 = true
          ∧ ((next_state = .ESC_EHOVER_STATE
              ∧ (escalate env next_state m).2.state_escalating_failsafe_ = .ESC_EHOVER_STATE)
            ∨ (next_state = .ESC_ELAND_STATE
              ∧ (escalate env next_state m).2.state_escalating_failsafe_ = .ESC_ELAND_STATE)
            ∨ (next_state = .ESC_FAILSAFE_STATE
              ∧ (escalate env next_state m).2.state_escalating_failsafe_
                = .ESC_FINISHED_STATE)))) := by
  cases next_state
  · exact ⟨⟨rfl, rfl, rfl, rfl⟩, Or.inl ⟨rfl, rfl⟩⟩
  · have h := storeState_result (ehover env m) .ESC_EHOVER_STATE m
      (escalation_components (escalation_ehover env m))
    exact ⟨h.1, h.2.imp id (fun h2 => ⟨h2.1, Or.inl ⟨rfl, h2.2⟩⟩)⟩
  · have h := storeState_result (eland env m) .ESC_ELAND_STATE m
      (escalation_components (escalation_eland env m))
    exact ⟨h.1, h.2.imp id (fun h2 => ⟨h2.1, Or.inr (Or.inl ⟨rfl, h2.2⟩)⟩)⟩
  · have hf := escalation_components
      (escalation_failsafe env { m with escalating_failsafe_time_ := env.now })
    have h := storeState_result
      (failsafe env { m with escalating_failsafe_time_ := env.now }) .ESC_FINISHED_STATE m
      ⟨hf.1, hf.2.1, hf.2.2.1, hf.2.2.2.1, hf.2.2.2.2⟩
    exact ⟨h.1, h.2.imp id (fun h2 => ⟨h2.1, Or.inr (Or.inr ⟨rfl, h2.2⟩)⟩)⟩
  · exact ⟨⟨rfl, rfl, rfl, rfl⟩, Or.inl ⟨rfl, rfl⟩⟩

/-- The same for `escalatingFailsafe` itself. -/
theorem escalatingFailsafe_result (env : Env K) (m : Manager K) :
    ((escalatingFailsafe env m).2._escalating_failsafe_timeout_
        = m._escalating_failsafe_timeout_
      ∧ (escalatingFailsafe env m).2._escalating_failsafe_ehover_
        = m._escalating_failsafe_ehover_
      ∧ (escalatingFailsafe env m).2._escalating_failsafe_eland_
        = m._escalating_failsafe_eland_
      ∧ (escalatingFailsafe env m).2._escalating_failsafe_failsafe_
        = m._escalating_failsafe_failsafe_)
      ∧ (((escalatingFailsafe env m).1.1 = false
          ∧ (escalatingFailsafe env m).2.state_escalating_failsafe_
            = m.state_escalating_failsafe_)
        ∨ ((escalatingFailsafe env m).1.1 = true
          ∧ ((getNextEscFailsafeState m = .ESC_EHOVER_STATE
              ∧ (escalatingFailsafe env m).2.state_escalating_failsafe_ = .ESC_EHOVER_STATE)
            ∨ (getNextEscFailsafeState m = .ESC_ELAND_STATE
              ∧ (escalatingFailsafe env m).2.state_escalating_failsafe_ = .ESC_ELAND_STATE)
            ∨ (getNextEscFailsafeState m = .ESC_FAILSAFE_STATE
              ∧ (escalatingFailsafe env m).2.state_escalating_failsafe_
                = .ESC_FINISHED_STATE)))) := by
  unfold escalatingFailsafe
  split_ifs
  · exact ⟨⟨rfl, rfl, rfl, rfl⟩, Or.inl ⟨rfl, rfl⟩⟩
  · exact ⟨⟨rfl, rfl, rfl, rfl⟩, Or.inl ⟨rfl, rfl⟩⟩
  · exact escalate_result env (getNextEscFailsafeState m)
      { m with escalating_failsafe_time_ := env.now }

/-- C15: a call of `escalatingFailsafe` less than the timeout after the last
invocation returns failure with the message "too soon for escalating failsafe"
and leaves the whole state as it was: escalation state, invocation time, active
tracker and controller, and the trace (no action is started). -/
theorem escalatingFailsafe_too_soon (env : Env K) (m : Manager K)
    (hsoon : env.now - m.escalating_failsafe_time_ < m._escalating_failsafe_timeout_) :
    escalatingFailsafe env m = ((false, "too soon for escalating failsafe"), m) := by
  unfold escalatingFailsafe
  rw [if_pos hsoon]

theorem escalatingFailsafe_too_soon_witness :
    escalatingFailsafe (Env.calm (1 / 2 : ℚ)) Manager.escalating
      = ((false, "too soon for escalating failsafe"), Manager.escalating) :=
  escalatingFailsafe_too_soon (Env.calm (1 / 2 : ℚ)) Manager.escalating (by decide!)

/-- C14: `getNextEscFailsafeState` returns the first enabled stage strictly after
the current state in the order EHover, ELand, Failsafe, and Finished when no
later stage is enabled; from Finished it returns Finished, and a call of
`escalatingFailsafe` in state Finished returns failure and leaves the state
Finished. -/
theorem getNextEscFailsafeState_first_enabled (env : Env K) (m : Manager K) :
    getNextEscFailsafeState m
        = firstEnabledStageAfter m.state_escalating_failsafe_ m._escalating_failsafe_ehover_
            m._escalating_failsafe_eland_ m._escalating_failsafe_failsafe_
      ∧ (m.state_escalating_failsafe_ = .ESC_FINISHED_STATE →
        getNextEscFailsafeState m = .ESC_FINISHED_STATE
          ∧ (escalatingFailsafe env m).1.1 = false
          ∧ (escalatingFailsafe env m).2.state_escalating_failsafe_ = .ESC_FINISHED_STATE) := by
  constructor
  · unfold getNextEscFailsafeState firstEnabledStageAfter
    cases m.state_escalating_failsafe_ <;> cases m._escalating_failsafe_ehover_ <;>
      cases m._escalating_failsafe_eland_ <;> cases m._escalating_failsafe_failsafe_ <;> rfl
  · intro hfin
    have hnext : getNextEscFailsafeState m = .ESC_FINISHED_STATE := by
      unfold getNextEscFailsafeState
      rw [hfin]
    refine ⟨hnext, ?_⟩
    rcases (escalatingFailsafe_result env m).2 with h | ⟨_, h | h | h⟩
    · exact ⟨h.1, h.2.trans hfin⟩
    · rw [hnext] at h; exact absurd h.1 (by decide)
    · rw [hnext] at h; exact absurd h.1 (by decide)
    · rw [hnext] at h; exact absurd h.1 (by decide)

theorem getNextEscFailsafeState_first_enabled_witness :
    getNextEscFailsafeState
        ({ (Manager.escalating : Manager ℚ) with
          state_escalating_failsafe_ := .ESC_FINISHED_STATE }) = .ESC_FINISHED_STATE
      ∧ (escalatingFailsafe (Env.calm (10 : ℚ))
          { (Manager.escalating : Manager ℚ) with
            state_escalating_failsafe_ := .ESC_FINISHED_STATE }).1.1 = false
      ∧ (escalatingFailsafe (Env.calm (10 : ℚ))
          { (Manager.escalating : Manager ℚ) with
            state_escalating_failsafe_ := .ESC_FINISHED_STATE }).2.state_escalating_failsafe_
        = .ESC_FINISHED_STATE :=
  (getNextEscFailsafeState_first_enabled (Env.calm (10 : ℚ))
    { (Manager.escalating : Manager ℚ) with
      state_escalating_failsafe_ := .ESC_FINISHED_STATE }).2 rfl
/-- C12 (as stated, refuted): all three stages enabled, timeout 1 s, calls at 10 s,
20 s and 30 s, each succeeding.  The states after the calls are EHover, ELand and
Finished: the third call, which runs the failsafe stage, does not leave the state
at Failsafe. -/
theorem escalation_third_call_finishes :
    (escalatingFailsafe (Env.calm (10 : ℚ)) Manager.escalating).1.1 = true
      ∧ (escalatingFailsafe (Env.calm (20 : ℚ))
          (escalatingFailsafe (Env.calm (10 : ℚ)) Manager.escalating).2).1.1 = true
      ∧ (escalatingFailsafe (Env.calm (30 : ℚ))
          (escalatingFailsafe (Env.calm (20 : ℚ))
            (escalatingFailsafe (Env.calm (10 : ℚ)) Manager.escalating).2).2).1.1 = true
      ∧ (escalatingFailsafe (Env.calm (30 : ℚ))
          (escalatingFailsafe (Env.calm (20 : ℚ))
            (escalatingFailsafe (Env.calm (10 : ℚ))
              Manager.escalating).2).2).2.state_escalating_failsafe_
        = .ESC_FINISHED_STATE
      ∧ (escalatingFailsafe (Env.calm (30 : ℚ))
          (escalatingFailsafe (Env.calm (20 : ℚ))
            (escalatingFailsafe (Env.calm (10 : ℚ))
              Manager.escalating).2).2).2.state_escalating_failsafe_
        ≠ .ESC_FAILSAFE_STATE := by
  decide!

/-- C12 (amended): with the ehover, eland and failsafe stages all enabled and the
escalation state None, three successive calls of `escalatingFailsafe` that each
succeed (so each is past the timeout, with motors on, and its ehover, eland or
failsafe action succeeds) leave the escalation state at EHover, then ELand, then
Finished; a fourth call returns failure and leaves the state Finished, and when
it is past the timeout with motors on its message is "escalating failsafe has
nothing more to do". -/
theorem escalation_sequence (e1 e2 e3 e4 : Env K) (m : Manager K)
    (hehover : m._escalating_failsafe_ehover_ = true)
    (heland : m._escalating_failsafe_eland_ = true)
    (hfailsafe : m._escalating_failsafe_failsafe_ = true)
    (hnone : m.state_escalating_failsafe_ = .ESC_NONE_STATE)
    (h1 : (escalatingFailsafe e1 m).1.1 = true)
    (h2 : (escalatingFailsafe e2 (escalatingFailsafe e1 m).2).1.1 = true)
    (h3 : (escalatingFailsafe e3
      (escalatingFailsafe e2 (escalatingFailsafe e1 m).2).2).1.1 = true) :
    (escalatingFailsafe e1 m).2.state_escalating_failsafe_ = .ESC_EHOVER_STATE
      ∧ (escalatingFailsafe e2 (escalatingFailsafe e1 m).2).2.state_escalating_failsafe_
        = .ESC_ELAND_STATE
      ∧ (escalatingFailsafe e3
          (escalatingFailsafe e2 (escalatingFailsafe e1 m).2).2).2.state_escalating_failsafe_
        = .ESC_FINISHED_STATE
      ∧ (escalatingFailsafe e4 (escalatingFailsafe e3
          (escalatingFailsafe e2 (escalatingFailsafe e1 m).2).2).2).1.1 = false
      ∧ (escalatingFailsafe e4 (escalatingFailsafe e3
          (escalatingFailsafe e2
            (escalatingFailsafe e1 m).2).2).2).2.state_escalating_failsafe_
        = .ESC_FINISHED_STATE
      ∧ (¬ e4.now - (escalatingFailsafe e3
            (escalatingFailsafe e2 (escalatingFailsafe e1 m).2).2).2.escalating_failsafe_time_
            < (escalatingFailsafe e3
              (escalatingFailsafe e2
                (escalatingFailsafe e1 m).2).2).2._escalating_failsafe_timeout_ →
          (escalatingFailsafe e3
            (escalatingFailsafe e2 (escalatingFailsafe e1 m).2).2).2.motors_ = true →
          (escalatingFailsafe e4 (escalatingFailsafe e3
            (escalatingFailsafe e2 (escalatingFailsafe e1 m).2).2).2).1.2
            = "escalating failsafe has nothing more to do") := by
  have r1 := escalatingFailsafe_result e1 m
  have r2 := escalatingFailsafe_result e2 (escalatingFailsafe e1 m).2
  have r3 := escalatingFailsafe_result e3 (escalatingFailsafe e2 (escalatingFailsafe e1 m).2).2
  generalize escalatingFailsafe e1 m = a1 at *
  generalize escalatingFailsafe e2 a1.2 = a2 at *
  generalize escalatingFailsafe e3 a2.2 = a3 at *
  have n0 : getNextEscFailsafeState m = .ESC_EHOVER_STATE := by
    unfold getNextEscFailsafeState
    rw [hnone, hehover]
    rfl
  have s1 : a1.2.state_escalating_failsafe_ = .ESC_EHOVER_STATE := by
    rcases r1.2 with h | ⟨_, h | h | h⟩
    · rw [h1] at h; exact absurd h.1 (by decide)
    · exact h.2
    · rw [n0] at h; exact absurd h.1 (by decide)
    · rw [n0] at h; exact absurd h.1 (by decide)
  have n1 : getNextEscFailsafeState a1.2 = .ESC_ELAND_STATE := by
    unfold getNextEscFailsafeState
    rw [s1, r1.1.2.2.1, heland]
    rfl
  have s2 : a2.2.state_escalating_failsafe_ = .ESC_ELAND_STATE := by
    rcases r2.2 with h | ⟨_, h | h | h⟩
    · rw [h2] at h; exact absurd h.1 (by decide)
    · rw [n1] at h; exact absurd h.1 (by decide)
    · exact h.2
    · rw [n1] at h; exact absurd h.1 (by decide)
  have n2 : getNextEscFailsafeState a2.2 = .ESC_FAILSAFE_STATE := by
    unfold getNextEscFailsafeState
    rw [s2, r2.1.2.2.2, r1.1.2.2.2, hfailsafe]
    rfl
  have s3 : a3.2.state_escalating_failsafe_ = .ESC_FINISHED_STATE := by
    rcases r3.2 with h | ⟨_, h | h | h⟩
    · rw [h3] at h; exact absurd h.1 (by decide)
    · rw [n2] at h; exact absurd h.1 (by decide)
    · rw [n2] at h; exact absurd h.1 (by decide)
    · exact h.2
  have n3 : getNextEscFailsafeState a3.2 = .ESC_FINISHED_STATE := by
    unfold getNextEscFailsafeState
    rw [s3]
  refine ⟨s1, s2, s3, ?_, ?_, ?_⟩
  · rcases (escalatingFailsafe_result e4 a3.2).2 with h | ⟨_, h | h | h⟩
    · exact h.1
    · rw [n3] at h; exact absurd h.1 (by decide)
    · rw [n3] at h; exact absurd h.1 (by decide)
    · rw [n3] at h; exact absurd h.1 (by decide)
  · rcases (escalatingFailsafe_result e4 a3.2).2 with h | ⟨_, h | h | h⟩
    · exact h.2.trans s3
    · rw [n3] at h; exact absurd h.1 (by decide)
    · rw [n3] at h; exact absurd h.1 (by decide)
    · rw [n3] at h; exact absurd h.1 (by decide)
  · intro hlate hmotors
    unfold escalatingFailsafe
    rw [if_neg hlate, hmotors]
    simp only [Bool.not_true, Bool.false_eq_true, if_false, n3]
    rfl

theorem escalation_sequence_witness :
    (escalatingFailsafe (Env.calm (10 : ℚ)) Manager.escalating).2.state_escalating_failsafe_
        = .ESC_EHOVER_STATE
      ∧ (escalatingFailsafe (Env.calm (20 : ℚ))
          (escalatingFailsafe (Env.calm (10 : ℚ))
            Manager.escalating).2).2.state_escalating_failsafe_
        = .ESC_ELAND_STATE
      ∧ (escalatingFailsafe (Env.calm (30 : ℚ))
          (escalatingFailsafe (Env.calm (20 : ℚ))
            (escalatingFailsafe (Env.calm (10 : ℚ))
              Manager.escalating).2).2).2.state_escalating_failsafe_
        = .ESC_FINISHED_STATE
      ∧ (escalatingFailsafe (Env.calm (40 : ℚ))
          (escalatingFailsafe (Env.calm (30 : ℚ))
            (escalatingFailsafe (Env.calm (20 : ℚ))
              (escalatingFailsafe (Env.calm (10 : ℚ)) Manager.escalating).2).2).2).1.1
        = false :=
  have h := escalation_sequence (Env.calm (10 : ℚ)) (Env.calm (20 : ℚ)) (Env.calm (30 : ℚ))
    (Env.calm (40 : ℚ)) Manager.escalating rfl rfl rfl rfl (by decide!) (by decide!)
    (by decide!)
  ⟨h.1, h.2.1, h.2.2.1, h.2.2.2.1⟩
theorem escalation_safetyFailsafeStage (env : Env K) (c : K) (m : Manager K) :
    escalation (safetyFailsafeStage env c m) = escalation m := by
  unfold safetyFailsafeStage
  split_ifs <;> first | rfl | exact escalation_failsafe env m

theorem escalation_safetyEland (env : Env K) (m : Manager K) :
    escalation (safetyEland env m) = escalation m := by
  unfold safetyEland
  split_ifs <;> first | rfl | exact escalation_eland env m

theorem escalation_safetyUngrip (env : Env K) (m : Manager K) :
    escalation (safetyUngrip env m) = escalation m := by
  unfold safetyUngrip
  split_ifs <;> rfl

theorem escalation_safetyInnovationStage (env : Env K) (m : Manager K) :
    escalation (safetyInnovationStage env m) = escalation m := by
  unfold safetyInnovationStage
  split_ifs <;> first | rfl | exact escalation_safetyEland env m

theorem escalation_safetyTiltStage (env : Env K) (t : K) (m : Manager K) :
    escalation (safetyTiltStage env t m) = escalation m := by
  unfold safetyTiltStage
  split_ifs <;> first | rfl | exact escalation_safetyEland env m

theorem escalation_safetyPositionStage (env : Env K) (c : K) (m : Manager K) :
    escalation (safetyPositionStage env c m) = escalation m := by
  unfold safetyPositionStage
  simp only
  split_ifs <;> simp only [escalation_safetyEland, escalation_safetyUngrip]

theorem escalation_safetyYawStage (env : Env K) (m : Manager K) :
    escalation (safetyYawStage env m) = escalation m := by
  unfold safetyYawStage
  simp only
  split_ifs <;> simp only [escalation_safetyEland, escalation_safetyUngrip]

theorem escalation_safetyTiltDisarmStage (env : Env K) (t : K) (m : Manager K) :
    escalation (safetyTiltDisarmStage env t m) = escalation m := by
  unfold safetyTiltDisarmStage
  split_ifs
  · exact escalation_arming env false m
  · rfl

theorem escalation_safetyTiltErrorDisarmStage (env : Env K) (r : Bool) (i : Nat)
    (m : Manager K) : escalation (safetyTiltErrorDisarmStage env r i m) = escalation m := by
  unfold safetyTiltErrorDisarmStage
  simp only
  split_ifs <;> first
    | rfl
    | (rw [escalation_arming, escalation_switchMotors]; done)
    | (rw [escalation_arming, escalation_switchMotors]; rfl)

theorem escalation_safetyOffboardStage (env : Env K) (i : Nat) (m : Manager K) :
    escalation (safetyOffboardStage env i m) = escalation m := by
  unfold safetyOffboardStage
  split_ifs
  · exact escalation_switchMotors env false m
  · rfl

theorem escalation_safetyTail (env : Env K) (c t : K) (r : Bool) (i : Nat) (m : Manager K) :
    escalation (safetyTail env c t r i m) = escalation m := by
  unfold safetyTail
  simp only [escalation_safetyInnovationStage, escalation_safetyTiltStage,
    escalation_safetyPositionStage, escalation_safetyYawStage,
    escalation_safetyOffboardStage, escalation_safetyTiltErrorDisarmStage,
    escalation_safetyTiltDisarmStage]

theorem escalation_timerSafety (env : Env K) (m : Manager K) :
    escalation (timerSafety env m) = escalation m := by
  unfold timerSafety
  simp only
  split_ifs
  · rfl
  · rfl
  · rfl
  · split
    · rw [escalation_safetyTail, escalation_safetyFailsafeStage]
      rfl
    · rfl

theorem escalation_setReference (env : Env K) (reference_in : ReferenceStamped K)
    (m : Manager K) : escalation (setReference env reference_in m).2 = escalation m := by
  unfold setReference
  split_ifs
  · rfl
  · simp only
    cases env.transformer_.transformSingle reference_in m.uav_state_.frame_id with
    | none => rfl
    | some ret =>
      obtain ⟨evs, hst, _⟩ := bumperValidatePoint_state env ret m
      have h1 : escalation (bumperValidatePoint env ret m).2 = escalation m := by
        rw [hst]; rfl
      simp only
      split_ifs
      · exact h1
      · exact h1
      · exact h1
      · split <;> exact h1

theorem sendTrajectory_state (env : Env K) (request : TrajectoryReference K) (modified : Bool)
    (m : Manager K) :
    ∃ evs : List (Event K), (sendTrajectory env request modified m).2 = m.logged evs := by
  obtain ⟨evs, h1, _⟩ := fanOutTrajectory_state env request
    (List.range m._tracker_names_.length)
    (m.record (Event.tracker_setTrajectoryReference m.active_tracker_idx_ request))
  exact ⟨_, h1.trans (Manager.logged_logged m [_] evs)⟩

theorem escalation_setTrajectoryReference (env : Env K) (trajectory_in : TrajectoryReference K)
    (m : Manager K) :
    escalation (setTrajectoryReference env trajectory_in m).2 = escalation m := by
  obtain ⟨evs, hst, _⟩ := trajectoryBumperCheck_state env trajectory_in m
  unfold setTrajectoryReference
  split_ifs
  · rfl
  · rfl
  · rfl
  · rcases hb : trajectoryBumperCheck env trajectory_in m with ⟨⟨points1, shortened⟩, m1⟩
    rw [hb] at hst
    simp only at hst ⊢
    have h1 : escalation m1 = escalation m := by rw [hst]; rfl
    split_ifs
    · exact h1
    · split
      · exact h1
      · split
        · exact h1
        · split_ifs
          · exact h1
          · split
            · exact h1
            · split_ifs
              · exact h1
              · obtain ⟨evs2, h2⟩ := sendTrajectory_state env
                  { trajectory_in with frame_id := ‹String›, points := ‹List (Reference K)› }
                  ‹Bool› m1
                rw [h2]
                exact h1

theorem escalation_publish (env : Env K) (m : Manager K) :
    escalation (publish env m) = escalation m := by
  unfold publish
  rcases controlCommand env m with ⟨should_publish, attitude_target⟩
  simp only
  split_ifs <;> rfl

theorem getNextEscFailsafeState_later (m : Manager K) :
    m.state_escalating_failsafe_.toNat ≤ (getNextEscFailsafeState m).toNat := by
  unfold getNextEscFailsafeState
  cases m.state_escalating_failsafe_ <;> cases m._escalating_failsafe_ehover_ <;>
    cases m._escalating_failsafe_eland_ <;> cases m._escalating_failsafe_failsafe_ <;> decide

/-- C13: a call of `escalatingFailsafe` never lowers the escalation state in the
order None < EHover < ELand < Failsafe < Finished, whatever the stage flags and
the outcome of the ehover, eland or failsafe action are; and the other operations
of the manager (`ehover`, `eland`, `failsafe`, `switchTracker`,
`switchController`, `switchMotors`, `arming`, `timerSafety`, `setReference`,
`setTrajectoryReference`, `publish`) leave it as it is. -/
theorem escalation_state_never_lowered (env : Env K) (m : Manager K) (name : String)
    (input : Bool) (reference_in : ReferenceStamped K) (trajectory_in : TrajectoryReference K) :
    m.state_escalating_failsafe_.toNat
        ≤ (escalatingFailsafe env m).2.state_escalating_failsafe_.toNat
      ∧ (ehover env m).2.state_escalating_failsafe_ = m.state_escalating_failsafe_
      ∧ (eland env m).2.state_escalating_failsafe_ = m.state_escalating_failsafe_
      ∧ (failsafe env m).2.state_escalating_failsafe_ = m.state_escalating_failsafe_
      ∧ (switchTracker env name m).2.state_escalating_failsafe_ = m.state_escalating_failsafe_
      ∧ (switchController env name m).2.state_escalating_failsafe_
        = m.state_escalating_failsafe_
      ∧ (switchMotors env input m).state_escalating_failsafe_ = m.state_escalating_failsafe_
      ∧ (arming env input m).2.state_escalating_failsafe_ = m.state_escalating_failsafe_
      ∧ (timerSafety env m).state_escalating_failsafe_ = m.state_escalating_failsafe_
      ∧ (setReference env reference_in m).2.state_escalating_failsafe_
        = m.state_escalating_failsafe_
      ∧ (setTrajectoryReference env trajectory_in m).2.state_escalating_failsafe_
        = m.state_escalating_failsafe_
      ∧ (publish env m).state_escalating_failsafe_ = m.state_escalating_failsafe_ := by
  refine ⟨?_, (escalation_components (escalation_ehover env m)).1,
    (escalation_components (escalation_eland env m)).1,
    (escalation_components (escalation_failsafe env m)).1,
    (escalation_components (escalation_switchTracker env name m)).1,
    (escalation_components (escalation_switchController env name m)).1,
    (escalation_components (escalation_switchMotors env input m)).1,
    (escalation_components (escalation_arming env input m)).1,
    (escalation_components (escalation_timerSafety env m)).1,
    (escalation_components (escalation_setReference env reference_in m)).1,
    (escalation_components (escalation_setTrajectoryReference env trajectory_in m)).1,
    (escalation_components (escalation_publish env m)).1⟩
  have hlater := getNextEscFailsafeState_later m
  rcases (escalatingFailsafe_result env m).2 with h | ⟨_, h | h | h⟩
  · rw [h.2]
  · rw [h.2, ← h.1]; exact hlater
  · rw [h.2, ← h.1]; exact hlater
  · rw [h.2]
    cases m.state_escalating_failsafe_ <;> decide

/-! ### The control output -/

/-- The two outcomes of `publish`: nothing is sent and the state is as it was, or
the command built by `controlCommand` passes the finiteness check and is sent. -/
theorem publish_cases (env : Env K) (m : Manager K) :
    publish env m = m
      ∨ ((controlCommand env m).1 = true
        ∧ validateMavrosAttitudeTarget env (controlCommand env m).2 = true
        ∧ publish env m = m.record (Event.publish_control_output (controlCommand env m).2)) := by
  unfold publish
  rcases controlCommand env m with ⟨should_publish, attitude_target⟩
  cases should_publish
  · exact Or.inl rfl
  · cases hv : validateMavrosAttitudeTarget env attitude_target
    · left; simp [hv]
    · right; simp [hv]

theorem publish_emitted (env : Env K) (m : Manager K) (t : AttitudeTarget K)
    (h : Event.publish_control_output t ∈ (publish env m).log.drop m.log.length) :
    (controlCommand env m).1 = true
      ∧ validateMavrosAttitudeTarget env (controlCommand env m).2 = true
      ∧ t = (controlCommand env m).2 := by
  rcases publish_cases env m with hp | ⟨h1, h2, hp⟩
  · rw [hp] at h; simp at h
  · rw [hp] at h
    simp only [Manager.record, List.drop_left, List.mem_singleton] at h
    exact ⟨h1, h2, Event.publish_control_output.inj h⟩

theorem controlCommand_null_tracker (env : Env K) (m : Manager K) (hmotors : m.motors_ = true)
    (hnull : m.active_tracker_idx_ = m._null_tracker_idx_) :
    controlCommand env m = (true, neutralHoldCommand env m) := by
  unfold controlCommand
  simp only [hmotors, hnull, Bool.not_true, Bool.false_eq_true, if_false, if_true]
  rfl

theorem controlCommand_motors_off (env : Env K) (m : Manager K) (hmotors : m.motors_ = false) :
    (controlCommand env m).1 = false := by
  unfold controlCommand
  simp only [hmotors, Bool.not_false, if_true]

theorem controlCommand_nil (env : Env K) (m : Manager K) (hmotors : m.motors_ = true)
    (htracker : m.active_tracker_idx_ ≠ m._null_tracker_idx_)
    (hcmd : m.last_attitude_cmd_ = none) :
    controlCommand env m = (true, neutralHoldCommand env m) := by
  unfold controlCommand
  simp only [hmotors, htracker, hcmd, Bool.not_true, Bool.false_eq_true, if_false]
  rfl

theorem controlCommand_thrust (env : Env K) (m : Manager K) (cmd : AttitudeCommand K)
    (hmotors : m.motors_ = true) (htracker : m.active_tracker_idx_ ≠ m._null_tracker_idx_)
    (hcmd : m.last_attitude_cmd_ = some cmd) :
    (controlCommand env m).1 = true ∧ (controlCommand env m).2.thrust = cmd.thrust := by
  unfold controlCommand
  simp only [hmotors, htracker, hcmd, Bool.not_true, Bool.false_eq_true, if_false]
  split_ifs <;> exact ⟨rfl, rfl⟩

theorem validateMavrosAttitudeTarget_finite (env : Env K) (t : AttitudeTarget K) :
    validateMavrosAttitudeTarget env t = true ↔
      env.libm.isfinite t.orientation.x = true ∧ env.libm.isfinite t.orientation.y = true
        ∧ env.libm.isfinite t.orientation.z = true ∧ env.libm.isfinite t.orientation.w = true
        ∧ env.libm.isfinite t.body_rate.x = true ∧ env.libm.isfinite t.body_rate.y = true
        ∧ env.libm.isfinite t.body_rate.z = true ∧ env.libm.isfinite t.thrust = true := by
  unfold validateMavrosAttitudeTarget
  cases env.libm.isfinite t.orientation.x <;> cases env.libm.isfinite t.orientation.y <;>
    cases env.libm.isfinite t.orientation.z <;> cases env.libm.isfinite t.orientation.w <;>
    cases env.libm.isfinite t.body_rate.x <;> cases env.libm.isfinite t.body_rate.y <;>
    cases env.libm.isfinite t.body_rate.z <;> cases env.libm.isfinite t.thrust <;> simp

/-- C16: while the null tracker is active, every flight-stack command that
`publish` emits is the neutral hold command (current orientation, zero body
rates, attitude ignored in the type mask, minimum null-tracker thrust), whatever
the last attitude command holds; and with motors on that command is emitted
whenever it passes the finiteness check. -/
theorem publish_null_tracker (env : Env K) (m : Manager K)
    (hnull : m.active_tracker_idx_ = m._null_tracker_idx_) :
    (∀ t, Event.publish_control_output t ∈ (publish env m).log.drop m.log.length →
        t = neutralHoldCommand env m)
      ∧ (m.motors_ = true → validateMavrosAttitudeTarget env (neutralHoldCommand env m) = true →
        publish env m = m.record (Event.publish_control_output (neutralHoldCommand env m))) := by
  constructor
  · intro t ht
    obtain ⟨h1, _, h3⟩ := publish_emitted env m t ht
    cases hmotors : m.motors_
    · rw [controlCommand_motors_off env m hmotors] at h1
      exact Bool.noConfusion h1
    · rw [h3, controlCommand_null_tracker env m hmotors hnull]
  · intro hmotors hvalid
    rcases publish_cases env m with hp | ⟨_, _, hp⟩
    · unfold publish at hp ⊢
      rw [controlCommand_null_tracker env m hmotors hnull] at hp ⊢
      simp [hvalid]
    · rw [hp, controlCommand_null_tracker env m hmotors hnull]

theorem publish_null_tracker_witness :
    (publish (Env.calm (0 : ℚ))
        { (Manager.idling : Manager ℚ) with
          last_attitude_cmd_ := some (AttitudeCommand.limiting 3) }).log
      = [Event.publish_control_output
          ⟨0, "base_link", 128, ⟨0, 0, 0, 1⟩, ⟨0, 0, 0⟩, 0⟩] :=
  congrArg Manager.log
    ((publish_null_tracker (Env.calm (0 : ℚ))
      { (Manager.idling : Manager ℚ) with
        last_attitude_cmd_ := some (AttitudeCommand.limiting 3) } rfl).2 rfl (by decide!))

/-- C17: with motors off `publish` emits no flight-stack command, whatever the
active tracker and the last attitude command are: the state, trace included, is
left as it was. -/
theorem publish_motors_off (env : Env K) (m : Manager K) (hmotors : m.motors_ = false) :
    publish env m = m := by
  rcases publish_cases env m with hp | ⟨h1, _, _⟩
  · exact hp
  · rw [controlCommand_motors_off env m hmotors] at h1
    exact Bool.noConfusion h1

theorem publish_motors_off_witness :
    publish (Env.calm (0 : ℚ)) Manager.live = Manager.live :=
  publish_motors_off (Env.calm (0 : ℚ)) Manager.live rfl

/-- C18 (as stated, refuted): motors on, a non-null tracker active, and a last
attitude command whose thrust is beyond the range of a double (not finite).
`publish` emits nothing instead of the neutral fallback command. -/
theorem publish_drops_non_finite_command :
    (Env.calm (0 : ℚ)).libm.isfinite ((2 : ℚ) ^ 1024) = false
      ∧ (publish (Env.calm (0 : ℚ))
          (Manager.commanded (some (AttitudeCommand.limiting ((2 : ℚ) ^ 1024))))).log = [] := by
  decide!

/-- C18 (amended): with motors on and a non-null tracker active, when the last
attitude command is null `publish` emits the neutral fallback command (current
orientation, zero rates, minimum thrust), provided that command passes the
finiteness check; when the last attitude command is not null and the command
built from it fails the finiteness check (as it does when its thrust is not
finite), `publish` emits nothing and leaves the state as it was. -/
theorem publish_fallback (env : Env K) (m : Manager K) (hmotors : m.motors_ = true)
    (htracker : m.active_tracker_idx_ ≠ m._null_tracker_idx_) :
    (m.last_attitude_cmd_ = none →
        validateMavrosAttitudeTarget env (neutralHoldCommand env m) = true →
        publish env m = m.record (Event.publish_control_output (neutralHoldCommand env m)))
      ∧ (validateMavrosAttitudeTarget env (controlCommand env m).2 = false → publish env m = m)
      ∧ (∀ cmd, m.last_attitude_cmd_ = some cmd → env.libm.isfinite cmd.thrust = false →
        publish env m = m) := by
  have hinvalid : validateMavrosAttitudeTarget env (controlCommand env m).2 = false →
      publish env m = m := by
    intro hv
    rcases publish_cases env m with hp | ⟨_, h2, _⟩
    · exact hp
    · rw [hv] at h2; exact Bool.noConfusion h2
  refine ⟨?_, hinvalid, ?_⟩
  · intro hcmd hvalid
    rcases publish_cases env m with hp | ⟨_, _, hp⟩
    · unfold publish at hp ⊢
      rw [controlCommand_nil env m hmotors htracker hcmd] at hp ⊢
      simp [hvalid]
    · rw [hp, controlCommand_nil env m hmotors htracker hcmd]
  · intro cmd hcmd hthrust
    apply hinvalid
    cases hv : validateMavrosAttitudeTarget env (controlCommand env m).2
    · rfl
    · have hf := ((validateMavrosAttitudeTarget_finite env _).mp hv).2.2.2.2.2.2.2
      rw [(controlCommand_thrust env m cmd hmotors htracker hcmd).2, hthrust] at hf
      exact Bool.noConfusion hf

theorem publish_fallback_witness :
    (publish (Env.calm (0 : ℚ)) (Manager.commanded none)).log
      = [Event.publish_control_output ⟨0, "base_link", 128, ⟨0, 0, 0, 1⟩, ⟨0, 0, 0⟩, 0⟩] :=
  congrArg Manager.log
    ((publish_fallback (Env.calm (0 : ℚ)) (Manager.commanded none) rfl (by decide)).1 rfl
      (by decide!))

/-- C19: every flight-stack command that `publish` emits has finite orientation
components, finite body rates and a finite thrust. -/
theorem publish_finite (env : Env K) (m : Manager K) (t : AttitudeTarget K)
    (h : Event.publish_control_output t ∈ (publish env m).log.drop m.log.length) :
    env.libm.isfinite t.orientation.x = true ∧ env.libm.isfinite t.orientation.y = true
      ∧ env.libm.isfinite t.orientation.z = true ∧ env.libm.isfinite t.orientation.w = true
      ∧ env.libm.isfinite t.body_rate.x = true ∧ env.libm.isfinite t.body_rate.y = true
      ∧ env.libm.isfinite t.body_rate.z = true ∧ env.libm.isfinite t.thrust = true := by
  obtain ⟨_, h2, h3⟩ := publish_emitted env m t h
  rw [h3]
  exact (validateMavrosAttitudeTarget_finite env _).mp h2

theorem publish_finite_witness :
    (Env.calm (0 : ℚ)).libm.isfinite (3 : ℚ) = true :=
  (publish_finite (Env.calm (0 : ℚ)) (Manager.commanded (some (AttitudeCommand.limiting 3)))
    ⟨0, "base_link", 7, ⟨0, 0, 0, 1⟩, ⟨0, 0, 0⟩, 3⟩ (by decide!)).2.2.2.2.2.2.2

/-! ### Constraints enforced by the controller -/

theorem enforceLimit_snd (limit : K) (enforcing : Bool) (value : K) :
    (enforceLimit limit enforcing value).2 = min value limit := by
  unfold enforceLimit
  split_ifs with h
  · exact (min_eq_right (le_of_lt h)).symm
  · exact (min_eq_left (not_lt.mp h)).symm

theorem enforceLimit_fst (limit : K) (enforcing : Bool) (value : K) :
    (enforceLimit limit enforcing value).1 = true ↔ enforcing = true ∨ limit < value := by
  unfold enforceLimit
  split_ifs with h
  · simp [h]
  · simp [h]

theorem enforceLimit_again (limit : K) (e1 e2 : Bool) (value : K) :
    enforceLimit limit e2 (enforceLimit limit e1 value).2
      = (e2, (enforceLimit limit e1 value).2) := by
  rw [enforceLimit_snd]
  unfold enforceLimit
  rw [if_neg (not_lt.mpr (min_le_right value limit))]

/-- C20: when the last attitude command exists and declares that the controller
enforces constraints, each of the six fields horizontal speed, horizontal
acceleration, vertical ascending speed and acceleration, vertical descending speed
and acceleration of the result is the minimum of the given value and the
controller's value, every other field is unchanged, and the function returns
true exactly when one of the six fields was lowered; otherwise the constraints
are unchanged and it returns false.  Applying it to its own result changes
nothing and returns false. -/
theorem enforceControllersConstraints_min (m : Manager K) (c : DynamicsConstraints K) :
    (∀ cmd, m.last_attitude_cmd_ = some cmd → cmd.controller_enforcing_constraints = true →
        ((enforceControllersConstraints m c).2.horizontal_speed
            = min c.horizontal_speed cmd.horizontal_speed_constraint
          ∧ (enforceControllersConstraints m c).2.horizontal_acceleration
            = min c.horizontal_acceleration cmd.horizontal_acc_constraint
          ∧ (enforceControllersConstraints m c).2.vertical_ascending_speed
            = min c.vertical_ascending_speed cmd.vertical_asc_speed_constraint
          ∧ (enforceControllersConstraints m c).2.vertical_ascending_acceleration
            = min c.vertical_ascending_acceleration cmd.vertical_asc_acc_constraint
          ∧ (enforceControllersConstraints m c).2.vertical_descending_speed
            = min c.vertical_descending_speed cmd.vertical_desc_speed_constraint
          ∧ (enforceControllersConstraints m c).2.vertical_descending_acceleration
            = min c.vertical_descending_acceleration cmd.vertical_desc_acc_constraint)
        ∧ ((enforceControllersConstraints m c).2.horizontal_jerk = c.horizontal_jerk
          ∧ (enforceControllersConstraints m c).2.horizontal_snap = c.horizontal_snap
          ∧ (enforceControllersConstraints m c).2.vertical_ascending_jerk
            = c.vertical_ascending_jerk
          ∧ (enforceControllersConstraints m c).2.vertical_ascending_snap
            = c.vertical_ascending_snap
          ∧ (enforceControllersConstraints m c).2.vertical_descending_jerk
            = c.vertical_descending_jerk
          ∧ (enforceControllersConstraints m c).2.vertical_descending_snap
            = c.vertical_descending_snap
          ∧ (enforceControllersConstraints m c).2.heading_speed = c.heading_speed
          ∧ (enforceControllersConstraints m c).2.heading_acceleration = c.heading_acceleration
          ∧ (enforceControllersConstraints m c).2.heading_jerk = c.heading_jerk
          ∧ (enforceControllersConstraints m c).2.heading_snap = c.heading_snap
          ∧ (enforceControllersConstraints m c).2.roll_rate = c.roll_rate
          ∧ (enforceControllersConstraints m c).2.pitch_rate = c.pitch_rate
          ∧ (enforceControllersConstraints m c).2.yaw_rate = c.yaw_rate
          ∧ (enforceControllersConstraints m c).2.tilt = c.tilt)
        ∧ ((enforceControllersConstraints m c).1 = true ↔
          (enforceControllersConstraints m c).2.horizontal_speed < c.horizontal_speed
          ∨ (enforceControllersConstraints m c).2.horizontal_acceleration
            < c.horizontal_acceleration
          ∨ (enforceControllersConstraints m c).2.vertical_ascending_speed
            < c.vertical_ascending_speed
          ∨ (enforceControllersConstraints m c).2.vertical_ascending_acceleration
            < c.vertical_ascending_acceleration
          ∨ (enforceControllersConstraints m c).2.vertical_descending_speed
            < c.vertical_descending_speed
          ∨ (enforceControllersConstraints m c).2.vertical_descending_acceleration
            < c.vertical_descending_acceleration))
      ∧ ((m.last_attitude_cmd_ = none
          ∨ ∃ cmd, m.last_attitude_cmd_ = some cmd
            ∧ cmd.controller_enforcing_constraints = false) →
        enforceControllersConstraints m c = (false, c))
      ∧ enforceControllersConstraints m (enforceControllersConstraints m c).2
        = (false, (enforceControllersConstraints m c).2) := by
  refine ⟨?_, ?_, ?_⟩
  · intro cmd hcmd henf
    unfold enforceControllersConstraints
    simp only [hcmd, henf, if_true]
    refine ⟨⟨enforceLimit_snd _ _ _, enforceLimit_snd _ _ _, enforceLimit_snd _ _ _,
      enforceLimit_snd _ _ _, enforceLimit_snd _ _ _, enforceLimit_snd _ _ _⟩, ?_, ?_⟩
    · simp only [and_self]
    · simp only [enforceLimit_fst, enforceLimit_snd, min_lt_iff, lt_irrefl, false_or,
        Bool.false_eq_true]
      tauto
  · intro h
    unfold enforceControllersConstraints
    rcases h with h | ⟨cmd, h, henf⟩
    · rw [h]
    · rw [h]
      simp only [henf, Bool.false_eq_true, if_false]
  · unfold enforceControllersConstraints
    cases m.last_attitude_cmd_ with
    | none => rfl
    | some cmd =>
      simp only
      cases henf : cmd.controller_enforcing_constraints
      · simp only [Bool.false_eq_true, if_false]
      · simp only [if_true, enforceLimit_again]

theorem enforceControllersConstraints_min_witness :
    (enforceControllersConstraints
        (Manager.commanded (some (AttitudeCommand.limiting (3 : ℚ))))
        (DynamicsConstraints.uniform 2)).2.horizontal_speed = min 2 1
      ∧ (enforceControllersConstraints
        (Manager.commanded (some (AttitudeCommand.limiting (3 : ℚ))))
        (DynamicsConstraints.uniform 2)).2.horizontal_acceleration = min 2 5 :=
  have h := ((enforceControllersConstraints_min
    (Manager.commanded (some (AttitudeCommand.limiting (3 : ℚ))))
    (DynamicsConstraints.uniform 2)).1 (AttitudeCommand.limiting 3) rfl rfl).1
  ⟨h.1, h.2.1⟩

/-! ### The sector of a point -/

theorem real_heading_wrapped (θ : ℝ) (h1 : -Real.pi < θ) (h2 : θ ≤ Real.pi) :
    let h := if |θ + 2 * Real.pi| ≥ 2 * Real.pi then Libm.real.fmod (θ + 2 * Real.pi) (2 * Real.pi)
      else θ + 2 * Real.pi
    0 ≤ h ∧ h < 2 * Real.pi ∧ (h = θ ∨ h = θ + 2 * Real.pi) := by
  have hpi : (0 : ℝ) < Real.pi := Real.pi_pos
  have hpos : 0 < θ + 2 * Real.pi := by linarith
  intro h
  show 0 ≤ h ∧ h < 2 * Real.pi ∧ (h = θ ∨ h = θ + 2 * Real.pi)
  by_cases hθ : 0 ≤ θ
  · have hge : |θ + 2 * Real.pi| ≥ 2 * Real.pi := by rw [abs_of_pos hpos]; linarith
    have hq : 0 ≤ (θ + 2 * Real.pi) / (2 * Real.pi) := by positivity
    have hfl : ⌊(θ + 2 * Real.pi) / (2 * Real.pi)⌋ = 1 := by
      rw [Int.floor_eq_iff]
      constructor
      · rw [le_div_iff₀ (by positivity)]; push_cast; linarith
      · rw [div_lt_iff₀ (by positivity)]; push_cast; linarith
    have hh : h = θ := by
      show (if |θ + 2 * Real.pi| ≥ 2 * Real.pi then
        (θ + 2 * Real.pi) - (2 * Real.pi) * (if 0 ≤ (θ + 2 * Real.pi) / (2 * Real.pi)
          then (⌊(θ + 2 * Real.pi) / (2 * Real.pi)⌋ : ℝ) else (⌈(θ + 2 * Real.pi) / (2 * Real.pi)⌉ : ℝ))
        else θ + 2 * Real.pi) = θ
      rw [if_pos hge, if_pos hq, hfl]; push_cast; ring
    rw [hh]
    exact ⟨hθ, by linarith, Or.inl rfl⟩
  · have hθ' : θ < 0 := not_le.mp hθ
    have hlt : ¬ |θ + 2 * Real.pi| ≥ 2 * Real.pi := by rw [abs_of_pos hpos]; linarith
    have hh : h = θ + 2 * Real.pi := by
      show (if |θ + 2 * Real.pi| ≥ 2 * Real.pi then _ else θ + 2 * Real.pi) = _
      rw [if_neg hlt]
    rw [hh]
    exact ⟨le_of_lt hpos, by linarith, Or.inr rfl⟩

theorem real_sector_floor (h : ℝ) (N : Nat) (hN : 1 ≤ N) (h0 : 0 ≤ h) (h1 : h < 2 * Real.pi) :
    let s := 2 * Real.pi / (N : ℝ)
    let idx := ⌊(h + s / 2) / s⌋
    0 ≤ idx ∧ idx ≤ (N : Int) ∧ (idx : ℝ) * s - s / 2 ≤ h ∧ h < (idx : ℝ) * s + s / 2 := by
  have hpi : (0 : ℝ) < Real.pi := Real.pi_pos
  have hN' : (0 : ℝ) < (N : ℝ) := by exact_mod_cast hN
  intro s idx
  have hs : 0 < s := by positivity
  have hNs : (N : ℝ) * s = 2 * Real.pi := by
    show (N : ℝ) * (2 * Real.pi / (N : ℝ)) = _
    field_simp
  have hfl1 : (idx : ℝ) ≤ (h + s / 2) / s := Int.floor_le _
  have hfl2 : (h + s / 2) / s < (idx : ℝ) + 1 := Int.lt_floor_add_one _
  rw [le_div_iff₀ hs] at hfl1
  rw [div_lt_iff₀ hs] at hfl2
  refine ⟨?_, ?_, by linarith, by linarith⟩
  · apply Int.floor_nonneg.mpr
    positivity
  · have : (idx : ℝ) < (N : ℝ) + 1 := by
      by_contra hc
      push_neg at hc
      have : ((N : ℝ) + 1) * s ≤ (idx : ℝ) * s := by
        exact mul_le_mul_of_nonneg_right hc (le_of_lt hs)
      nlinarith
    have h3 : (idx : ℝ) < ((N + 1 : Int) : ℝ) := by push_cast; exact this
    have h4 : idx < (N : Int) + 1 := by exact_mod_cast h3
    omega

/-- C30. With the real `<cmath>`, for every point `(x, y)` and every number
`N ≥ 1` of horizontal sectors `bumperGetSectorId` returns an index `i` with
`0 ≤ i ≤ N - 1`, and the bearing `atan2(y, x)` is, up to a whole number of turns,
within half a sector width `π / N` of the centre direction `i · (2π / N)` of the
returned sector; the points of the +x axis fall into sector 0, whose centre
direction is 0. -/
theorem bumperGetSectorId_in_range (env : Env ℝ) (bumper_data : ObstacleSectors ℝ) (x y z : ℝ)
    (hlibm : env.libm = Libm.real) (hN : 1 ≤ bumper_data.n_horizontal_sectors) :
    0 ≤ bumperGetSectorId env bumper_data x y z
      ∧ bumperGetSectorId env bumper_data x y z ≤ (bumper_data.n_horizontal_sectors : Int) - 1
      ∧ (∃ k : Int, |env.libm.atan2 y x + 2 * Real.pi * (k : ℝ)
            - (bumperGetSectorId env bumper_data x y z : ℝ)
              * (2 * Real.pi / (bumper_data.n_horizontal_sectors : ℝ))|
          ≤ Real.pi / (bumper_data.n_horizontal_sectors : ℝ))
      ∧ (0 < x → bumperGetSectorId env bumper_data x 0 z = 0) := by
  have hpi : (0 : ℝ) < Real.pi := Real.pi_pos
  have hN' : (0 : ℝ) < (bumper_data.n_horizontal_sectors : ℝ) := by exact_mod_cast hN
  have key : ∀ y' : ℝ, 0 ≤ bumperGetSectorId env bumper_data x y' z
      ∧ bumperGetSectorId env bumper_data x y' z ≤ (bumper_data.n_horizontal_sectors : Int) - 1
      ∧ (∃ k : Int, |env.libm.atan2 y' x + 2 * Real.pi * (k : ℝ)
            - (bumperGetSectorId env bumper_data x y' z : ℝ)
              * (2 * Real.pi / (bumper_data.n_horizontal_sectors : ℝ))|
          ≤ Real.pi / (bumper_data.n_horizontal_sectors : ℝ)) := by
    intro y'
    have ha1 : -Real.pi < Libm.real.atan2 y' x := Complex.neg_pi_lt_arg _
    have ha2 : Libm.real.atan2 y' x ≤ Real.pi := Complex.arg_le_pi _
    obtain ⟨w0, w1, w2⟩ := real_heading_wrapped _ ha1 ha2
    obtain ⟨f0, f1, f2, f3⟩ := real_sector_floor _ _ hN w0 w1
    have hNs : (bumper_data.n_horizontal_sectors : ℝ)
        * (2 * Real.pi / (bumper_data.n_horizontal_sectors : ℝ)) = 2 * Real.pi := by
      field_simp
    have hhalf : 2 * Real.pi / (bumper_data.n_horizontal_sectors : ℝ) / 2
        = Real.pi / (bumper_data.n_horizontal_sectors : ℝ) := by
      field_simp
      ring
    have hat : env.libm.atan2 y' x = Libm.real.atan2 y' x := by rw [hlibm]
    have hdef : bumperGetSectorId env bumper_data x y' z
        = (if ⌊((if |Libm.real.atan2 y' x + 2 * Real.pi| ≥ 2 * Real.pi then
                  Libm.real.fmod (Libm.real.atan2 y' x + 2 * Real.pi) (2 * Real.pi)
                else Libm.real.atan2 y' x + 2 * Real.pi)
              + 2 * Real.pi / (bumper_data.n_horizontal_sectors : ℝ) / 2)
              / (2 * Real.pi / (bumper_data.n_horizontal_sectors : ℝ))⌋
            > (bumper_data.n_horizontal_sectors : Int) - 1 then
          ⌊((if |Libm.real.atan2 y' x + 2 * Real.pi| ≥ 2 * Real.pi then
                  Libm.real.fmod (Libm.real.atan2 y' x + 2 * Real.pi) (2 * Real.pi)
                else Libm.real.atan2 y' x + 2 * Real.pi)
              + 2 * Real.pi / (bumper_data.n_horizontal_sectors : ℝ) / 2)
              / (2 * Real.pi / (bumper_data.n_horizontal_sectors : ℝ))⌋
            - (bumper_data.n_horizontal_sectors : Int)
          else
          ⌊((if |Libm.real.atan2 y' x + 2 * Real.pi| ≥ 2 * Real.pi then
                  Libm.real.fmod (Libm.real.atan2 y' x + 2 * Real.pi) (2 * Real.pi)
                else Libm.real.atan2 y' x + 2 * Real.pi)
              + 2 * Real.pi / (bumper_data.n_horizontal_sectors : ℝ) / 2)
              / (2 * Real.pi / (bumper_data.n_horizontal_sectors : ℝ))⌋) := by
      unfold bumperGetSectorId
      rw [hlibm]
      rfl
    rw [hdef, hat]
    generalize (if |Libm.real.atan2 y' x + 2 * Real.pi| ≥ 2 * Real.pi then
        Libm.real.fmod (Libm.real.atan2 y' x + 2 * Real.pi) (2 * Real.pi)
      else Libm.real.atan2 y' x + 2 * Real.pi) = H at w0 w1 w2 f0 f1 f2 f3 ⊢
    generalize ⌊(H + 2 * Real.pi / (bumper_data.n_horizontal_sectors : ℝ) / 2)
      / (2 * Real.pi / (bumper_data.n_horizontal_sectors : ℝ))⌋ = idx at f0 f1 f2 f3 ⊢
    generalize Libm.real.atan2 y' x = θ at w2 ⊢
    rw [hhalf] at f2 f3
    by_cases hbig : idx > (bumper_data.n_horizontal_sectors : Int) - 1
    · have hidx : idx = (bumper_data.n_horizontal_sectors : Int) := by omega
      rw [if_pos hbig]
      subst hidx
      refine ⟨by omega, by omega, ?_⟩
      push_cast at f2 f3 ⊢
      rw [hNs] at f2 f3
      rcases w2 with w2 | w2
      · refine ⟨-1, ?_⟩
        rw [abs_le]; push_cast
        constructor <;> nlinarith
      · refine ⟨0, ?_⟩
        rw [abs_le]; push_cast
        constructor <;> nlinarith
    · rw [if_neg hbig]
      refine ⟨f0, by omega, ?_⟩
      rcases w2 with w2 | w2
      · refine ⟨0, ?_⟩
        rw [abs_le]; push_cast
        constructor <;> linarith
      · refine ⟨1, ?_⟩
        rw [abs_le]; push_cast
        constructor <;> linarith
  refine ⟨(key y).1, (key y).2.1, (key y).2.2, ?_⟩
  intro hx
  have hsame : bumperGetSectorId env bumper_data x 0 z
      = bumperGetSectorId (Env.real 0) bumper_data x 0 z := by
    unfold bumperGetSectorId
    rw [hlibm]
    rfl
  rw [hsame]
  exact bumperGetSectorId_pos_x_axis 0 bumper_data x z (le_of_lt hx) hN

theorem bumperGetSectorId_in_range_witness :
    (Env.real 0).libm = Libm.real
      ∧ 1 ≤ (ObstacleSectors.ahead (2 : ℝ)).n_horizontal_sectors
      ∧ (0 : Int) ≤ bumperGetSectorId (Env.real 0) (ObstacleSectors.ahead (2 : ℝ)) 3 4 0
      ∧ bumperGetSectorId (Env.real 0) (ObstacleSectors.ahead (2 : ℝ)) 3 4 0
          ≤ (((ObstacleSectors.ahead (2 : ℝ)).n_horizontal_sectors : Nat) : Int) - 1
      ∧ bumperGetSectorId (Env.real 0) (ObstacleSectors.ahead (2 : ℝ)) 3 0 0 = 0 :=
  have h := bumperGetSectorId_in_range (Env.real 0) (ObstacleSectors.ahead 2) 3 4 0 rfl
    (by show 1 ≤ 8; decide)
  ⟨rfl, by show 1 ≤ 8; decide, h.1, h.2.1, h.2.2.2 (by norm_num)⟩

/-! ### The control error of the safety check -/

theorem timerSafety_checks (env : Env K) (m : Manager K)
    (position_cmd : PositionCommand K) (attitude_cmd : AttitudeCommand K)
    (hinit : m.is_initialized_ = true) (hstate : m.got_uav_state_ = true)
    (hinnov : ¬ (m._state_input_ = StateInput.INPUT_UAV_STATE
      ∧ m._odometry_innovation_check_enabled_ = true ∧ m.sh_odometry_innovation_hasMsg = false))
    (hpix : m.sh_pixhawk_odometry_hasMsg = true)
    (hflying : m.active_tracker_idx_ ≠ m._null_tracker_idx_)
    (hsw : m.odometry_switch_in_progress_ = false)
    (hpos : m.last_position_cmd_ = some position_cmd)
    (hatt : m.last_attitude_cmd_ = some attitude_cmd) :
    timerSafety env m = safetyTail env
      (controlError env position_cmd (position_cmd.position.x - m.uav_state_.position.x)
        (position_cmd.position.y - m.uav_state_.position.y)
        (position_cmd.position.z - m.uav_state_.position.z))
      env.tilt_angle attitude_cmd.ramping_up m.active_tracker_idx_
      (safetyFailsafeStage env
        (controlError env position_cmd (position_cmd.position.x - m.uav_state_.position.x)
          (position_cmd.position.y - m.uav_state_.position.y)
          (position_cmd.position.z - m.uav_state_.position.z))
        (safetyErrors env position_cmd m.uav_state_
          (safetyThresholds m.active_controller_idx_ m))) := by
  have hguard : ¬ ((!m.got_uav_state_) = true
      ∨ (m._state_input_ = StateInput.INPUT_UAV_STATE ∧ m._odometry_innovation_check_enabled_ = true
          ∧ (!m.sh_odometry_innovation_hasMsg) = true)
      ∨ (!m.sh_pixhawk_odometry_hasMsg) = true ∨ m.active_tracker_idx_ = m._null_tracker_idx_) := by
    simp only [hstate, hpix, Bool.not_true, Bool.false_eq_true, false_or, Bool.not_eq_true',
      not_or]
    exact ⟨hinnov, hflying⟩
  unfold timerSafety
  simp only [hinit, Bool.not_true, Bool.false_eq_true, if_false, hguard, hsw, hpos, hatt]
  rfl

theorem controlError_eq_norm (env : Env ℝ) (cmd : PositionCommand ℝ) (uav_state : UavState ℝ)
    (hsqrt : env.libm.sqrt = Real.sqrt) :
    controlError env cmd (cmd.position.x - uav_state.position.x)
        (cmd.position.y - uav_state.position.y) (cmd.position.z - uav_state.position.z)
      = positionErrorNorm env cmd uav_state := by
  unfold controlError positionErrorNorm
  rw [hsqrt]
  cases hh : cmd.use_position_horizontal <;> cases hv : cmd.use_position_vertical <;>
    simp [Real.sqrt_sq_eq_abs, add_assoc]

/-- C25. The control error that one safety check (`timerSafety`, past its
guards, with both last commands present) passes to its failsafe and eland
blocks is, with the real `sqrt`, the Euclidean norm of the position error (last
position command minus vehicle position) over the axes the command declares:
`sqrt(ex² + ey² + ez²)` when horizontal and vertical position are used,
`sqrt(ex² + ey²)` when only the horizontal one is, `|ez|` when only the vertical
one is, and 0 when neither is; on a control error of 0 the failsafe block and
the position block of the check change nothing when the thresholds are not
negative. -/
theorem control_error_norm (env : Env ℝ) (m : Manager ℝ)
    (position_cmd : PositionCommand ℝ) (attitude_cmd : AttitudeCommand ℝ)
    (hsqrt : env.libm.sqrt = Real.sqrt)
    (hinit : m.is_initialized_ = true) (hstate : m.got_uav_state_ = true)
    (hinnov : ¬ (m._state_input_ = StateInput.INPUT_UAV_STATE
      ∧ m._odometry_innovation_check_enabled_ = true ∧ m.sh_odometry_innovation_hasMsg = false))
    (hpix : m.sh_pixhawk_odometry_hasMsg = true)
    (hflying : m.active_tracker_idx_ ≠ m._null_tracker_idx_)
    (hsw : m.odometry_switch_in_progress_ = false)
    (hpos : m.last_position_cmd_ = some position_cmd)
    (hatt : m.last_attitude_cmd_ = some attitude_cmd) :
    timerSafety env m = safetyTail env (positionErrorNorm env position_cmd m.uav_state_)
        env.tilt_angle attitude_cmd.ramping_up m.active_tracker_idx_
        (safetyFailsafeStage env (positionErrorNorm env position_cmd m.uav_state_)
          (safetyErrors env position_cmd m.uav_state_
            (safetyThresholds m.active_controller_idx_ m)))
      ∧ (position_cmd.use_position_horizontal = true → position_cmd.use_position_vertical = true →
          positionErrorNorm env position_cmd m.uav_state_
            = Real.sqrt ((position_cmd.position.x - m.uav_state_.position.x) ^ 2
                + (position_cmd.position.y - m.uav_state_.position.y) ^ 2
                + (position_cmd.position.z - m.uav_state_.position.z) ^ 2))
      ∧ (position_cmd.use_position_horizontal = true → position_cmd.use_position_vertical = false →
          positionErrorNorm env position_cmd m.uav_state_
            = Real.sqrt ((position_cmd.position.x - m.uav_state_.position.x) ^ 2
                + (position_cmd.position.y - m.uav_state_.position.y) ^ 2))
      ∧ (position_cmd.use_position_horizontal = false → position_cmd.use_position_vertical = true →
          positionErrorNorm env position_cmd m.uav_state_
            = |position_cmd.position.z - m.uav_state_.position.z|)
      ∧ (position_cmd.use_position_horizontal = false → position_cmd.use_position_vertical = false →
          positionErrorNorm env position_cmd m.uav_state_ = 0)
      ∧ (∀ s : Manager ℝ, 0 ≤ s._failsafe_threshold_ → 0 ≤ s._eland_threshold_ →
          safetyFailsafeStage env 0 s = s ∧ safetyPositionStage env 0 s = s) := by
  have hrun := timerSafety_checks env m position_cmd attitude_cmd hinit hstate hinnov hpix hflying
    hsw hpos hatt
  rw [controlError_eq_norm env position_cmd m.uav_state_ hsqrt] at hrun
  refine ⟨hrun, ?_, ?_, ?_, ?_, ?_⟩
  · intro hh hv
    unfold positionErrorNorm
    rw [hsqrt, hh, hv]
    simp
  · intro hh hv
    unfold positionErrorNorm
    rw [hsqrt, hh, hv]
    simp
  · intro hh hv
    unfold positionErrorNorm
    rw [hsqrt, hh, hv]
    simp [Real.sqrt_sq_eq_abs]
  · intro hh hv
    unfold positionErrorNorm
    rw [hsqrt, hh, hv]
    simp
  · intro s h1 h2
    constructor
    · unfold safetyFailsafeStage
      rw [if_neg]
      intro hc
      exact absurd hc.1 (not_lt.mpr h1)
    · unfold safetyPositionStage
      have h3 : ¬ (0 : ℝ) > s._eland_threshold_ / 2 := by
        have : 0 ≤ s._eland_threshold_ / 2 := by positivity
        exact not_lt.mpr this
      simp only [h3, if_false]
      rw [if_neg (not_lt.mpr h2)]

theorem control_error_norm_witness :
    (Env.real 0).libm.sqrt = Real.sqrt
      ∧ (Manager.flying : Manager ℝ).last_position_cmd_
          = some (PositionCommand.hold ⟨0, 0, 5⟩).vertical
      ∧ positionErrorNorm (Env.real 0) (PositionCommand.hold ⟨0, 0, 5⟩).vertical
          (Manager.flying : Manager ℝ).uav_state_ = |(5 : ℝ) - 0| :=
  have h := control_error_norm (Env.real 0) Manager.flying
    (PositionCommand.hold ⟨0, 0, 5⟩).vertical AttitudeCommand.zero rfl rfl rfl
    (fun h => Bool.noConfusion h.2.1) rfl (by decide) rfl rfl rfl
  ⟨rfl, rfl, h.2.2.2.1 rfl rfl⟩

/-! ### Trajectories: rejection and fan-out -/

/-- C21. `setTrajectoryReference` rejects every trajectory with zero points and
every trajectory in which some point has a non-finite x, y, z or heading: it
returns failure with `modified = false` and empty per-tracker lists, and the
state of the manager, trace of calls included, is the one before the call, so
that no tracker was called. -/
theorem trajectory_rejects_empty_and_non_finite (env : Env K)
    (trajectory_in : TrajectoryReference K) (m : Manager K)
    (h : trajectory_in.points = []
      ∨ ∃ p ∈ trajectory_in.points, env.libm.isfinite p.position.x = false
          ∨ env.libm.isfinite p.position.y = false ∨ env.libm.isfinite p.position.z = false
          ∨ env.libm.isfinite p.heading = false) :
    (setTrajectoryReference env trajectory_in m).1.success = false
      ∧ (setTrajectoryReference env trajectory_in m).1.modified = false
      ∧ (setTrajectoryReference env trajectory_in m).1.tracker_names = []
      ∧ (setTrajectoryReference env trajectory_in m).1.tracker_successes = []
      ∧ (setTrajectoryReference env trajectory_in m).1.tracker_messages = []
      ∧ (setTrajectoryReference env trajectory_in m).2 = m
      ∧ (∀ idx t, Event.tracker_setTrajectoryReference idx t
          ∉ (setTrajectoryReference env trajectory_in m).2.log.drop m.log.length) := by
  have hmain : ∃ message,
      setTrajectoryReference env trajectory_in m = (TrajectoryResult.failure message, m) := by
    unfold setTrajectoryReference
    by_cases hc : m.callbacks_enabled_ = true
    · simp only [hc, Bool.not_true, Bool.false_eq_true, if_false]
      by_cases hl : trajectory_in.points.length = 0
      · simp only [hl, if_true]; exact ⟨_, rfl⟩
      · simp only [hl, if_false]
        have hfin : trajectory_in.points.all (pointFinite env) = false := by
          rcases h with h | ⟨p, hp, hbad⟩
          · exact absurd (by rw [h]; rfl) hl
          · rw [List.all_eq_false]
            refine ⟨p, hp, ?_⟩
            unfold pointFinite
            rcases hbad with hb | hb | hb | hb <;> simp [hb]
        simp only [hfin, Bool.not_false, if_true]; exact ⟨_, rfl⟩
    · simp only [hc, Bool.not_false, if_true]; exact ⟨_, rfl⟩
  obtain ⟨message, hm⟩ := hmain
  rw [hm]
  refine ⟨rfl, rfl, rfl, rfl, rfl, rfl, ?_⟩
  intro idx t hmem
  simp at hmem

theorem trajectory_rejects_empty_and_non_finite_witness :
    (setTrajectoryReference (Env.calm (0 : ℚ))
        ⟨"", true, [Reference.onAxis 0 5, Reference.onAxis (2 ^ 1024) 5]⟩ Manager.flying).1.success
        = false
      ∧ (setTrajectoryReference (Env.calm (0 : ℚ))
        ⟨"", true, [Reference.onAxis 0 5, Reference.onAxis (2 ^ 1024) 5]⟩ Manager.flying).2
        = Manager.flying :=
  have h := trajectory_rejects_empty_and_non_finite (Env.calm (0 : ℚ))
    ⟨"", true, [Reference.onAxis 0 5, Reference.onAxis (2 ^ 1024) 5]⟩ Manager.flying
    (Or.inr ⟨Reference.onAxis (2 ^ 1024) 5, by simp, Or.inl (by decide!)⟩)
  ⟨h.1, h.2.2.2.2.2.1⟩

/-- What the active tracker's answer makes of the result of `sendTrajectory`. -/
theorem sendTrajectory_answer (env : Env K) (request : TrajectoryReference K)
    (trajectory_modified : Bool) (m : Manager K) :
    (∀ success message modified,
        env.tracker_setTrajectoryReference m.log.length m.active_tracker_idx_
          = some (success, message, modified) →
        (sendTrajectory env request trajectory_modified m).1.success = success
          ∧ (sendTrajectory env request trajectory_modified m).1.message = message
          ∧ (sendTrajectory env request trajectory_modified m).1.modified
              = (modified || trajectory_modified))
      ∧ (env.tracker_setTrajectoryReference m.log.length m.active_tracker_idx_ = none →
        (sendTrajectory env request trajectory_modified m).1.success = false)
      ∧ (sendTrajectory env request trajectory_modified m).1.tracker_successes.head?
          = some (sendTrajectory env request trajectory_modified m).1.success
      ∧ (sendTrajectory env request trajectory_modified m).1.tracker_messages.head?
          = some (sendTrajectory env request trajectory_modified m).1.message := by
  unfold sendTrajectory
  rcases hr : env.tracker_setTrajectoryReference m.log.length m.active_tracker_idx_
    with _ | ⟨a, b, c⟩
  · simp
  · simp

/-- The indices in the order in which `sendTrajectory` calls the trackers. -/
theorem fanOutTrajectory_calls (env : Env K) (request : TrajectoryReference K) (idxs : List Nat)
    (m : Manager K) :
    (fanOutTrajectory env request idxs m).2
        = m.logged ((idxs.filter (fun i => decide (i ≠ m.active_tracker_idx_))).map
            (fun i => Event.tracker_setTrajectoryReference i request))
      ∧ (fanOutTrajectory env request idxs m).1.1
        = (idxs.filter (fun i => decide (i ≠ m.active_tracker_idx_))).map
            (fun i => m._tracker_names_.getD i "")
      ∧ (fanOutTrajectory env request idxs m).1.2.1.length
        = (idxs.filter (fun i => decide (i ≠ m.active_tracker_idx_))).length
      ∧ (fanOutTrajectory env request idxs m).1.2.2.length
        = (idxs.filter (fun i => decide (i ≠ m.active_tracker_idx_))).length := by
  induction idxs generalizing m with
  | nil => exact ⟨(Manager.logged_nil m).symm, rfl, rfl, rfl⟩
  | cons i rest ih =>
    unfold fanOutTrajectory
    by_cases h : i ≠ m.active_tracker_idx_
    · rw [if_pos h]
      obtain ⟨h1, h2, h3, h4⟩ := ih (m.record (Event.tracker_setTrajectoryReference i request))
      have hact : (m.record (Event.tracker_setTrajectoryReference i request)).active_tracker_idx_
          = m.active_tracker_idx_ := rfl
      have hnames : (m.record (Event.tracker_setTrajectoryReference i request))._tracker_names_
          = m._tracker_names_ := rfl
      rw [hact] at h1 h2 h3 h4
      rw [hnames] at h2
      rw [List.filter_cons_of_pos (by simpa using h)]
      rcases env.tracker_setTrajectoryReference m.log.length i with _ | ⟨a, b, c⟩
      · refine ⟨?_, ?_, ?_, ?_⟩
        · show (fanOutTrajectory env request rest _).2 = _
          rw [h1]; exact Manager.logged_logged m [_] _
        · show _ :: (fanOutTrajectory env request rest _).1.1 = _
          rw [h2]; rfl
        · show (fanOutTrajectory env request rest _).1.2.1.length + 1 = _
          rw [h3]; rfl
        · show (fanOutTrajectory env request rest _).1.2.2.length + 1 = _
          rw [h4]; rfl
      · refine ⟨?_, ?_, ?_, ?_⟩
        · show (fanOutTrajectory env request rest _).2 = _
          rw [h1]; exact Manager.logged_logged m [_] _
        · show _ :: (fanOutTrajectory env request rest _).1.1 = _
          rw [h2]; rfl
        · show (fanOutTrajectory env request rest _).1.2.1.length + 1 = _
          rw [h3]; rfl
        · show (fanOutTrajectory env request rest _).1.2.2.length + 1 = _
          rw [h4]; rfl
    · rw [if_neg h]
      rw [List.filter_cons_of_neg (by simpa using h)]
      exact ih m

theorem setTrajectoryReference_cases (env : Env K) (trajectory_in : TrajectoryReference K)
    (m : Manager K) :
    ∃ evs : List (Event K), (∀ ev ∈ evs, ev = Event.publish_bumper_status)
      ∧ ((∃ message, setTrajectoryReference env trajectory_in m
            = (TrajectoryResult.failure message, m.logged evs))
        ∨ ∃ request modified, setTrajectoryReference env trajectory_in m
            = sendTrajectory env request modified (m.logged evs)) := by
  have hnil : ∀ message, ∃ evs : List (Event K), (∀ ev ∈ evs, ev = Event.publish_bumper_status)
      ∧ ((∃ message', (TrajectoryResult.failure message, m)
            = (TrajectoryResult.failure message', m.logged evs))
        ∨ ∃ request modified, (TrajectoryResult.failure message, m)
            = sendTrajectory env request modified (m.logged evs)) := by
    intro message
    refine ⟨[], by simp, Or.inl ⟨message, ?_⟩⟩
    rw [Manager.logged_nil]
  obtain ⟨evs, hst, hevs⟩ := trajectoryBumperCheck_state env trajectory_in m
  unfold setTrajectoryReference
  split_ifs
  · exact hnil _
  · exact hnil _
  · exact hnil _
  · rcases hb : trajectoryBumperCheck env trajectory_in m with ⟨⟨points1, shortened⟩, m1⟩
    rw [hb] at hst
    simp only at hst ⊢
    subst hst
    refine ⟨evs, hevs, ?_⟩
    split_ifs
    · exact Or.inl ⟨_, rfl⟩
    · split
      · exact Or.inl ⟨_, rfl⟩
      · split
        · exact Or.inl ⟨_, rfl⟩
        · split_ifs
          · exact Or.inl ⟨_, rfl⟩
          · split
            · exact Or.inl ⟨_, rfl⟩
            · split_ifs
              · exact Or.inl ⟨_, rfl⟩
              · exact Or.inr ⟨_, _, rfl⟩

theorem Manager.activeFirst_perm (m : Manager K)
    (hactive : m.active_tracker_idx_ < m._tracker_names_.length) :
    m.activeFirst.Perm (List.range m._tracker_names_.length) := by
  unfold Manager.activeFirst
  have hmem : m.active_tracker_idx_ ∈ List.range m._tracker_names_.length :=
    List.mem_range.mpr hactive
  have h1 := List.perm_cons_erase hmem
  rw [(List.nodup_range _).erase_eq_filter] at h1
  refine List.Perm.trans ?_ h1.symm
  apply List.Perm.cons
  apply List.Perm.of_eq
  apply List.filter_congr
  intro x _
  by_cases hx : x = m.active_tracker_idx_ <;> simp [hx]

theorem names_of_range (names : List String) :
    (List.range names.length).map (fun i => names.getD i "") = names := by
  apply List.ext_getElem
  · simp
  · intro i h1 h2
    simp [List.getElem?_eq_getElem h2]

theorem sendTrajectory_calls (env : Env K) (request : TrajectoryReference K)
    (trajectory_modified : Bool) (m : Manager K) :
    (sendTrajectory env request trajectory_modified m).2
        = m.logged (m.activeFirst.map (fun i => Event.tracker_setTrajectoryReference i request))
      ∧ (sendTrajectory env request trajectory_modified m).1.tracker_names
        = m.activeFirst.map (fun i => m._tracker_names_.getD i "")
      ∧ (sendTrajectory env request trajectory_modified m).1.tracker_successes.length
        = m.activeFirst.length
      ∧ (sendTrajectory env request trajectory_modified m).1.tracker_messages.length
        = m.activeFirst.length := by
  obtain ⟨h1, h2, h3, h4⟩ := fanOutTrajectory_calls env request
    (List.range m._tracker_names_.length)
    (m.record (Event.tracker_setTrajectoryReference m.active_tracker_idx_ request))
  refine ⟨?_, ?_, ?_, ?_⟩
  · exact h1.trans (Manager.logged_logged m [_] _)
  · exact congrArg (fun l => m._tracker_names_.getD m.active_tracker_idx_ "" :: l) h2
  · exact congrArg Nat.succ h3
  · exact congrArg Nat.succ h4

/-- C23. When `setTrajectoryReference` does not return the failure tuple (its
list of tracker names is not empty), there is one processed trajectory `request`
such that, after the bumper status messages of the validation, the calls made
are exactly one `setTrajectoryReference(request)` per registered tracker, the
active tracker first; the returned lists of names, successes and messages have
the length of the tracker list, the names are those of the registered trackers,
each once, led by the active tracker; and the overall success and message are
the first entries of the per-tracker lists, equal to the answer of the active
tracker when it gives one. -/
theorem trajectory_fan_out (env : Env K) (trajectory_in : TrajectoryReference K) (m : Manager K)
    (hactive : m.active_tracker_idx_ < m._tracker_names_.length)
    (hpass : (setTrajectoryReference env trajectory_in m).1.tracker_names ≠ []) :
    ∃ (request : TrajectoryReference K) (evs : List (Event K)),
      (∀ ev ∈ evs, ev = Event.publish_bumper_status)
      ∧ (setTrajectoryReference env trajectory_in m).2
          = m.logged (evs
              ++ m.activeFirst.map (fun i => Event.tracker_setTrajectoryReference i request))
      ∧ m.activeFirst.Perm (List.range m._tracker_names_.length)
      ∧ m.activeFirst.head? = some m.active_tracker_idx_
      ∧ (setTrajectoryReference env trajectory_in m).1.tracker_names
          = m.activeFirst.map (fun i => m._tracker_names_.getD i "")
      ∧ (setTrajectoryReference env trajectory_in m).1.tracker_names.Perm m._tracker_names_
      ∧ (setTrajectoryReference env trajectory_in m).1.tracker_names.length
          = m._tracker_names_.length
      ∧ (setTrajectoryReference env trajectory_in m).1.tracker_successes.length
          = m._tracker_names_.length
      ∧ (setTrajectoryReference env trajectory_in m).1.tracker_messages.length
          = m._tracker_names_.length
      ∧ (setTrajectoryReference env trajectory_in m).1.tracker_successes.head?
          = some (setTrajectoryReference env trajectory_in m).1.success
      ∧ (setTrajectoryReference env trajectory_in m).1.tracker_messages.head?
          = some (setTrajectoryReference env trajectory_in m).1.message
      ∧ ∀ success message modified,
          env.tracker_setTrajectoryReference (m.log.length + evs.length) m.active_tracker_idx_
            = some (success, message, modified) →
          (setTrajectoryReference env trajectory_in m).1.success = success
            ∧ (setTrajectoryReference env trajectory_in m).1.message = message := by
  obtain ⟨evs, hevs, hcase⟩ := setTrajectoryReference_cases env trajectory_in m
  rcases hcase with ⟨message, hfail⟩ | ⟨request, modified, hsend⟩
  · rw [hfail] at hpass
    exact absurd rfl hpass
  · have hperm := Manager.activeFirst_perm m hactive
    have hlen : m.activeFirst.length = m._tracker_names_.length := by
      rw [hperm.length_eq, List.length_range]
    obtain ⟨c1, c2, c3, c4⟩ := sendTrajectory_calls env request modified (m.logged evs)
    obtain ⟨a1, _, a3, a4⟩ := sendTrajectory_answer env request modified (m.logged evs)
    have hfirst : (m.logged evs).activeFirst = m.activeFirst := rfl
    have hnames : (m.logged evs)._tracker_names_ = m._tracker_names_ := rfl
    rw [hfirst] at c1 c2 c3 c4
    rw [hnames] at c2
    refine ⟨request, evs, hevs, ?_, hperm, rfl, ?_, ?_, ?_, ?_, ?_, ?_, ?_, ?_⟩
    · rw [hsend, c1, Manager.logged_logged]
    · rw [hsend, c2]
    · rw [hsend, c2]
      have := hperm.map (fun i => m._tracker_names_.getD i "")
      rw [names_of_range] at this
      exact this
    · rw [hsend, c2, List.length_map, hlen]
    · rw [hsend, c3, hlen]
    · rw [hsend, c4, hlen]
    · rw [hsend]; exact a3
    · rw [hsend]; exact a4
    · intro success message md hresp
      rw [hsend]
      have h := a1 success message md (by
        have hl : (m.logged evs).log.length = m.log.length + evs.length := by
          simp [Manager.logged]
        rw [hl]; exact hresp)
      exact ⟨h.1, h.2.1⟩

theorem trajectory_fan_out_witness :
    (Manager.flying : Manager ℚ).active_tracker_idx_
        < (Manager.flying : Manager ℚ)._tracker_names_.length
      ∧ (setTrajectoryReference (Env.calm (0 : ℚ)) ⟨"", true, [Reference.onAxis 1 5]⟩
          Manager.flying).1.tracker_names ≠ []
      ∧ (setTrajectoryReference (Env.calm (0 : ℚ)) ⟨"", true, [Reference.onAxis 1 5]⟩
          Manager.flying).1.tracker_names.Perm ["NullTracker", "MpcTracker", "LandoffTracker"]
      ∧ (setTrajectoryReference (Env.calm (0 : ℚ)) ⟨"", true, [Reference.onAxis 1 5]⟩
          Manager.flying).1.tracker_successes.length = 3 := by
  obtain ⟨request, evs, h⟩ := trajectory_fan_out (Env.calm (0 : ℚ))
    ⟨"", true, [Reference.onAxis 1 5]⟩ Manager.flying (by decide) (by decide!)
  exact ⟨by decide, by decide!, h.2.2.2.2.2.1, h.2.2.2.2.2.2.2.1⟩

/-- C22 (the code at the failing input).  Bumper enabled with hugging, an
obstacle 2 m ahead, a margin of 1 m, no safety area: the one-point trajectory
`(1.5, 0, 0)` is altered by bumper hugging, the active tracker receives the
point `(1, 0, 0)`, and the call returns success with `modified = false`. -/
theorem trajectory_hugging_not_flagged :
    (setTrajectoryReference (Env.real 0) ⟨"", true, [Reference.onAxis (3 / 2) 0]⟩
        (Manager.bumping (ObstacleSectors.ahead 2) 1 true)).1.success = true
      ∧ (setTrajectoryReference (Env.real 0) ⟨"", true, [Reference.onAxis (3 / 2) 0]⟩
        (Manager.bumping (ObstacleSectors.ahead 2) 1 true)).1.modified = false
      ∧ Event.tracker_setTrajectoryReference 1 ⟨"", true, [Reference.onAxis 1 0]⟩
        ∈ (setTrajectoryReference (Env.real 0) ⟨"", true, [Reference.onAxis (3 / 2) 0]⟩
          (Manager.bumping (ObstacleSectors.ahead 2) 1 true)).2.log := by
  have hb1 : (bumperValidatePoint (Env.real 0) ⟨"", Reference.onAxis (3 / 2) 0⟩
      (Manager.bumping (ObstacleSectors.ahead 2) 1 true)).1
      = (true, ⟨"", Reference.onAxis 1 0⟩) := by
    show (bumperValidatePoint (Env.real 0) ⟨"", ⟨⟨3 / 2, 0, 0⟩, 0⟩⟩
      (Manager.bumping (ObstacleSectors.ahead 2) 1 true)).1 = _
    rw [bumper_x_axis 2 1 (3 / 2) true (by norm_num),
      hugPoint_x_axis 2 1 (3 / 2) (by norm_num) (by norm_num) (by norm_num) (by norm_num)]
    norm_num [Reference.onAxis]
  obtain ⟨evs, hb2, hevs⟩ := bumperValidatePoint_state (Env.real 0)
    ⟨"", Reference.onAxis (3 / 2) 0⟩ (Manager.bumping (ObstacleSectors.ahead 2) 1 true)
  have hb : bumperValidatePoint (Env.real 0) ⟨"", Reference.onAxis (3 / 2) 0⟩
      (Manager.bumping (ObstacleSectors.ahead 2) 1 true)
      = ((true, ⟨"", Reference.onAxis 1 0⟩),
          (Manager.bumping (ObstacleSectors.ahead 2) 1 true).logged evs) := by
    rw [← hb1, ← hb2]
  have hbt : trajectoryBumperCheck (Env.real 0) ⟨"", true, [Reference.onAxis (3 / 2) 0]⟩
      (Manager.bumping (ObstacleSectors.ahead 2) 1 true)
      = (([Reference.onAxis 1 0], false),
          (Manager.bumping (ObstacleSectors.ahead 2) 1 true).logged evs) := by
    unfold trajectoryBumperCheck
    rw [if_pos (show (Manager.bumping (ObstacleSectors.ahead (2 : ℝ)) 1 true).bumper_enabled_
      = true from rfl)]
    simp only [bumperTrajectory, hb]
    rfl
  have hfin : List.all [Reference.onAxis (3 / 2) (0 : ℝ)] (pointFinite (Env.real 0)) = true := by
    rw [List.all_eq_true]
    intro p hp
    simp only [List.mem_singleton] at hp
    subst hp
    exact real_onAxis_finite _ _ (by rw [abs_of_nonneg] <;> norm_num)
      (by rw [abs_of_nonneg] <;> norm_num)
  have hsend : setTrajectoryReference (Env.real 0) ⟨"", true, [Reference.onAxis (3 / 2) 0]⟩
      (Manager.bumping (ObstacleSectors.ahead 2) 1 true)
      = sendTrajectory (Env.real 0) ⟨"", true, [Reference.onAxis 1 0]⟩ false
          ((Manager.bumping (ObstacleSectors.ahead 2) 1 true).logged evs) := by
    have hcf : trajectoryToControlFrame (Env.real 0) "" [Reference.onAxis 1 (0 : ℝ)]
        = Except.ok ([Reference.onAxis 1 0], "") := by
      unfold trajectoryToControlFrame
      simp only [Env.real, Env.calm, Transformer.identity, transformPoints]
    have hsa : trajectoryToSafetyAreaFrame (Env.real 0)
        ((Manager.bumping (ObstacleSectors.ahead 2) 1 true).logged evs) ""
        [Reference.onAxis 1 (0 : ℝ)] = Except.ok ([Reference.onAxis 1 0], "") := by
      unfold trajectoryToSafetyAreaFrame
      rw [if_neg (by show ¬ (false = true); simp)]
    have hsc : trajectorySafetyAreaCheck (Env.real 0)
        ((Manager.bumping (ObstacleSectors.ahead 2) 1 true).logged evs) ""
        [Reference.onAxis 1 (0 : ℝ)] false = Except.ok ([Reference.onAxis 1 0], false) := by
      unfold trajectorySafetyAreaCheck
      rw [if_neg (by show ¬ (false = true); simp)]
    unfold setTrajectoryReference
    rw [if_neg (by show ¬ ((!true) = true); simp), if_neg (by simp), hfin]
    simp only [Bool.not_true, Bool.false_eq_true, if_false, hbt, List.length_singleton,
      one_ne_zero, hsa, hsc, hcf]
  obtain ⟨a1, _, _, _⟩ := sendTrajectory_answer (Env.real 0) ⟨"", true, [Reference.onAxis 1 0]⟩
    false ((Manager.bumping (ObstacleSectors.ahead 2) 1 true).logged evs)
  have ha := a1 true "" false rfl
  obtain ⟨c1, _, _, _⟩ := sendTrajectory_calls (Env.real 0) ⟨"", true, [Reference.onAxis 1 0]⟩
    false ((Manager.bumping (ObstacleSectors.ahead 2) 1 true).logged evs)
  rw [hsend]
  refine ⟨ha.1, ha.2.2, ?_⟩
  rw [c1]
  exact List.mem_append_right _ (List.mem_map.mpr ⟨1, List.mem_cons_self _ _, rfl⟩)

/-! ### Velocity references -/

/-- C27 (amended). For every velocity reference and last position command `p`,
`velocityReferenceToReference` returns a reference in which, when the requested
horizontal acceleration limit `a_h` is not zero,
`x = p.x + vx · (1.5 · |vx| / a_h + 1)` and `y = p.y + vy · (1.5 · |vy| / a_h + 1)`;
`z` is the given altitude in altitude mode and otherwise
`p.z + vz · (1.5 · |vz| / a_v + 1)`, where `a_v` is the requested vertical
ascending acceleration limit for `vz ≥ 0` and the descending one for `vz < 0`,
when `a_v` is not zero and `vx` and `vz` are both non-negative or both negative.
With limits that are not zero a zero velocity on an axis yields the last
commanded position on that axis.  With `a_h = 0` neither `x` nor `y` is a finite
number. -/
theorem velocityReferenceToReference_formula (env : Env K)
    (vel_reference : VelocityReferenceStamped K) (m : Manager K) (p : PositionCommand K)
    (hp : m.last_position_cmd_ = some p) :
    ∃ r : ReferenceEstimate K, velocityReferenceToReference env vel_reference m = some r
      ∧ (m.current_constraints_.horizontal_acceleration ≠ 0 →
          r.x = some (p.position.x + vel_reference.reference.velocity.x
              * (3 / 2 * |vel_reference.reference.velocity.x|
                  / m.current_constraints_.horizontal_acceleration + 1))
            ∧ r.y = some (p.position.y + vel_reference.reference.velocity.y
              * (3 / 2 * |vel_reference.reference.velocity.y|
                  / m.current_constraints_.horizontal_acceleration + 1)))
      ∧ (vel_reference.reference.use_altitude = true →
          r.z = some vel_reference.reference.altitude)
      ∧ (vel_reference.reference.use_altitude = false →
          (vel_reference.reference.velocity.x ≥ 0 ↔ vel_reference.reference.velocity.z ≥ 0) →
          (if vel_reference.reference.velocity.z ≥ 0 then
              m.current_constraints_.vertical_ascending_acceleration
            else m.current_constraints_.vertical_descending_acceleration) ≠ 0 →
          r.z = some (p.position.z + vel_reference.reference.velocity.z
            * (3 / 2 * |vel_reference.reference.velocity.z|
                / (if vel_reference.reference.velocity.z ≥ 0 then
                    m.current_constraints_.vertical_ascending_acceleration
                  else m.current_constraints_.vertical_descending_acceleration) + 1)))
      ∧ (m.current_constraints_.horizontal_acceleration ≠ 0 →
          vel_reference.reference.velocity.x = 0 → r.x = some p.position.x)
      ∧ (m.current_constraints_.horizontal_acceleration ≠ 0 →
          vel_reference.reference.velocity.y = 0 → r.y = some p.position.y)
      ∧ (vel_reference.reference.use_altitude = false →
          m.current_constraints_.vertical_ascending_acceleration ≠ 0 →
          m.current_constraints_.vertical_descending_acceleration ≠ 0 →
          vel_reference.reference.velocity.z = 0 → r.z = some p.position.z)
      ∧ (m.current_constraints_.horizontal_acceleration = 0 → r.x = none ∧ r.y = none) := by
  unfold velocityReferenceToReference
  rw [hp]
  refine ⟨_, rfl, ?_, ?_, ?_, ?_, ?_, ?_, ?_⟩
  · intro ha
    simp only [divide, ha, if_false, Option.map_some', mul_div_assoc, and_self]
  · intro h
    simp only [h, if_true]
  · intro h hsign ha
    simp only [h, Bool.false_eq_true, if_false]
    by_cases hz : vel_reference.reference.velocity.z ≥ 0
    · rw [if_pos hz] at ha
      simp only [hsign.mpr hz, hz, if_true, divide, ha, if_false, Option.map_some',
        mul_div_assoc]
    · rw [if_neg hz] at ha
      simp only [mt hsign.mp hz, hz, if_false, divide, ha, Option.map_some', mul_div_assoc]
  · intro ha h
    simp only [divide, ha, if_false, Option.map_some', h, zero_mul, add_zero]
  · intro ha h
    simp only [divide, ha, if_false, Option.map_some', h, zero_mul, add_zero]
  · intro h ha hd hz
    simp only [h, Bool.false_eq_true, if_false, divide, ha, hd, Option.map_some', hz, zero_mul,
      add_zero]
    split_ifs <;> rfl
  · intro ha
    simp only [divide, ha, if_true, Option.map_none', and_self]

theorem velocityReferenceToReference_formula_witness :
    (Manager.flying : Manager ℚ).last_position_cmd_ = some (PositionCommand.hold ⟨0, 0, 5⟩).vertical
      ∧ ∃ r : ReferenceEstimate ℚ,
        velocityReferenceToReference (Env.calm 0)
            ⟨"", ⟨⟨2, 0, 1⟩, 0, 0, 0, false, false, false⟩⟩
            { (Manager.flying : Manager ℚ) with
              current_constraints_ := DynamicsConstraints.uniform 3 } = some r
          ∧ r.x = some (0 + 2 * (3 / 2 * |2| / 3 + 1))
          ∧ r.y = some 0
          ∧ r.z = some (5 + 1 * (3 / 2 * |1| / 3 + 1)) :=
  ⟨rfl, by
    obtain ⟨r, h⟩ := velocityReferenceToReference_formula (Env.calm (0 : ℚ))
      ⟨"", ⟨⟨2, 0, 1⟩, 0, 0, 0, false, false, false⟩⟩
      { (Manager.flying : Manager ℚ) with current_constraints_ := DynamicsConstraints.uniform 3 }
      (PositionCommand.hold ⟨0, 0, 5⟩).vertical rfl
    exact ⟨r, h.1, (h.2.1 (by decide)).1, h.2.2.2.2.2.1 (by decide) rfl,
      h.2.2.2.1 rfl (by decide) (by decide)⟩⟩

/-- C27 as stated fails.  With every acceleration limit 0 and the velocity
`(0, 0, 0)` no coordinate of the result is a finite number (the quotients
`0 / 0` are NaN), where the claim has the last commanded position.  With the
vertical ascending acceleration limit 1, the descending one 3 and the velocity
`(1, 0, -1)`, a descent, the stopping time of the vertical axis is computed with
the ascending limit, selected by the sign of `velocity.x`: `z` is
`5 - (1.5 · 1 / 1 + 1) = 2.5` and not `5 - (1.5 · 1 / 3 + 1) = 3.5`. -/
theorem velocityReferenceToReference_zero_limit :
    (velocityReferenceToReference (Env.calm (0 : ℚ))
        ⟨"", ⟨⟨0, 0, 0⟩, 0, 0, 0, false, false, false⟩⟩
        { (Manager.flying : Manager ℚ) with
          current_constraints_ := DynamicsConstraints.uniform 0 }).map
        (fun r => (r.x, r.y, r.z)) = some (none, none, none)
      ∧ (velocityReferenceToReference (Env.calm (0 : ℚ))
        ⟨"", ⟨⟨1, 0, -1⟩, 0, 0, 0, false, false, false⟩⟩
        { (Manager.flying : Manager ℚ) with
          current_constraints_ :=
            { (DynamicsConstraints.uniform 3 : DynamicsConstraints ℚ) with
              vertical_ascending_acceleration := 1 } }).map
        (fun r => r.z) = some (some (5 / 2))
      ∧ (5 : ℚ) + (-1) * (3 / 2 * |(-1)| / 3 + 1) = 7 / 2 := by
  refine ⟨by decide!, by decide!, by norm_num⟩

/-! ### Plugin switches and exceptions -/

/-- C28 (the code at the failing input).  When the `activate` of the candidate
throws, `switchTracker "MpcTracker"` and `switchController "Se3Controller"`
return success although the plugin active afterwards is still the one at index
0 (`NullTracker`, `EmergencyController`) and not the one registered under the
name (index 1, index 2).  When the `deactivate` of the previous plugin throws,
`switchTracker "LandoffTracker"` and `switchController "FailsafeController"`
from a manager in flight return success, the candidate has been activated, and
the active index is still the previous one (1 and 2) and not the one registered
under the name (2 and 1). -/
theorem switch_succeeds_without_switching :
    ((switchTracker (Env.throwing (0 : ℚ)) "MpcTracker" Manager.live).1.1 = true
      ∧ (switchTracker (Env.throwing (0 : ℚ)) "MpcTracker" Manager.live).2.active_tracker_idx_ = 0
      ∧ findNameIdx (Manager.live : Manager ℚ)._tracker_names_ "MpcTracker" = 1)
    ∧ ((switchController (Env.throwing (0 : ℚ)) "Se3Controller" Manager.live).1.1 = true
      ∧ (switchController (Env.throwing (0 : ℚ)) "Se3Controller"
          Manager.live).2.active_controller_idx_ = 0
      ∧ findNameIdx (Manager.live : Manager ℚ)._controller_names_ "Se3Controller" = 2)
    ∧ ((switchTracker (Env.clinging (0 : ℚ)) "LandoffTracker" Manager.flying).1.1 = true
      ∧ Event.tracker_activate 2 (some (true, ""))
          ∈ (switchTracker (Env.clinging (0 : ℚ)) "LandoffTracker" Manager.flying).2.log
      ∧ (switchTracker (Env.clinging (0 : ℚ)) "LandoffTracker"
          Manager.flying).2.active_tracker_idx_ = 1
      ∧ findNameIdx (Manager.flying : Manager ℚ)._tracker_names_ "LandoffTracker" = 2)
    ∧ ((switchController (Env.clinging (0 : ℚ)) "FailsafeController" Manager.flying).1.1 = true
      ∧ Event.controller_activate 1 (some true)
          ∈ (switchController (Env.clinging (0 : ℚ)) "FailsafeController" Manager.flying).2.log
      ∧ (switchController (Env.clinging (0 : ℚ)) "FailsafeController"
          Manager.flying).2.active_controller_idx_ = 2
      ∧ findNameIdx (Manager.flying : Manager ℚ)._controller_names_ "FailsafeController" = 1) := by
  decide

/-! ### The calls of the control cycle -/

theorem cycleFrame_record (m : Manager K) (e : Event K) :
    cycleFrame (m.record e) = cycleFrame m := rfl

theorem cycleFrame_logged (m : Manager K) (evs : List (Event K)) :
    cycleFrame (m.logged evs) = cycleFrame m := rfl

theorem cycleFrame_setConstraints (m : Manager K) :
    cycleFrame (setConstraints m) = cycleFrame m := by
  have h1 : ∀ (n : List Nat) (s : Manager K),
      cycleFrame (n.foldl (fun s i => s.record (Event.tracker_setConstraints i)) s)
        = cycleFrame s := by
    intro n
    induction n with
    | nil => intro s; rfl
    | cons a rest ih => intro s; simp only [List.foldl_cons, ih]; rfl
  have h2 : ∀ (n : List Nat) (s : Manager K),
      cycleFrame (n.foldl (fun s i => s.record (Event.controller_setConstraints i)) s)
        = cycleFrame s := by
    intro n
    induction n with
    | nil => intro s; rfl
    | cons a rest ih => intro s; simp only [List.foldl_cons, ih]; rfl
  unfold setConstraints
  simp only [h1, h2]

theorem cycleFrame_switchControllerTail (ss : String) (m : Manager K) :
    cycleFrame (switchControllerTail ss m).2 = cycleFrame m := by
  unfold switchControllerTail
  simp only [cycleFrame_setConstraints]
  rfl

theorem cycleFrame_activateTracker (env : Env K) (name : String) (idx : Nat) (m : Manager K) :
    cycleFrame (activateTracker env name idx m).2 = cycleFrame m := by
  unfold activateTracker
  simp only
  split
  · rfl
  · rfl
  · split
    · rfl
    · split_ifs
      · split <;> simp [cycleFrame, Manager.record]
      · split <;> simp [cycleFrame, Manager.record]
      · simp [cycleFrame, Manager.record]

theorem cycleFrame_switchTracker (env : Env K) (name : String) (m : Manager K) :
    cycleFrame (switchTracker env name m).2 = cycleFrame m := by
  unfold switchTracker
  simp only
  split_ifs <;> first | rfl | exact cycleFrame_activateTracker env name _ m

theorem cycleFrame_activateController (env : Env K) (name : String) (idx : Nat) (m : Manager K) :
    cycleFrame (activateController env name idx m).2 = cycleFrame m := by
  unfold activateController
  simp only
  split
  · rw [cycleFrame_switchControllerTail]; rfl
  · rfl
  · split
    · rw [cycleFrame_switchControllerTail]; simp [cycleFrame, Manager.record]
    · split
      · rw [cycleFrame_switchControllerTail]; simp [cycleFrame, Manager.record]
      · split <;> rw [cycleFrame_switchControllerTail] <;> simp [cycleFrame, Manager.record]

theorem cycleFrame_switchController (env : Env K) (name : String) (m : Manager K) :
    cycleFrame (switchController env name m).2 = cycleFrame m := by
  unfold switchController
  simp only
  split_ifs <;> first | rfl | exact cycleFrame_activateController env name _ m

theorem cycleFrame_deactivateTrackers (env : Env K) (idxs : List Nat) (m : Manager K) :
    cycleFrame (deactivateTrackers env idxs m) = cycleFrame m := by
  induction idxs generalizing m with
  | nil => rfl
  | cons i rest ih =>
    simp only [deactivateTrackers, ih]
    rfl

theorem cycleFrame_deactivateControllers (env : Env K) (idxs : List Nat) (m : Manager K) :
    cycleFrame (deactivateControllers env idxs m) = cycleFrame m := by
  induction idxs generalizing m with
  | nil => rfl
  | cons i rest ih =>
    simp only [deactivateControllers, ih]
    rfl

theorem cycleFrame_switchMotors (env : Env K) (input : Bool) (m : Manager K) :
    cycleFrame (switchMotors env input m) = cycleFrame m := by
  unfold switchMotors
  simp only
  split_ifs
  · rfl
  · show cycleFrame (deactivateControllers env _ _) = _
    rw [cycleFrame_deactivateControllers, cycleFrame_deactivateTrackers,
      cycleFrame_switchController, cycleFrame_switchTracker]
    rfl
  · rfl

theorem cycleFrame_components {m m1 : Manager K} (h : cycleFrame m1 = cycleFrame m) :
    m1.control_calls = m.control_calls ∧ m1.got_constraints_ = m.got_constraints_
      ∧ m1._eland_disarm_enabled_ = m._eland_disarm_enabled_
      ∧ m1.sh_mavros_state_ = m.sh_mavros_state_ :=
  ⟨congrArg (fun t => t.1) h, congrArg (fun t => t.2.1) h, congrArg (fun t => t.2.2.1) h,
    congrArg (fun t => t.2.2.2) h⟩

theorem LatchStep.refl (m : Manager K) : LatchStep m m := Or.inl ⟨rfl, rfl⟩

theorem LatchStep.of_eq {m m1 : Manager K}
    (h1 : m1.failsafe_triggered_ = m.failsafe_triggered_)
    (h2 : m1.eland_triggered_ = m.eland_triggered_) : LatchStep m m1 := Or.inl ⟨h1, h2⟩

theorem LatchStep.of_latches {m m1 : Manager K} (h : latches m1 = latches m) : LatchStep m m1 :=
  Or.inl ⟨congrArg (fun t => t.1) h, congrArg (fun t => t.2.1) h⟩

theorem LatchStep.trans {a b c : Manager K} (h1 : LatchStep a b) (h2 : LatchStep b c) :
    LatchStep a c := by
  unfold LatchStep at *
  rcases h1 with ⟨f1, e1⟩ | ⟨f1, e1⟩ | ⟨f0, f1, e1⟩ <;>
    rcases h2 with ⟨f2, e2⟩ | ⟨f2, e2⟩ | ⟨g1, f2, e2⟩
  · exact Or.inl ⟨f2.trans f1, e2.trans e1⟩
  · exact Or.inr (Or.inl ⟨f2, e2⟩)
  · exact Or.inr (Or.inr ⟨by rw [← f1]; exact g1, f2, e2⟩)
  · exact Or.inr (Or.inl ⟨f2.trans f1, e2.trans e1⟩)
  · exact Or.inr (Or.inl ⟨f2, e2⟩)
  · rw [f1] at g1; exact absurd g1 (by simp)
  · exact Or.inr (Or.inr ⟨f0, f2.trans f1, e2.trans e1⟩)
  · exact Or.inr (Or.inl ⟨f2, e2⟩)
  · exact Or.inr (Or.inr ⟨f0, f2, e2⟩)

theorem LatchStep.exclusive {m m1 : Manager K} (h : LatchStep m m1)
    (hm : ¬ (m.failsafe_triggered_ = true ∧ m.eland_triggered_ = true)) :
    ¬ (m1.failsafe_triggered_ = true ∧ m1.eland_triggered_ = true) := by
  unfold LatchStep at h
  rcases h with ⟨f1, e1⟩ | ⟨f1, e1⟩ | ⟨f0, f1, e1⟩
  · rw [f1, e1]; exact hm
  · rw [e1]; simp
  · rw [f1]; simp

theorem LatchStep.latched {m m1 : Manager K} (h : LatchStep m m1)
    (hm : m.failsafe_triggered_ = true) : m1.failsafe_triggered_ = true := by
  unfold LatchStep at h
  rcases h with ⟨f1, e1⟩ | ⟨f1, e1⟩ | ⟨f0, f1, e1⟩
  · rw [f1]; exact hm
  · exact f1
  · rw [hm] at f0; exact absurd f0 (by simp)

theorem LatchStep_calling (m : Manager K) (call : ControlCall) : LatchStep m (m.calling call) :=
  Or.inl ⟨rfl, rfl⟩

theorem LatchStep_record (m : Manager K) (e : Event K) : LatchStep m (m.record e) :=
  Or.inl ⟨rfl, rfl⟩

theorem LatchStep_failsafe (env : Env K) (m : Manager K) : LatchStep m (failsafe env m).2 := by
  rcases latches_failsafe env m with h | h
  · exact Or.inr (Or.inl ⟨congrArg (fun t => t.1) h, congrArg (fun t => t.2.1) h⟩)
  · exact Or.inl ⟨congrArg (fun t => t.1) h, congrArg (fun t => t.2.1) h⟩

theorem eland_guarded (env : Env K) (m : Manager K)
    (h : m.failsafe_triggered_ = true ∨ m.eland_triggered_ = true) :
    (eland env m).2 = m.record Event.call_eland := by
  unfold eland
  rcases h with h | h
  · have h1 : (m.record Event.call_eland).failsafe_triggered_ = true := h
    simp only [h1, if_true]
    split_ifs <;> rfl
  · have h1 : (m.record Event.call_eland).eland_triggered_ = true := h
    simp only [h1, if_true]
    split_ifs <;> rfl

theorem LatchStep_eland (env : Env K) (m : Manager K) : LatchStep m (eland env m).2 := by
  have hf : (eland env m).2.failsafe_triggered_ = m.failsafe_triggered_ :=
    congrArg (fun t => t.1) (failsafeLatch_eland env m)
  by_cases h : m.failsafe_triggered_ = true ∨ m.eland_triggered_ = true
  · rw [eland_guarded env m h]
    exact LatchStep.refl m
  · have h1 : m.failsafe_triggered_ = false := by
      cases hv : m.failsafe_triggered_
      · rfl
      · exact absurd (Or.inl hv) h
    have h2 : m.eland_triggered_ = false := by
      cases hv : m.eland_triggered_
      · rfl
      · exact absurd (Or.inr hv) h
    cases he : (eland env m).2.eland_triggered_
    · exact Or.inl ⟨hf, he.trans h2.symm⟩
    · exact Or.inr (Or.inr ⟨h1, hf.trans h1, he⟩)

theorem latches_ehover (env : Env K) (m : Manager K) :
    latches (ehover env m).2 = latches m := by
  unfold ehover
  simp only
  split_ifs
  · rfl
  · rfl
  · rfl
  · rfl
  · rw [latches_switchTracker]; exact latches_ungripSrv m
  · show latches (switchController env _ _).2 = _
    rw [latches_switchController, latches_switchTracker]
    exact latches_ungripSrv m

theorem LatchStep_storeState (r : (Bool × String) × Manager K) (s : EscalatingFailsafeStates_t)
    (m : Manager K) (h : LatchStep m r.2) :
    LatchStep m (match r with
      | ((success, message), m1) =>
        if success = true then
          ((success, message), { m1 with state_escalating_failsafe_ := s })
        else ((success, message), m1)).2 := by
  rcases r with ⟨⟨success, message⟩, m1⟩
  cases success
  · exact h
  · exact h.trans (Or.inl ⟨rfl, rfl⟩)

theorem LatchStep_escalate (env : Env K) (s : EscalatingFailsafeStates_t) (m : Manager K) :
    LatchStep m (escalate env s m).2 := by
  cases s
  · exact LatchStep.refl m
  · exact LatchStep_storeState (ehover env m) .ESC_EHOVER_STATE m
      (LatchStep.of_latches (latches_ehover env m))
  · exact LatchStep_storeState (eland env m) .ESC_ELAND_STATE m (LatchStep_eland env m)
  · exact LatchStep_storeState (failsafe env { m with escalating_failsafe_time_ := env.now })
      .ESC_FINISHED_STATE m
      (LatchStep.trans
        (LatchStep.of_eq rfl rfl : LatchStep m { m with escalating_failsafe_time_ := env.now })
        (LatchStep_failsafe env _))
  · exact Or.inl ⟨rfl, rfl⟩

theorem LatchStep_escalatingFailsafe (env : Env K) (m : Manager K) :
    LatchStep m (escalatingFailsafe env m).2 := by
  unfold escalatingFailsafe
  split_ifs
  · exact LatchStep.refl m
  · exact LatchStep.refl m
  · exact (LatchStep.of_eq rfl rfl :
      LatchStep m { m with escalating_failsafe_time_ := env.now }).trans
      (LatchStep_escalate env _ _)

theorem LatchStep_safetyEland (env : Env K) (m : Manager K) :
    LatchStep m (safetyEland env m) := by
  unfold safetyEland
  split_ifs <;> first | exact LatchStep.refl m | exact LatchStep_eland env m

theorem LatchStep_safetyUngrip (env : Env K) (m : Manager K) :
    LatchStep m (safetyUngrip env m) := by
  unfold safetyUngrip
  split_ifs <;> exact Or.inl ⟨rfl, rfl⟩

theorem LatchStep_safetyTail (env : Env K) (c t : K) (r : Bool) (i : Nat) (m : Manager K) :
    LatchStep m (safetyTail env c t r i m) := by
  have hI : ∀ s, LatchStep s (safetyInnovationStage env s) := by
    intro s; unfold safetyInnovationStage
    split_ifs <;> first | exact LatchStep.refl s | exact LatchStep_safetyEland env s
  have hT : ∀ s, LatchStep s (safetyTiltStage env t s) := by
    intro s; unfold safetyTiltStage
    split_ifs <;> first | exact LatchStep.refl s | exact LatchStep_safetyEland env s
  have hP : ∀ s, LatchStep s (safetyPositionStage env c s) := by
    intro s; unfold safetyPositionStage
    simp only
    split_ifs <;> first
      | exact LatchStep.refl s
      | exact LatchStep_safetyEland env s
      | exact LatchStep_safetyUngrip env s
      | exact (LatchStep_safetyUngrip env s).trans (LatchStep_safetyEland env _)
  have hY : ∀ s, LatchStep s (safetyYawStage env s) := by
    intro s; unfold safetyYawStage
    simp only
    split_ifs <;> first
      | exact LatchStep.refl s
      | exact LatchStep_safetyEland env s
      | exact LatchStep_safetyUngrip env s
      | exact (LatchStep_safetyUngrip env s).trans (LatchStep_safetyEland env _)
  unfold safetyTail
  simp only
  exact (hI _).trans ((hT _).trans ((hP _).trans ((hY _).trans
    ((LatchStep.of_latches (latches_safetyTiltDisarmStage env _ _)).trans
      ((LatchStep.of_latches (latches_safetyTiltErrorDisarmStage env _ _ _)).trans
        (LatchStep.of_latches (latches_safetyOffboardStage env _ _)))))))

theorem LatchStep_safetyFailsafeStage (env : Env K) (c : K) (m : Manager K) :
    LatchStep m (safetyFailsafeStage env c m) := by
  unfold safetyFailsafeStage
  split_ifs <;> first | exact LatchStep.refl m | exact LatchStep_failsafe env m

theorem LatchStep_timerSafety (env : Env K) (m : Manager K) :
    LatchStep m (timerSafety env m) := by
  unfold timerSafety
  simp only
  split_ifs
  · exact LatchStep.refl m
  · exact LatchStep.refl m
  · exact LatchStep.refl m
  · split
    · exact (LatchStep.of_eq rfl rfl : LatchStep m (safetyErrors env _ m.uav_state_
        (safetyThresholds m.active_controller_idx_ m))).trans
        ((LatchStep_safetyFailsafeStage env _ _).trans (LatchStep_safetyTail env _ _ _ _ _))
    · exact LatchStep.of_eq rfl rfl

theorem LatchStep_updateTrackersLoop (env : Env K) (a : Nat) (idxs : List Nat)
    (out : Option (PositionCommand K)) (m : Manager K) :
    LatchStep m (updateTrackersLoop env a idxs out m).2 := by
  induction idxs generalizing out m with
  | nil => exact LatchStep.refl m
  | cons i rest ih =>
    unfold updateTrackersLoop
    simp only
    have hr : LatchStep m (m.record (Event.tracker_update i)) := LatchStep_record m _
    split
    · exact hr.trans ((LatchStep_eland env _).trans (ih _ _))
    · split_ifs
      · exact hr.trans (ih _ _)
      · exact hr.trans (ih _ _)

theorem LatchStep_updateTrackers (env : Env K) (m : Manager K) :
    LatchStep m (updateTrackers env m) := by
  have hl := LatchStep_updateTrackersLoop env m.active_tracker_idx_
    (List.range m._tracker_names_.length) none m
  rcases hq : updateTrackersLoop env m.active_tracker_idx_
    (List.range m._tracker_names_.length) none m with ⟨out, m1⟩
  rw [hq] at hl
  unfold updateTrackers
  simp only [hq]
  split_ifs
  · exact hl.trans (LatchStep.of_eq rfl rfl)
  · exact hl.trans (LatchStep_failsafe env m1)
  · exact hl.trans (LatchStep_eland env m1)
  · exact hl.trans (LatchStep.of_latches (latches_ehover env m1))
  · exact hl.trans (LatchStep_failsafe env m1)
  · exact hl.trans (LatchStep.of_eq rfl rfl)

theorem LatchStep_updateControllersLoop (env : Env K) (a : Nat) (idxs : List Nat)
    (out : Option (AttitudeCommand K)) (m : Manager K) :
    LatchStep m (updateControllersLoop env a idxs out m).2 := by
  induction idxs generalizing out m with
  | nil => exact LatchStep.refl m
  | cons i rest ih =>
    unfold updateControllersLoop
    simp only
    have hr : LatchStep m (m.record (Event.controller_update i)) := LatchStep_record m _
    split_ifs
    · split
      · exact hr.trans (ih _ _)
      · exact hr.trans ((LatchStep_failsafe env _).trans (ih _ _))
    · split
      · exact hr.trans (ih _ _)
      · exact hr.trans ((LatchStep_eland env _).trans (ih _ _))
    · split
      · exact hr.trans (ih _ _)
      · exact hr.trans ((LatchStep_eland env _).trans (ih _ _))

theorem LatchStep_updateControllers (env : Env K) (u : UavState K) (m : Manager K) :
    LatchStep m (updateControllers env u m) := by
  have hfold : ∀ (n : List Nat) (s : Manager K),
      LatchStep s (n.foldl (fun s i => s.record (Event.controller_update i)) s) := by
    intro n
    induction n with
    | nil => intro s; exact LatchStep.refl s
    | cons a rest ih =>
      intro s
      simp only [List.foldl_cons]
      exact (LatchStep.of_eq rfl rfl : LatchStep s (s.record (Event.controller_update a))).trans
        (ih _)
  have hl := LatchStep_updateControllersLoop env m.active_controller_idx_
    (List.range m._controller_names_.length) none m
  rcases hq : updateControllersLoop env m.active_controller_idx_
    (List.range m._controller_names_.length) none m with ⟨out, m1⟩
  rw [hq] at hl
  unfold updateControllers
  simp only [hq]
  split
  · exact (LatchStep.of_eq rfl rfl : LatchStep m { m with last_attitude_cmd_ := _ }).trans
      (hfold _ _)
  · split_ifs
    · exact hl.trans (LatchStep.of_eq rfl rfl)
    · exact hl.trans (LatchStep_failsafe env m1)
    · exact hl.trans (LatchStep_eland env m1)
    · exact hl

theorem LatchStep_publish (env : Env K) (m : Manager K) : LatchStep m (publish env m) := by
  unfold publish
  rcases controlCommand env m with ⟨should_publish, attitude_target⟩
  simp only
  split_ifs <;> exact Or.inl ⟨rfl, rfl⟩

theorem LatchStep_reconcileConstraints (c : DynamicsConstraints K) (m : Manager K) :
    LatchStep m (reconcileConstraints c m) := by
  unfold reconcileConstraints
  split_ifs
  · simp only
    split_ifs
    · exact (LatchStep.of_eq rfl rfl : LatchStep m
        ((m.calling ControlCall.enforceControllersConstraints).calling
          ControlCall.setConstraints)).trans
        ((LatchStep.of_latches (latches_setConstraints _)).trans (LatchStep.of_eq rfl rfl))
    · exact LatchStep.of_eq rfl rfl
  · exact LatchStep.refl m

theorem LatchStep_asyncControl (env : Env K) (m : Manager K) :
    LatchStep m (asyncControl env m) := by
  have hbody : LatchStep m (publish env ((reconcileConstraints m.sanitized_constraints_
      (controlUpdates env m.uav_state_ m)).calling ControlCall.publish)) := by
    refine LatchStep.trans ?_ (LatchStep_publish env _)
    refine LatchStep.trans ?_ (LatchStep_calling _ _)
    refine LatchStep.trans ?_ (LatchStep_reconcileConstraints _ _)
    unfold controlUpdates
    refine LatchStep.trans ?_ (LatchStep_updateControllers env _ _)
    refine LatchStep.trans ?_ (LatchStep_calling _ _)
    refine LatchStep.trans ?_ (LatchStep_updateTrackers env _)
    refine LatchStep.trans ?_ (LatchStep_calling _ _)
    refine LatchStep.trans ?_ (LatchStep_timerSafety env _)
    exact LatchStep_calling _ _
  unfold asyncControl
  simp only
  split_ifs <;> first
    | exact LatchStep.refl m
    | exact hbody

theorem LatchStep_thrustUnderThreshold (env : Env K) (under : Bool) (m : Manager K) :
    LatchStep m (thrustUnderThreshold env under m) := by
  unfold thrustUnderThreshold
  split_ifs <;> exact Or.inl ⟨rfl, rfl⟩

theorem LatchStep_elandCutoff (env : Env K) (m : Manager K) :
    LatchStep m (elandCutoff env m) := by
  have h1 : LatchStep m (switchMotors env false m) :=
    LatchStep.of_latches (latches_switchMotors env false m)
  have h2 : LatchStep m (if (switchMotors env false m)._eland_disarm_enabled_ then
      (arming env false (switchMotors env false m)).2 else switchMotors env false m) := by
    split_ifs
    · exact h1.trans (LatchStep.of_latches (latches_arming env false _))
    · exact h1
  have h3 := h2.trans (LatchStep.of_latches (latches_shutdown _))
  unfold elandCutoff
  exact h3.trans (LatchStep.of_eq rfl rfl)

theorem LatchStep_landingEstimate (env : Env K) (cmd : AttitudeCommand K) (m : Manager K) :
    LatchStep m (landingEstimate env cmd m) := by
  unfold landingEstimate
  refine LatchStep.trans ?_ (LatchStep_thrustUnderThreshold env _ _)
  exact Or.inl ⟨rfl, rfl⟩

theorem LatchStep_timerEland (env : Env K) (m : Manager K) :
    LatchStep m (timerEland env m) := by
  unfold timerEland
  split_ifs
  · exact LatchStep.refl m
  · simp only
    split
    · exact LatchStep.refl m
    · split
      · exact LatchStep.refl m
      · split_ifs
        · exact (LatchStep_landingEstimate env _ m).trans (LatchStep_elandCutoff env _)
        · exact LatchStep_landingEstimate env _ m

theorem LatchStep_timerFailsafe (env : Env K) (m : Manager K) :
    LatchStep m (timerFailsafe env m) := by
  have h2 : LatchStep m (publish env (updateControllers env m.uav_state_ m)) :=
    (LatchStep_updateControllers env _ m).trans (LatchStep_publish env _)
  unfold timerFailsafe
  split_ifs
  · exact LatchStep.refl m
  · simp only
    split
    · split_ifs
      · refine LatchStep.trans ?_ (LatchStep.of_latches (latches_arming env false _))
        exact h2.trans (LatchStep_thrustUnderThreshold env _ _)
      · exact h2.trans (LatchStep_thrustUnderThreshold env _ _)
    · exact h2

theorem eland_behind_guards (env : Env K) (m0 : Manager K)
    (hinit : m0.is_initialized_ = true) (he : m0.eland_triggered_ = false)
    (hf : m0.failsafe_triggered_ = false) :
    eland env m0 = elandBehindGuards env (m0.record Event.call_eland) := by
  have h1 : (m0.record Event.call_eland).is_initialized_ = true := hinit
  have h2 : (m0.record Event.call_eland).eland_triggered_ = false := he
  have h3 : (m0.record Event.call_eland).failsafe_triggered_ = false := hf
  unfold eland elandBehindGuards
  simp only [h1, h2, h3, Bool.not_true, Bool.false_eq_true, if_false]

theorem LatchStep_changeLandingState (new_state : LandingStates_t) (m : Manager K)
    (h : new_state = LandingStates_t.LANDING_STATE → m.failsafe_triggered_ = false) :
    LatchStep m (changeLandingState new_state m) := by
  have hf : (changeLandingState new_state m).failsafe_triggered_ = m.failsafe_triggered_ :=
    congrArg (fun t => t.1) (failsafeLatch_changeLandingState new_state m)
  cases new_state
  · exact Or.inl ⟨hf, rfl⟩
  · have he : (changeLandingState LandingStates_t.LANDING_STATE m).eland_triggered_ = true := by
      unfold changeLandingState
      simp only
      split <;> rfl
    exact Or.inr (Or.inr ⟨h rfl, hf.trans (h rfl), he⟩)

theorem LatchStep_apply (op : Operation K) (m : Manager K)
    (h : op = Operation.changeLandingState LandingStates_t.LANDING_STATE →
      m.failsafe_triggered_ = false) : LatchStep m (op.apply m) := by
  cases op with
  | eland env => exact LatchStep_eland env m
  | ehover env => exact LatchStep.of_latches (latches_ehover env m)
  | failsafe env => exact LatchStep_failsafe env m
  | escalatingFailsafe env => exact LatchStep_escalatingFailsafe env m
  | timerSafety env => exact LatchStep_timerSafety env m
  | timerEland env => exact LatchStep_timerEland env m
  | timerFailsafe env => exact LatchStep_timerFailsafe env m
  | asyncControl env => exact LatchStep_asyncControl env m
  | switchMotors env input => exact LatchStep.of_latches (latches_switchMotors env input m)
  | arming env input => exact LatchStep.of_latches (latches_arming env input m)
  | switchTracker env name => exact LatchStep.of_latches (latches_switchTracker env name m)
  | switchController env name => exact LatchStep.of_latches (latches_switchController env name m)
  | changeLandingState new_state =>
    exact LatchStep_changeLandingState new_state m (fun hs => h (by rw [hs]))
  | other m1 => exact LatchStep.of_eq rfl rfl

theorem LatchStep_run (ops : List (Operation K)) (m : Manager K)
    (hg : Operation.guarded ops m) : LatchStep m (Operation.run ops m) := by
  induction ops generalizing m with
  | nil => exact LatchStep.refl m
  | cons op rest ih => exact (LatchStep_apply op m hg.1).trans (ih _ hg.2)

theorem latched_apply (op : Operation K) (m : Manager K) (h : m.failsafe_triggered_ = true) :
    (op.apply m).failsafe_triggered_ = true := by
  by_cases hop : op = Operation.changeLandingState LandingStates_t.LANDING_STATE
  · rw [hop]
    exact (congrArg (fun t => t.1)
      (failsafeLatch_changeLandingState LandingStates_t.LANDING_STATE m)).trans h
  · exact (LatchStep_apply op m (fun hs => absurd hs hop)).latched h

theorem latched_run (ops : List (Operation K)) (m : Manager K)
    (h : m.failsafe_triggered_ = true) : (Operation.run ops m).failsafe_triggered_ = true := by
  induction ops generalizing m with
  | nil => exact h
  | cons op rest ih => exact ih _ (latched_apply op m h)


theorem Operation.run_append (ops more : List (Operation K)) (m : Manager K) :
    Operation.run (ops ++ more) m = Operation.run more (Operation.run ops m) := by
  induction ops generalizing m with
  | nil => rfl
  | cons op rest ih => exact ih _

/-- C29 as stated fails.  `changeLandingState(LANDING_STATE)` sets
`eland_triggered_` without a test of `failsafe_triggered_`: run after a
`failsafe()` it leaves both latches set.  The same state is reached when an
`eland()` that has passed its guards in the state of `Manager.flying` goes on
only after a `failsafe()` has run in between. -/
theorem latches_both_set :
    ((Operation.run [Operation.failsafe (Env.calm (0 : ℚ)),
          Operation.changeLandingState LandingStates_t.LANDING_STATE]
        Manager.flying).failsafe_triggered_ = true
      ∧ (Operation.run [Operation.failsafe (Env.calm (0 : ℚ)),
          Operation.changeLandingState LandingStates_t.LANDING_STATE]
        Manager.flying).eland_triggered_ = true)
    ∧ (eland (Env.calm (0 : ℚ)) Manager.flying
        = elandBehindGuards (Env.calm 0) ((Manager.flying : Manager ℚ).record Event.call_eland)
      ∧ (elandBehindGuards (Env.calm (0 : ℚ))
          (failsafe (Env.calm 0)
            ((Manager.flying : Manager ℚ).record Event.call_eland)).2).2.failsafe_triggered_ = true
      ∧ (elandBehindGuards (Env.calm (0 : ℚ))
          (failsafe (Env.calm 0)
            ((Manager.flying : Manager ℚ).record Event.call_eland)).2).2.eland_triggered_
          = true) := by
  refine ⟨⟨by decide, by decide⟩, eland_behind_guards _ _ rfl rfl rfl, by decide, by decide⟩

/-- C29 (amended).  From any state in which neither latch is set (the state
after initialisation), after every sequence of operations of the manager, each
run to its end before the next begins (`eland`, `ehover`, `failsafe`,
`escalatingFailsafe`, `changeLandingState`, the timers `timerSafety`,
`timerEland` and `timerFailsafe`, the control cycle, `switchMotors`, `arming`,
the plugin switches, and any other change of the state that leaves the two
latches alone), in which `changeLandingState(LANDING_STATE)` is entered only
with `failsafe_triggered_` clear, `failsafe_triggered_` and `eland_triggered_`
are not both true; and once `failsafe_triggered_` is true it is true after
every further sequence of operations, guarded or not. -/
theorem latches_never_both (ops more : List (Operation K)) (m0 : Manager K)
    (hf : m0.failsafe_triggered_ = false) (he : m0.eland_triggered_ = false)
    (hguard : Operation.guarded ops m0) :
    ¬ ((Operation.run ops m0).failsafe_triggered_ = true
        ∧ (Operation.run ops m0).eland_triggered_ = true)
      ∧ ((Operation.run ops m0).failsafe_triggered_ = true →
          (Operation.run (ops ++ more) m0).failsafe_triggered_ = true) := by
  constructor
  · apply (LatchStep_run ops m0 hguard).exclusive
    rw [hf]; simp
  · intro h
    rw [Operation.run_append]
    exact latched_run more _ h

theorem latches_never_both_witness :
    ¬ ((Operation.run [Operation.changeLandingState LandingStates_t.LANDING_STATE,
            Operation.failsafe (Env.calm (2 : ℚ)),
            Operation.changeLandingState LandingStates_t.IDLE_STATE]
          Manager.flying).failsafe_triggered_ = true
        ∧ (Operation.run [Operation.changeLandingState LandingStates_t.LANDING_STATE,
            Operation.failsafe (Env.calm (2 : ℚ)),
            Operation.changeLandingState LandingStates_t.IDLE_STATE]
          Manager.flying).eland_triggered_ = true)
      ∧ (Operation.run ([Operation.changeLandingState LandingStates_t.LANDING_STATE,
            Operation.failsafe (Env.calm (2 : ℚ)),
            Operation.changeLandingState LandingStates_t.IDLE_STATE]
          ++ [Operation.changeLandingState LandingStates_t.LANDING_STATE,
            Operation.timerEland (Env.calm 3)]) Manager.flying).failsafe_triggered_ = true :=
  have h := latches_never_both
    [Operation.changeLandingState LandingStates_t.LANDING_STATE,
      Operation.failsafe (Env.calm (2 : ℚ)),
      Operation.changeLandingState LandingStates_t.IDLE_STATE]
    [Operation.changeLandingState LandingStates_t.LANDING_STATE,
      Operation.timerEland (Env.calm 3)] Manager.flying rfl rfl
    (by
      refine ⟨fun _ => rfl, ?_⟩
      refine ⟨fun h => (by cases h), ?_⟩
      refine ⟨fun h => (by cases h), ?_⟩
      exact trivial)
  ⟨h.1, h.2 (by decide)⟩

/-! ### The landing timer -/

theorem motorView_record (m : Manager K) (e : Event K) (h : ∀ b, e ≠ Event.srv_arming b) :
    motorView (m.record e) = motorView m := by
  cases e <;> simp_all [motorView, Manager.record, countArmingCalls, List.countP_append]

theorem motorView_setConstraints (m : Manager K) : motorView (setConstraints m) = motorView m := by
  have h1 : ∀ (n : List Nat) (s : Manager K),
      motorView (n.foldl (fun s i => s.record (Event.tracker_setConstraints i)) s) = motorView s := by
    intro n
    induction n with
    | nil => intro s; rfl
    | cons a rest ih => intro s; simp only [List.foldl_cons, ih]; exact motorView_record _ _ (by simp)
  have h2 : ∀ (n : List Nat) (s : Manager K),
      motorView (n.foldl (fun s i => s.record (Event.controller_setConstraints i)) s) = motorView s := by
    intro n
    induction n with
    | nil => intro s; rfl
    | cons a rest ih => intro s; simp only [List.foldl_cons, ih]; exact motorView_record _ _ (by simp)
  unfold setConstraints
  simp only [h1, h2]

theorem motorView_switchControllerTail (ss : String) (m : Manager K) :
    motorView (switchControllerTail ss m).2 = motorView m := by
  unfold switchControllerTail
  simp only [motorView_setConstraints]
  rfl

theorem motorView_activateTracker (env : Env K) (name : String) (idx : Nat) (m : Manager K) :
    motorView (activateTracker env name idx m).2 = motorView m := by
  unfold activateTracker
  simp only
  split
  · exact motorView_record _ _ (by simp)
  · exact motorView_record _ _ (by simp)
  · split
    · simp [motorView, Manager.record, countArmingCalls, List.countP_append]
    · split_ifs
      · split <;>
          simp [motorView, Manager.record, countArmingCalls, List.countP_append]
      · split <;>
          simp [motorView, Manager.record, countArmingCalls, List.countP_append]
      · simp [motorView, Manager.record, countArmingCalls, List.countP_append]

theorem motorView_switchTracker (env : Env K) (name : String) (m : Manager K) :
    motorView (switchTracker env name m).2 = motorView m := by
  unfold switchTracker
  simp only
  split_ifs <;> first | rfl | exact motorView_activateTracker env name _ m

theorem motorView_activateController (env : Env K) (name : String) (idx : Nat) (m : Manager K) :
    motorView (activateController env name idx m).2 = motorView m := by
  unfold activateController
  simp only
  split
  · rw [motorView_switchControllerTail]; exact motorView_record _ _ (by simp)
  · exact motorView_record _ _ (by simp)
  · split
    · rw [motorView_switchControllerTail]
      simp [motorView, Manager.record, countArmingCalls, List.countP_append]
    · split
      · rw [motorView_switchControllerTail]
        simp [motorView, Manager.record, countArmingCalls, List.countP_append]
      · split <;> rw [motorView_switchControllerTail] <;>
          simp [motorView, Manager.record, countArmingCalls, List.countP_append]

theorem motorView_switchController (env : Env K) (name : String) (m : Manager K) :
    motorView (switchController env name m).2 = motorView m := by
  unfold switchController
  simp only
  split_ifs <;> first | rfl | exact motorView_activateController env name _ m

theorem motorView_deactivateTrackers (env : Env K) (idxs : List Nat) (m : Manager K) :
    motorView (deactivateTrackers env idxs m) = motorView m := by
  induction idxs generalizing m with
  | nil => rfl
  | cons i rest ih =>
    simp only [deactivateTrackers, ih]
    exact motorView_record _ _ (by simp)

theorem motorView_deactivateControllers (env : Env K) (idxs : List Nat) (m : Manager K) :
    motorView (deactivateControllers env idxs m) = motorView m := by
  induction idxs generalizing m with
  | nil => rfl
  | cons i rest ih =>
    simp only [deactivateControllers, ih]
    exact motorView_record _ _ (by simp)

theorem motorView_components {m m1 : Manager K} (h : motorView m1 = motorView m) :
    m1.motors_ = m.motors_ ∧ countArmingCalls m1.log = countArmingCalls m.log :=
  ⟨congrArg (fun t => t.1) h, congrArg (fun t => t.2) h⟩

theorem switchMotors_off (env : Env K) (m : Manager K) :
    (switchMotors env false m).motors_ = false
      ∧ countArmingCalls (switchMotors env false m).log = countArmingCalls m.log := by
  unfold switchMotors
  by_cases h : false = m.motors_
  · rw [if_pos h]
    exact ⟨h.symm, rfl⟩
  · rw [if_neg h]
    simp only [Bool.not_false, if_true]
    constructor
    · show (deactivateControllers env _ _).motors_ = false
      rw [(motorView_components (motorView_deactivateControllers env _ _)).1,
        (motorView_components (motorView_deactivateTrackers env _ _)).1,
        (motorView_components (motorView_switchController env _ _)).1,
        (motorView_components (motorView_switchTracker env _ _)).1]
    · show countArmingCalls (deactivateControllers env _ _).log = _
      rw [(motorView_components (motorView_deactivateControllers env _ _)).2,
        (motorView_components (motorView_deactivateTrackers env _ _)).2,
        (motorView_components (motorView_switchController env _ _)).2,
        (motorView_components (motorView_switchTracker env _ _)).2]

theorem motorView_shutdown (m : Manager K) : motorView (shutdown m) = motorView m := by
  unfold shutdown
  split_ifs
  · exact motorView_record _ _ (by simp)
  · rfl

theorem arming_disarm (env : Env K) (m : Manager K) (hm : m.motors_ = false) :
    (arming env false m).2.motors_ = false
      ∧ countArmingCalls (arming env false m).2.log
        = countArmingCalls m.log + (if isOffboard env m = true then 1 else 0) := by
  unfold arming
  simp only [Bool.false_eq_true, if_false, Bool.not_false, true_and]
  by_cases ho : isOffboard env m = true
  · simp only [ho, Bool.not_true, Bool.false_eq_true, if_false, if_true]
    split
    · have h1 := switchMotors_off env (m.record (Event.srv_arming true))
      have h2 := motorView_components (motorView_shutdown
        { switchMotors env false (m.record (Event.srv_arming true)) with
          timer_failsafe_running := false, timer_eland_running := false })
      refine ⟨h2.1.trans h1.1, ?_⟩
      rw [h2.2]
      show countArmingCalls (switchMotors env false _).log = _
      rw [h1.2]
      simp [Manager.record, countArmingCalls, List.countP_append]
    · exact ⟨hm, by simp [Manager.record, countArmingCalls, List.countP_append]⟩
    · exact ⟨hm, by simp [Manager.record, countArmingCalls, List.countP_append]⟩
  · have ho' : isOffboard env m = false := by
      cases hv : isOffboard env m
      · rfl
      · exact absurd hv ho
    simp only [ho', Bool.not_false, if_true, Bool.false_eq_true, if_false, add_zero]
    exact ⟨hm, trivial⟩

theorem isOffboard_of_frame (env : Env K) {m m1 : Manager K}
    (h : cycleFrame m1 = cycleFrame m) : isOffboard env m1 = isOffboard env m := by
  unfold isOffboard
  rw [(cycleFrame_components h).2.2.2]

/-- What the cutoff block of `timerEland` leaves behind. -/
theorem elandCutoff_result (env : Env K) (m : Manager K) :
    (elandCutoff env m).motors_ = false
      ∧ (elandCutoff env m).current_state_landing_ = LandingStates_t.IDLE_STATE
      ∧ countArmingCalls (elandCutoff env m).log
        = countArmingCalls m.log
          + (if m._eland_disarm_enabled_ = true ∧ isOffboard env m = true then 1 else 0) := by
  have hs := switchMotors_off env m
  have hf := cycleFrame_switchMotors env false m
  have hd : (switchMotors env false m)._eland_disarm_enabled_ = m._eland_disarm_enabled_ :=
    (cycleFrame_components hf).2.2.1
  have ho := isOffboard_of_frame env hf
  have h2 : (if (switchMotors env false m)._eland_disarm_enabled_ = true then
        (arming env false (switchMotors env false m)).2 else switchMotors env false m).motors_
        = false
      ∧ countArmingCalls (if (switchMotors env false m)._eland_disarm_enabled_ = true then
        (arming env false (switchMotors env false m)).2 else switchMotors env false m).log
        = countArmingCalls m.log
          + (if m._eland_disarm_enabled_ = true ∧ isOffboard env m = true then 1 else 0) := by
    rw [hd]
    by_cases he : m._eland_disarm_enabled_ = true
    · rw [if_pos he]
      have ha := arming_disarm env (switchMotors env false m) hs.1
      rw [ho, hs.2] at ha
      simp only [he, true_and]
      exact ha
    · rw [if_neg he]
      simp only [he, false_and, if_false, add_zero]
      exact hs
  have h3 := motorView_components (motorView_shutdown
    (if (switchMotors env false m)._eland_disarm_enabled_ = true then
      (arming env false (switchMotors env false m)).2 else switchMotors env false m))
  unfold elandCutoff
  refine ⟨?_, rfl, ?_⟩
  · show (shutdown _).motors_ = false
    rw [h3.1]; exact h2.1
  · show countArmingCalls (shutdown _).log = _
    rw [h3.2]; exact h2.2

theorem landingClock_thrustUnderThreshold (env : Env K) (low : Bool) (m : Manager K) :
    landingClock (thrustUnderThreshold env low m) = clockStep (landingClock m) env.now low := by
  unfold thrustUnderThreshold landingClock clockStep
  cases low <;> cases hu : m.thrust_under_threshold_ <;> simp [hu]

theorem landingEstimate_frame (env : Env K) (cmd : AttitudeCommand K) (m : Manager K) :
    landingParams (landingEstimate env cmd m) = landingParams m
      ∧ (landingEstimate env cmd m).current_state_landing_ = m.current_state_landing_
      ∧ landingClock (landingEstimate env cmd m)
          = clockStep (landingClock m) env.now (underThreshold env m cmd) := by
  unfold landingEstimate
  refine ⟨?_, ?_, ?_⟩
  · unfold thrustUnderThreshold
    simp only
    split_ifs <;> rfl
  · unfold thrustUnderThreshold
    simp only
    split_ifs <;> rfl
  · simp only
    rw [landingClock_thrustUnderThreshold]
    have h : decide (env.thrustToForce cmd.thrust / m.g
          < m._elanding_cutoff_mass_factor_ * m.landing_uav_mass_ ∨ cmd.thrust < 1 / 100)
        = underThreshold env m cmd := by
      unfold underThreshold estimateBelowCutoff
      rw [Bool.decide_or]
    rw [← h]
    rfl

theorem landingParams_components {m m1 : Manager K} (h : landingParams m1 = landingParams m) :
    m1.is_initialized_ = m.is_initialized_ ∧ m1.g = m.g
      ∧ m1._elanding_cutoff_mass_factor_ = m._elanding_cutoff_mass_factor_
      ∧ m1.landing_uav_mass_ = m.landing_uav_mass_
      ∧ m1._elanding_cutoff_timeout_ = m._elanding_cutoff_timeout_
      ∧ m1._eland_disarm_enabled_ = m._eland_disarm_enabled_
      ∧ m1.sh_mavros_state_ = m.sh_mavros_state_ :=
  ⟨congrArg (fun t => t.1) h, congrArg (fun t => t.2.1) h, congrArg (fun t => t.2.2.1) h,
    congrArg (fun t => t.2.2.2.1) h, congrArg (fun t => t.2.2.2.2.1) h,
    congrArg (fun t => t.2.2.2.2.2.1) h, congrArg (fun t => t.2.2.2.2.2.2) h⟩

theorem underThreshold_congr (env : Env K) (cmd : AttitudeCommand K) {m m1 : Manager K}
    (h : landingParams m1 = landingParams m) :
    underThreshold env m1 cmd = underThreshold env m cmd := by
  obtain ⟨_, h2, h3, h4, _⟩ := landingParams_components h
  unfold underThreshold estimateBelowCutoff
  rw [h2, h3, h4]

theorem evaluations_congr (hist : List (Env K × AttitudeCommand K)) {m m1 : Manager K}
    (h : landingParams m1 = landingParams m) :
    evaluations underThreshold m1 hist = evaluations underThreshold m hist := by
  unfold evaluations
  apply List.map_congr_left
  intro ec _
  rw [underThreshold_congr ec.1 ec.2 h]

theorem timerEland_landing (env : Env K) (cmd : AttitudeCommand K) (s : Manager K)
    (hinit : s.is_initialized_ = true)
    (hland : s.current_state_landing_ = LandingStates_t.LANDING_STATE)
    (hcmd : s.last_attitude_cmd_ = some cmd) :
    timerEland env s
      = if (landingEstimate env cmd s).thrust_under_threshold_ = true
            ∧ env.now - (landingEstimate env cmd s).thrust_mass_estimate_first_time_
              > (landingEstimate env cmd s)._elanding_cutoff_timeout_ then
          elandCutoff env (landingEstimate env cmd s)
        else landingEstimate env cmd s := by
  unfold timerEland
  simp only [hinit, hland, hcmd, Bool.not_true, Bool.false_eq_true, if_false]

/-- One evaluation of `timerEland` in the landing state with the attitude
command `cmd`. -/
theorem timerEland_eval (env : Env K) (cmd : AttitudeCommand K) (m : Manager K)
    (hinit : m.is_initialized_ = true)
    (hland : m.current_state_landing_ = LandingStates_t.LANDING_STATE) :
    timerEland env { m with last_attitude_cmd_ := some cmd }
      = if (∃ t0, clockStep (landingClock m) env.now (underThreshold env m cmd) = some t0
            ∧ env.now - t0 > m._elanding_cutoff_timeout_) then
          elandCutoff env (landingEstimate env cmd { m with last_attitude_cmd_ := some cmd })
        else landingEstimate env cmd { m with last_attitude_cmd_ := some cmd } := by
  obtain ⟨hp, _, hc⟩ := landingEstimate_frame env cmd { m with last_attitude_cmd_ := some cmd }
  have hc' : landingClock (landingEstimate env cmd { m with last_attitude_cmd_ := some cmd })
      = clockStep (landingClock m) env.now (underThreshold env m cmd) := hc
  have ht : (landingEstimate env cmd { m with last_attitude_cmd_ := some cmd })._elanding_cutoff_timeout_
      = m._elanding_cutoff_timeout_ := (landingParams_components hp).2.2.2.2.1
  have hfire : ((landingEstimate env cmd
        { m with last_attitude_cmd_ := some cmd }).thrust_under_threshold_ = true
      ∧ env.now - (landingEstimate env cmd
          { m with last_attitude_cmd_ := some cmd }).thrust_mass_estimate_first_time_
        > (landingEstimate env cmd
          { m with last_attitude_cmd_ := some cmd })._elanding_cutoff_timeout_)
      ↔ ∃ t0, clockStep (landingClock m) env.now (underThreshold env m cmd) = some t0
          ∧ env.now - t0 > m._elanding_cutoff_timeout_ := by
    rw [← hc', ht]
    unfold landingClock
    cases hu : (landingEstimate env cmd
      { m with last_attitude_cmd_ := some cmd }).thrust_under_threshold_
    · simp
    · simp
  rw [timerEland_landing env cmd { m with last_attitude_cmd_ := some cmd } hinit hland rfl]
  by_cases hf : ∃ t0, clockStep (landingClock m) env.now (underThreshold env m cmd) = some t0
      ∧ env.now - t0 > m._elanding_cutoff_timeout_
  · rw [if_pos hf, if_pos (hfire.mpr hf)]
  · rw [if_neg hf, if_neg (fun h => hf (hfire.mp h))]

theorem timerElandRun_idle (hist : List (Env K × AttitudeCommand K)) (m : Manager K)
    (h : m.current_state_landing_ = LandingStates_t.IDLE_STATE) :
    (timerElandRun hist m).current_state_landing_ = LandingStates_t.IDLE_STATE := by
  induction hist generalizing m with
  | nil => exact h
  | cons ec rest ih =>
    rcases ec with ⟨env, cmd⟩
    simp only [timerElandRun]
    apply ih
    have hidle : ∀ s : Manager K, s.current_state_landing_ = LandingStates_t.IDLE_STATE →
        (timerEland env s).current_state_landing_ = LandingStates_t.IDLE_STATE := by
      intro s hs
      unfold timerEland
      simp only [hs]
      split_ifs <;> exact hs
    exact hidle _ h

theorem landing_of_run (hist : List (Env K × AttitudeCommand K)) (m : Manager K)
    (h : (timerElandRun hist m).current_state_landing_ = LandingStates_t.LANDING_STATE) :
    m.current_state_landing_ = LandingStates_t.LANDING_STATE := by
  cases hm : m.current_state_landing_
  · rw [timerElandRun_idle hist m hm] at h
    exact absurd h (by decide)
  · rfl

/-- While the manager stays in the landing state, the evaluations of
`timerEland` write the clock only, and the clock follows `clockStep`. -/
theorem timerElandRun_clock (hist : List (Env K × AttitudeCommand K)) (m : Manager K)
    (hinit : m.is_initialized_ = true)
    (hland : (timerElandRun hist m).current_state_landing_ = LandingStates_t.LANDING_STATE) :
    landingParams (timerElandRun hist m) = landingParams m
      ∧ landingClock (timerElandRun hist m)
        = (evaluations underThreshold m hist).foldl (fun s o => clockStep s o.1 o.2)
            (landingClock m) := by
  induction hist generalizing m with
  | nil => exact ⟨rfl, rfl⟩
  | cons ec rest ih =>
    rcases ec with ⟨env, cmd⟩
    have hl0 := landing_of_run _ m hland
    simp only [timerElandRun] at hland ⊢
    have hev := timerEland_eval env cmd m hinit hl0
    obtain ⟨hp, hcur, hc⟩ := landingEstimate_frame env cmd
      { m with last_attitude_cmd_ := some cmd }
    by_cases hf : ∃ t0, clockStep (landingClock m) env.now (underThreshold env m cmd) = some t0
        ∧ env.now - t0 > m._elanding_cutoff_timeout_
    · rw [if_pos hf] at hev
      rw [hev] at hland
      rw [timerElandRun_idle rest _ (elandCutoff_result env _).2.1] at hland
      exact absurd hland (by decide)
    · rw [if_neg hf] at hev
      rw [hev] at hland ⊢
      have hp' : landingParams (landingEstimate env cmd { m with last_attitude_cmd_ := some cmd })
          = landingParams m := hp
      have hi := ih _ ((landingParams_components hp').1.trans hinit) hland
      refine ⟨hi.1.trans hp', ?_⟩
      rw [hi.2, evaluations_congr rest hp']
      have hc' : landingClock (landingEstimate env cmd { m with last_attitude_cmd_ := some cmd })
          = clockStep (landingClock m) env.now (underThreshold env m cmd) := hc
      rw [hc']
      rfl

theorem lowRun_append (obs : List (K × Bool)) (o : K × Bool) :
    lowRun (obs ++ [o]) = if o.2 = true then o :: lowRun obs else [] := by
  unfold lowRun
  rw [List.reverse_append, List.reverse_singleton, List.singleton_append, List.takeWhile_cons]

/-- The clock computed by `clockStep` is the start of the uninterrupted run of
under-threshold evaluations that ends with the latest one. -/
theorem clock_is_run_start (obs : List (K × Bool)) :
    obs.foldl (fun s o => clockStep s o.1 o.2) none = (lowRun obs).getLast?.map Prod.fst := by
  induction obs using List.reverseRecOn with
  | nil => rfl
  | append_singleton l o ih =>
    rw [List.foldl_append, List.foldl_cons, List.foldl_nil, ih, lowRun_append]
    unfold clockStep
    by_cases ho : o.2 = true
    · rw [if_pos ho, if_pos ho, List.getLast?_cons]
      cases (lowRun l).getLast? <;> rfl
    · rw [if_neg ho, if_neg ho]
      rfl

theorem cutoffDue_append (timeout : K) (obs : List (K × Bool)) (t : K) (low : Bool) :
    cutoffDue timeout (obs ++ [(t, low)])
      ↔ ∃ t0, clockStep (obs.foldl (fun s o => clockStep s o.1 o.2) none) t low = some t0
          ∧ t - t0 > timeout := by
  rw [clock_is_run_start]
  unfold cutoffDue clockStep
  rw [lowRun_append]
  cases low
  · simp
  · simp only [if_true, List.head?_cons, List.getLast?_cons]
    cases (lowRun obs).getLast? <;> simp

theorem motorView_landingEstimate (env : Env K) (cmd : AttitudeCommand K) (m : Manager K) :
    motorView (landingEstimate env cmd m) = motorView m := by
  unfold landingEstimate thrustUnderThreshold
  simp only
  split_ifs <;> rfl

/-- An evaluation that is not under the threshold clears the flag and sets the
start of the clock to the time of the evaluation. -/
theorem landingEstimate_restart (env : Env K) (cmd : AttitudeCommand K) (m : Manager K)
    (h : underThreshold env m cmd = false) :
    (landingEstimate env cmd m).thrust_under_threshold_ = false
      ∧ (landingEstimate env cmd m).thrust_mass_estimate_first_time_ = env.now := by
  have hd : decide (env.thrustToForce cmd.thrust / m.g
        < m._elanding_cutoff_mass_factor_ * m.landing_uav_mass_ ∨ cmd.thrust < 1 / 100)
      = false := by
    rw [← h]
    unfold underThreshold estimateBelowCutoff
    rw [Bool.decide_or]
  unfold landingEstimate thrustUnderThreshold
  simp only [hd, Bool.false_eq_true, if_false, and_self]

theorem isOffboard_of_params (env : Env K) {m m1 : Manager K}
    (h : landingParams m1 = landingParams m) : isOffboard env m1 = isOffboard env m := by
  unfold isOffboard
  rw [(landingParams_components h).2.2.2.2.2.2]

/-- C24 (amended).  A sequence `hist` of `timerEland` evaluations starts at `m0`
with the under-threshold flag clear (as it is when the landing state is first
entered) and leaves the manager in the landing state; before each evaluation
the attitude command of that moment is stored.  At the next evaluation (`env`,
`cmd`) the manager switches the motors off and returns to the idle state if and
only if the latest evaluation ends an uninterrupted run of evaluations under
the threshold that started more than the cutoff timeout earlier, where an
evaluation is under the threshold when the thrust-derived mass estimate is
below cutoff factor × pre-land mass or the commanded thrust is below 0.01.  An
evaluation that is not under the threshold restarts the clock.  On that
transition one disarm service request is sent exactly when eland-disarm is
enabled and the vehicle is in offboard mode (`arming(false)` is called exactly
when eland-disarm is enabled and refuses outside offboard mode); without the
transition none is sent. -/
theorem eland_cutoff (hist : List (Env K × AttitudeCommand K)) (env : Env K)
    (cmd : AttitudeCommand K) (m0 : Manager K)
    (hinit : m0.is_initialized_ = true)
    (hfresh : m0.thrust_under_threshold_ = false)
    (hland : (timerElandRun hist m0).current_state_landing_ = LandingStates_t.LANDING_STATE) :
    (((timerEland env { timerElandRun hist m0 with last_attitude_cmd_ := some cmd }).motors_ = false
        ∧ (timerEland env { timerElandRun hist m0 with
            last_attitude_cmd_ := some cmd }).current_state_landing_ = LandingStates_t.IDLE_STATE)
      ↔ cutoffDue m0._elanding_cutoff_timeout_
          (evaluations underThreshold m0 (hist ++ [(env, cmd)])))
    ∧ (underThreshold env m0 cmd = false →
        (timerEland env { timerElandRun hist m0 with
            last_attitude_cmd_ := some cmd }).thrust_under_threshold_ = false
        ∧ (timerEland env { timerElandRun hist m0 with
            last_attitude_cmd_ := some cmd }).thrust_mass_estimate_first_time_ = env.now)
    ∧ (cutoffDue m0._elanding_cutoff_timeout_
          (evaluations underThreshold m0 (hist ++ [(env, cmd)])) →
        countArmingCalls (timerEland env { timerElandRun hist m0 with
            last_attitude_cmd_ := some cmd }).log
          = countArmingCalls (timerElandRun hist m0).log
            + (if m0._eland_disarm_enabled_ = true ∧ isOffboard env m0 = true then 1 else 0))
    ∧ (¬ cutoffDue m0._elanding_cutoff_timeout_
          (evaluations underThreshold m0 (hist ++ [(env, cmd)])) →
        countArmingCalls (timerEland env { timerElandRun hist m0 with
            last_attitude_cmd_ := some cmd }).log
          = countArmingCalls (timerElandRun hist m0).log) := by
  obtain ⟨hp, hclock⟩ := timerElandRun_clock hist m0 hinit hland
  have hc0 : landingClock m0 = none := by
    unfold landingClock
    rw [hfresh]
    rfl
  rw [hc0] at hclock
  obtain ⟨hi, _, _, _, hto, hdis, _⟩ := landingParams_components hp
  have hev := timerEland_eval env cmd (timerElandRun hist m0) (hi.trans hinit) hland
  have hu := underThreshold_congr env cmd hp
  have hobs : evaluations underThreshold m0 (hist ++ [(env, cmd)])
      = evaluations underThreshold m0 hist ++ [(env.now, underThreshold env m0 cmd)] := by
    unfold evaluations
    rw [List.map_append]
    rfl
  have hdue : cutoffDue m0._elanding_cutoff_timeout_
        (evaluations underThreshold m0 (hist ++ [(env, cmd)]))
      ↔ ∃ t0, clockStep (landingClock (timerElandRun hist m0)) env.now
            (underThreshold env (timerElandRun hist m0) cmd) = some t0
          ∧ env.now - t0 > (timerElandRun hist m0)._elanding_cutoff_timeout_ := by
    rw [hclock, hu, hto, hobs]
    exact cutoffDue_append _ _ _ _
  obtain ⟨hp2, hcur, _⟩ := landingEstimate_frame env cmd
    { timerElandRun hist m0 with last_attitude_cmd_ := some cmd }
  have hp2' : landingParams (landingEstimate env cmd
      { timerElandRun hist m0 with last_attitude_cmd_ := some cmd }) = landingParams m0 :=
    hp2.trans hp
  have hmv := motorView_components (motorView_landingEstimate env cmd
    { timerElandRun hist m0 with last_attitude_cmd_ := some cmd })
  have hlog : countArmingCalls (landingEstimate env cmd
      { timerElandRun hist m0 with last_attitude_cmd_ := some cmd }).log
      = countArmingCalls (timerElandRun hist m0).log := hmv.2
  by_cases hf : ∃ t0, clockStep (landingClock (timerElandRun hist m0)) env.now
        (underThreshold env (timerElandRun hist m0) cmd) = some t0
      ∧ env.now - t0 > (timerElandRun hist m0)._elanding_cutoff_timeout_
  · rw [if_pos hf] at hev
    rw [hev]
    obtain ⟨hm, hidle, hcount⟩ := elandCutoff_result env (landingEstimate env cmd
      { timerElandRun hist m0 with last_attitude_cmd_ := some cmd })
    refine ⟨⟨fun _ => hdue.mpr hf, fun _ => ⟨hm, hidle⟩⟩, ?_, ?_, ?_⟩
    · intro hnot
      obtain ⟨t0, ht0, _⟩ := hf
      rw [hu, hnot] at ht0
      exact absurd ht0 (by simp [clockStep])
    · intro _
      rw [hcount, hlog, (landingParams_components hp2').2.2.2.2.2.1,
        isOffboard_of_params env hp2']
    · intro hnot
      exact absurd (hdue.mpr hf) hnot
  · rw [if_neg hf] at hev
    rw [hev]
    refine ⟨⟨fun h => ?_, fun h => absurd (hdue.mp h) hf⟩, ?_, ?_, ?_⟩
    · have h2 := h.2
      rw [hcur] at h2
      exact absurd (hland.symm.trans h2) (by decide)
    · intro hnot
      exact landingEstimate_restart env cmd _ (hu.trans hnot)
    · intro h
      exact absurd (hdue.mp h) hf
    · intro _
      exact hlog

theorem eland_cutoff_witness :
    ((timerEland (Env.calm (6 : ℚ))
          { timerElandRun [(Env.calm 0, { (AttitudeCommand.zero : AttitudeCommand ℚ) with thrust := 0 })]
              { (Manager.touchingDown : Manager ℚ) with
                _eland_disarm_enabled_ := true
                sh_mavros_state_ := some (11 / 2, "OFFBOARD") } with
            last_attitude_cmd_ := some { (AttitudeCommand.zero : AttitudeCommand ℚ) with
              thrust := 0 } }).motors_ = false
        ∧ (timerEland (Env.calm (6 : ℚ))
          { timerElandRun [(Env.calm 0, { (AttitudeCommand.zero : AttitudeCommand ℚ) with thrust := 0 })]
              { (Manager.touchingDown : Manager ℚ) with
                _eland_disarm_enabled_ := true
                sh_mavros_state_ := some (11 / 2, "OFFBOARD") } with
            last_attitude_cmd_ := some { (AttitudeCommand.zero : AttitudeCommand ℚ) with
              thrust := 0 } }).current_state_landing_ = LandingStates_t.IDLE_STATE)
      ∧ countArmingCalls (timerEland (Env.calm (6 : ℚ))
          { timerElandRun [(Env.calm 0, { (AttitudeCommand.zero : AttitudeCommand ℚ) with thrust := 0 })]
              { (Manager.touchingDown : Manager ℚ) with
                _eland_disarm_enabled_ := true
                sh_mavros_state_ := some (11 / 2, "OFFBOARD") } with
            last_attitude_cmd_ := some { (AttitudeCommand.zero : AttitudeCommand ℚ) with
              thrust := 0 } }).log = 1 := by
  have h := eland_cutoff
    [(Env.calm (0 : ℚ), { (AttitudeCommand.zero : AttitudeCommand ℚ) with thrust := 0 })]
    (Env.calm 6) { (AttitudeCommand.zero : AttitudeCommand ℚ) with thrust := 0 }
    { (Manager.touchingDown : Manager ℚ) with
      _eland_disarm_enabled_ := true
      sh_mavros_state_ := some (11 / 2, "OFFBOARD") }
    rfl rfl (by decide!)
  have hoff := h.1.mp ⟨by decide!, by decide!⟩
  refine ⟨h.1.mpr hoff, ?_⟩
  rw [h.2.2.1 hoff]
  decide!

/-- C24 as stated fails: the manager of `Manager.touchingDown` (pre-land mass
1 kg, cutoff factor 1/4, `g` = 10, cutoff timeout 5 s) is evaluated at the times
0 and 6 with a commanded thrust of 0, for which the thrust model gives 4 N.  The
mass estimate 0.4 kg is not below the cutoff 0.25 kg at either evaluation, yet
the second evaluation switches the motors off and returns to the idle state.
With eland-disarm enabled and no autopilot state received (not in offboard
mode) the same transition sends no disarm service request. -/
theorem eland_cutoff_on_low_thrust :
    estimateBelowCutoff (Env.calm (0 : ℚ)) Manager.touchingDown
        { (AttitudeCommand.zero : AttitudeCommand ℚ) with thrust := 0 } = false
      ∧ estimateBelowCutoff (Env.calm (6 : ℚ)) Manager.touchingDown
        { (AttitudeCommand.zero : AttitudeCommand ℚ) with thrust := 0 } = false
      ∧ (timerElandRun [(Env.calm (0 : ℚ), { (AttitudeCommand.zero : AttitudeCommand ℚ) with thrust := 0 })]
          Manager.touchingDown).current_state_landing_ = LandingStates_t.LANDING_STATE
      ∧ (timerElandRun [(Env.calm (0 : ℚ), { (AttitudeCommand.zero : AttitudeCommand ℚ) with thrust := 0 }),
            (Env.calm 6, { (AttitudeCommand.zero : AttitudeCommand ℚ) with thrust := 0 })]
          Manager.touchingDown).motors_ = false
      ∧ (timerElandRun [(Env.calm (0 : ℚ), { (AttitudeCommand.zero : AttitudeCommand ℚ) with thrust := 0 }),
            (Env.calm 6, { (AttitudeCommand.zero : AttitudeCommand ℚ) with thrust := 0 })]
          Manager.touchingDown).current_state_landing_ = LandingStates_t.IDLE_STATE
      ∧ countArmingCalls
          (timerElandRun [(Env.calm (0 : ℚ), { (AttitudeCommand.zero : AttitudeCommand ℚ) with thrust := 0 }),
            (Env.calm 6, { (AttitudeCommand.zero : AttitudeCommand ℚ) with thrust := 0 })]
          { (Manager.touchingDown : Manager ℚ) with _eland_disarm_enabled_ := true }).log = 0 := by
  refine ⟨by decide!, by decide!, by decide!, by decide!, by decide!, by decide!⟩

end ControlManager
